import Mathlib

/-!
# Contact joint constraint rows (`ModifyODESrc/src/joints/contact.cpp`)

A shallow embedding of `dxJointContact` (row-count policy `getInfo1`, row assembly
`getInfo2` and its reduced variant `simpleGetInfo2`, and the contact parameter
accessors) together with theorems about the rows they produce.

Modelling conventions.

* `dReal` values are exact rationals extended with the three special values of the
  machine type (`+inf`, `-inf`, `NaN`).  Arithmetic on the special values follows the
  IEEE rules; arithmetic on finite values is exact (no rounding, no overflow).
* A `dReal *` output pointer is a function `Int → dReal` from offsets to cells; a store
  is a point update.  The four Jacobian pointers and the `c`, `cfm`, `lo`, `hi`,
  `findex` pointers are separate buffers.
* C `int` values are `Int`; the row stride is used without wrap-around.
* `node[0].body` is dereferenced unconditionally by the code and is a plain body;
  `node[1].body` may be null and is an `Option`.
-/

namespace ContactJoint

/-! ## Scalars -/

/-- The scalar type `dReal`: a finite value or one of the special values. -/
inductive dReal where
  | num (q : ℚ)
  | posInf
  | negInf
  | nan
  deriving DecidableEq

namespace dReal

instance : Inhabited dReal := ⟨num 0⟩

instance : Coe ℚ dReal := ⟨num⟩

instance (n : Nat) : OfNat dReal n := ⟨num n⟩

/-- Unary minus. -/
def neg : dReal → dReal
  | num q => num (-q)
  | posInf => negInf
  | negInf => posInf
  | nan => nan

/-- Addition; `inf + (-inf)` is `NaN`. -/
def add : dReal → dReal → dReal
  | num a, num b => num (a + b)
  | num _, posInf => posInf
  | num _, negInf => negInf
  | posInf, num _ => posInf
  | negInf, num _ => negInf
  | posInf, posInf => posInf
  | negInf, negInf => negInf
  | _, _ => nan

/-- Subtraction. -/
def sub (a b : dReal) : dReal := add a (neg b)

/-- The infinity with the sign of `q`, `NaN` for `q = 0` (the product `q * inf`). -/
def scaleInf (q : ℚ) : dReal :=
  if 0 < q then posInf else if q < 0 then negInf else nan

/-- Multiplication; `0 * inf` is `NaN`. -/
def mul : dReal → dReal → dReal
  | num a, num b => num (a * b)
  | num a, posInf => scaleInf a
  | num a, negInf => scaleInf (-a)
  | posInf, num b => scaleInf b
  | negInf, num b => scaleInf (-b)
  | posInf, posInf => posInf
  | negInf, negInf => posInf
  | posInf, negInf => negInf
  | negInf, posInf => negInf
  | _, _ => nan

/-- The C comparison `a < b`; false as soon as an operand is `NaN`. -/
def lt : dReal → dReal → Bool
  | num a, num b => decide (a < b)
  | num _, posInf => true
  | negInf, num _ => true
  | negInf, posInf => true
  | _, _ => false

/-- The C comparison `a == b`; false as soon as an operand is `NaN`. -/
def ceq : dReal → dReal → Bool
  | num a, num b => decide (a = b)
  | posInf, posInf => true
  | negInf, negInf => true
  | _, _ => false

/-- The C comparison `a <= b`. -/
def le (a b : dReal) : Bool := lt a b || ceq a b

instance : Neg dReal := ⟨neg⟩
instance : Add dReal := ⟨add⟩
instance : Sub dReal := ⟨sub⟩
instance : Mul dReal := ⟨mul⟩
instance : LT dReal := ⟨fun a b => lt a b = true⟩
instance : LE dReal := ⟨fun a b => le a b = true⟩
instance : DecidableRel (fun a b : dReal => a < b) := fun a b => decEq (lt a b) true
instance : DecidableRel (fun a b : dReal => a ≤ b) := fun a b => decEq (le a b) true

/-- A value that is a number: finite or infinite, not `NaN`. -/
def isNumeric : dReal → Bool
  | nan => false
  | _ => true

/-- The value of `std::max (a, b)`, that is `(a < b) ? b : a`. -/
def max (a b : dReal) : dReal := if a < b then b else a

/-- The value of `std::min (a, b)`, that is `(b < a) ? b : a`. -/
def min (a b : dReal) : dReal := if b < a then b else a

end dReal

/-- Modelled from the spec: the `dInfinity` constant (its header is absent from the
sources): the "infinite" sentinel, positive infinity. -/
def dInfinity : dReal := dReal.posInf

/-! ## Mode flags -/

/-- The truth value of the C expression `word & flag`. -/
def hasFlag (word flag : Int) : Bool := Int.land word flag != 0

/-- Modelled from the spec: the surface mode bit-flags (`contact.h` is absent from the
sources); one bit per behaviour variant, here the two-axis friction flag. -/
def dContactMu2 : Int := 0x001
/-- Modelled from the spec: mode bit, caller-supplied primary friction direction. -/
def dContactFDir1 : Int := 0x002
/-- Modelled from the spec: mode bit, bounce (restitution). -/
def dContactBounce : Int := 0x004
/-- Modelled from the spec: mode bit, soft-ERP override. -/
def dContactSoftERP : Int := 0x008
/-- Modelled from the spec: mode bit, soft-CFM override. -/
def dContactSoftCFM : Int := 0x010
/-- Modelled from the spec: mode bit, target motion velocity along tangent 1. -/
def dContactMotion1 : Int := 0x020
/-- Modelled from the spec: mode bit, target motion velocity along tangent 2. -/
def dContactMotion2 : Int := 0x040
/-- Modelled from the spec: mode bit, target motion velocity along the normal. -/
def dContactMotionN : Int := 0x080
/-- Modelled from the spec: mode bit, slip (per-axis CFM) along tangent 1. -/
def dContactSlip1 : Int := 0x100
/-- Modelled from the spec: mode bit, slip (per-axis CFM) along tangent 2. -/
def dContactSlip2 : Int := 0x200
/-- Modelled from the spec: mode bit, friction-index coupling of tangent 1. -/
def dContactApprox1_1 : Int := 0x1000
/-- Modelled from the spec: mode bit, friction-index coupling of tangent 2. -/
def dContactApprox1_2 : Int := 0x2000

/-- Modelled from the spec: the joint flag for reversed body polarity (`joint.h` is
absent from the sources). -/
def dJOINT_REVERSE : Int := 2

/-! ## Data model -/

/-- The three used components of a `dVector3`. -/
structure Vec3 where
  x : dReal
  y : dReal
  z : dReal
  deriving DecidableEq

/-- The fields of `dxBody` that the contact joint reads. -/
structure dxBody where
  /-- The field `posr.pos`. -/
  pos : Vec3
  lvel : Vec3
  avel : Vec3
  deriving DecidableEq

/-- The struct `dSurfaceParameters`. -/
structure dSurfaceParameters where
  mode : Int
  mu : dReal
  mu2 : dReal
  bounce : dReal
  bounce_vel : dReal
  soft_erp : dReal
  soft_cfm : dReal
  motion1 : dReal
  motion2 : dReal
  motionN : dReal
  slip1 : dReal
  slip2 : dReal
  deriving DecidableEq

/-- The fields of `dContactGeom` that the contact joint reads. -/
structure dContactGeom where
  pos : Vec3
  normal : Vec3
  depth : dReal
  deriving DecidableEq

/-- The struct `dContact`. -/
structure dContact where
  surface : dSurfaceParameters
  geom : dContactGeom
  fdir1 : Vec3
  deriving DecidableEq

/-- The world parameters `world->contactp`. -/
structure dxContactParameters where
  max_vel : dReal
  min_depth : dReal
  deriving DecidableEq

/-- The fields of `dxWorld` that the contact joint reads. -/
structure dxWorld where
  global_erp : dReal
  global_cfm : dReal
  contactp : dxContactParameters
  deriving DecidableEq

/-- The object `dxJointContact` with the inherited `dxJoint` fields it uses:
`flags`, `world`, `node[0].body` and `node[1].body`. -/
structure dxJointContact where
  flags : Int
  world : dxWorld
  body0 : dxBody
  body1 : Option dxBody
  contact : dContact
  the_m : Int
  erp : dReal
  cfm : dReal
  deriving DecidableEq

/-- The struct `dxJoint::SureMaxInfo`. -/
structure SureMaxInfo where
  max_m : Int
  deriving DecidableEq

/-- The struct `dxJoint::Info1`. -/
structure Info1 where
  m : Int
  nub : Int
  deriving DecidableEq

/-! ## Row-count policy -/

/-- The method `dxJointContact::getSureMaxInfo`. -/
def getSureMaxInfo (_j : dxJointContact) (_info : SureMaxInfo) : SureMaxInfo :=
  { max_m := 3 }

/-- The method `dxJointContact::getInfo1`: the joint after the call (clamped
coefficients, cached `the_m`) and the filled `Info1`. -/
def getInfo1 (j : dxJointContact) (info : Info1) : dxJointContact × Info1 :=
  let m : Int := 1
  let nub : Int := 0
  let j := if j.contact.surface.mu < 0 then { j with contact.surface.mu := 0 } else j
  let r : dxJointContact × Int × Int :=
    if hasFlag j.contact.surface.mode dContactMu2 then
      let m := if 0 < j.contact.surface.mu then m + 1 else m
      let j := if j.contact.surface.mu2 < 0 then { j with contact.surface.mu2 := 0 } else j
      let m := if 0 < j.contact.surface.mu2 then m + 1 else m
      let nub := if dReal.ceq j.contact.surface.mu dInfinity then nub + 1 else nub
      let nub := if dReal.ceq j.contact.surface.mu2 dInfinity then nub + 1 else nub
      (j, m, nub)
    else
      let m := if 0 < j.contact.surface.mu then m + 2 else m
      let nub := if dReal.ceq j.contact.surface.mu dInfinity then nub + 2 else nub
      (j, m, nub)
  let j := r.1
  let m := r.2.1
  let nub := r.2.2
  let j := { j with the_m := m }
  let info := { info with m := m }
  let info := { info with nub := nub }
  (j, info)

/-! ## Vector primitives and output buffers -/

/-- A `dReal *` output pointer: the cell at each offset from the pointer. -/
abbrev Buf := Int → dReal

/-- The store `b[i] = v`. -/
def Buf.set (b : Buf) (i : Int) (v : dReal) : Buf := Function.update b i v

/-- Three consecutive stores `b[off] = v.x; b[off+1] = v.y; b[off+2] = v.z`. -/
def store3 (b : Buf) (off : Int) (v : Vec3) : Buf :=
  ((b.set off v.x).set (off + 1) v.y).set (off + 2) v.z

/-- The three cells `b[off], b[off+1], b[off+2]` read as a vector. -/
def load3 (b : Buf) (off : Int) : Vec3 :=
  { x := b off, y := b (off + 1), z := b (off + 2) }

/-- Componentwise negation of a vector. -/
def Vec3.neg (a : Vec3) : Vec3 := { x := -a.x, y := -a.y, z := -a.z }

/-- Componentwise difference of two vectors. -/
def Vec3.sub (a b : Vec3) : Vec3 := { x := a.x - b.x, y := a.y - b.y, z := a.z - b.z }

/-- Modelled from the spec: the cross product computed by `dCalcVectorCross3`
(`odemath.h` is absent from the sources). -/
def cross (a b : Vec3) : Vec3 :=
  { x := a.y * b.z - a.z * b.y
    y := a.z * b.x - a.x * b.z
    z := a.x * b.y - a.y * b.x }

/-- Modelled from the spec: the call `dCalcVectorCross3 (res + off, a, b)`, which stores
the cross product of `a` and `b` (`odemath.h` is absent from the sources). -/
def dCalcVectorCross3 (res : Buf) (off : Int) (a b : Vec3) : Buf :=
  store3 res off (cross a b)

/-- Modelled from the spec: the dot product `dCalcVectorDot3 (a, b)` (`odemath.h` is
absent from the sources). -/
def dCalcVectorDot3 (a b : Vec3) : dReal :=
  a.x * b.x + a.y * b.y + a.z * b.z

/-- Modelled from the spec: the call `dNegateVector3 (res + off)`, which negates three
cells in place (`odemath.h` is absent from the sources). -/
def dNegateVector3 (res : Buf) (off : Int) : Buf :=
  let res := res.set off (-(res off))
  let res := res.set (off + 1) (-(res (off + 1)))
  res.set (off + 2) (-(res (off + 2)))

/-- Modelled from the spec: the call `dCopyVector3 (res + off, a)` (`odemath.h` is absent
from the sources). -/
def dCopyVector3 (res : Buf) (off : Int) (a : Vec3) : Buf :=
  store3 res off a

/-- Modelled from the spec: the call `dCopyNegatedVector3 (res + off, a)` (`odemath.h` is
absent from the sources). -/
def dCopyNegatedVector3 (res : Buf) (off : Int) (a : Vec3) : Buf :=
  store3 res off a.neg

/-- Modelled from the spec: the difference computed by `dSubtractVectors3 (res, a, b)`
into a local vector (`odemath.h` is absent from the sources). -/
def dSubtractVectors3 (a b : Vec3) : Vec3 := a.sub b

/-- The struct `dxJoint::Info2`: the step frequency and solver error-reduction
parameter, the row stride, and the output pointers. -/
structure Info2 where
  fps : dReal
  erp : dReal
  J1l : Buf
  J1a : Buf
  J2l : Buf
  J2a : Buf
  rowskip : Int
  cfm : Buf
  c : Buf
  lo : Buf
  hi : Buf
  findex : Int → Int

/-- The store `info->J1l[i] = v`. -/
def Info2.setJ1l (info : Info2) (i : Int) (v : dReal) : Info2 :=
  { info with J1l := info.J1l.set i v }

/-- The store `info->J2l[i] = v`. -/
def Info2.setJ2l (info : Info2) (i : Int) (v : dReal) : Info2 :=
  { info with J2l := info.J2l.set i v }

/-- The store `info->cfm[i] = v`. -/
def Info2.setCfm (info : Info2) (i : Int) (v : dReal) : Info2 :=
  { info with cfm := info.cfm.set i v }

/-- The store `info->c[i] = v`. -/
def Info2.setC (info : Info2) (i : Int) (v : dReal) : Info2 :=
  { info with c := info.c.set i v }

/-- The store `info->lo[i] = v`. -/
def Info2.setLo (info : Info2) (i : Int) (v : dReal) : Info2 :=
  { info with lo := info.lo.set i v }

/-- The store `info->hi[i] = v`. -/
def Info2.setHi (info : Info2) (i : Int) (v : dReal) : Info2 :=
  { info with hi := info.hi.set i v }

/-- The store `info->findex[i] = v`. -/
def Info2.setFindex (info : Info2) (i : Int) (v : Int) : Info2 :=
  { info with findex := Function.update info.findex i v }

/-- A vector helper applied to the pointer `info->J1l`. -/
def Info2.onJ1l (info : Info2) (f : Buf → Buf) : Info2 :=
  { info with J1l := f info.J1l }

/-- A vector helper applied to the pointer `info->J1a`. -/
def Info2.onJ1a (info : Info2) (f : Buf → Buf) : Info2 :=
  { info with J1a := f info.J1a }

/-- A vector helper applied to the pointer `info->J2l`. -/
def Info2.onJ2l (info : Info2) (f : Buf → Buf) : Info2 :=
  { info with J2l := f info.J2l }

/-- A vector helper applied to the pointer `info->J2a`. -/
def Info2.onJ2a (info : Info2) (f : Buf → Buf) : Info2 :=
  { info with J2a := f info.J2a }

/-! ## Row assembly

`dPlaneSpace` (in `odemath.cpp`, absent from the sources) is a parameter of both
assembly routines: called on the normal, it returns the two tangents `(t1, t2)`.

Each routine is the sequence of its source blocks; the locals shared between blocks
(`normal`, `c1`, `c2`, `motionN`, `t1`, `t2`) are functions of the joint. -/

/-- Lines 79-93 of `getInfo2`: the local `normal`, with sign adjusted for body polarity. -/
def getInfo2_normal (j : dxJointContact) : Vec3 :=
  if hasFlag j.flags dJOINT_REVERSE then
    { x := -j.contact.geom.normal.x, y := -j.contact.geom.normal.y,
      z := -j.contact.geom.normal.z }
  else
    { x := j.contact.geom.normal.x, y := j.contact.geom.normal.y,
      z := j.contact.geom.normal.z }

/-- Lines 96-99 of `getInfo2`: the local `c1`, the contact point relative to body 0. -/
def getInfo2_c1 (j : dxJointContact) : Vec3 :=
  { x := j.contact.geom.pos.x - j.body0.pos.x
    y := j.contact.geom.pos.y - j.body0.pos.y
    z := j.contact.geom.pos.z - j.body0.pos.z }

/-- Lines 96 and 108-110 of `getInfo2`: the local `c2`, initialised to zero and set to the
contact point relative to body 1 when that body exists. -/
def getInfo2_c2 (j : dxJointContact) : Vec3 :=
  match j.body1 with
  | some b1 =>
    { x := j.contact.geom.pos.x - b1.pos.x
      y := j.contact.geom.pos.y - b1.pos.y
      z := j.contact.geom.pos.z - b1.pos.z }
  | none => { x := 0, y := 0, z := 0 }

/-- Lines 101-116 of `getInfo2`: the Jacobian of the normal row. -/
def getInfo2_normalJacobian (j : dxJointContact) (info : Info2) : Info2 :=
  let normal := getInfo2_normal j
  let c1 := getInfo2_c1 j
  let c2 := getInfo2_c2 j
  let info := info.setJ1l 0 normal.x
  let info := info.setJ1l 1 normal.y
  let info := info.setJ1l 2 normal.z
  let info := info.onJ1a (fun p => dCalcVectorCross3 p 0 c1 normal)
  if j.body1.isSome then
    let info := info.setJ2l 0 (-normal.x)
    let info := info.setJ2l 1 (-normal.y)
    let info := info.setJ2l 2 (-normal.z)
    let info := info.onJ2a (fun p => dCalcVectorCross3 p 0 c2 normal)
    info.onJ2a (fun p => dNegateVector3 p 0)
  else info

/-- Lines 138-140 of `getInfo2`: the local `motionN`. -/
def getInfo2_motionN (j : dxJointContact) : dReal :=
  let motionN : dReal := 0
  if hasFlag j.contact.surface.mode dContactMotionN then j.contact.surface.motionN
  else motionN

/-- Lines 118-148 of `getInfo2`: right hand side and cfm value of the normal row. -/
def getInfo2_normalRhs (j : dxJointContact) (info : Info2) : Info2 :=
  let erp : dReal := j.erp
  let erp : dReal :=
    if hasFlag j.contact.surface.mode dContactSoftERP then j.contact.surface.soft_erp else erp
  let k : dReal := info.fps * erp
  let depth : dReal := j.contact.geom.depth - j.world.contactp.min_depth
  let depth : dReal := if depth < 0 then 0 else depth
  let info :=
    if hasFlag j.contact.surface.mode dContactSoftCFM then
      info.setCfm 0 j.contact.surface.soft_cfm
    else
      info.setCfm 0 j.cfm
  let motionN : dReal := getInfo2_motionN j
  let pushout : dReal := k * depth + motionN
  let info := info.setC 0 pushout
  -- note: this cap should not limit bounce velocity
  let maxvel : dReal := j.world.contactp.max_vel
  if maxvel < info.c 0 then info.setC 0 maxvel else info

/-- Lines 150-170 of `getInfo2`: bounce. -/
def getInfo2_bounce (j : dxJointContact) (info : Info2) : Info2 :=
  let motionN : dReal := getInfo2_motionN j
  if hasFlag j.contact.surface.mode dContactBounce then
    -- calculate outgoing velocity (-ve for incoming contact)
    let outgoing : dReal :=
      dCalcVectorDot3 (load3 info.J1l 0) j.body0.lvel
        + dCalcVectorDot3 (load3 info.J1a 0) j.body0.avel
    let outgoing : dReal :=
      match j.body1 with
      | some b1 =>
        outgoing + (dCalcVectorDot3 (load3 info.J2l 0) b1.lvel
          + dCalcVectorDot3 (load3 info.J2a 0) b1.avel)
      | none => outgoing
    let outgoing : dReal := outgoing - motionN
    -- only apply bounce if the outgoing velocity is greater than the
    -- threshold, and if the resulting c[0] exceeds what we already have.
    if 0 ≤ j.contact.surface.bounce_vel ∧ j.contact.surface.bounce_vel < -outgoing then
      let newc : dReal := -j.contact.surface.bounce * outgoing + motionN
      if info.c 0 < newc then info.setC 0 newc else info
    else info
  else info

/-- Lines 172-174 of `getInfo2`: LCP limits of the normal row. -/
def getInfo2_normalLimits (info : Info2) : Info2 :=
  let info := info.setLo 0 0
  info.setHi 0 dInfinity

/-- Lines 177-193 of `getInfo2`: the locals `(t1, t2)` as assigned at the head of the
`the_m >= 2` block, the only place that assigns them. -/
def getInfo2_t (dPlaneSpace : Vec3 → Vec3 × Vec3) (j : dxJointContact) : Vec3 × Vec3 :=
  let normal := getInfo2_normal j
  if hasFlag j.contact.surface.mode dContactFDir1 then
    let t1 : Vec3 :=
      { x := j.contact.fdir1.x, y := j.contact.fdir1.y, z := j.contact.fdir1.z }
    (t1, cross normal t1)
  else
    dPlaneSpace normal

/-- Lines 179-228 of `getInfo2`: first friction direction. -/
def getInfo2_friction1 (dPlaneSpace : Vec3 → Vec3 × Vec3) (j : dxJointContact)
    (info : Info2) : Info2 :=
  let s : Int := info.rowskip
  let c1 := getInfo2_c1 j
  let c2 := getInfo2_c2 j
  if 2 ≤ j.the_m then
    let t1 : Vec3 := (getInfo2_t dPlaneSpace j).1
    let info := info.setJ1l (s + 0) t1.x
    let info := info.setJ1l (s + 1) t1.y
    let info := info.setJ1l (s + 2) t1.z
    let info := info.onJ1a (fun p => dCalcVectorCross3 p s c1 t1)
    let info :=
      if j.body1.isSome then
        let info := info.setJ2l (s + 0) (-t1.x)
        let info := info.setJ2l (s + 1) (-t1.y)
        let info := info.setJ2l (s + 2) (-t1.z)
        let info := info.onJ2a (fun p => dCalcVectorCross3 p s c2 t1)
        info.onJ2a (fun p => dNegateVector3 p s)
      else info
    -- set right hand side
    let info :=
      if hasFlag j.contact.surface.mode dContactMotion1 then
        info.setC 1 j.contact.surface.motion1
      else info
    -- set LCP bounds and friction index
    let info := info.setLo 1 (-j.contact.surface.mu)
    let info := info.setHi 1 j.contact.surface.mu
    let info :=
      if hasFlag j.contact.surface.mode dContactApprox1_1 then info.setFindex 1 0 else info
    -- set slip (constraint force mixing)
    if hasFlag j.contact.surface.mode dContactSlip1 then
      info.setCfm 1 j.contact.surface.slip1
    else
      info.setCfm 1 j.cfm
  else info

/-- Lines 230-274 of `getInfo2`: second friction direction. -/
def getInfo2_friction2 (dPlaneSpace : Vec3 → Vec3 × Vec3) (j : dxJointContact)
    (info : Info2) : Info2 :=
  let s : Int := info.rowskip
  let s2 : Int := 2 * s
  let c1 := getInfo2_c1 j
  let c2 := getInfo2_c2 j
  if 3 ≤ j.the_m then
    let t2 : Vec3 := (getInfo2_t dPlaneSpace j).2
    let info := info.setJ1l (s2 + 0) t2.x
    let info := info.setJ1l (s2 + 1) t2.y
    let info := info.setJ1l (s2 + 2) t2.z
    let info := info.onJ1a (fun p => dCalcVectorCross3 p s2 c1 t2)
    let info :=
      if j.body1.isSome then
        let info := info.setJ2l (s2 + 0) (-t2.x)
        let info := info.setJ2l (s2 + 1) (-t2.y)
        let info := info.setJ2l (s2 + 2) (-t2.z)
        let info := info.onJ2a (fun p => dCalcVectorCross3 p s2 c2 t2)
        info.onJ2a (fun p => dNegateVector3 p s2)
      else info
    -- set right hand side
    let info :=
      if hasFlag j.contact.surface.mode dContactMotion2 then
        info.setC 2 j.contact.surface.motion2
      else info
    -- set LCP bounds and friction index
    let info :=
      if hasFlag j.contact.surface.mode dContactMu2 then
        let info := info.setLo 2 (-j.contact.surface.mu2)
        info.setHi 2 j.contact.surface.mu2
      else
        let info := info.setLo 2 (-j.contact.surface.mu)
        info.setHi 2 j.contact.surface.mu
    let info :=
      if hasFlag j.contact.surface.mode dContactApprox1_2 then info.setFindex 2 0 else info
    -- set slip (constraint force mixing)
    if hasFlag j.contact.surface.mode dContactSlip2 then
      info.setCfm 2 j.contact.surface.slip2
    else
      info.setCfm 2 j.cfm
  else info

/-- The method `dxJointContact::getInfo2`: its blocks in source order. -/
def getInfo2 (dPlaneSpace : Vec3 → Vec3 × Vec3) (j : dxJointContact) (info : Info2) : Info2 :=
  let info := getInfo2_normalJacobian j info
  let info := getInfo2_normalRhs j info
  let info := getInfo2_bounce j info
  let info := getInfo2_normalLimits info
  let info := getInfo2_friction1 dPlaneSpace j info
  getInfo2_friction2 dPlaneSpace j info

/-- Lines 290-292 of `simpleGetInfo2`: the local `normal`, a copy of the geometry normal. -/
def simpleGetInfo2_normal (j : dxJointContact) : Vec3 := j.contact.geom.normal

/-- Lines 295-296 of `simpleGetInfo2`: the local `c1`. -/
def simpleGetInfo2_c1 (j : dxJointContact) : Vec3 :=
  dSubtractVectors3 j.contact.geom.pos j.body0.pos

/-- Lines 295 and 303 of `simpleGetInfo2`: the local `c2`. -/
def simpleGetInfo2_c2 (j : dxJointContact) : Vec3 :=
  match j.body1 with
  | some b1 => dSubtractVectors3 j.contact.geom.pos b1.pos
  | none => { x := 0, y := 0, z := 0 }

/-- Lines 298-307 of `simpleGetInfo2`: the Jacobian of the normal row. -/
def simpleGetInfo2_normalJacobian (j : dxJointContact) (info : Info2) : Info2 :=
  let normal := simpleGetInfo2_normal j
  let c1 := simpleGetInfo2_c1 j
  let c2 := simpleGetInfo2_c2 j
  let info := info.onJ1l (fun p => dCopyVector3 p 0 normal)
  let info := info.onJ1a (fun p => dCalcVectorCross3 p 0 c1 normal)
  if j.body1.isSome then
    let info := info.onJ2l (fun p => dCopyNegatedVector3 p 0 normal)
    let info := info.onJ2a (fun p => dCalcVectorCross3 p 0 c2 normal)
    info.onJ2a (fun p => dNegateVector3 p 0)
  else info

/-- Lines 309-321 of `simpleGetInfo2`: right hand side and LCP limits of the normal row. -/
def simpleGetInfo2_normalRhs (j : dxJointContact) (info : Info2) : Info2 :=
  let erp : dReal := info.erp
  let k : dReal := info.fps * erp
  let depth : dReal := j.contact.geom.depth
  let depth : dReal := if depth < 0 then 0 else depth
  let pushout : dReal := k * depth
  let info := info.setC 0 pushout
  let info := info.setLo 0 0
  info.setHi 0 dInfinity

/-- Lines 326-344 of `simpleGetInfo2`: first friction direction. -/
def simpleGetInfo2_friction1 (dPlaneSpace : Vec3 → Vec3 × Vec3) (j : dxJointContact)
    (info : Info2) : Info2 :=
  let s : Int := info.rowskip
  let normal := simpleGetInfo2_normal j
  let c1 := simpleGetInfo2_c1 j
  let c2 := simpleGetInfo2_c2 j
  if 2 ≤ j.the_m then
    let t1 : Vec3 := (dPlaneSpace normal).1
    let info := info.onJ1l (fun p => dCopyVector3 p s t1)
    let info := info.onJ1a (fun p => dCalcVectorCross3 p s c1 t1)
    let info :=
      if j.body1.isSome then
        let info := info.onJ2l (fun p => dCopyNegatedVector3 p s t1)
        let info := info.onJ2a (fun p => dCalcVectorCross3 p s c2 t1)
        info.onJ2a (fun p => dNegateVector3 p s)
      else info
    -- set LCP bounds and friction index
    let info := info.setLo 1 (-j.contact.surface.mu)
    let info := info.setHi 1 j.contact.surface.mu
    if hasFlag j.contact.surface.mode dContactApprox1_1 then info.setFindex 1 0 else info
  else info

/-- Lines 346-362 of `simpleGetInfo2`: second friction direction. -/
def simpleGetInfo2_friction2 (dPlaneSpace : Vec3 → Vec3 × Vec3) (j : dxJointContact)
    (info : Info2) : Info2 :=
  let s : Int := info.rowskip
  let s2 : Int := 2 * s
  let normal := simpleGetInfo2_normal j
  let c1 := simpleGetInfo2_c1 j
  let c2 := simpleGetInfo2_c2 j
  if 3 ≤ j.the_m then
    let t2 : Vec3 := (dPlaneSpace normal).2
    let info := info.onJ1l (fun p => dCopyVector3 p s2 t2)
    let info := info.onJ1a (fun p => dCalcVectorCross3 p s2 c1 t2)
    let info :=
      if j.body1.isSome then
        let info := info.onJ2l (fun p => dCopyNegatedVector3 p s2 t2)
        let info := info.onJ2a (fun p => dCalcVectorCross3 p s2 c2 t2)
        info.onJ2a (fun p => dNegateVector3 p s2)
      else info
    -- set LCP bounds and friction index
    let info := info.setLo 2 (-j.contact.surface.mu)
    let info := info.setHi 2 j.contact.surface.mu
    if hasFlag j.contact.surface.mode dContactApprox1_2 then info.setFindex 2 0 else info
  else info

/-- The method `dxJointContact::simpleGetInfo2`: its blocks in source order. -/
def simpleGetInfo2 (dPlaneSpace : Vec3 → Vec3 × Vec3) (j : dxJointContact) (info : Info2) :
    Info2 :=
  let info := simpleGetInfo2_normalJacobian j info
  let info := simpleGetInfo2_normalRhs j info
  let info := simpleGetInfo2_friction1 dPlaneSpace j info
  simpleGetInfo2_friction2 dPlaneSpace j info

/-! ## Row layout -/

/-- The layout of up to three rows in a strided buffer: row 0 at offset `0`, row 1 at
offset `s` when `2 ≤ m`, row 2 at offset `2 * s` when `3 ≤ m`, stored in this order. -/
def rows (b : Buf) (s m : Int) (d0 d1 d2 : Vec3) : Buf :=
  let b := store3 b 0 d0
  let b := if 2 ≤ m then store3 b s d1 else b
  if 3 ≤ m then store3 b (2 * s) d2 else b

/-- The axis direction of row `i`: the normal for row 0, then the two tangents. -/
def axisDir (n t1 t2 : Vec3) (i : Int) : Vec3 :=
  if i = 0 then n else if i = 1 then t1 else t2

/-! ## Sample inputs -/

/-- The zero vector. -/
def zeroVec : Vec3 := { x := 0, y := 0, z := 0 }

/-- A body at rest at the origin. -/
def restBody : dxBody := { pos := zeroVec, lvel := zeroVec, avel := zeroVec }

/-- A contact joint on one body at the origin (no second body), normal `(0,1,0)`,
contact point at the origin, penetration depth `0.01`, erp `0.2`, world minimum depth `0`
and uncapped correcting velocity, with the given mode word and friction coefficients. -/
def sampleJoint (mode : Int) (mu mu2 : dReal) : dxJointContact :=
  { flags := 0
    world := { global_erp := dReal.num (1/5), global_cfm := 0,
               contactp := { max_vel := dInfinity, min_depth := 0 } }
    body0 := restBody
    body1 := none
    contact :=
      { surface :=
          { mode := mode, mu := mu, mu2 := mu2, bounce := 0, bounce_vel := 0, soft_erp := 0,
            soft_cfm := 0, motion1 := 0, motion2 := 0, motionN := 0, slip1 := 0, slip2 := 0 }
        geom := { pos := zeroVec, normal := { x := 0, y := 1, z := 0 },
                  depth := dReal.num (1/100) }
        fdir1 := zeroVec }
    the_m := 0
    erp := dReal.num (1/5)
    cfm := 0 }

/-- Output buffers filled with the given value, stride `8`, step frequency `60`. -/
def sampleInfo2 (fill : dReal) : Info2 :=
  { fps := 60, erp := dReal.num (1/5)
    J1l := fun _ => fill, J1a := fun _ => fill, J2l := fun _ => fill, J2a := fun _ => fill
    rowskip := 8
    cfm := fun _ => fill, c := fun _ => fill, lo := fun _ => fill, hi := fun _ => fill
    findex := fun _ => -1 }

/-- A plane-space routine for the sample normal `(0,1,0)`: tangents `(0,0,1)` and `(1,0,0)`. -/
def samplePlaneSpace (_n : Vec3) : Vec3 × Vec3 :=
  ({ x := 0, y := 0, z := 1 }, { x := 1, y := 0, z := 0 })

/-- The sample joint with a second body, at rest at `(0,-1,0)`. -/
def sampleJointTwoBodies (mode : Int) (mu mu2 : dReal) : dxJointContact :=
  { sampleJoint mode mu mu2 with
    body1 := some { pos := { x := 0, y := -1, z := 0 }, lvel := zeroVec, avel := zeroVec } }

/-! ## Bias of the normal row

The locals of the right-hand-side and bounce blocks as functions of the joint, used to
state what `getInfo2` leaves in `c[0]`. -/

/-- Lines 120-142 of `getInfo2`: the local `pushout`, that is `k * depth + motionN` with
`k = info->fps * erp` (the soft-ERP value of the surface if its flag is set, the erp of
the joint otherwise) and `depth` the geometry depth less the world minimum depth, clamped
at zero. -/
def getInfo2_pushout (j : dxJointContact) (info : Info2) : dReal :=
  let erp : dReal := j.erp
  let erp : dReal :=
    if hasFlag j.contact.surface.mode dContactSoftERP then j.contact.surface.soft_erp else erp
  let k : dReal := info.fps * erp
  let depth : dReal := j.contact.geom.depth - j.world.contactp.min_depth
  let depth : dReal := if depth < 0 then 0 else depth
  k * depth + getInfo2_motionN j

/-- Lines 142-148 of `getInfo2`: the value of `c[0]` after the cap, the capped
penetration bias. -/
def getInfo2_cappedBias (j : dxJointContact) (info : Info2) : dReal :=
  if j.world.contactp.max_vel < getInfo2_pushout j info then j.world.contactp.max_vel
  else getInfo2_pushout j info

/-- The relative normal velocity at the contact point, `J1l·v1 + J1a·w1`, plus
`J2l·v2 + J2a·w2` when body B exists, on the Jacobian of the normal row: `J1l = normal`,
`J1a = c1 x normal`, `J2l = -normal`, `J2a = -(c2 x normal)`. -/
def normalVelocity (j : dxJointContact) : dReal :=
  let n := getInfo2_normal j
  let v : dReal :=
    dCalcVectorDot3 n j.body0.lvel + dCalcVectorDot3 (cross (getInfo2_c1 j) n) j.body0.avel
  match j.body1 with
  | some b1 =>
    v + (dCalcVectorDot3 n.neg b1.lvel + dCalcVectorDot3 (cross (getInfo2_c2 j) n).neg b1.avel)
  | none => v

/-- Lines 154-161 of `getInfo2`: the local `outgoing` after `outgoing -= motionN`, on the
normal row as lines 101-116 wrote it (the theorem `getInfo2_c0` relates it to the cells
the bounce block reads). -/
def getInfo2_outgoing (j : dxJointContact) : dReal :=
  normalVelocity j - getInfo2_motionN j

/-- Lines 164-165 of `getInfo2`: the bounce condition. -/
def getInfo2_bounceFires (j : dxJointContact) : Bool :=
  decide (0 ≤ j.contact.surface.bounce_vel ∧
    j.contact.surface.bounce_vel < -getInfo2_outgoing j)

/-- Line 167 of `getInfo2`: the local `newc`. -/
def getInfo2_newc (j : dxJointContact) : dReal :=
  -j.contact.surface.bounce * getInfo2_outgoing j + getInfo2_motionN j

/-! ## Variations of a joint -/

/-- The joint with its surface mode word replaced. -/
def setMode (j : dxJointContact) (mode : Int) : dxJointContact :=
  { j with contact.surface.mode := mode }

/-- The joint with its penetration depth replaced. -/
def setDepth (j : dxJointContact) (depth : dReal) : dxJointContact :=
  { j with contact.geom.depth := depth }

/-- The mode word `m1` has the bounce flag cleared and every other mode flag as in `m`. -/
def onlyBounceCleared (m m1 : Int) : Prop :=
  hasFlag m1 dContactBounce = false ∧
  hasFlag m1 dContactMu2 = hasFlag m dContactMu2 ∧
  hasFlag m1 dContactFDir1 = hasFlag m dContactFDir1 ∧
  hasFlag m1 dContactSoftERP = hasFlag m dContactSoftERP ∧
  hasFlag m1 dContactSoftCFM = hasFlag m dContactSoftCFM ∧
  hasFlag m1 dContactMotion1 = hasFlag m dContactMotion1 ∧
  hasFlag m1 dContactMotion2 = hasFlag m dContactMotion2 ∧
  hasFlag m1 dContactMotionN = hasFlag m dContactMotionN ∧
  hasFlag m1 dContactSlip1 = hasFlag m dContactSlip1 ∧
  hasFlag m1 dContactSlip2 = hasFlag m dContactSlip2 ∧
  hasFlag m1 dContactApprox1_1 = hasFlag m dContactApprox1_1 ∧
  hasFlag m1 dContactApprox1_2 = hasFlag m dContactApprox1_2

/-- The one-body sample contact (normal `(0,1,0)`, erp `0.2`, `mu = 0.5`) with the given
mode word, penetration depth, world minimum depth and velocity cap, linear velocity of
the body, restitution, restitution threshold and target normal velocity. -/
def biasJoint (mode : Int) (depth minDepth maxVel : dReal) (lvel : Vec3)
    (bounce bounceVel motionN : dReal) : dxJointContact :=
  { flags := 0
    world := { global_erp := dReal.num (1/5), global_cfm := 0,
               contactp := { max_vel := maxVel, min_depth := minDepth } }
    body0 := { pos := zeroVec, lvel := lvel, avel := zeroVec }
    body1 := none
    contact :=
      { surface :=
          { mode := mode, mu := dReal.num (1/2), mu2 := 0, bounce := bounce,
            bounce_vel := bounceVel, soft_erp := 0, soft_cfm := 0, motion1 := 0, motion2 := 0,
            motionN := motionN, slip1 := 0, slip2 := 0 }
        geom := { pos := zeroVec, normal := { x := 0, y := 1, z := 0 }, depth := depth }
        fdir1 := zeroVec }
    the_m := 3
    erp := dReal.num (1/5)
    cfm := 0 }

/-- Bounce sample A: bounce and normal-motion flags set, threshold `0`, restitution `1`,
target normal velocity `1`, body at rest, uncapped. -/
def bounceSampleA : dxJointContact :=
  biasJoint (dContactBounce + dContactMotionN) (dReal.num (1/100)) 0 dInfinity zeroVec 1 0 1

/-- Bounce sample B: bounce flag set, negative threshold `-0.5`, restitution `1`, body
moving into the contact with velocity `(0,-1,0)`, uncapped. -/
def bounceSampleB : dxJointContact :=
  biasJoint dContactBounce (dReal.num (1/100)) 0 dInfinity
    { x := 0, y := dReal.num (-1), z := 0 } 1 (dReal.num (-1/2)) 0

/-- Bounce sample C: bounce flag set, threshold `0`, body at rest, velocity cap `0.05`. -/
def bounceSampleC : dxJointContact :=
  biasJoint dContactBounce (dReal.num (1/100)) 0 (dReal.num (1/20)) zeroVec 1 0 0

/-- Bounce sample D: as sample B but with threshold `0.5`, so that the bounce fires. -/
def bounceSampleD : dxJointContact :=
  biasJoint dContactBounce (dReal.num (1/100)) 0 dInfinity
    { x := 0, y := dReal.num (-1), z := 0 } 1 (dReal.num (1/2)) 0

/-- Sample with a negative velocity cap `-1`: depth `0`, no flags. -/
def negativeCapSample : dxJointContact :=
  biasJoint 0 0 0 (dReal.num (-1)) zeroVec 0 0 0

/-- Sample with a negative world minimum depth `-1`: depth `0`, no flags, uncapped. -/
def negativeMinDepthSample : dxJointContact :=
  biasJoint 0 0 (dReal.num (-1)) dInfinity zeroVec 0 0 0

/-! ## Construction and parameter accessors -/

/-- The constructor `dxJointContact::dxJointContact (dxWorld *w)`. The base-class
constructor `dxJoint (w)` is absent from the sources: `base` is the object as it leaves
the members, and the body of the constructor then stores the two world defaults. -/
def dxJointContact.ctor (w : dxWorld) (base : dxJointContact) : dxJointContact :=
  let this := { base with erp := w.global_erp }
  { this with cfm := w.global_cfm }

/-- The function `dJointGetContactParam`. The parameter identifiers `dParamERP` and
`dParamCFM` (an enumeration of `common.h`, absent from the sources) are parameters; the
two `dUASSERT` checks hold for every value of type `dxJointContact`. -/
def dJointGetContactParam (dParamERP dParamCFM : Int) (j : dxJointContact)
    (parameter : Int) : dReal :=
  if parameter = dParamERP then j.erp
  else if parameter = dParamCFM then j.cfm
  else 0

/-- The function `dJointSetContactParam`: the joint after the call. The parameter
identifiers are parameters as in `dJointGetContactParam`. -/
def dJointSetContactParam (dParamERP dParamCFM : Int) (j : dxJointContact)
    (parameter : Int) (value : dReal) : dxJointContact :=
  if parameter = dParamERP then { j with erp := value }
  else if parameter = dParamCFM then { j with cfm := value }
  else j

/-! ## Inputs of the reduced variant -/

/-- The inputs on which the reduced variant is meant to stand in for `getInfo2`: world
minimum depth `0`, uncapped correcting velocity, reverse flag unset, and no mode flag set
other than the two friction-index coupling flags. -/
def preValidated (j : dxJointContact) : Prop :=
  j.world.contactp.min_depth = 0 ∧ j.world.contactp.max_vel = dInfinity ∧
  hasFlag j.flags dJOINT_REVERSE = false ∧
  hasFlag j.contact.surface.mode dContactMu2 = false ∧
  hasFlag j.contact.surface.mode dContactFDir1 = false ∧
  hasFlag j.contact.surface.mode dContactBounce = false ∧
  hasFlag j.contact.surface.mode dContactSoftERP = false ∧
  hasFlag j.contact.surface.mode dContactSoftCFM = false ∧
  hasFlag j.contact.surface.mode dContactMotion1 = false ∧
  hasFlag j.contact.surface.mode dContactMotion2 = false ∧
  hasFlag j.contact.surface.mode dContactMotionN = false ∧
  hasFlag j.contact.surface.mode dContactSlip1 = false ∧
  hasFlag j.contact.surface.mode dContactSlip2 = false

instance (j : dxJointContact) : Decidable (preValidated j) := by
  unfold preValidated
  infer_instance

/-! ## Tangent frames -/

/-- A vector with finite components. -/
def Vec3.ofRat (a b c : ℚ) : Vec3 := { x := dReal.num a, y := dReal.num b, z := dReal.num c }

/-! ## Further sample inputs -/

/-- The sample buffers with a solver error-reduction parameter `0.5`, different from the
erp `0.2` of the sample joints. -/
def sampleInfo2SolverErp (fill : dReal) : Info2 :=
  { sampleInfo2 fill with erp := dReal.num (1/2) }

/-- The three-row sample contact with the friction-direction flag set and the
caller-supplied direction `(1,1,0)`, neither of unit length nor orthogonal to the normal
`(0,1,0)`. -/
def slantedDirectionSample : dxJointContact :=
  { biasJoint dContactFDir1 (dReal.num (1/100)) 0 dInfinity zeroVec 0 0 0 with
    contact.fdir1 := { x := 1, y := 1, z := 0 } }

/-- The three-row sample contact with the friction-direction flag set and the
caller-supplied direction `(3/5,0,4/5)`, of unit length and orthogonal to the normal. -/
def unitDirectionSample : dxJointContact :=
  { biasJoint dContactFDir1 (dReal.num (1/100)) 0 dInfinity zeroVec 0 0 0 with
    contact.fdir1 := Vec3.ofRat (3/5) 0 (4/5) }

/-- The three-row sample contact without mode flags and with the given friction
coefficients. -/
def threeRowSample (mu mu2 : dReal) : dxJointContact :=
  { sampleJoint 0 mu mu2 with the_m := 3 }

/-! ## Finite vectors -/

/-- A value that is finite: neither infinite nor `NaN`. -/
def dReal.isFinite : dReal → Bool
  | dReal.num _ => true
  | _ => false

/-- A vector whose three components are finite. -/
def Vec3.isFinite (a : Vec3) : Bool :=
  dReal.isFinite a.x && dReal.isFinite a.y && dReal.isFinite a.z

/-- Componentwise sum of two vectors. -/
def Vec3.add (a b : Vec3) : Vec3 := { x := a.x + b.x, y := a.y + b.y, z := a.z + b.z }

/-! ## Rows of the scalar buffers -/

/-- Row `i` of the scalar output buffers (`c`, `lo`, `hi`, `cfm`, `findex`) is the same in
the two records. -/
def sameScalarRow (a b : Info2) (i : Int) : Prop :=
  a.c i = b.c i ∧ a.lo i = b.lo i ∧ a.hi i = b.hi i ∧ a.cfm i = b.cfm i ∧
  a.findex i = b.findex i

instance (a b : Info2) (i : Int) : Decidable (sameScalarRow a b i) := by
  unfold sameScalarRow
  infer_instance

/-! ## Further variations of a joint -/

/-- The joint with its flag word replaced. -/
def setFlags (j : dxJointContact) (flags : Int) : dxJointContact :=
  { j with flags := flags }

/-- The joint with its geometry normal replaced. -/
def setNormal (j : dxJointContact) (normal : Vec3) : dxJointContact :=
  { j with contact.geom.normal := normal }

/-- Bounce sample E: as sample D (bounce flag set, threshold `0.5`, restitution `1`, body
moving into the contact with velocity `(0,-1,0)`) but with velocity cap `0.05`. -/
def bounceSampleE : dxJointContact :=
  biasJoint dContactBounce (dReal.num (1/100)) 0 (dReal.num (1/20))
    { x := 0, y := dReal.num (-1), z := 0 } 1 (dReal.num (1/2)) 0

/-- Two bodies moving as one rigid body: body A at `(1,0,0)` with velocity `(1,2,0)`,
body B at `(0,-1,0)` with velocity `(2,1,0)`, both with angular velocity `(0,0,1)`;
contact at the origin with normal `(0,1,0)`, three rows, no mode flags. -/
def rigidPairSample : dxJointContact :=
  { threeRowSample (dReal.num (1/2)) 0 with
    body0 := { pos := Vec3.ofRat 1 0 0, lvel := Vec3.ofRat 1 2 0, avel := Vec3.ofRat 0 0 1 }
    body1 := some { pos := Vec3.ofRat 0 (-1) 0, lvel := Vec3.ofRat 2 1 0,
                    avel := Vec3.ofRat 0 0 1 } }

/-- The rigid pair with the friction-direction flag set and the caller-supplied direction
`(1,1,0)`, which is not orthogonal to the normal `(0,1,0)`. -/
def slantedPairSample : dxJointContact :=
  { rigidPairSample with
    contact.surface.mode := dContactFDir1
    contact.fdir1 := Vec3.ofRat 1 1 0 }

/-- The one-body sample contact with the reverse flag set. -/
def reversedSample : dxJointContact :=
  setFlags (threeRowSample (dReal.num (1/2)) 0) dJOINT_REVERSE

/-! ## Row offsets as 32-bit integers -/

/-- The value of a C `int` expression whose mathematical value is `x`: the 32-bit two's
complement representative of `x`. Inside the `int` range it is `x` itself; outside it the
C standard leaves the result undefined, and the compiled multiplication wraps. -/
def int32 (x : Int) : Int := (x + 2147483648) % 4294967296 - 2147483648

/-- Lines 230-274 of `getInfo2`, second friction direction, with the offset `s2` of row 2
(the local of line 77) as a parameter. -/
def getInfo2_friction2_at (s2 : Int) (dPlaneSpace : Vec3 → Vec3 × Vec3) (j : dxJointContact)
    (info : Info2) : Info2 :=
  let c1 := getInfo2_c1 j
  let c2 := getInfo2_c2 j
  if 3 ≤ j.the_m then
    let t2 : Vec3 := (getInfo2_t dPlaneSpace j).2
    let info := info.setJ1l (s2 + 0) t2.x
    let info := info.setJ1l (s2 + 1) t2.y
    let info := info.setJ1l (s2 + 2) t2.z
    let info := info.onJ1a (fun p => dCalcVectorCross3 p s2 c1 t2)
    let info :=
      if j.body1.isSome then
        let info := info.setJ2l (s2 + 0) (-t2.x)
        let info := info.setJ2l (s2 + 1) (-t2.y)
        let info := info.setJ2l (s2 + 2) (-t2.z)
        let info := info.onJ2a (fun p => dCalcVectorCross3 p s2 c2 t2)
        info.onJ2a (fun p => dNegateVector3 p s2)
      else info
    -- set right hand side
    let info :=
      if hasFlag j.contact.surface.mode dContactMotion2 then
        info.setC 2 j.contact.surface.motion2
      else info
    -- set LCP bounds and friction index
    let info :=
      if hasFlag j.contact.surface.mode dContactMu2 then
        let info := info.setLo 2 (-j.contact.surface.mu2)
        info.setHi 2 j.contact.surface.mu2
      else
        let info := info.setLo 2 (-j.contact.surface.mu)
        info.setHi 2 j.contact.surface.mu
    let info :=
      if hasFlag j.contact.surface.mode dContactApprox1_2 then info.setFindex 2 0 else info
    -- set slip (constraint force mixing)
    if hasFlag j.contact.surface.mode dContactSlip2 then
      info.setCfm 2 j.contact.surface.slip2
    else
      info.setCfm 2 j.cfm
  else info

/-- The method `dxJointContact::getInfo2` with the `int` arithmetic of lines 76-77 made
explicit: `int s = info->rowskip; int s2 = 2 * s;` is evaluated at entry, the product as
a 32-bit `int`, and the blocks follow in source order. The sums `s + k` and `s2 + k`
(`k` in `{0,1,2}`) that index the buffers are formed exactly; none of them leaves the
`int` range when `-2^31 <= 2 * s` and `2 * s + 2 < 2^31`. -/
def getInfo2_int32 (dPlaneSpace : Vec3 → Vec3 × Vec3) (j : dxJointContact) (info : Info2) :
    Info2 :=
  let s : Int := info.rowskip
  let s2 : Int := int32 (2 * s)
  let info := getInfo2_normalJacobian j info
  let info := getInfo2_normalRhs j info
  let info := getInfo2_bounce j info
  let info := getInfo2_normalLimits info
  let info := getInfo2_friction1 dPlaneSpace j info
  getInfo2_friction2_at s2 dPlaneSpace j info

/-- Lines 346-362 of `simpleGetInfo2`, second friction direction, with the offset `s2` of
row 2 (the local of line 287) as a parameter. -/
def simpleGetInfo2_friction2_at (s2 : Int) (dPlaneSpace : Vec3 → Vec3 × Vec3)
    (j : dxJointContact) (info : Info2) : Info2 :=
  let normal := simpleGetInfo2_normal j
  let c1 := simpleGetInfo2_c1 j
  let c2 := simpleGetInfo2_c2 j
  if 3 ≤ j.the_m then
    let t2 : Vec3 := (dPlaneSpace normal).2
    let info := info.onJ1l (fun p => dCopyVector3 p s2 t2)
    let info := info.onJ1a (fun p => dCalcVectorCross3 p s2 c1 t2)
    let info :=
      if j.body1.isSome then
        let info := info.onJ2l (fun p => dCopyNegatedVector3 p s2 t2)
        let info := info.onJ2a (fun p => dCalcVectorCross3 p s2 c2 t2)
        info.onJ2a (fun p => dNegateVector3 p s2)
      else info
    -- set LCP bounds and friction index
    let info := info.setLo 2 (-j.contact.surface.mu)
    let info := info.setHi 2 j.contact.surface.mu
    if hasFlag j.contact.surface.mode dContactApprox1_2 then info.setFindex 2 0 else info
  else info

/-- The method `dxJointContact::simpleGetInfo2` with the `int` arithmetic of lines 286-287
made explicit: `int s2 = 2 * s` is evaluated at entry as a 32-bit `int`, and the blocks
follow in source order. The sums `s + k` and `s2 + k` (`k` in `{0,1,2}`) that index the
buffers are formed exactly; none of them leaves the `int` range when `-2^31 <= 2 * s` and
`2 * s + 2 < 2^31`. -/
def simpleGetInfo2_int32 (dPlaneSpace : Vec3 → Vec3 × Vec3) (j : dxJointContact)
    (info : Info2) : Info2 :=
  let s : Int := info.rowskip
  let s2 : Int := int32 (2 * s)
  let info := simpleGetInfo2_normalJacobian j info
  let info := simpleGetInfo2_normalRhs j info
  let info := simpleGetInfo2_friction1 dPlaneSpace j info
  simpleGetInfo2_friction2_at s2 dPlaneSpace j info

/-- The sample buffers with the stride `2^30`: twice that stride does not fit an `int`. -/
def hugeStrideInfo2 (fill : dReal) : Info2 :=
  { sampleInfo2 fill with rowskip := 1073741824 }

/-! ## Samples with an infinite coordinate and with a common translation -/

/-- The joint with its contact position replaced. -/
def setPos (j : dxJointContact) (pos : Vec3) : dxJointContact :=
  { j with contact.geom.pos := pos }

/-- The rigid pair with the contact point at `(+infinity, 0, 0)`. -/
def farPointSample : dxJointContact :=
  setPos rigidPairSample { x := dInfinity, y := 0, z := 0 }

/-- Two bodies translating together without rotating: body A at `(1,0,0)` and body B at
`(0,-1,0)`, both with velocity `(1,2,0)` and angular velocity zero; contact at the origin
with normal `(0,1,0)`, three rows, no mode flags. -/
def translatingPairSample : dxJointContact :=
  { threeRowSample (dReal.num (1/2)) 0 with
    body0 := { pos := Vec3.ofRat 1 0 0, lvel := Vec3.ofRat 1 2 0, avel := zeroVec }
    body1 := some { pos := Vec3.ofRat 0 (-1) 0, lvel := Vec3.ofRat 1 2 0, avel := zeroVec } }

/-! ## The plane-space construction over exact scalars -/

/-- Modelled from the spec: a vector of three exact scalars, `K` an ordered field; the
spec states the plane-space property of unit normals over such scalars. -/
structure ExactVec3 (K : Type) where
  x : K
  y : K
  z : K

/-- Modelled from the spec: the dot product of two vectors of exact scalars. -/
def ExactVec3.dot {K : Type} [LinearOrderedField K] (a b : ExactVec3 K) : K :=
  a.x * b.x + a.y * b.y + a.z * b.z

/-- Modelled from the spec: the cross product of two vectors of exact scalars. -/
def ExactVec3.cross {K : Type} [LinearOrderedField K] (a b : ExactVec3 K) : ExactVec3 K :=
  { x := a.y * b.z - a.z * b.y
    y := a.z * b.x - a.x * b.z
    z := a.x * b.y - a.y * b.x }

/-- Modelled from the spec: the basis axis that `dPlaneSpace` starts from, the one least
parallel to the normal (`odemath.cpp` is absent from the sources). -/
def dPlaneSpace_axis {K : Type} [LinearOrderedField K] (n : ExactVec3 K) : ExactVec3 K :=
  if |n.x| ≤ |n.y| ∧ |n.x| ≤ |n.z| then { x := 1, y := 0, z := 0 }
  else if |n.y| ≤ |n.z| then { x := 0, y := 1, z := 0 }
  else { x := 0, y := 0, z := 1 }

/-- Modelled from the spec: the Gram-Schmidt step of `dPlaneSpace`, the chosen axis minus
its component along the normal (`odemath.cpp` is absent from the sources). -/
def dPlaneSpace_residual {K : Type} [LinearOrderedField K] (n : ExactVec3 K) : ExactVec3 K :=
  let e := dPlaneSpace_axis n
  let d := e.dot n
  { x := e.x - d * n.x, y := e.y - d * n.y, z := e.z - d * n.z }

/-- Modelled from the spec: the routine `dPlaneSpace (n, p, q)` (`odemath.cpp` is absent
from the sources): pick the basis axis least parallel to the normal, Gram-Schmidt against
the normal, normalise, and cross for the second axis. The scalars are those of an ordered
field `K`, and the reciprocal square root used to normalise is the parameter
`dRecipSqrt`. -/
def dPlaneSpace {K : Type} [LinearOrderedField K] (dRecipSqrt : K → K) (n : ExactVec3 K) :
    ExactVec3 K × ExactVec3 K :=
  let u := dPlaneSpace_residual n
  let k := dRecipSqrt (u.dot u)
  let p : ExactVec3 K := { x := k * u.x, y := k * u.y, z := k * u.z }
  (p, n.cross p)

/-! # Theorems -/

open dReal

/-! ## Scalar facts -/

namespace dReal

theorem lt_iff (a b : dReal) : a < b ↔ lt a b = true := Iff.rfl

theorem le_iff (a b : dReal) : a ≤ b ↔ le a b = true := Iff.rfl

theorem zero_eq : (0 : dReal) = num 0 := by
  show num ((0 : Nat) : ℚ) = num 0
  simp

theorem ofNat_eq (n : Nat) : (OfNat.ofNat n : dReal) = num n := rfl

@[simp]
theorem num_lt_num (a b : ℚ) : (num a < num b) ↔ a < b := by
  simp [lt_iff, lt]

@[simp]
theorem num_le_num (a b : ℚ) : (num a ≤ num b) ↔ a ≤ b := by
  simp [le_iff, le, lt, ceq, le_iff_lt_or_eq]

/-- A value that is not `NaN` and not below zero is at least zero. -/
theorem zero_le_of_not_lt (a : dReal) (h : isNumeric a = true) (h0 : ¬ a < 0) : (0 : dReal) ≤ a := by
  cases a <;> simp_all [lt_iff, le_iff, lt, le, ceq, zero_eq, isNumeric]
  exact le_iff_lt_or_eq.mp h0

@[simp]
theorem num_add_num (a b : ℚ) : num a + num b = num (a + b) := rfl
@[simp]
theorem num_sub_num (a b : ℚ) : num a - num b = num (a - b) := by
  show add (num a) (neg (num b)) = num (a - b)
  simp [add, neg, sub_eq_add_neg]
@[simp]
theorem num_mul_num (a b : ℚ) : num a * num b = num (a * b) := rfl
@[simp]
theorem neg_num (a : ℚ) : -num a = num (-a) := rfl

/-- On finite values `dReal.max` is the maximum. -/
theorem max_num_num (a b : ℚ) : dReal.max (num a) (num b) = num (Max.max a b) := by
  by_cases h : a < b
  · simp [dReal.max, h, max_eq_right (le_of_lt h)]
  · simp [dReal.max, h, max_eq_left (not_lt.mp h)]

/-- On finite values `dReal.min` is the minimum. -/
theorem min_num_num (a b : ℚ) : dReal.min (num a) (num b) = num (Min.min a b) := by
  by_cases h : b < a
  · simp [dReal.min, h, min_eq_right (le_of_lt h)]
  · simp [dReal.min, h, min_eq_left (not_lt.mp h)]

/-- An infinite cap never applies. -/
theorem min_posInf (a : dReal) : dReal.min a posInf = a := by
  cases a <;> simp [dReal.min, lt_iff, lt]

end dReal

/-! ## Buffer facts -/

theorem load3_store3_same (b : Buf) (off : Int) (v : Vec3) : load3 (store3 b off v) off = v := by
  simp [load3, store3, Buf.set, Function.update_apply]

theorem store3_other (b : Buf) (off k : Int) (v : Vec3)
    (h0 : k ≠ off) (h1 : k ≠ off + 1) (h2 : k ≠ off + 2) : store3 b off v k = b k := by
  simp [store3, Buf.set, Function.update_apply, h0, h1, h2]

theorem load3_store3_far (b : Buf) (off off1 : Int) (v : Vec3)
    (h : off1 + 3 ≤ off ∨ off + 3 ≤ off1) : load3 (store3 b off v) off1 = load3 b off1 := by
  have e0 : store3 b off v off1 = b off1 := by
    apply store3_other <;> omega
  have e1 : store3 b off v (off1 + 1) = b (off1 + 1) := by
    apply store3_other <;> omega
  have e2 : store3 b off v (off1 + 2) = b (off1 + 2) := by
    apply store3_other <;> omega
  simp [load3, e0, e1, e2]

theorem dNegateVector3_store3 (b : Buf) (off : Int) (v : Vec3) :
    dNegateVector3 (store3 b off v) off = store3 (store3 b off v) off v.neg := by
  funext k
  simp [dNegateVector3, store3, Buf.set, Function.update_apply, Vec3.neg]

theorem store3_store3 (b : Buf) (off : Int) (v w : Vec3) :
    store3 (store3 b off v) off w = store3 b off w := by
  funext k
  simp [store3, Buf.set, Function.update_apply]
  split_ifs <;> simp_all

/-- Reading row `i` of a three-row layout with stride at least three. -/
theorem load3_rows (b : Buf) (s m i : Int) (d0 d1 d2 : Vec3)
    (hs : 3 ≤ s) (hi0 : 0 ≤ i) (him : i < m) (hm : m ≤ 3) :
    load3 (rows b s m d0 d1 d2) (i * s) = axisDir d0 d1 d2 i := by
  have hi : i = 0 ∨ i = 1 ∨ i = 2 := by omega
  have hm3 : m = 1 ∨ m = 2 ∨ m = 3 := by omega
  rcases hi with rfl | rfl | rfl
  · rcases hm3 with rfl | rfl | rfl
    · simp [rows, axisDir, load3_store3_same]
    · simp only [rows, axisDir, le_refl, if_true, zero_mul]
      rw [if_neg (by decide), load3_store3_far _ _ _ _ (by omega), load3_store3_same]
    · simp only [rows, axisDir, le_refl, if_true, zero_mul]
      rw [if_pos (by decide), load3_store3_far _ _ _ _ (by omega),
        load3_store3_far _ _ _ _ (by omega), load3_store3_same]
  · rcases hm3 with rfl | rfl | rfl
    · omega
    · simp only [rows, axisDir, le_refl, if_true, one_mul]
      rw [if_neg (by decide), load3_store3_same]
      simp
    · simp only [rows, axisDir, le_refl, if_true, one_mul]
      rw [if_pos (by decide), load3_store3_far _ _ _ _ (by omega), load3_store3_same]
      simp
  · rcases hm3 with rfl | rfl | rfl
    · omega
    · omega
    · simp only [rows, axisDir, le_refl, if_true]
      rw [if_pos (by decide), load3_store3_same]
      simp

/-! ## Projections of the `Info2` stores -/

@[simp]
theorem Info2.setJ1l_fps (info : Info2) (i : Int) (v : dReal) :
    (info.setJ1l i v).fps = info.fps := rfl

@[simp]
theorem Info2.setJ1l_erp (info : Info2) (i : Int) (v : dReal) :
    (info.setJ1l i v).erp = info.erp := rfl

@[simp]
theorem Info2.setJ1l_J1l (info : Info2) (i : Int) (v : dReal) :
    (info.setJ1l i v).J1l = info.J1l.set i v := rfl

@[simp]
theorem Info2.setJ1l_J1a (info : Info2) (i : Int) (v : dReal) :
    (info.setJ1l i v).J1a = info.J1a := rfl

@[simp]
theorem Info2.setJ1l_J2l (info : Info2) (i : Int) (v : dReal) :
    (info.setJ1l i v).J2l = info.J2l := rfl

@[simp]
theorem Info2.setJ1l_J2a (info : Info2) (i : Int) (v : dReal) :
    (info.setJ1l i v).J2a = info.J2a := rfl

@[simp]
theorem Info2.setJ1l_rowskip (info : Info2) (i : Int) (v : dReal) :
    (info.setJ1l i v).rowskip = info.rowskip := rfl

@[simp]
theorem Info2.setJ1l_cfm (info : Info2) (i : Int) (v : dReal) :
    (info.setJ1l i v).cfm = info.cfm := rfl

@[simp]
theorem Info2.setJ1l_c (info : Info2) (i : Int) (v : dReal) :
    (info.setJ1l i v).c = info.c := rfl

@[simp]
theorem Info2.setJ1l_lo (info : Info2) (i : Int) (v : dReal) :
    (info.setJ1l i v).lo = info.lo := rfl

@[simp]
theorem Info2.setJ1l_hi (info : Info2) (i : Int) (v : dReal) :
    (info.setJ1l i v).hi = info.hi := rfl

@[simp]
theorem Info2.setJ1l_findex (info : Info2) (i : Int) (v : dReal) :
    (info.setJ1l i v).findex = info.findex := rfl

@[simp]
theorem Info2.setJ2l_fps (info : Info2) (i : Int) (v : dReal) :
    (info.setJ2l i v).fps = info.fps := rfl

@[simp]
theorem Info2.setJ2l_erp (info : Info2) (i : Int) (v : dReal) :
    (info.setJ2l i v).erp = info.erp := rfl

@[simp]
theorem Info2.setJ2l_J1l (info : Info2) (i : Int) (v : dReal) :
    (info.setJ2l i v).J1l = info.J1l := rfl

@[simp]
theorem Info2.setJ2l_J1a (info : Info2) (i : Int) (v : dReal) :
    (info.setJ2l i v).J1a = info.J1a := rfl

@[simp]
theorem Info2.setJ2l_J2l (info : Info2) (i : Int) (v : dReal) :
    (info.setJ2l i v).J2l = info.J2l.set i v := rfl

@[simp]
theorem Info2.setJ2l_J2a (info : Info2) (i : Int) (v : dReal) :
    (info.setJ2l i v).J2a = info.J2a := rfl

@[simp]
theorem Info2.setJ2l_rowskip (info : Info2) (i : Int) (v : dReal) :
    (info.setJ2l i v).rowskip = info.rowskip := rfl

@[simp]
theorem Info2.setJ2l_cfm (info : Info2) (i : Int) (v : dReal) :
    (info.setJ2l i v).cfm = info.cfm := rfl

@[simp]
theorem Info2.setJ2l_c (info : Info2) (i : Int) (v : dReal) :
    (info.setJ2l i v).c = info.c := rfl

@[simp]
theorem Info2.setJ2l_lo (info : Info2) (i : Int) (v : dReal) :
    (info.setJ2l i v).lo = info.lo := rfl

@[simp]
theorem Info2.setJ2l_hi (info : Info2) (i : Int) (v : dReal) :
    (info.setJ2l i v).hi = info.hi := rfl

@[simp]
theorem Info2.setJ2l_findex (info : Info2) (i : Int) (v : dReal) :
    (info.setJ2l i v).findex = info.findex := rfl

@[simp]
theorem Info2.setCfm_fps (info : Info2) (i : Int) (v : dReal) :
    (info.setCfm i v).fps = info.fps := rfl

@[simp]
theorem Info2.setCfm_erp (info : Info2) (i : Int) (v : dReal) :
    (info.setCfm i v).erp = info.erp := rfl

@[simp]
theorem Info2.setCfm_J1l (info : Info2) (i : Int) (v : dReal) :
    (info.setCfm i v).J1l = info.J1l := rfl

@[simp]
theorem Info2.setCfm_J1a (info : Info2) (i : Int) (v : dReal) :
    (info.setCfm i v).J1a = info.J1a := rfl

@[simp]
theorem Info2.setCfm_J2l (info : Info2) (i : Int) (v : dReal) :
    (info.setCfm i v).J2l = info.J2l := rfl

@[simp]
theorem Info2.setCfm_J2a (info : Info2) (i : Int) (v : dReal) :
    (info.setCfm i v).J2a = info.J2a := rfl

@[simp]
theorem Info2.setCfm_rowskip (info : Info2) (i : Int) (v : dReal) :
    (info.setCfm i v).rowskip = info.rowskip := rfl

@[simp]
theorem Info2.setCfm_cfm (info : Info2) (i : Int) (v : dReal) :
    (info.setCfm i v).cfm = info.cfm.set i v := rfl

@[simp]
theorem Info2.setCfm_c (info : Info2) (i : Int) (v : dReal) :
    (info.setCfm i v).c = info.c := rfl

@[simp]
theorem Info2.setCfm_lo (info : Info2) (i : Int) (v : dReal) :
    (info.setCfm i v).lo = info.lo := rfl

@[simp]
theorem Info2.setCfm_hi (info : Info2) (i : Int) (v : dReal) :
    (info.setCfm i v).hi = info.hi := rfl

@[simp]
theorem Info2.setCfm_findex (info : Info2) (i : Int) (v : dReal) :
    (info.setCfm i v).findex = info.findex := rfl

@[simp]
theorem Info2.setC_fps (info : Info2) (i : Int) (v : dReal) :
    (info.setC i v).fps = info.fps := rfl

@[simp]
theorem Info2.setC_erp (info : Info2) (i : Int) (v : dReal) :
    (info.setC i v).erp = info.erp := rfl

@[simp]
theorem Info2.setC_J1l (info : Info2) (i : Int) (v : dReal) :
    (info.setC i v).J1l = info.J1l := rfl

@[simp]
theorem Info2.setC_J1a (info : Info2) (i : Int) (v : dReal) :
    (info.setC i v).J1a = info.J1a := rfl

@[simp]
theorem Info2.setC_J2l (info : Info2) (i : Int) (v : dReal) :
    (info.setC i v).J2l = info.J2l := rfl

@[simp]
theorem Info2.setC_J2a (info : Info2) (i : Int) (v : dReal) :
    (info.setC i v).J2a = info.J2a := rfl

@[simp]
theorem Info2.setC_rowskip (info : Info2) (i : Int) (v : dReal) :
    (info.setC i v).rowskip = info.rowskip := rfl

@[simp]
theorem Info2.setC_cfm (info : Info2) (i : Int) (v : dReal) :
    (info.setC i v).cfm = info.cfm := rfl

@[simp]
theorem Info2.setC_c (info : Info2) (i : Int) (v : dReal) :
    (info.setC i v).c = info.c.set i v := rfl

@[simp]
theorem Info2.setC_lo (info : Info2) (i : Int) (v : dReal) :
    (info.setC i v).lo = info.lo := rfl

@[simp]
theorem Info2.setC_hi (info : Info2) (i : Int) (v : dReal) :
    (info.setC i v).hi = info.hi := rfl

@[simp]
theorem Info2.setC_findex (info : Info2) (i : Int) (v : dReal) :
    (info.setC i v).findex = info.findex := rfl

@[simp]
theorem Info2.setLo_fps (info : Info2) (i : Int) (v : dReal) :
    (info.setLo i v).fps = info.fps := rfl

@[simp]
theorem Info2.setLo_erp (info : Info2) (i : Int) (v : dReal) :
    (info.setLo i v).erp = info.erp := rfl

@[simp]
theorem Info2.setLo_J1l (info : Info2) (i : Int) (v : dReal) :
    (info.setLo i v).J1l = info.J1l := rfl

@[simp]
theorem Info2.setLo_J1a (info : Info2) (i : Int) (v : dReal) :
    (info.setLo i v).J1a = info.J1a := rfl

@[simp]
theorem Info2.setLo_J2l (info : Info2) (i : Int) (v : dReal) :
    (info.setLo i v).J2l = info.J2l := rfl

@[simp]
theorem Info2.setLo_J2a (info : Info2) (i : Int) (v : dReal) :
    (info.setLo i v).J2a = info.J2a := rfl

@[simp]
theorem Info2.setLo_rowskip (info : Info2) (i : Int) (v : dReal) :
    (info.setLo i v).rowskip = info.rowskip := rfl

@[simp]
theorem Info2.setLo_cfm (info : Info2) (i : Int) (v : dReal) :
    (info.setLo i v).cfm = info.cfm := rfl

@[simp]
theorem Info2.setLo_c (info : Info2) (i : Int) (v : dReal) :
    (info.setLo i v).c = info.c := rfl

@[simp]
theorem Info2.setLo_lo (info : Info2) (i : Int) (v : dReal) :
    (info.setLo i v).lo = info.lo.set i v := rfl

@[simp]
theorem Info2.setLo_hi (info : Info2) (i : Int) (v : dReal) :
    (info.setLo i v).hi = info.hi := rfl

@[simp]
theorem Info2.setLo_findex (info : Info2) (i : Int) (v : dReal) :
    (info.setLo i v).findex = info.findex := rfl

@[simp]
theorem Info2.setHi_fps (info : Info2) (i : Int) (v : dReal) :
    (info.setHi i v).fps = info.fps := rfl

@[simp]
theorem Info2.setHi_erp (info : Info2) (i : Int) (v : dReal) :
    (info.setHi i v).erp = info.erp := rfl

@[simp]
theorem Info2.setHi_J1l (info : Info2) (i : Int) (v : dReal) :
    (info.setHi i v).J1l = info.J1l := rfl

@[simp]
theorem Info2.setHi_J1a (info : Info2) (i : Int) (v : dReal) :
    (info.setHi i v).J1a = info.J1a := rfl

@[simp]
theorem Info2.setHi_J2l (info : Info2) (i : Int) (v : dReal) :
    (info.setHi i v).J2l = info.J2l := rfl

@[simp]
theorem Info2.setHi_J2a (info : Info2) (i : Int) (v : dReal) :
    (info.setHi i v).J2a = info.J2a := rfl

@[simp]
theorem Info2.setHi_rowskip (info : Info2) (i : Int) (v : dReal) :
    (info.setHi i v).rowskip = info.rowskip := rfl

@[simp]
theorem Info2.setHi_cfm (info : Info2) (i : Int) (v : dReal) :
    (info.setHi i v).cfm = info.cfm := rfl

@[simp]
theorem Info2.setHi_c (info : Info2) (i : Int) (v : dReal) :
    (info.setHi i v).c = info.c := rfl

@[simp]
theorem Info2.setHi_lo (info : Info2) (i : Int) (v : dReal) :
    (info.setHi i v).lo = info.lo := rfl

@[simp]
theorem Info2.setHi_hi (info : Info2) (i : Int) (v : dReal) :
    (info.setHi i v).hi = info.hi.set i v := rfl

@[simp]
theorem Info2.setHi_findex (info : Info2) (i : Int) (v : dReal) :
    (info.setHi i v).findex = info.findex := rfl

@[simp]
theorem Info2.setFindex_fps (info : Info2) (i : Int) (v : Int) :
    (info.setFindex i v).fps = info.fps := rfl

@[simp]
theorem Info2.setFindex_erp (info : Info2) (i : Int) (v : Int) :
    (info.setFindex i v).erp = info.erp := rfl

@[simp]
theorem Info2.setFindex_J1l (info : Info2) (i : Int) (v : Int) :
    (info.setFindex i v).J1l = info.J1l := rfl

@[simp]
theorem Info2.setFindex_J1a (info : Info2) (i : Int) (v : Int) :
    (info.setFindex i v).J1a = info.J1a := rfl

@[simp]
theorem Info2.setFindex_J2l (info : Info2) (i : Int) (v : Int) :
    (info.setFindex i v).J2l = info.J2l := rfl

@[simp]
theorem Info2.setFindex_J2a (info : Info2) (i : Int) (v : Int) :
    (info.setFindex i v).J2a = info.J2a := rfl

@[simp]
theorem Info2.setFindex_rowskip (info : Info2) (i : Int) (v : Int) :
    (info.setFindex i v).rowskip = info.rowskip := rfl

@[simp]
theorem Info2.setFindex_cfm (info : Info2) (i : Int) (v : Int) :
    (info.setFindex i v).cfm = info.cfm := rfl

@[simp]
theorem Info2.setFindex_c (info : Info2) (i : Int) (v : Int) :
    (info.setFindex i v).c = info.c := rfl

@[simp]
theorem Info2.setFindex_lo (info : Info2) (i : Int) (v : Int) :
    (info.setFindex i v).lo = info.lo := rfl

@[simp]
theorem Info2.setFindex_hi (info : Info2) (i : Int) (v : Int) :
    (info.setFindex i v).hi = info.hi := rfl

@[simp]
theorem Info2.setFindex_findex (info : Info2) (i : Int) (v : Int) :
    (info.setFindex i v).findex = Function.update info.findex i v := rfl

@[simp]
theorem Info2.onJ1l_fps (info : Info2) (f : Buf → Buf) :
    (info.onJ1l f).fps = info.fps := rfl

@[simp]
theorem Info2.onJ1l_erp (info : Info2) (f : Buf → Buf) :
    (info.onJ1l f).erp = info.erp := rfl

@[simp]
theorem Info2.onJ1l_J1l (info : Info2) (f : Buf → Buf) :
    (info.onJ1l f).J1l = f info.J1l := rfl

@[simp]
theorem Info2.onJ1l_J1a (info : Info2) (f : Buf → Buf) :
    (info.onJ1l f).J1a = info.J1a := rfl

@[simp]
theorem Info2.onJ1l_J2l (info : Info2) (f : Buf → Buf) :
    (info.onJ1l f).J2l = info.J2l := rfl

@[simp]
theorem Info2.onJ1l_J2a (info : Info2) (f : Buf → Buf) :
    (info.onJ1l f).J2a = info.J2a := rfl

@[simp]
theorem Info2.onJ1l_rowskip (info : Info2) (f : Buf → Buf) :
    (info.onJ1l f).rowskip = info.rowskip := rfl

@[simp]
theorem Info2.onJ1l_cfm (info : Info2) (f : Buf → Buf) :
    (info.onJ1l f).cfm = info.cfm := rfl

@[simp]
theorem Info2.onJ1l_c (info : Info2) (f : Buf → Buf) :
    (info.onJ1l f).c = info.c := rfl

@[simp]
theorem Info2.onJ1l_lo (info : Info2) (f : Buf → Buf) :
    (info.onJ1l f).lo = info.lo := rfl

@[simp]
theorem Info2.onJ1l_hi (info : Info2) (f : Buf → Buf) :
    (info.onJ1l f).hi = info.hi := rfl

@[simp]
theorem Info2.onJ1l_findex (info : Info2) (f : Buf → Buf) :
    (info.onJ1l f).findex = info.findex := rfl

@[simp]
theorem Info2.onJ1a_fps (info : Info2) (f : Buf → Buf) :
    (info.onJ1a f).fps = info.fps := rfl

@[simp]
theorem Info2.onJ1a_erp (info : Info2) (f : Buf → Buf) :
    (info.onJ1a f).erp = info.erp := rfl

@[simp]
theorem Info2.onJ1a_J1l (info : Info2) (f : Buf → Buf) :
    (info.onJ1a f).J1l = info.J1l := rfl

@[simp]
theorem Info2.onJ1a_J1a (info : Info2) (f : Buf → Buf) :
    (info.onJ1a f).J1a = f info.J1a := rfl

@[simp]
theorem Info2.onJ1a_J2l (info : Info2) (f : Buf → Buf) :
    (info.onJ1a f).J2l = info.J2l := rfl

@[simp]
theorem Info2.onJ1a_J2a (info : Info2) (f : Buf → Buf) :
    (info.onJ1a f).J2a = info.J2a := rfl

@[simp]
theorem Info2.onJ1a_rowskip (info : Info2) (f : Buf → Buf) :
    (info.onJ1a f).rowskip = info.rowskip := rfl

@[simp]
theorem Info2.onJ1a_cfm (info : Info2) (f : Buf → Buf) :
    (info.onJ1a f).cfm = info.cfm := rfl

@[simp]
theorem Info2.onJ1a_c (info : Info2) (f : Buf → Buf) :
    (info.onJ1a f).c = info.c := rfl

@[simp]
theorem Info2.onJ1a_lo (info : Info2) (f : Buf → Buf) :
    (info.onJ1a f).lo = info.lo := rfl

@[simp]
theorem Info2.onJ1a_hi (info : Info2) (f : Buf → Buf) :
    (info.onJ1a f).hi = info.hi := rfl

@[simp]
theorem Info2.onJ1a_findex (info : Info2) (f : Buf → Buf) :
    (info.onJ1a f).findex = info.findex := rfl

@[simp]
theorem Info2.onJ2l_fps (info : Info2) (f : Buf → Buf) :
    (info.onJ2l f).fps = info.fps := rfl

@[simp]
theorem Info2.onJ2l_erp (info : Info2) (f : Buf → Buf) :
    (info.onJ2l f).erp = info.erp := rfl

@[simp]
theorem Info2.onJ2l_J1l (info : Info2) (f : Buf → Buf) :
    (info.onJ2l f).J1l = info.J1l := rfl

@[simp]
theorem Info2.onJ2l_J1a (info : Info2) (f : Buf → Buf) :
    (info.onJ2l f).J1a = info.J1a := rfl

@[simp]
theorem Info2.onJ2l_J2l (info : Info2) (f : Buf → Buf) :
    (info.onJ2l f).J2l = f info.J2l := rfl

@[simp]
theorem Info2.onJ2l_J2a (info : Info2) (f : Buf → Buf) :
    (info.onJ2l f).J2a = info.J2a := rfl

@[simp]
theorem Info2.onJ2l_rowskip (info : Info2) (f : Buf → Buf) :
    (info.onJ2l f).rowskip = info.rowskip := rfl

@[simp]
theorem Info2.onJ2l_cfm (info : Info2) (f : Buf → Buf) :
    (info.onJ2l f).cfm = info.cfm := rfl

@[simp]
theorem Info2.onJ2l_c (info : Info2) (f : Buf → Buf) :
    (info.onJ2l f).c = info.c := rfl

@[simp]
theorem Info2.onJ2l_lo (info : Info2) (f : Buf → Buf) :
    (info.onJ2l f).lo = info.lo := rfl

@[simp]
theorem Info2.onJ2l_hi (info : Info2) (f : Buf → Buf) :
    (info.onJ2l f).hi = info.hi := rfl

@[simp]
theorem Info2.onJ2l_findex (info : Info2) (f : Buf → Buf) :
    (info.onJ2l f).findex = info.findex := rfl

@[simp]
theorem Info2.onJ2a_fps (info : Info2) (f : Buf → Buf) :
    (info.onJ2a f).fps = info.fps := rfl

@[simp]
theorem Info2.onJ2a_erp (info : Info2) (f : Buf → Buf) :
    (info.onJ2a f).erp = info.erp := rfl

@[simp]
theorem Info2.onJ2a_J1l (info : Info2) (f : Buf → Buf) :
    (info.onJ2a f).J1l = info.J1l := rfl

@[simp]
theorem Info2.onJ2a_J1a (info : Info2) (f : Buf → Buf) :
    (info.onJ2a f).J1a = info.J1a := rfl

@[simp]
theorem Info2.onJ2a_J2l (info : Info2) (f : Buf → Buf) :
    (info.onJ2a f).J2l = info.J2l := rfl

@[simp]
theorem Info2.onJ2a_J2a (info : Info2) (f : Buf → Buf) :
    (info.onJ2a f).J2a = f info.J2a := rfl

@[simp]
theorem Info2.onJ2a_rowskip (info : Info2) (f : Buf → Buf) :
    (info.onJ2a f).rowskip = info.rowskip := rfl

@[simp]
theorem Info2.onJ2a_cfm (info : Info2) (f : Buf → Buf) :
    (info.onJ2a f).cfm = info.cfm := rfl

@[simp]
theorem Info2.onJ2a_c (info : Info2) (f : Buf → Buf) :
    (info.onJ2a f).c = info.c := rfl

@[simp]
theorem Info2.onJ2a_lo (info : Info2) (f : Buf → Buf) :
    (info.onJ2a f).lo = info.lo := rfl

@[simp]
theorem Info2.onJ2a_hi (info : Info2) (f : Buf → Buf) :
    (info.onJ2a f).hi = info.hi := rfl

@[simp]
theorem Info2.onJ2a_findex (info : Info2) (f : Buf → Buf) :
    (info.onJ2a f).findex = info.findex := rfl

/-! ## Fields left unchanged by each assembly block -/

@[simp]
theorem getInfo2_normalJacobian_fps (j : dxJointContact) (info : Info2) :
    (getInfo2_normalJacobian j info).fps = info.fps := by
  simp only [getInfo2_normalJacobian, apply_ite Info2.fps, Info2.setJ1l_fps, Info2.setJ2l_fps, Info2.setCfm_fps, Info2.setC_fps, Info2.setLo_fps, Info2.setHi_fps, Info2.setFindex_fps, Info2.onJ1l_fps, Info2.onJ1a_fps, Info2.onJ2l_fps, Info2.onJ2a_fps, ite_self]

@[simp]
theorem getInfo2_normalJacobian_erp (j : dxJointContact) (info : Info2) :
    (getInfo2_normalJacobian j info).erp = info.erp := by
  simp only [getInfo2_normalJacobian, apply_ite Info2.erp, Info2.setJ1l_erp, Info2.setJ2l_erp, Info2.setCfm_erp, Info2.setC_erp, Info2.setLo_erp, Info2.setHi_erp, Info2.setFindex_erp, Info2.onJ1l_erp, Info2.onJ1a_erp, Info2.onJ2l_erp, Info2.onJ2a_erp, ite_self]

@[simp]
theorem getInfo2_normalJacobian_rowskip (j : dxJointContact) (info : Info2) :
    (getInfo2_normalJacobian j info).rowskip = info.rowskip := by
  simp only [getInfo2_normalJacobian, apply_ite Info2.rowskip, Info2.setJ1l_rowskip, Info2.setJ2l_rowskip, Info2.setCfm_rowskip, Info2.setC_rowskip, Info2.setLo_rowskip, Info2.setHi_rowskip, Info2.setFindex_rowskip, Info2.onJ1l_rowskip, Info2.onJ1a_rowskip, Info2.onJ2l_rowskip, Info2.onJ2a_rowskip, ite_self]

@[simp]
theorem getInfo2_normalJacobian_cfm (j : dxJointContact) (info : Info2) :
    (getInfo2_normalJacobian j info).cfm = info.cfm := by
  simp only [getInfo2_normalJacobian, apply_ite Info2.cfm, Info2.setJ1l_cfm, Info2.setJ2l_cfm, Info2.setCfm_cfm, Info2.setC_cfm, Info2.setLo_cfm, Info2.setHi_cfm, Info2.setFindex_cfm, Info2.onJ1l_cfm, Info2.onJ1a_cfm, Info2.onJ2l_cfm, Info2.onJ2a_cfm, ite_self]

@[simp]
theorem getInfo2_normalJacobian_c (j : dxJointContact) (info : Info2) :
    (getInfo2_normalJacobian j info).c = info.c := by
  simp only [getInfo2_normalJacobian, apply_ite Info2.c, Info2.setJ1l_c, Info2.setJ2l_c, Info2.setCfm_c, Info2.setC_c, Info2.setLo_c, Info2.setHi_c, Info2.setFindex_c, Info2.onJ1l_c, Info2.onJ1a_c, Info2.onJ2l_c, Info2.onJ2a_c, ite_self]

@[simp]
theorem getInfo2_normalJacobian_lo (j : dxJointContact) (info : Info2) :
    (getInfo2_normalJacobian j info).lo = info.lo := by
  simp only [getInfo2_normalJacobian, apply_ite Info2.lo, Info2.setJ1l_lo, Info2.setJ2l_lo, Info2.setCfm_lo, Info2.setC_lo, Info2.setLo_lo, Info2.setHi_lo, Info2.setFindex_lo, Info2.onJ1l_lo, Info2.onJ1a_lo, Info2.onJ2l_lo, Info2.onJ2a_lo, ite_self]

@[simp]
theorem getInfo2_normalJacobian_hi (j : dxJointContact) (info : Info2) :
    (getInfo2_normalJacobian j info).hi = info.hi := by
  simp only [getInfo2_normalJacobian, apply_ite Info2.hi, Info2.setJ1l_hi, Info2.setJ2l_hi, Info2.setCfm_hi, Info2.setC_hi, Info2.setLo_hi, Info2.setHi_hi, Info2.setFindex_hi, Info2.onJ1l_hi, Info2.onJ1a_hi, Info2.onJ2l_hi, Info2.onJ2a_hi, ite_self]

@[simp]
theorem getInfo2_normalJacobian_findex (j : dxJointContact) (info : Info2) :
    (getInfo2_normalJacobian j info).findex = info.findex := by
  simp only [getInfo2_normalJacobian, apply_ite Info2.findex, Info2.setJ1l_findex, Info2.setJ2l_findex, Info2.setCfm_findex, Info2.setC_findex, Info2.setLo_findex, Info2.setHi_findex, Info2.setFindex_findex, Info2.onJ1l_findex, Info2.onJ1a_findex, Info2.onJ2l_findex, Info2.onJ2a_findex, ite_self]

@[simp]
theorem getInfo2_normalRhs_fps (j : dxJointContact) (info : Info2) :
    (getInfo2_normalRhs j info).fps = info.fps := by
  simp only [getInfo2_normalRhs, apply_ite Info2.fps, Info2.setJ1l_fps, Info2.setJ2l_fps, Info2.setCfm_fps, Info2.setC_fps, Info2.setLo_fps, Info2.setHi_fps, Info2.setFindex_fps, Info2.onJ1l_fps, Info2.onJ1a_fps, Info2.onJ2l_fps, Info2.onJ2a_fps, ite_self]

@[simp]
theorem getInfo2_normalRhs_erp (j : dxJointContact) (info : Info2) :
    (getInfo2_normalRhs j info).erp = info.erp := by
  simp only [getInfo2_normalRhs, apply_ite Info2.erp, Info2.setJ1l_erp, Info2.setJ2l_erp, Info2.setCfm_erp, Info2.setC_erp, Info2.setLo_erp, Info2.setHi_erp, Info2.setFindex_erp, Info2.onJ1l_erp, Info2.onJ1a_erp, Info2.onJ2l_erp, Info2.onJ2a_erp, ite_self]

@[simp]
theorem getInfo2_normalRhs_J1l (j : dxJointContact) (info : Info2) :
    (getInfo2_normalRhs j info).J1l = info.J1l := by
  simp only [getInfo2_normalRhs, apply_ite Info2.J1l, Info2.setJ1l_J1l, Info2.setJ2l_J1l, Info2.setCfm_J1l, Info2.setC_J1l, Info2.setLo_J1l, Info2.setHi_J1l, Info2.setFindex_J1l, Info2.onJ1l_J1l, Info2.onJ1a_J1l, Info2.onJ2l_J1l, Info2.onJ2a_J1l, ite_self]

@[simp]
theorem getInfo2_normalRhs_J1a (j : dxJointContact) (info : Info2) :
    (getInfo2_normalRhs j info).J1a = info.J1a := by
  simp only [getInfo2_normalRhs, apply_ite Info2.J1a, Info2.setJ1l_J1a, Info2.setJ2l_J1a, Info2.setCfm_J1a, Info2.setC_J1a, Info2.setLo_J1a, Info2.setHi_J1a, Info2.setFindex_J1a, Info2.onJ1l_J1a, Info2.onJ1a_J1a, Info2.onJ2l_J1a, Info2.onJ2a_J1a, ite_self]

@[simp]
theorem getInfo2_normalRhs_J2l (j : dxJointContact) (info : Info2) :
    (getInfo2_normalRhs j info).J2l = info.J2l := by
  simp only [getInfo2_normalRhs, apply_ite Info2.J2l, Info2.setJ1l_J2l, Info2.setJ2l_J2l, Info2.setCfm_J2l, Info2.setC_J2l, Info2.setLo_J2l, Info2.setHi_J2l, Info2.setFindex_J2l, Info2.onJ1l_J2l, Info2.onJ1a_J2l, Info2.onJ2l_J2l, Info2.onJ2a_J2l, ite_self]

@[simp]
theorem getInfo2_normalRhs_J2a (j : dxJointContact) (info : Info2) :
    (getInfo2_normalRhs j info).J2a = info.J2a := by
  simp only [getInfo2_normalRhs, apply_ite Info2.J2a, Info2.setJ1l_J2a, Info2.setJ2l_J2a, Info2.setCfm_J2a, Info2.setC_J2a, Info2.setLo_J2a, Info2.setHi_J2a, Info2.setFindex_J2a, Info2.onJ1l_J2a, Info2.onJ1a_J2a, Info2.onJ2l_J2a, Info2.onJ2a_J2a, ite_self]

@[simp]
theorem getInfo2_normalRhs_rowskip (j : dxJointContact) (info : Info2) :
    (getInfo2_normalRhs j info).rowskip = info.rowskip := by
  simp only [getInfo2_normalRhs, apply_ite Info2.rowskip, Info2.setJ1l_rowskip, Info2.setJ2l_rowskip, Info2.setCfm_rowskip, Info2.setC_rowskip, Info2.setLo_rowskip, Info2.setHi_rowskip, Info2.setFindex_rowskip, Info2.onJ1l_rowskip, Info2.onJ1a_rowskip, Info2.onJ2l_rowskip, Info2.onJ2a_rowskip, ite_self]

@[simp]
theorem getInfo2_normalRhs_lo (j : dxJointContact) (info : Info2) :
    (getInfo2_normalRhs j info).lo = info.lo := by
  simp only [getInfo2_normalRhs, apply_ite Info2.lo, Info2.setJ1l_lo, Info2.setJ2l_lo, Info2.setCfm_lo, Info2.setC_lo, Info2.setLo_lo, Info2.setHi_lo, Info2.setFindex_lo, Info2.onJ1l_lo, Info2.onJ1a_lo, Info2.onJ2l_lo, Info2.onJ2a_lo, ite_self]

@[simp]
theorem getInfo2_normalRhs_hi (j : dxJointContact) (info : Info2) :
    (getInfo2_normalRhs j info).hi = info.hi := by
  simp only [getInfo2_normalRhs, apply_ite Info2.hi, Info2.setJ1l_hi, Info2.setJ2l_hi, Info2.setCfm_hi, Info2.setC_hi, Info2.setLo_hi, Info2.setHi_hi, Info2.setFindex_hi, Info2.onJ1l_hi, Info2.onJ1a_hi, Info2.onJ2l_hi, Info2.onJ2a_hi, ite_self]

@[simp]
theorem getInfo2_normalRhs_findex (j : dxJointContact) (info : Info2) :
    (getInfo2_normalRhs j info).findex = info.findex := by
  simp only [getInfo2_normalRhs, apply_ite Info2.findex, Info2.setJ1l_findex, Info2.setJ2l_findex, Info2.setCfm_findex, Info2.setC_findex, Info2.setLo_findex, Info2.setHi_findex, Info2.setFindex_findex, Info2.onJ1l_findex, Info2.onJ1a_findex, Info2.onJ2l_findex, Info2.onJ2a_findex, ite_self]

@[simp]
theorem getInfo2_bounce_fps (j : dxJointContact) (info : Info2) :
    (getInfo2_bounce j info).fps = info.fps := by
  simp only [getInfo2_bounce, apply_ite Info2.fps, Info2.setJ1l_fps, Info2.setJ2l_fps, Info2.setCfm_fps, Info2.setC_fps, Info2.setLo_fps, Info2.setHi_fps, Info2.setFindex_fps, Info2.onJ1l_fps, Info2.onJ1a_fps, Info2.onJ2l_fps, Info2.onJ2a_fps, ite_self]

@[simp]
theorem getInfo2_bounce_erp (j : dxJointContact) (info : Info2) :
    (getInfo2_bounce j info).erp = info.erp := by
  simp only [getInfo2_bounce, apply_ite Info2.erp, Info2.setJ1l_erp, Info2.setJ2l_erp, Info2.setCfm_erp, Info2.setC_erp, Info2.setLo_erp, Info2.setHi_erp, Info2.setFindex_erp, Info2.onJ1l_erp, Info2.onJ1a_erp, Info2.onJ2l_erp, Info2.onJ2a_erp, ite_self]

@[simp]
theorem getInfo2_bounce_J1l (j : dxJointContact) (info : Info2) :
    (getInfo2_bounce j info).J1l = info.J1l := by
  simp only [getInfo2_bounce, apply_ite Info2.J1l, Info2.setJ1l_J1l, Info2.setJ2l_J1l, Info2.setCfm_J1l, Info2.setC_J1l, Info2.setLo_J1l, Info2.setHi_J1l, Info2.setFindex_J1l, Info2.onJ1l_J1l, Info2.onJ1a_J1l, Info2.onJ2l_J1l, Info2.onJ2a_J1l, ite_self]

@[simp]
theorem getInfo2_bounce_J1a (j : dxJointContact) (info : Info2) :
    (getInfo2_bounce j info).J1a = info.J1a := by
  simp only [getInfo2_bounce, apply_ite Info2.J1a, Info2.setJ1l_J1a, Info2.setJ2l_J1a, Info2.setCfm_J1a, Info2.setC_J1a, Info2.setLo_J1a, Info2.setHi_J1a, Info2.setFindex_J1a, Info2.onJ1l_J1a, Info2.onJ1a_J1a, Info2.onJ2l_J1a, Info2.onJ2a_J1a, ite_self]

@[simp]
theorem getInfo2_bounce_J2l (j : dxJointContact) (info : Info2) :
    (getInfo2_bounce j info).J2l = info.J2l := by
  simp only [getInfo2_bounce, apply_ite Info2.J2l, Info2.setJ1l_J2l, Info2.setJ2l_J2l, Info2.setCfm_J2l, Info2.setC_J2l, Info2.setLo_J2l, Info2.setHi_J2l, Info2.setFindex_J2l, Info2.onJ1l_J2l, Info2.onJ1a_J2l, Info2.onJ2l_J2l, Info2.onJ2a_J2l, ite_self]

@[simp]
theorem getInfo2_bounce_J2a (j : dxJointContact) (info : Info2) :
    (getInfo2_bounce j info).J2a = info.J2a := by
  simp only [getInfo2_bounce, apply_ite Info2.J2a, Info2.setJ1l_J2a, Info2.setJ2l_J2a, Info2.setCfm_J2a, Info2.setC_J2a, Info2.setLo_J2a, Info2.setHi_J2a, Info2.setFindex_J2a, Info2.onJ1l_J2a, Info2.onJ1a_J2a, Info2.onJ2l_J2a, Info2.onJ2a_J2a, ite_self]

@[simp]
theorem getInfo2_bounce_rowskip (j : dxJointContact) (info : Info2) :
    (getInfo2_bounce j info).rowskip = info.rowskip := by
  simp only [getInfo2_bounce, apply_ite Info2.rowskip, Info2.setJ1l_rowskip, Info2.setJ2l_rowskip, Info2.setCfm_rowskip, Info2.setC_rowskip, Info2.setLo_rowskip, Info2.setHi_rowskip, Info2.setFindex_rowskip, Info2.onJ1l_rowskip, Info2.onJ1a_rowskip, Info2.onJ2l_rowskip, Info2.onJ2a_rowskip, ite_self]

@[simp]
theorem getInfo2_bounce_cfm (j : dxJointContact) (info : Info2) :
    (getInfo2_bounce j info).cfm = info.cfm := by
  simp only [getInfo2_bounce, apply_ite Info2.cfm, Info2.setJ1l_cfm, Info2.setJ2l_cfm, Info2.setCfm_cfm, Info2.setC_cfm, Info2.setLo_cfm, Info2.setHi_cfm, Info2.setFindex_cfm, Info2.onJ1l_cfm, Info2.onJ1a_cfm, Info2.onJ2l_cfm, Info2.onJ2a_cfm, ite_self]

@[simp]
theorem getInfo2_bounce_lo (j : dxJointContact) (info : Info2) :
    (getInfo2_bounce j info).lo = info.lo := by
  simp only [getInfo2_bounce, apply_ite Info2.lo, Info2.setJ1l_lo, Info2.setJ2l_lo, Info2.setCfm_lo, Info2.setC_lo, Info2.setLo_lo, Info2.setHi_lo, Info2.setFindex_lo, Info2.onJ1l_lo, Info2.onJ1a_lo, Info2.onJ2l_lo, Info2.onJ2a_lo, ite_self]

@[simp]
theorem getInfo2_bounce_hi (j : dxJointContact) (info : Info2) :
    (getInfo2_bounce j info).hi = info.hi := by
  simp only [getInfo2_bounce, apply_ite Info2.hi, Info2.setJ1l_hi, Info2.setJ2l_hi, Info2.setCfm_hi, Info2.setC_hi, Info2.setLo_hi, Info2.setHi_hi, Info2.setFindex_hi, Info2.onJ1l_hi, Info2.onJ1a_hi, Info2.onJ2l_hi, Info2.onJ2a_hi, ite_self]

@[simp]
theorem getInfo2_bounce_findex (j : dxJointContact) (info : Info2) :
    (getInfo2_bounce j info).findex = info.findex := by
  simp only [getInfo2_bounce, apply_ite Info2.findex, Info2.setJ1l_findex, Info2.setJ2l_findex, Info2.setCfm_findex, Info2.setC_findex, Info2.setLo_findex, Info2.setHi_findex, Info2.setFindex_findex, Info2.onJ1l_findex, Info2.onJ1a_findex, Info2.onJ2l_findex, Info2.onJ2a_findex, ite_self]

@[simp]
theorem getInfo2_normalLimits_fps (info : Info2) :
    (getInfo2_normalLimits info).fps = info.fps := by
  simp only [getInfo2_normalLimits, apply_ite Info2.fps, Info2.setJ1l_fps, Info2.setJ2l_fps, Info2.setCfm_fps, Info2.setC_fps, Info2.setLo_fps, Info2.setHi_fps, Info2.setFindex_fps, Info2.onJ1l_fps, Info2.onJ1a_fps, Info2.onJ2l_fps, Info2.onJ2a_fps, ite_self]

@[simp]
theorem getInfo2_normalLimits_erp (info : Info2) :
    (getInfo2_normalLimits info).erp = info.erp := by
  simp only [getInfo2_normalLimits, apply_ite Info2.erp, Info2.setJ1l_erp, Info2.setJ2l_erp, Info2.setCfm_erp, Info2.setC_erp, Info2.setLo_erp, Info2.setHi_erp, Info2.setFindex_erp, Info2.onJ1l_erp, Info2.onJ1a_erp, Info2.onJ2l_erp, Info2.onJ2a_erp, ite_self]

@[simp]
theorem getInfo2_normalLimits_J1l (info : Info2) :
    (getInfo2_normalLimits info).J1l = info.J1l := by
  simp only [getInfo2_normalLimits, apply_ite Info2.J1l, Info2.setJ1l_J1l, Info2.setJ2l_J1l, Info2.setCfm_J1l, Info2.setC_J1l, Info2.setLo_J1l, Info2.setHi_J1l, Info2.setFindex_J1l, Info2.onJ1l_J1l, Info2.onJ1a_J1l, Info2.onJ2l_J1l, Info2.onJ2a_J1l, ite_self]

@[simp]
theorem getInfo2_normalLimits_J1a (info : Info2) :
    (getInfo2_normalLimits info).J1a = info.J1a := by
  simp only [getInfo2_normalLimits, apply_ite Info2.J1a, Info2.setJ1l_J1a, Info2.setJ2l_J1a, Info2.setCfm_J1a, Info2.setC_J1a, Info2.setLo_J1a, Info2.setHi_J1a, Info2.setFindex_J1a, Info2.onJ1l_J1a, Info2.onJ1a_J1a, Info2.onJ2l_J1a, Info2.onJ2a_J1a, ite_self]

@[simp]
theorem getInfo2_normalLimits_J2l (info : Info2) :
    (getInfo2_normalLimits info).J2l = info.J2l := by
  simp only [getInfo2_normalLimits, apply_ite Info2.J2l, Info2.setJ1l_J2l, Info2.setJ2l_J2l, Info2.setCfm_J2l, Info2.setC_J2l, Info2.setLo_J2l, Info2.setHi_J2l, Info2.setFindex_J2l, Info2.onJ1l_J2l, Info2.onJ1a_J2l, Info2.onJ2l_J2l, Info2.onJ2a_J2l, ite_self]

@[simp]
theorem getInfo2_normalLimits_J2a (info : Info2) :
    (getInfo2_normalLimits info).J2a = info.J2a := by
  simp only [getInfo2_normalLimits, apply_ite Info2.J2a, Info2.setJ1l_J2a, Info2.setJ2l_J2a, Info2.setCfm_J2a, Info2.setC_J2a, Info2.setLo_J2a, Info2.setHi_J2a, Info2.setFindex_J2a, Info2.onJ1l_J2a, Info2.onJ1a_J2a, Info2.onJ2l_J2a, Info2.onJ2a_J2a, ite_self]

@[simp]
theorem getInfo2_normalLimits_rowskip (info : Info2) :
    (getInfo2_normalLimits info).rowskip = info.rowskip := by
  simp only [getInfo2_normalLimits, apply_ite Info2.rowskip, Info2.setJ1l_rowskip, Info2.setJ2l_rowskip, Info2.setCfm_rowskip, Info2.setC_rowskip, Info2.setLo_rowskip, Info2.setHi_rowskip, Info2.setFindex_rowskip, Info2.onJ1l_rowskip, Info2.onJ1a_rowskip, Info2.onJ2l_rowskip, Info2.onJ2a_rowskip, ite_self]

@[simp]
theorem getInfo2_normalLimits_cfm (info : Info2) :
    (getInfo2_normalLimits info).cfm = info.cfm := by
  simp only [getInfo2_normalLimits, apply_ite Info2.cfm, Info2.setJ1l_cfm, Info2.setJ2l_cfm, Info2.setCfm_cfm, Info2.setC_cfm, Info2.setLo_cfm, Info2.setHi_cfm, Info2.setFindex_cfm, Info2.onJ1l_cfm, Info2.onJ1a_cfm, Info2.onJ2l_cfm, Info2.onJ2a_cfm, ite_self]

@[simp]
theorem getInfo2_normalLimits_c (info : Info2) :
    (getInfo2_normalLimits info).c = info.c := by
  simp only [getInfo2_normalLimits, apply_ite Info2.c, Info2.setJ1l_c, Info2.setJ2l_c, Info2.setCfm_c, Info2.setC_c, Info2.setLo_c, Info2.setHi_c, Info2.setFindex_c, Info2.onJ1l_c, Info2.onJ1a_c, Info2.onJ2l_c, Info2.onJ2a_c, ite_self]

@[simp]
theorem getInfo2_normalLimits_findex (info : Info2) :
    (getInfo2_normalLimits info).findex = info.findex := by
  simp only [getInfo2_normalLimits, apply_ite Info2.findex, Info2.setJ1l_findex, Info2.setJ2l_findex, Info2.setCfm_findex, Info2.setC_findex, Info2.setLo_findex, Info2.setHi_findex, Info2.setFindex_findex, Info2.onJ1l_findex, Info2.onJ1a_findex, Info2.onJ2l_findex, Info2.onJ2a_findex, ite_self]

@[simp]
theorem getInfo2_friction1_fps (P : Vec3 → Vec3 × Vec3) (j : dxJointContact) (info : Info2) :
    (getInfo2_friction1 P j info).fps = info.fps := by
  simp only [getInfo2_friction1, apply_ite Info2.fps, Info2.setJ1l_fps, Info2.setJ2l_fps, Info2.setCfm_fps, Info2.setC_fps, Info2.setLo_fps, Info2.setHi_fps, Info2.setFindex_fps, Info2.onJ1l_fps, Info2.onJ1a_fps, Info2.onJ2l_fps, Info2.onJ2a_fps, ite_self]

@[simp]
theorem getInfo2_friction1_erp (P : Vec3 → Vec3 × Vec3) (j : dxJointContact) (info : Info2) :
    (getInfo2_friction1 P j info).erp = info.erp := by
  simp only [getInfo2_friction1, apply_ite Info2.erp, Info2.setJ1l_erp, Info2.setJ2l_erp, Info2.setCfm_erp, Info2.setC_erp, Info2.setLo_erp, Info2.setHi_erp, Info2.setFindex_erp, Info2.onJ1l_erp, Info2.onJ1a_erp, Info2.onJ2l_erp, Info2.onJ2a_erp, ite_self]

@[simp]
theorem getInfo2_friction1_rowskip (P : Vec3 → Vec3 × Vec3) (j : dxJointContact) (info : Info2) :
    (getInfo2_friction1 P j info).rowskip = info.rowskip := by
  simp only [getInfo2_friction1, apply_ite Info2.rowskip, Info2.setJ1l_rowskip, Info2.setJ2l_rowskip, Info2.setCfm_rowskip, Info2.setC_rowskip, Info2.setLo_rowskip, Info2.setHi_rowskip, Info2.setFindex_rowskip, Info2.onJ1l_rowskip, Info2.onJ1a_rowskip, Info2.onJ2l_rowskip, Info2.onJ2a_rowskip, ite_self]

@[simp]
theorem getInfo2_friction2_fps (P : Vec3 → Vec3 × Vec3) (j : dxJointContact) (info : Info2) :
    (getInfo2_friction2 P j info).fps = info.fps := by
  simp only [getInfo2_friction2, apply_ite Info2.fps, Info2.setJ1l_fps, Info2.setJ2l_fps, Info2.setCfm_fps, Info2.setC_fps, Info2.setLo_fps, Info2.setHi_fps, Info2.setFindex_fps, Info2.onJ1l_fps, Info2.onJ1a_fps, Info2.onJ2l_fps, Info2.onJ2a_fps, ite_self]

@[simp]
theorem getInfo2_friction2_erp (P : Vec3 → Vec3 × Vec3) (j : dxJointContact) (info : Info2) :
    (getInfo2_friction2 P j info).erp = info.erp := by
  simp only [getInfo2_friction2, apply_ite Info2.erp, Info2.setJ1l_erp, Info2.setJ2l_erp, Info2.setCfm_erp, Info2.setC_erp, Info2.setLo_erp, Info2.setHi_erp, Info2.setFindex_erp, Info2.onJ1l_erp, Info2.onJ1a_erp, Info2.onJ2l_erp, Info2.onJ2a_erp, ite_self]

@[simp]
theorem getInfo2_friction2_rowskip (P : Vec3 → Vec3 × Vec3) (j : dxJointContact) (info : Info2) :
    (getInfo2_friction2 P j info).rowskip = info.rowskip := by
  simp only [getInfo2_friction2, apply_ite Info2.rowskip, Info2.setJ1l_rowskip, Info2.setJ2l_rowskip, Info2.setCfm_rowskip, Info2.setC_rowskip, Info2.setLo_rowskip, Info2.setHi_rowskip, Info2.setFindex_rowskip, Info2.onJ1l_rowskip, Info2.onJ1a_rowskip, Info2.onJ2l_rowskip, Info2.onJ2a_rowskip, ite_self]

@[simp]
theorem simpleGetInfo2_normalJacobian_fps (j : dxJointContact) (info : Info2) :
    (simpleGetInfo2_normalJacobian j info).fps = info.fps := by
  simp only [simpleGetInfo2_normalJacobian, apply_ite Info2.fps, Info2.setJ1l_fps, Info2.setJ2l_fps, Info2.setCfm_fps, Info2.setC_fps, Info2.setLo_fps, Info2.setHi_fps, Info2.setFindex_fps, Info2.onJ1l_fps, Info2.onJ1a_fps, Info2.onJ2l_fps, Info2.onJ2a_fps, ite_self]

@[simp]
theorem simpleGetInfo2_normalJacobian_erp (j : dxJointContact) (info : Info2) :
    (simpleGetInfo2_normalJacobian j info).erp = info.erp := by
  simp only [simpleGetInfo2_normalJacobian, apply_ite Info2.erp, Info2.setJ1l_erp, Info2.setJ2l_erp, Info2.setCfm_erp, Info2.setC_erp, Info2.setLo_erp, Info2.setHi_erp, Info2.setFindex_erp, Info2.onJ1l_erp, Info2.onJ1a_erp, Info2.onJ2l_erp, Info2.onJ2a_erp, ite_self]

@[simp]
theorem simpleGetInfo2_normalJacobian_rowskip (j : dxJointContact) (info : Info2) :
    (simpleGetInfo2_normalJacobian j info).rowskip = info.rowskip := by
  simp only [simpleGetInfo2_normalJacobian, apply_ite Info2.rowskip, Info2.setJ1l_rowskip, Info2.setJ2l_rowskip, Info2.setCfm_rowskip, Info2.setC_rowskip, Info2.setLo_rowskip, Info2.setHi_rowskip, Info2.setFindex_rowskip, Info2.onJ1l_rowskip, Info2.onJ1a_rowskip, Info2.onJ2l_rowskip, Info2.onJ2a_rowskip, ite_self]

@[simp]
theorem simpleGetInfo2_normalJacobian_cfm (j : dxJointContact) (info : Info2) :
    (simpleGetInfo2_normalJacobian j info).cfm = info.cfm := by
  simp only [simpleGetInfo2_normalJacobian, apply_ite Info2.cfm, Info2.setJ1l_cfm, Info2.setJ2l_cfm, Info2.setCfm_cfm, Info2.setC_cfm, Info2.setLo_cfm, Info2.setHi_cfm, Info2.setFindex_cfm, Info2.onJ1l_cfm, Info2.onJ1a_cfm, Info2.onJ2l_cfm, Info2.onJ2a_cfm, ite_self]

@[simp]
theorem simpleGetInfo2_normalJacobian_c (j : dxJointContact) (info : Info2) :
    (simpleGetInfo2_normalJacobian j info).c = info.c := by
  simp only [simpleGetInfo2_normalJacobian, apply_ite Info2.c, Info2.setJ1l_c, Info2.setJ2l_c, Info2.setCfm_c, Info2.setC_c, Info2.setLo_c, Info2.setHi_c, Info2.setFindex_c, Info2.onJ1l_c, Info2.onJ1a_c, Info2.onJ2l_c, Info2.onJ2a_c, ite_self]

@[simp]
theorem simpleGetInfo2_normalJacobian_lo (j : dxJointContact) (info : Info2) :
    (simpleGetInfo2_normalJacobian j info).lo = info.lo := by
  simp only [simpleGetInfo2_normalJacobian, apply_ite Info2.lo, Info2.setJ1l_lo, Info2.setJ2l_lo, Info2.setCfm_lo, Info2.setC_lo, Info2.setLo_lo, Info2.setHi_lo, Info2.setFindex_lo, Info2.onJ1l_lo, Info2.onJ1a_lo, Info2.onJ2l_lo, Info2.onJ2a_lo, ite_self]

@[simp]
theorem simpleGetInfo2_normalJacobian_hi (j : dxJointContact) (info : Info2) :
    (simpleGetInfo2_normalJacobian j info).hi = info.hi := by
  simp only [simpleGetInfo2_normalJacobian, apply_ite Info2.hi, Info2.setJ1l_hi, Info2.setJ2l_hi, Info2.setCfm_hi, Info2.setC_hi, Info2.setLo_hi, Info2.setHi_hi, Info2.setFindex_hi, Info2.onJ1l_hi, Info2.onJ1a_hi, Info2.onJ2l_hi, Info2.onJ2a_hi, ite_self]

@[simp]
theorem simpleGetInfo2_normalJacobian_findex (j : dxJointContact) (info : Info2) :
    (simpleGetInfo2_normalJacobian j info).findex = info.findex := by
  simp only [simpleGetInfo2_normalJacobian, apply_ite Info2.findex, Info2.setJ1l_findex, Info2.setJ2l_findex, Info2.setCfm_findex, Info2.setC_findex, Info2.setLo_findex, Info2.setHi_findex, Info2.setFindex_findex, Info2.onJ1l_findex, Info2.onJ1a_findex, Info2.onJ2l_findex, Info2.onJ2a_findex, ite_self]

@[simp]
theorem simpleGetInfo2_normalRhs_fps (j : dxJointContact) (info : Info2) :
    (simpleGetInfo2_normalRhs j info).fps = info.fps := by
  simp only [simpleGetInfo2_normalRhs, apply_ite Info2.fps, Info2.setJ1l_fps, Info2.setJ2l_fps, Info2.setCfm_fps, Info2.setC_fps, Info2.setLo_fps, Info2.setHi_fps, Info2.setFindex_fps, Info2.onJ1l_fps, Info2.onJ1a_fps, Info2.onJ2l_fps, Info2.onJ2a_fps, ite_self]

@[simp]
theorem simpleGetInfo2_normalRhs_erp (j : dxJointContact) (info : Info2) :
    (simpleGetInfo2_normalRhs j info).erp = info.erp := by
  simp only [simpleGetInfo2_normalRhs, apply_ite Info2.erp, Info2.setJ1l_erp, Info2.setJ2l_erp, Info2.setCfm_erp, Info2.setC_erp, Info2.setLo_erp, Info2.setHi_erp, Info2.setFindex_erp, Info2.onJ1l_erp, Info2.onJ1a_erp, Info2.onJ2l_erp, Info2.onJ2a_erp, ite_self]

@[simp]
theorem simpleGetInfo2_normalRhs_J1l (j : dxJointContact) (info : Info2) :
    (simpleGetInfo2_normalRhs j info).J1l = info.J1l := by
  simp only [simpleGetInfo2_normalRhs, apply_ite Info2.J1l, Info2.setJ1l_J1l, Info2.setJ2l_J1l, Info2.setCfm_J1l, Info2.setC_J1l, Info2.setLo_J1l, Info2.setHi_J1l, Info2.setFindex_J1l, Info2.onJ1l_J1l, Info2.onJ1a_J1l, Info2.onJ2l_J1l, Info2.onJ2a_J1l, ite_self]

@[simp]
theorem simpleGetInfo2_normalRhs_J1a (j : dxJointContact) (info : Info2) :
    (simpleGetInfo2_normalRhs j info).J1a = info.J1a := by
  simp only [simpleGetInfo2_normalRhs, apply_ite Info2.J1a, Info2.setJ1l_J1a, Info2.setJ2l_J1a, Info2.setCfm_J1a, Info2.setC_J1a, Info2.setLo_J1a, Info2.setHi_J1a, Info2.setFindex_J1a, Info2.onJ1l_J1a, Info2.onJ1a_J1a, Info2.onJ2l_J1a, Info2.onJ2a_J1a, ite_self]

@[simp]
theorem simpleGetInfo2_normalRhs_J2l (j : dxJointContact) (info : Info2) :
    (simpleGetInfo2_normalRhs j info).J2l = info.J2l := by
  simp only [simpleGetInfo2_normalRhs, apply_ite Info2.J2l, Info2.setJ1l_J2l, Info2.setJ2l_J2l, Info2.setCfm_J2l, Info2.setC_J2l, Info2.setLo_J2l, Info2.setHi_J2l, Info2.setFindex_J2l, Info2.onJ1l_J2l, Info2.onJ1a_J2l, Info2.onJ2l_J2l, Info2.onJ2a_J2l, ite_self]

@[simp]
theorem simpleGetInfo2_normalRhs_J2a (j : dxJointContact) (info : Info2) :
    (simpleGetInfo2_normalRhs j info).J2a = info.J2a := by
  simp only [simpleGetInfo2_normalRhs, apply_ite Info2.J2a, Info2.setJ1l_J2a, Info2.setJ2l_J2a, Info2.setCfm_J2a, Info2.setC_J2a, Info2.setLo_J2a, Info2.setHi_J2a, Info2.setFindex_J2a, Info2.onJ1l_J2a, Info2.onJ1a_J2a, Info2.onJ2l_J2a, Info2.onJ2a_J2a, ite_self]

@[simp]
theorem simpleGetInfo2_normalRhs_rowskip (j : dxJointContact) (info : Info2) :
    (simpleGetInfo2_normalRhs j info).rowskip = info.rowskip := by
  simp only [simpleGetInfo2_normalRhs, apply_ite Info2.rowskip, Info2.setJ1l_rowskip, Info2.setJ2l_rowskip, Info2.setCfm_rowskip, Info2.setC_rowskip, Info2.setLo_rowskip, Info2.setHi_rowskip, Info2.setFindex_rowskip, Info2.onJ1l_rowskip, Info2.onJ1a_rowskip, Info2.onJ2l_rowskip, Info2.onJ2a_rowskip, ite_self]

@[simp]
theorem simpleGetInfo2_normalRhs_cfm (j : dxJointContact) (info : Info2) :
    (simpleGetInfo2_normalRhs j info).cfm = info.cfm := by
  simp only [simpleGetInfo2_normalRhs, apply_ite Info2.cfm, Info2.setJ1l_cfm, Info2.setJ2l_cfm, Info2.setCfm_cfm, Info2.setC_cfm, Info2.setLo_cfm, Info2.setHi_cfm, Info2.setFindex_cfm, Info2.onJ1l_cfm, Info2.onJ1a_cfm, Info2.onJ2l_cfm, Info2.onJ2a_cfm, ite_self]

@[simp]
theorem simpleGetInfo2_normalRhs_findex (j : dxJointContact) (info : Info2) :
    (simpleGetInfo2_normalRhs j info).findex = info.findex := by
  simp only [simpleGetInfo2_normalRhs, apply_ite Info2.findex, Info2.setJ1l_findex, Info2.setJ2l_findex, Info2.setCfm_findex, Info2.setC_findex, Info2.setLo_findex, Info2.setHi_findex, Info2.setFindex_findex, Info2.onJ1l_findex, Info2.onJ1a_findex, Info2.onJ2l_findex, Info2.onJ2a_findex, ite_self]

@[simp]
theorem simpleGetInfo2_friction1_fps (P : Vec3 → Vec3 × Vec3) (j : dxJointContact) (info : Info2) :
    (simpleGetInfo2_friction1 P j info).fps = info.fps := by
  simp only [simpleGetInfo2_friction1, apply_ite Info2.fps, Info2.setJ1l_fps, Info2.setJ2l_fps, Info2.setCfm_fps, Info2.setC_fps, Info2.setLo_fps, Info2.setHi_fps, Info2.setFindex_fps, Info2.onJ1l_fps, Info2.onJ1a_fps, Info2.onJ2l_fps, Info2.onJ2a_fps, ite_self]

@[simp]
theorem simpleGetInfo2_friction1_erp (P : Vec3 → Vec3 × Vec3) (j : dxJointContact) (info : Info2) :
    (simpleGetInfo2_friction1 P j info).erp = info.erp := by
  simp only [simpleGetInfo2_friction1, apply_ite Info2.erp, Info2.setJ1l_erp, Info2.setJ2l_erp, Info2.setCfm_erp, Info2.setC_erp, Info2.setLo_erp, Info2.setHi_erp, Info2.setFindex_erp, Info2.onJ1l_erp, Info2.onJ1a_erp, Info2.onJ2l_erp, Info2.onJ2a_erp, ite_self]

@[simp]
theorem simpleGetInfo2_friction1_rowskip (P : Vec3 → Vec3 × Vec3) (j : dxJointContact) (info : Info2) :
    (simpleGetInfo2_friction1 P j info).rowskip = info.rowskip := by
  simp only [simpleGetInfo2_friction1, apply_ite Info2.rowskip, Info2.setJ1l_rowskip, Info2.setJ2l_rowskip, Info2.setCfm_rowskip, Info2.setC_rowskip, Info2.setLo_rowskip, Info2.setHi_rowskip, Info2.setFindex_rowskip, Info2.onJ1l_rowskip, Info2.onJ1a_rowskip, Info2.onJ2l_rowskip, Info2.onJ2a_rowskip, ite_self]

@[simp]
theorem simpleGetInfo2_friction1_cfm (P : Vec3 → Vec3 × Vec3) (j : dxJointContact) (info : Info2) :
    (simpleGetInfo2_friction1 P j info).cfm = info.cfm := by
  simp only [simpleGetInfo2_friction1, apply_ite Info2.cfm, Info2.setJ1l_cfm, Info2.setJ2l_cfm, Info2.setCfm_cfm, Info2.setC_cfm, Info2.setLo_cfm, Info2.setHi_cfm, Info2.setFindex_cfm, Info2.onJ1l_cfm, Info2.onJ1a_cfm, Info2.onJ2l_cfm, Info2.onJ2a_cfm, ite_self]

@[simp]
theorem simpleGetInfo2_friction1_c (P : Vec3 → Vec3 × Vec3) (j : dxJointContact) (info : Info2) :
    (simpleGetInfo2_friction1 P j info).c = info.c := by
  simp only [simpleGetInfo2_friction1, apply_ite Info2.c, Info2.setJ1l_c, Info2.setJ2l_c, Info2.setCfm_c, Info2.setC_c, Info2.setLo_c, Info2.setHi_c, Info2.setFindex_c, Info2.onJ1l_c, Info2.onJ1a_c, Info2.onJ2l_c, Info2.onJ2a_c, ite_self]

@[simp]
theorem simpleGetInfo2_friction2_fps (P : Vec3 → Vec3 × Vec3) (j : dxJointContact) (info : Info2) :
    (simpleGetInfo2_friction2 P j info).fps = info.fps := by
  simp only [simpleGetInfo2_friction2, apply_ite Info2.fps, Info2.setJ1l_fps, Info2.setJ2l_fps, Info2.setCfm_fps, Info2.setC_fps, Info2.setLo_fps, Info2.setHi_fps, Info2.setFindex_fps, Info2.onJ1l_fps, Info2.onJ1a_fps, Info2.onJ2l_fps, Info2.onJ2a_fps, ite_self]

@[simp]
theorem simpleGetInfo2_friction2_erp (P : Vec3 → Vec3 × Vec3) (j : dxJointContact) (info : Info2) :
    (simpleGetInfo2_friction2 P j info).erp = info.erp := by
  simp only [simpleGetInfo2_friction2, apply_ite Info2.erp, Info2.setJ1l_erp, Info2.setJ2l_erp, Info2.setCfm_erp, Info2.setC_erp, Info2.setLo_erp, Info2.setHi_erp, Info2.setFindex_erp, Info2.onJ1l_erp, Info2.onJ1a_erp, Info2.onJ2l_erp, Info2.onJ2a_erp, ite_self]

@[simp]
theorem simpleGetInfo2_friction2_rowskip (P : Vec3 → Vec3 × Vec3) (j : dxJointContact) (info : Info2) :
    (simpleGetInfo2_friction2 P j info).rowskip = info.rowskip := by
  simp only [simpleGetInfo2_friction2, apply_ite Info2.rowskip, Info2.setJ1l_rowskip, Info2.setJ2l_rowskip, Info2.setCfm_rowskip, Info2.setC_rowskip, Info2.setLo_rowskip, Info2.setHi_rowskip, Info2.setFindex_rowskip, Info2.onJ1l_rowskip, Info2.onJ1a_rowskip, Info2.onJ2l_rowskip, Info2.onJ2a_rowskip, ite_self]

@[simp]
theorem simpleGetInfo2_friction2_cfm (P : Vec3 → Vec3 × Vec3) (j : dxJointContact) (info : Info2) :
    (simpleGetInfo2_friction2 P j info).cfm = info.cfm := by
  simp only [simpleGetInfo2_friction2, apply_ite Info2.cfm, Info2.setJ1l_cfm, Info2.setJ2l_cfm, Info2.setCfm_cfm, Info2.setC_cfm, Info2.setLo_cfm, Info2.setHi_cfm, Info2.setFindex_cfm, Info2.onJ1l_cfm, Info2.onJ1a_cfm, Info2.onJ2l_cfm, Info2.onJ2a_cfm, ite_self]

@[simp]
theorem simpleGetInfo2_friction2_c (P : Vec3 → Vec3 × Vec3) (j : dxJointContact) (info : Info2) :
    (simpleGetInfo2_friction2 P j info).c = info.c := by
  simp only [simpleGetInfo2_friction2, apply_ite Info2.c, Info2.setJ1l_c, Info2.setJ2l_c, Info2.setCfm_c, Info2.setC_c, Info2.setLo_c, Info2.setHi_c, Info2.setFindex_c, Info2.onJ1l_c, Info2.onJ1a_c, Info2.onJ2l_c, Info2.onJ2a_c, ite_self]

/-! ## The Jacobian buffers after each assembly block -/

@[simp]
theorem getInfo2_normalJacobian_J1l (j : dxJointContact) (info : Info2) :
    (getInfo2_normalJacobian j info).J1l = store3 info.J1l 0 (getInfo2_normal j) := by
  simp only [getInfo2_normalJacobian, apply_ite Info2.J1l, Info2.setJ1l_J1l, Info2.setJ2l_J1l, Info2.setCfm_J1l, Info2.setC_J1l, Info2.setLo_J1l, Info2.setHi_J1l, Info2.setFindex_J1l, Info2.onJ1l_J1l, Info2.onJ1a_J1l, Info2.onJ2l_J1l, Info2.onJ2a_J1l, ite_self,
    dCalcVectorCross3, dCopyVector3, dCopyNegatedVector3, dNegateVector3_store3, store3_store3]
  try simp only [store3, add_zero, zero_add, Vec3.neg]

@[simp]
theorem getInfo2_normalJacobian_J1a (j : dxJointContact) (info : Info2) :
    (getInfo2_normalJacobian j info).J1a = store3 info.J1a 0 (cross (getInfo2_c1 j) (getInfo2_normal j)) := by
  simp only [getInfo2_normalJacobian, apply_ite Info2.J1a, Info2.setJ1l_J1a, Info2.setJ2l_J1a, Info2.setCfm_J1a, Info2.setC_J1a, Info2.setLo_J1a, Info2.setHi_J1a, Info2.setFindex_J1a, Info2.onJ1l_J1a, Info2.onJ1a_J1a, Info2.onJ2l_J1a, Info2.onJ2a_J1a, ite_self,
    dCalcVectorCross3, dCopyVector3, dCopyNegatedVector3, dNegateVector3_store3, store3_store3]
  try simp only [store3, add_zero, zero_add, Vec3.neg]

@[simp]
theorem getInfo2_normalJacobian_J2l (j : dxJointContact) (info : Info2) :
    (getInfo2_normalJacobian j info).J2l = (if j.body1.isSome then store3 info.J2l 0 (Vec3.neg (getInfo2_normal j)) else info.J2l) := by
  simp only [getInfo2_normalJacobian, apply_ite Info2.J2l, Info2.setJ1l_J2l, Info2.setJ2l_J2l, Info2.setCfm_J2l, Info2.setC_J2l, Info2.setLo_J2l, Info2.setHi_J2l, Info2.setFindex_J2l, Info2.onJ1l_J2l, Info2.onJ1a_J2l, Info2.onJ2l_J2l, Info2.onJ2a_J2l, ite_self,
    dCalcVectorCross3, dCopyVector3, dCopyNegatedVector3, dNegateVector3_store3, store3_store3]
  try simp only [store3, add_zero, zero_add, Vec3.neg]

@[simp]
theorem getInfo2_normalJacobian_J2a (j : dxJointContact) (info : Info2) :
    (getInfo2_normalJacobian j info).J2a = (if j.body1.isSome then store3 info.J2a 0 (Vec3.neg (cross (getInfo2_c2 j) (getInfo2_normal j))) else info.J2a) := by
  simp only [getInfo2_normalJacobian, apply_ite Info2.J2a, Info2.setJ1l_J2a, Info2.setJ2l_J2a, Info2.setCfm_J2a, Info2.setC_J2a, Info2.setLo_J2a, Info2.setHi_J2a, Info2.setFindex_J2a, Info2.onJ1l_J2a, Info2.onJ1a_J2a, Info2.onJ2l_J2a, Info2.onJ2a_J2a, ite_self,
    dCalcVectorCross3, dCopyVector3, dCopyNegatedVector3, dNegateVector3_store3, store3_store3]
  try simp only [store3, add_zero, zero_add, Vec3.neg]

@[simp]
theorem getInfo2_friction1_J1l (P : Vec3 → Vec3 × Vec3) (j : dxJointContact) (info : Info2) :
    (getInfo2_friction1 P j info).J1l = (if 2 ≤ j.the_m then store3 info.J1l info.rowskip (getInfo2_t P j).1 else info.J1l) := by
  simp only [getInfo2_friction1, apply_ite Info2.J1l, Info2.setJ1l_J1l, Info2.setJ2l_J1l, Info2.setCfm_J1l, Info2.setC_J1l, Info2.setLo_J1l, Info2.setHi_J1l, Info2.setFindex_J1l, Info2.onJ1l_J1l, Info2.onJ1a_J1l, Info2.onJ2l_J1l, Info2.onJ2a_J1l, ite_self,
    dCalcVectorCross3, dCopyVector3, dCopyNegatedVector3, dNegateVector3_store3, store3_store3]
  try simp only [store3, add_zero, zero_add, Vec3.neg]

@[simp]
theorem getInfo2_friction1_J1a (P : Vec3 → Vec3 × Vec3) (j : dxJointContact) (info : Info2) :
    (getInfo2_friction1 P j info).J1a = (if 2 ≤ j.the_m then store3 info.J1a info.rowskip (cross (getInfo2_c1 j) (getInfo2_t P j).1) else info.J1a) := by
  simp only [getInfo2_friction1, apply_ite Info2.J1a, Info2.setJ1l_J1a, Info2.setJ2l_J1a, Info2.setCfm_J1a, Info2.setC_J1a, Info2.setLo_J1a, Info2.setHi_J1a, Info2.setFindex_J1a, Info2.onJ1l_J1a, Info2.onJ1a_J1a, Info2.onJ2l_J1a, Info2.onJ2a_J1a, ite_self,
    dCalcVectorCross3, dCopyVector3, dCopyNegatedVector3, dNegateVector3_store3, store3_store3]
  try simp only [store3, add_zero, zero_add, Vec3.neg]

@[simp]
theorem getInfo2_friction1_J2l (P : Vec3 → Vec3 × Vec3) (j : dxJointContact) (info : Info2) :
    (getInfo2_friction1 P j info).J2l = (if 2 ≤ j.the_m then (if j.body1.isSome then store3 info.J2l info.rowskip (Vec3.neg (getInfo2_t P j).1) else info.J2l) else info.J2l) := by
  simp only [getInfo2_friction1, apply_ite Info2.J2l, Info2.setJ1l_J2l, Info2.setJ2l_J2l, Info2.setCfm_J2l, Info2.setC_J2l, Info2.setLo_J2l, Info2.setHi_J2l, Info2.setFindex_J2l, Info2.onJ1l_J2l, Info2.onJ1a_J2l, Info2.onJ2l_J2l, Info2.onJ2a_J2l, ite_self,
    dCalcVectorCross3, dCopyVector3, dCopyNegatedVector3, dNegateVector3_store3, store3_store3]
  try simp only [store3, add_zero, zero_add, Vec3.neg]

@[simp]
theorem getInfo2_friction1_J2a (P : Vec3 → Vec3 × Vec3) (j : dxJointContact) (info : Info2) :
    (getInfo2_friction1 P j info).J2a = (if 2 ≤ j.the_m then (if j.body1.isSome then store3 info.J2a info.rowskip (Vec3.neg (cross (getInfo2_c2 j) (getInfo2_t P j).1)) else info.J2a) else info.J2a) := by
  simp only [getInfo2_friction1, apply_ite Info2.J2a, Info2.setJ1l_J2a, Info2.setJ2l_J2a, Info2.setCfm_J2a, Info2.setC_J2a, Info2.setLo_J2a, Info2.setHi_J2a, Info2.setFindex_J2a, Info2.onJ1l_J2a, Info2.onJ1a_J2a, Info2.onJ2l_J2a, Info2.onJ2a_J2a, ite_self,
    dCalcVectorCross3, dCopyVector3, dCopyNegatedVector3, dNegateVector3_store3, store3_store3]
  try simp only [store3, add_zero, zero_add, Vec3.neg]

@[simp]
theorem getInfo2_friction2_J1l (P : Vec3 → Vec3 × Vec3) (j : dxJointContact) (info : Info2) :
    (getInfo2_friction2 P j info).J1l = (if 3 ≤ j.the_m then store3 info.J1l (2 * info.rowskip) (getInfo2_t P j).2 else info.J1l) := by
  simp only [getInfo2_friction2, apply_ite Info2.J1l, Info2.setJ1l_J1l, Info2.setJ2l_J1l, Info2.setCfm_J1l, Info2.setC_J1l, Info2.setLo_J1l, Info2.setHi_J1l, Info2.setFindex_J1l, Info2.onJ1l_J1l, Info2.onJ1a_J1l, Info2.onJ2l_J1l, Info2.onJ2a_J1l, ite_self,
    dCalcVectorCross3, dCopyVector3, dCopyNegatedVector3, dNegateVector3_store3, store3_store3]
  try simp only [store3, add_zero, zero_add, Vec3.neg]

@[simp]
theorem getInfo2_friction2_J1a (P : Vec3 → Vec3 × Vec3) (j : dxJointContact) (info : Info2) :
    (getInfo2_friction2 P j info).J1a = (if 3 ≤ j.the_m then store3 info.J1a (2 * info.rowskip) (cross (getInfo2_c1 j) (getInfo2_t P j).2) else info.J1a) := by
  simp only [getInfo2_friction2, apply_ite Info2.J1a, Info2.setJ1l_J1a, Info2.setJ2l_J1a, Info2.setCfm_J1a, Info2.setC_J1a, Info2.setLo_J1a, Info2.setHi_J1a, Info2.setFindex_J1a, Info2.onJ1l_J1a, Info2.onJ1a_J1a, Info2.onJ2l_J1a, Info2.onJ2a_J1a, ite_self,
    dCalcVectorCross3, dCopyVector3, dCopyNegatedVector3, dNegateVector3_store3, store3_store3]
  try simp only [store3, add_zero, zero_add, Vec3.neg]

@[simp]
theorem getInfo2_friction2_J2l (P : Vec3 → Vec3 × Vec3) (j : dxJointContact) (info : Info2) :
    (getInfo2_friction2 P j info).J2l = (if 3 ≤ j.the_m then (if j.body1.isSome then store3 info.J2l (2 * info.rowskip) (Vec3.neg (getInfo2_t P j).2) else info.J2l) else info.J2l) := by
  simp only [getInfo2_friction2, apply_ite Info2.J2l, Info2.setJ1l_J2l, Info2.setJ2l_J2l, Info2.setCfm_J2l, Info2.setC_J2l, Info2.setLo_J2l, Info2.setHi_J2l, Info2.setFindex_J2l, Info2.onJ1l_J2l, Info2.onJ1a_J2l, Info2.onJ2l_J2l, Info2.onJ2a_J2l, ite_self,
    dCalcVectorCross3, dCopyVector3, dCopyNegatedVector3, dNegateVector3_store3, store3_store3]
  try simp only [store3, add_zero, zero_add, Vec3.neg]

@[simp]
theorem getInfo2_friction2_J2a (P : Vec3 → Vec3 × Vec3) (j : dxJointContact) (info : Info2) :
    (getInfo2_friction2 P j info).J2a = (if 3 ≤ j.the_m then (if j.body1.isSome then store3 info.J2a (2 * info.rowskip) (Vec3.neg (cross (getInfo2_c2 j) (getInfo2_t P j).2)) else info.J2a) else info.J2a) := by
  simp only [getInfo2_friction2, apply_ite Info2.J2a, Info2.setJ1l_J2a, Info2.setJ2l_J2a, Info2.setCfm_J2a, Info2.setC_J2a, Info2.setLo_J2a, Info2.setHi_J2a, Info2.setFindex_J2a, Info2.onJ1l_J2a, Info2.onJ1a_J2a, Info2.onJ2l_J2a, Info2.onJ2a_J2a, ite_self,
    dCalcVectorCross3, dCopyVector3, dCopyNegatedVector3, dNegateVector3_store3, store3_store3]
  try simp only [store3, add_zero, zero_add, Vec3.neg]

@[simp]
theorem simpleGetInfo2_normalJacobian_J1l (j : dxJointContact) (info : Info2) :
    (simpleGetInfo2_normalJacobian j info).J1l = store3 info.J1l 0 (simpleGetInfo2_normal j) := by
  simp only [simpleGetInfo2_normalJacobian, apply_ite Info2.J1l, Info2.setJ1l_J1l, Info2.setJ2l_J1l, Info2.setCfm_J1l, Info2.setC_J1l, Info2.setLo_J1l, Info2.setHi_J1l, Info2.setFindex_J1l, Info2.onJ1l_J1l, Info2.onJ1a_J1l, Info2.onJ2l_J1l, Info2.onJ2a_J1l, ite_self,
    dCalcVectorCross3, dCopyVector3, dCopyNegatedVector3, dNegateVector3_store3, store3_store3]
  try simp only [store3, add_zero, zero_add, Vec3.neg]

@[simp]
theorem simpleGetInfo2_normalJacobian_J1a (j : dxJointContact) (info : Info2) :
    (simpleGetInfo2_normalJacobian j info).J1a = store3 info.J1a 0 (cross (simpleGetInfo2_c1 j) (simpleGetInfo2_normal j)) := by
  simp only [simpleGetInfo2_normalJacobian, apply_ite Info2.J1a, Info2.setJ1l_J1a, Info2.setJ2l_J1a, Info2.setCfm_J1a, Info2.setC_J1a, Info2.setLo_J1a, Info2.setHi_J1a, Info2.setFindex_J1a, Info2.onJ1l_J1a, Info2.onJ1a_J1a, Info2.onJ2l_J1a, Info2.onJ2a_J1a, ite_self,
    dCalcVectorCross3, dCopyVector3, dCopyNegatedVector3, dNegateVector3_store3, store3_store3]
  try simp only [store3, add_zero, zero_add, Vec3.neg]

@[simp]
theorem simpleGetInfo2_normalJacobian_J2l (j : dxJointContact) (info : Info2) :
    (simpleGetInfo2_normalJacobian j info).J2l = (if j.body1.isSome then store3 info.J2l 0 (Vec3.neg (simpleGetInfo2_normal j)) else info.J2l) := by
  simp only [simpleGetInfo2_normalJacobian, apply_ite Info2.J2l, Info2.setJ1l_J2l, Info2.setJ2l_J2l, Info2.setCfm_J2l, Info2.setC_J2l, Info2.setLo_J2l, Info2.setHi_J2l, Info2.setFindex_J2l, Info2.onJ1l_J2l, Info2.onJ1a_J2l, Info2.onJ2l_J2l, Info2.onJ2a_J2l, ite_self,
    dCalcVectorCross3, dCopyVector3, dCopyNegatedVector3, dNegateVector3_store3, store3_store3]
  try simp only [store3, add_zero, zero_add, Vec3.neg]

@[simp]
theorem simpleGetInfo2_normalJacobian_J2a (j : dxJointContact) (info : Info2) :
    (simpleGetInfo2_normalJacobian j info).J2a = (if j.body1.isSome then store3 info.J2a 0 (Vec3.neg (cross (simpleGetInfo2_c2 j) (simpleGetInfo2_normal j))) else info.J2a) := by
  simp only [simpleGetInfo2_normalJacobian, apply_ite Info2.J2a, Info2.setJ1l_J2a, Info2.setJ2l_J2a, Info2.setCfm_J2a, Info2.setC_J2a, Info2.setLo_J2a, Info2.setHi_J2a, Info2.setFindex_J2a, Info2.onJ1l_J2a, Info2.onJ1a_J2a, Info2.onJ2l_J2a, Info2.onJ2a_J2a, ite_self,
    dCalcVectorCross3, dCopyVector3, dCopyNegatedVector3, dNegateVector3_store3, store3_store3]
  try simp only [store3, add_zero, zero_add, Vec3.neg]

@[simp]
theorem simpleGetInfo2_friction1_J1l (P : Vec3 → Vec3 × Vec3) (j : dxJointContact) (info : Info2) :
    (simpleGetInfo2_friction1 P j info).J1l = (if 2 ≤ j.the_m then store3 info.J1l info.rowskip (P (simpleGetInfo2_normal j)).1 else info.J1l) := by
  simp only [simpleGetInfo2_friction1, apply_ite Info2.J1l, Info2.setJ1l_J1l, Info2.setJ2l_J1l, Info2.setCfm_J1l, Info2.setC_J1l, Info2.setLo_J1l, Info2.setHi_J1l, Info2.setFindex_J1l, Info2.onJ1l_J1l, Info2.onJ1a_J1l, Info2.onJ2l_J1l, Info2.onJ2a_J1l, ite_self,
    dCalcVectorCross3, dCopyVector3, dCopyNegatedVector3, dNegateVector3_store3, store3_store3]
  try simp only [store3, add_zero, zero_add, Vec3.neg]

@[simp]
theorem simpleGetInfo2_friction1_J1a (P : Vec3 → Vec3 × Vec3) (j : dxJointContact) (info : Info2) :
    (simpleGetInfo2_friction1 P j info).J1a = (if 2 ≤ j.the_m then store3 info.J1a info.rowskip (cross (simpleGetInfo2_c1 j) (P (simpleGetInfo2_normal j)).1) else info.J1a) := by
  simp only [simpleGetInfo2_friction1, apply_ite Info2.J1a, Info2.setJ1l_J1a, Info2.setJ2l_J1a, Info2.setCfm_J1a, Info2.setC_J1a, Info2.setLo_J1a, Info2.setHi_J1a, Info2.setFindex_J1a, Info2.onJ1l_J1a, Info2.onJ1a_J1a, Info2.onJ2l_J1a, Info2.onJ2a_J1a, ite_self,
    dCalcVectorCross3, dCopyVector3, dCopyNegatedVector3, dNegateVector3_store3, store3_store3]
  try simp only [store3, add_zero, zero_add, Vec3.neg]

@[simp]
theorem simpleGetInfo2_friction1_J2l (P : Vec3 → Vec3 × Vec3) (j : dxJointContact) (info : Info2) :
    (simpleGetInfo2_friction1 P j info).J2l = (if 2 ≤ j.the_m then (if j.body1.isSome then store3 info.J2l info.rowskip (Vec3.neg (P (simpleGetInfo2_normal j)).1) else info.J2l) else info.J2l) := by
  simp only [simpleGetInfo2_friction1, apply_ite Info2.J2l, Info2.setJ1l_J2l, Info2.setJ2l_J2l, Info2.setCfm_J2l, Info2.setC_J2l, Info2.setLo_J2l, Info2.setHi_J2l, Info2.setFindex_J2l, Info2.onJ1l_J2l, Info2.onJ1a_J2l, Info2.onJ2l_J2l, Info2.onJ2a_J2l, ite_self,
    dCalcVectorCross3, dCopyVector3, dCopyNegatedVector3, dNegateVector3_store3, store3_store3]
  try simp only [store3, add_zero, zero_add, Vec3.neg]

@[simp]
theorem simpleGetInfo2_friction1_J2a (P : Vec3 → Vec3 × Vec3) (j : dxJointContact) (info : Info2) :
    (simpleGetInfo2_friction1 P j info).J2a = (if 2 ≤ j.the_m then (if j.body1.isSome then store3 info.J2a info.rowskip (Vec3.neg (cross (simpleGetInfo2_c2 j) (P (simpleGetInfo2_normal j)).1)) else info.J2a) else info.J2a) := by
  simp only [simpleGetInfo2_friction1, apply_ite Info2.J2a, Info2.setJ1l_J2a, Info2.setJ2l_J2a, Info2.setCfm_J2a, Info2.setC_J2a, Info2.setLo_J2a, Info2.setHi_J2a, Info2.setFindex_J2a, Info2.onJ1l_J2a, Info2.onJ1a_J2a, Info2.onJ2l_J2a, Info2.onJ2a_J2a, ite_self,
    dCalcVectorCross3, dCopyVector3, dCopyNegatedVector3, dNegateVector3_store3, store3_store3]
  try simp only [store3, add_zero, zero_add, Vec3.neg]

@[simp]
theorem simpleGetInfo2_friction2_J1l (P : Vec3 → Vec3 × Vec3) (j : dxJointContact) (info : Info2) :
    (simpleGetInfo2_friction2 P j info).J1l = (if 3 ≤ j.the_m then store3 info.J1l (2 * info.rowskip) (P (simpleGetInfo2_normal j)).2 else info.J1l) := by
  simp only [simpleGetInfo2_friction2, apply_ite Info2.J1l, Info2.setJ1l_J1l, Info2.setJ2l_J1l, Info2.setCfm_J1l, Info2.setC_J1l, Info2.setLo_J1l, Info2.setHi_J1l, Info2.setFindex_J1l, Info2.onJ1l_J1l, Info2.onJ1a_J1l, Info2.onJ2l_J1l, Info2.onJ2a_J1l, ite_self,
    dCalcVectorCross3, dCopyVector3, dCopyNegatedVector3, dNegateVector3_store3, store3_store3]
  try simp only [store3, add_zero, zero_add, Vec3.neg]

@[simp]
theorem simpleGetInfo2_friction2_J1a (P : Vec3 → Vec3 × Vec3) (j : dxJointContact) (info : Info2) :
    (simpleGetInfo2_friction2 P j info).J1a = (if 3 ≤ j.the_m then store3 info.J1a (2 * info.rowskip) (cross (simpleGetInfo2_c1 j) (P (simpleGetInfo2_normal j)).2) else info.J1a) := by
  simp only [simpleGetInfo2_friction2, apply_ite Info2.J1a, Info2.setJ1l_J1a, Info2.setJ2l_J1a, Info2.setCfm_J1a, Info2.setC_J1a, Info2.setLo_J1a, Info2.setHi_J1a, Info2.setFindex_J1a, Info2.onJ1l_J1a, Info2.onJ1a_J1a, Info2.onJ2l_J1a, Info2.onJ2a_J1a, ite_self,
    dCalcVectorCross3, dCopyVector3, dCopyNegatedVector3, dNegateVector3_store3, store3_store3]
  try simp only [store3, add_zero, zero_add, Vec3.neg]

@[simp]
theorem simpleGetInfo2_friction2_J2l (P : Vec3 → Vec3 × Vec3) (j : dxJointContact) (info : Info2) :
    (simpleGetInfo2_friction2 P j info).J2l = (if 3 ≤ j.the_m then (if j.body1.isSome then store3 info.J2l (2 * info.rowskip) (Vec3.neg (P (simpleGetInfo2_normal j)).2) else info.J2l) else info.J2l) := by
  simp only [simpleGetInfo2_friction2, apply_ite Info2.J2l, Info2.setJ1l_J2l, Info2.setJ2l_J2l, Info2.setCfm_J2l, Info2.setC_J2l, Info2.setLo_J2l, Info2.setHi_J2l, Info2.setFindex_J2l, Info2.onJ1l_J2l, Info2.onJ1a_J2l, Info2.onJ2l_J2l, Info2.onJ2a_J2l, ite_self,
    dCalcVectorCross3, dCopyVector3, dCopyNegatedVector3, dNegateVector3_store3, store3_store3]
  try simp only [store3, add_zero, zero_add, Vec3.neg]

@[simp]
theorem simpleGetInfo2_friction2_J2a (P : Vec3 → Vec3 × Vec3) (j : dxJointContact) (info : Info2) :
    (simpleGetInfo2_friction2 P j info).J2a = (if 3 ≤ j.the_m then (if j.body1.isSome then store3 info.J2a (2 * info.rowskip) (Vec3.neg (cross (simpleGetInfo2_c2 j) (P (simpleGetInfo2_normal j)).2)) else info.J2a) else info.J2a) := by
  simp only [simpleGetInfo2_friction2, apply_ite Info2.J2a, Info2.setJ1l_J2a, Info2.setJ2l_J2a, Info2.setCfm_J2a, Info2.setC_J2a, Info2.setLo_J2a, Info2.setHi_J2a, Info2.setFindex_J2a, Info2.onJ1l_J2a, Info2.onJ1a_J2a, Info2.onJ2l_J2a, Info2.onJ2a_J2a, ite_self,
    dCalcVectorCross3, dCopyVector3, dCopyNegatedVector3, dNegateVector3_store3, store3_store3]
  try simp only [store3, add_zero, zero_add, Vec3.neg]

/-! ## The Jacobian buffers after `getInfo2` -/

theorem getInfo2_J1l_rows (P : Vec3 → Vec3 × Vec3) (j : dxJointContact) (info : Info2) :
    (getInfo2 P j info).J1l
      = rows info.J1l info.rowskip j.the_m (getInfo2_normal j) (getInfo2_t P j).1
          (getInfo2_t P j).2 := by
  simp [getInfo2, rows]

theorem getInfo2_J1a_rows (P : Vec3 → Vec3 × Vec3) (j : dxJointContact) (info : Info2) :
    (getInfo2 P j info).J1a
      = rows info.J1a info.rowskip j.the_m (cross (getInfo2_c1 j) (getInfo2_normal j))
          (cross (getInfo2_c1 j) (getInfo2_t P j).1)
          (cross (getInfo2_c1 j) (getInfo2_t P j).2) := by
  simp [getInfo2, rows]

theorem getInfo2_J2l_rows (P : Vec3 → Vec3 × Vec3) (j : dxJointContact) (info : Info2)
    (hb : j.body1.isSome = true) :
    (getInfo2 P j info).J2l
      = rows info.J2l info.rowskip j.the_m (Vec3.neg (getInfo2_normal j))
          (Vec3.neg (getInfo2_t P j).1) (Vec3.neg (getInfo2_t P j).2) := by
  simp [getInfo2, rows, hb]

theorem getInfo2_J2a_rows (P : Vec3 → Vec3 × Vec3) (j : dxJointContact) (info : Info2)
    (hb : j.body1.isSome = true) :
    (getInfo2 P j info).J2a
      = rows info.J2a info.rowskip j.the_m
          (Vec3.neg (cross (getInfo2_c2 j) (getInfo2_normal j)))
          (Vec3.neg (cross (getInfo2_c2 j) (getInfo2_t P j).1))
          (Vec3.neg (cross (getInfo2_c2 j) (getInfo2_t P j).2)) := by
  simp [getInfo2, rows, hb]

theorem getInfo2_J2_none (P : Vec3 → Vec3 × Vec3) (j : dxJointContact) (info : Info2)
    (hb : j.body1 = none) :
    (getInfo2 P j info).J2l = info.J2l ∧ (getInfo2 P j info).J2a = info.J2a := by
  simp [getInfo2, hb]

theorem simpleGetInfo2_J2_none (P : Vec3 → Vec3 × Vec3) (j : dxJointContact) (info : Info2)
    (hb : j.body1 = none) :
    (simpleGetInfo2 P j info).J2l = info.J2l ∧ (simpleGetInfo2 P j info).J2a = info.J2a := by
  simp [simpleGetInfo2, hb]

/-! ## What `getInfo1` leaves unchanged -/

theorem getInfo1_frame (j : dxJointContact) (info : Info1) :
    (getInfo1 j info).1.flags = j.flags ∧ (getInfo1 j info).1.world = j.world ∧
    (getInfo1 j info).1.body0 = j.body0 ∧ (getInfo1 j info).1.body1 = j.body1 ∧
    (getInfo1 j info).1.contact.geom = j.contact.geom ∧
    (getInfo1 j info).1.contact.fdir1 = j.contact.fdir1 ∧
    (getInfo1 j info).1.contact.surface.mode = j.contact.surface.mode ∧
    (getInfo1 j info).1.erp = j.erp ∧ (getInfo1 j info).1.cfm = j.cfm ∧
    (getInfo1 j info).1.the_m = (getInfo1 j info).2.m := by
  unfold getInfo1
  simp only
  split_ifs <;> simp

theorem getInfo1_m_bounds (j : dxJointContact) (info : Info1) :
    1 ≤ (getInfo1 j info).2.m ∧ (getInfo1 j info).2.m ≤ 3 := by
  unfold getInfo1
  simp only
  split_ifs <;> simp

theorem getInfo2_normal_of_not_reverse (j : dxJointContact)
    (hrev : hasFlag j.flags dJOINT_REVERSE = false) :
    getInfo2_normal j = j.contact.geom.normal := by
  simp [getInfo2_normal, hrev]

theorem getInfo2_c1_eq (j : dxJointContact) :
    getInfo2_c1 j = j.contact.geom.pos.sub j.body0.pos := rfl

theorem getInfo2_c2_eq (j : dxJointContact) (b1 : dxBody) (hb : j.body1 = some b1) :
    getInfo2_c2 j = j.contact.geom.pos.sub b1.pos := by
  simp [getInfo2_c2, hb, Vec3.sub]

/-! ## Jacobian rows -/

/-- C3: when body B is absent, `getInfo2` and `simpleGetInfo2` leave every entry of the
`J2l` and `J2a` buffers at its value before the call, whatever the cached row count. -/
theorem bodyB_absent_untouched (P : Vec3 → Vec3 × Vec3) (j : dxJointContact) (info : Info2)
    (k : Int) (hb : j.body1 = none) :
    (getInfo2 P j info).J2l k = info.J2l k ∧ (getInfo2 P j info).J2a k = info.J2a k ∧
    (simpleGetInfo2 P j info).J2l k = info.J2l k ∧
    (simpleGetInfo2 P j info).J2a k = info.J2a k := by
  obtain ⟨h1, h2⟩ := getInfo2_J2_none P j info hb
  obtain ⟨h3, h4⟩ := simpleGetInfo2_J2_none P j info hb
  rw [h1, h2, h3, h4]
  exact ⟨rfl, rfl, rfl, rfl⟩

/-! ## The bias buffer `c` after each block -/

@[simp]
theorem getInfo2_friction1_c (P : Vec3 → Vec3 × Vec3) (j : dxJointContact)
    (info : Info2) :
    (getInfo2_friction1 P j info).c
      = if 2 ≤ j.the_m then
          (if hasFlag j.contact.surface.mode dContactMotion1 then
            info.c.set 1 j.contact.surface.motion1 else info.c)
        else info.c := by
  simp only [getInfo2_friction1, apply_ite Info2.c, Info2.setJ1l_c, Info2.setJ2l_c,
    Info2.setCfm_c, Info2.setC_c, Info2.setLo_c, Info2.setHi_c, Info2.setFindex_c,
    Info2.onJ1l_c, Info2.onJ1a_c, Info2.onJ2l_c, Info2.onJ2a_c, ite_self]

@[simp]
theorem getInfo2_friction2_c (P : Vec3 → Vec3 × Vec3) (j : dxJointContact)
    (info : Info2) :
    (getInfo2_friction2 P j info).c
      = if 3 ≤ j.the_m then
          (if hasFlag j.contact.surface.mode dContactMotion2 then
            info.c.set 2 j.contact.surface.motion2 else info.c)
        else info.c := by
  simp only [getInfo2_friction2, apply_ite Info2.c, Info2.setJ1l_c, Info2.setJ2l_c,
    Info2.setCfm_c, Info2.setC_c, Info2.setLo_c, Info2.setHi_c, Info2.setFindex_c,
    Info2.onJ1l_c, Info2.onJ1a_c, Info2.onJ2l_c, Info2.onJ2a_c, ite_self]

/-- The bias of the normal row after the right-hand-side block of `getInfo2`. -/
theorem getInfo2_normalRhs_c0 (j : dxJointContact) (info : Info2) :
    (getInfo2_normalRhs j info).c 0
      = dReal.min
          (info.fps *
              (if hasFlag j.contact.surface.mode dContactSoftERP then j.contact.surface.soft_erp
               else j.erp) *
              dReal.max (j.contact.geom.depth - j.world.contactp.min_depth) 0
            + getInfo2_motionN j)
          j.world.contactp.max_vel := by
  simp only [getInfo2_normalRhs, apply_ite Info2.c, Info2.setCfm_c, Info2.setC_c, ite_self,
    Buf.set, Function.update_same, dReal.min, dReal.max]
  split_ifs <;> simp

theorem getInfo2_bounce_c_off (j : dxJointContact) (info : Info2)
    (hb : hasFlag j.contact.surface.mode dContactBounce = false) :
    (getInfo2_bounce j info).c = info.c := by
  simp [getInfo2_bounce, hb]

theorem getInfo2_c0_no_bounce (P : Vec3 → Vec3 × Vec3) (j : dxJointContact) (info : Info2)
    (hb : hasFlag j.contact.surface.mode dContactBounce = false) :
    (getInfo2 P j info).c 0 = (getInfo2_normalRhs j (getInfo2_normalJacobian j info)).c 0 := by
  simp only [getInfo2, getInfo2_friction2_c, getInfo2_friction1_c, getInfo2_normalLimits_c,
    getInfo2_bounce_c_off _ _ hb, Buf.set]
  split_ifs <;> simp [Function.update_apply]

/-- C4: with bounce mode off, `getInfo2` writes the normal-row bias
`c[0] = min (k * max (depth - minDepth, 0) + motionN, maxVelocity)` with
`k = stepFrequency * erp`, where `erp` is the surface soft-ERP value if the soft-ERP flag
is set and the erp of this contact otherwise, and `motionN` is the target normal velocity
of the surface if the normal-motion flag is set and `0` otherwise.  The first equation
holds for all values, with the comparisons of the code; the second part restates it for
finite inputs with the rational `min` and `max`, for a finite and for an infinite cap. -/
theorem getInfo2_normal_bias (P : Vec3 → Vec3 × Vec3) (j : dxJointContact) (info : Info2)
    (hb : hasFlag j.contact.surface.mode dContactBounce = false) :
    (getInfo2 P j info).c 0
      = dReal.min
          (info.fps *
              (if hasFlag j.contact.surface.mode dContactSoftERP then j.contact.surface.soft_erp
               else j.erp) *
              dReal.max (j.contact.geom.depth - j.world.contactp.min_depth) 0
            + (if hasFlag j.contact.surface.mode dContactMotionN then j.contact.surface.motionN
               else 0))
          j.world.contactp.max_vel ∧
    ∀ f e d d0 v : ℚ, info.fps = num f →
      (if hasFlag j.contact.surface.mode dContactSoftERP then j.contact.surface.soft_erp
        else j.erp) = num e →
      j.contact.geom.depth = num d → j.world.contactp.min_depth = num d0 →
      (if hasFlag j.contact.surface.mode dContactMotionN then j.contact.surface.motionN
        else 0) = num v →
      (∀ cap : ℚ, j.world.contactp.max_vel = num cap →
        (getInfo2 P j info).c 0 = num (Min.min (f * e * Max.max (d - d0) 0 + v) cap)) ∧
      (j.world.contactp.max_vel = dInfinity →
        (getInfo2 P j info).c 0 = num (f * e * Max.max (d - d0) 0 + v)) := by
  have h : (getInfo2 P j info).c 0
      = dReal.min
          (info.fps *
              (if hasFlag j.contact.surface.mode dContactSoftERP then j.contact.surface.soft_erp
               else j.erp) *
              dReal.max (j.contact.geom.depth - j.world.contactp.min_depth) 0
            + (if hasFlag j.contact.surface.mode dContactMotionN then j.contact.surface.motionN
               else 0))
          j.world.contactp.max_vel := by
    rw [getInfo2_c0_no_bounce P j info hb, getInfo2_normalRhs_c0]
    simp [getInfo2_motionN]
  refine ⟨h, ?_⟩
  intro f e d d0 v hf he hd hd0 hv
  rw [h, hf, he, hd, hd0, hv]
  constructor
  · intro cap hcap
    rw [hcap]
    simp only [zero_eq, num_sub_num, max_num_num, num_mul_num, num_add_num, min_num_num]
  · intro hcap
    rw [hcap]
    simp only [dInfinity, min_posInf, zero_eq, num_sub_num, max_num_num, num_mul_num,
      num_add_num]

/-! ## Row-count policy -/

/-- The clamp at the head of `getInfo1` does not change whether a coefficient is
positive. -/
theorem pos_clamp_iff (a : dReal) : (0 < (if a < 0 then (0 : dReal) else a)) ↔ 0 < a := by
  cases a with
  | num q =>
    by_cases hq : q < 0
    · have h0 : ¬ (0 < q) := by linarith
      simp [lt_iff, lt, zero_eq, hq, h0]
    · simp [lt_iff, lt, zero_eq, hq]
  | _ => simp [lt_iff, lt, zero_eq]

/-- The clamp at the head of `getInfo1` does not change whether a coefficient is the
infinite sentinel. -/
theorem ceq_clamp (a : dReal) :
    ceq (if a < 0 then (0 : dReal) else a) dInfinity = decide (a = dInfinity) := by
  cases a with
  | num q =>
    by_cases hq : q < 0
    · simp [lt_iff, lt, ceq, zero_eq, dInfinity, hq]
    · simp [lt_iff, lt, ceq, zero_eq, dInfinity, hq]
  | _ => simp [lt_iff, lt, ceq, zero_eq, dInfinity]

theorem clamp_eq_inf_iff (a : dReal) :
    (if a < 0 then (0 : dReal) else a) = dInfinity ↔ a = dInfinity := by
  cases a with
  | num q =>
    by_cases hq : q < 0
    · simp [lt_iff, lt, zero_eq, dInfinity, hq]
    · simp [lt_iff, lt, zero_eq, dInfinity, hq]
  | _ => simp [lt_iff, lt, zero_eq, dInfinity]

/-- The joint and counts computed by `getInfo1` in two-axis mode, in terms of the
clamped coefficients. -/
theorem getInfo1_two_axis_raw (j : dxJointContact) (info : Info1)
    (hmode : hasFlag j.contact.surface.mode dContactMu2 = true) :
    (getInfo1 j info).1.contact.surface.mu
      = (if j.contact.surface.mu < 0 then 0 else j.contact.surface.mu) ∧
    (getInfo1 j info).1.contact.surface.mu2
      = (if j.contact.surface.mu2 < 0 then 0 else j.contact.surface.mu2) ∧
    (getInfo1 j info).2.m
      = 1 + (if 0 < (if j.contact.surface.mu < 0 then 0 else j.contact.surface.mu)
              then 1 else 0)
          + (if 0 < (if j.contact.surface.mu2 < 0 then 0 else j.contact.surface.mu2)
              then 1 else 0) ∧
    (getInfo1 j info).2.nub
      = (if ceq (if j.contact.surface.mu < 0 then 0 else j.contact.surface.mu) dInfinity
            then 1 else 0)
          + (if ceq (if j.contact.surface.mu2 < 0 then 0 else j.contact.surface.mu2) dInfinity
            then 1 else 0) := by
  obtain ⟨flags, world, b0, b1, ⟨⟨mode, mu, mu2, x1, x2, x3, x4, x5, x6, x7, x8, x9⟩, geom, fdir⟩,
    the_m, erp, cfm⟩ := j
  simp only at hmode
  by_cases h1 : mu < 0 <;> by_cases h2 : mu2 < 0 <;> simp [getInfo1, hmode, h1, h2] <;>
    split_ifs <;> simp

/-- The joint and counts computed by `getInfo1` in isotropic mode, in terms of the
clamped coefficient. -/
theorem getInfo1_isotropic_raw (j : dxJointContact) (info : Info1)
    (hmode : hasFlag j.contact.surface.mode dContactMu2 = false) :
    (getInfo1 j info).1.contact.surface.mu
      = (if j.contact.surface.mu < 0 then 0 else j.contact.surface.mu) ∧
    (getInfo1 j info).1.contact.surface.mu2 = j.contact.surface.mu2 ∧
    (getInfo1 j info).2.m
      = 1 + (if 0 < (if j.contact.surface.mu < 0 then 0 else j.contact.surface.mu)
              then 2 else 0) ∧
    (getInfo1 j info).2.nub
      = (if ceq (if j.contact.surface.mu < 0 then 0 else j.contact.surface.mu) dInfinity
            then 2 else 0) := by
  obtain ⟨flags, world, b0, b1, ⟨⟨mode, mu, mu2, x1, x2, x3, x4, x5, x6, x7, x8, x9⟩, geom, fdir⟩,
    the_m, erp, cfm⟩ := j
  simp only at hmode
  by_cases h1 : mu < 0 <;> simp [getInfo1, hmode, h1] <;> split_ifs <;> simp

/-- The counts of `getInfo1` in two-axis mode, in terms of the coefficients passed in. -/
theorem getInfo1_two_axis_counts (j : dxJointContact) (info : Info1)
    (hmode : hasFlag j.contact.surface.mode dContactMu2 = true) :
    (getInfo1 j info).2.m
      = 1 + (if 0 < j.contact.surface.mu then 1 else 0)
          + (if 0 < j.contact.surface.mu2 then 1 else 0) ∧
    (getInfo1 j info).2.nub
      = (if j.contact.surface.mu = dInfinity then 1 else 0)
          + (if j.contact.surface.mu2 = dInfinity then 1 else 0) := by
  obtain ⟨-, -, h3, h4⟩ := getInfo1_two_axis_raw j info hmode
  rw [h3, h4]
  simp only [pos_clamp_iff, ceq_clamp, decide_eq_true_eq, and_self]

/-- The counts of `getInfo1` in isotropic mode, in terms of the coefficient passed in. -/
theorem getInfo1_isotropic_counts (j : dxJointContact) (info : Info1)
    (hmode : hasFlag j.contact.surface.mode dContactMu2 = false) :
    (getInfo1 j info).2.m = (if 0 < j.contact.surface.mu then 3 else 1) ∧
    (getInfo1 j info).2.nub = (if j.contact.surface.mu = dInfinity then 2 else 0) := by
  obtain ⟨-, -, h3, h4⟩ := getInfo1_isotropic_raw j info hmode
  rw [h3, h4]
  simp only [pos_clamp_iff, ceq_clamp, decide_eq_true_eq, and_true]
  split_ifs <;> rfl

/-- C5: in isotropic mode (two-axis flag unset), for every `mu` and `mu2`, `getInfo1`
returns `m = 3` if `mu > 0` and `m = 1` otherwise, and `nub = 2` if `mu` is the infinite
sentinel and `nub = 0` otherwise; in particular `mu = +infinity` gives `(3, 2)` and
`mu = 0.5` gives `(3, 0)`. -/
theorem getInfo1_isotropic (j : dxJointContact) (info : Info1)
    (hmode : hasFlag j.contact.surface.mode dContactMu2 = false) :
    (getInfo1 j info).2.m = (if 0 < j.contact.surface.mu then 3 else 1) ∧
    (getInfo1 j info).2.nub = (if j.contact.surface.mu = dInfinity then 2 else 0) ∧
    (j.contact.surface.mu = dInfinity → (getInfo1 j info).2 = { m := 3, nub := 2 }) ∧
    (j.contact.surface.mu = dReal.num (1/2) → (getInfo1 j info).2 = { m := 3, nub := 0 }) := by
  obtain ⟨h1, h2⟩ := getInfo1_isotropic_counts j info hmode
  refine ⟨h1, h2, ?_, ?_⟩
  · intro h
    have e : (getInfo1 j info).2 = { m := (getInfo1 j info).2.m, nub := (getInfo1 j info).2.nub } :=
      rfl
    rw [e, h1, h2, h]
    simp [lt_iff, lt, zero_eq, dInfinity]
  · intro h
    have e : (getInfo1 j info).2 = { m := (getInfo1 j info).2.m, nub := (getInfo1 j info).2.nub } :=
      rfl
    rw [e, h1, h2, h]
    have hne : ¬ (num (1 / 2) = dInfinity) := by simp [dInfinity]
    norm_num [lt_iff, lt, zero_eq, hne]

/-- C6: in two-axis friction mode, for every `mu` and `mu2`, `getInfo1` returns
`m = 1 + [mu > 0] + [mu2 > 0]` and `nub = [mu = +infinity] + [mu2 = +infinity]`, the
brackets being taken on the coefficients as stored after clamping negatives to `0`
(first two equations) or, equivalently, on the coefficients as passed in (last two). -/
theorem getInfo1_two_axis (j : dxJointContact) (info : Info1)
    (hmode : hasFlag j.contact.surface.mode dContactMu2 = true) :
    (getInfo1 j info).2.m
      = 1 + (if 0 < (getInfo1 j info).1.contact.surface.mu then 1 else 0)
          + (if 0 < (getInfo1 j info).1.contact.surface.mu2 then 1 else 0) ∧
    (getInfo1 j info).2.nub
      = (if (getInfo1 j info).1.contact.surface.mu = dInfinity then 1 else 0)
          + (if (getInfo1 j info).1.contact.surface.mu2 = dInfinity then 1 else 0) ∧
    (getInfo1 j info).2.m
      = 1 + (if 0 < j.contact.surface.mu then 1 else 0)
          + (if 0 < j.contact.surface.mu2 then 1 else 0) ∧
    (getInfo1 j info).2.nub
      = (if j.contact.surface.mu = dInfinity then 1 else 0)
          + (if j.contact.surface.mu2 = dInfinity then 1 else 0) := by
  obtain ⟨h1, h2, h3, h4⟩ := getInfo1_two_axis_raw j info hmode
  rw [h1, h2, h3, h4]
  simp only [pos_clamp_iff, ceq_clamp, clamp_eq_inf_iff, decide_eq_true_eq, and_self]

/-- C7 (as the code behaves): in two-axis friction mode with `mu = 0.5` and
`mu2 = +infinity`, `getInfo1` returns `m = 3` and `nub = 1`: the unbounded secondary row
is counted in `m` as well as in `nub`. -/
theorem getInfo1_two_axis_half_inf (j : dxJointContact) (info : Info1)
    (hmode : hasFlag j.contact.surface.mode dContactMu2 = true)
    (hmu : j.contact.surface.mu = dReal.num (1/2)) (hmu2 : j.contact.surface.mu2 = dInfinity) :
    (getInfo1 j info).2.m = 3 ∧ (getInfo1 j info).2.nub = 1 := by
  obtain ⟨-, -, h3, h4⟩ := getInfo1_two_axis_raw j info hmode
  rw [h3, h4, hmu, hmu2]
  norm_num [lt_iff, lt, ceq, zero_eq, dInfinity]

/-- C8 (as the code behaves): if `mu = 0` then `getInfo1` returns `m = 1` and `nub = 0`
whenever the two-axis flag is unset or `mu2` is not positive; in two-axis mode with
`mu2 > 0` it returns `m = 2`, and `nub = 1` exactly when `mu2` is the infinite sentinel. -/
theorem getInfo1_mu_zero (j : dxJointContact) (info : Info1)
    (hmu : j.contact.surface.mu = 0) :
    ((hasFlag j.contact.surface.mode dContactMu2 = false ∨ ¬ 0 < j.contact.surface.mu2) →
      (getInfo1 j info).2.m = 1 ∧ (getInfo1 j info).2.nub = 0) ∧
    ((hasFlag j.contact.surface.mode dContactMu2 = true ∧ 0 < j.contact.surface.mu2) →
      (getInfo1 j info).2.m = 2 ∧
      (getInfo1 j info).2.nub = (if j.contact.surface.mu2 = dInfinity then 1 else 0)) := by
  have hz : ¬ ((0 : dReal) < 0) := by simp [lt_iff, lt, zero_eq]
  have hi : ¬ ((0 : dReal) = dInfinity) := by simp [zero_eq, dInfinity]
  cases hmode : hasFlag j.contact.surface.mode dContactMu2 with
  | false =>
    obtain ⟨h1, h2⟩ := getInfo1_isotropic_counts j info hmode
    rw [h1, h2, hmu]
    simp [hz, hi]
  | true =>
    obtain ⟨h3, h4⟩ := getInfo1_two_axis_counts j info hmode
    rw [h3, h4, hmu]
    simp only [hz, hi, if_false]
    constructor
    · rintro (h | h)
      · cases h
      · have hne : ¬ j.contact.surface.mu2 = dInfinity := by
          intro h2
          apply h
          rw [h2]
          simp [lt_iff, lt, zero_eq, dInfinity]
        simp [h, hne]
    · rintro ⟨-, h⟩
      simp [h]

/-- C9 (as the code behaves): for numeric `mu` and `mu2`, after `getInfo1` the stored `mu`
is the input clamped to `>= 0` (a negative value replaced by `0`, any other unchanged);
the stored `mu2` is clamped the same way when the two-axis flag is set, and is left as it
was passed in when the flag is unset. -/
theorem getInfo1_clamp (j : dxJointContact) (info : Info1)
    (hmu : isNumeric j.contact.surface.mu = true)
    (hmu2 : isNumeric j.contact.surface.mu2 = true) :
    (getInfo1 j info).1.contact.surface.mu
      = (if j.contact.surface.mu < 0 then 0 else j.contact.surface.mu) ∧
    0 ≤ (getInfo1 j info).1.contact.surface.mu ∧
    (hasFlag j.contact.surface.mode dContactMu2 = true →
      (getInfo1 j info).1.contact.surface.mu2
        = (if j.contact.surface.mu2 < 0 then 0 else j.contact.surface.mu2) ∧
      0 ≤ (getInfo1 j info).1.contact.surface.mu2) ∧
    (hasFlag j.contact.surface.mode dContactMu2 = false →
      (getInfo1 j info).1.contact.surface.mu2 = j.contact.surface.mu2) := by
  have hc : ∀ a : dReal, isNumeric a = true → (0 : dReal) ≤ (if a < 0 then 0 else a) := by
    intro a ha
    by_cases h : a < 0
    · rw [if_pos h]
      simp [le_iff, le, lt, ceq, zero_eq]
    · simp only [h, if_false]
      exact zero_le_of_not_lt a ha h
  cases hmode : hasFlag j.contact.surface.mode dContactMu2 with
  | false =>
    obtain ⟨h1, h2, -, -⟩ := getInfo1_isotropic_raw j info hmode
    rw [h1, h2]
    simp [hc _ hmu]
  | true =>
    obtain ⟨h1, h2, -, -⟩ := getInfo1_two_axis_raw j info hmode
    rw [h1, h2]
    simp [hc _ hmu, hc _ hmu2]

/-- C10: `getInfo1` returns `m` in `{1,2,3}` and `nub` in `{0,1,2}`, caches the returned
`m` in `the_m`, and `m` never exceeds the `max_m = 3` reported by `getSureMaxInfo`. -/
theorem getInfo1_range (j : dxJointContact) (info : Info1) (sure : SureMaxInfo) :
    ((getInfo1 j info).2.m = 1 ∨ (getInfo1 j info).2.m = 2 ∨ (getInfo1 j info).2.m = 3) ∧
    ((getInfo1 j info).2.nub = 0 ∨ (getInfo1 j info).2.nub = 1 ∨
      (getInfo1 j info).2.nub = 2) ∧
    (getInfo1 j info).1.the_m = (getInfo1 j info).2.m ∧
    (getSureMaxInfo j sure).max_m = 3 ∧
    (getInfo1 j info).2.m ≤ (getSureMaxInfo j sure).max_m := by
  have hthe := (getInfo1_frame j info).2.2.2.2.2.2.2.2.2
  refine ⟨?_, ?_, hthe, rfl, (getInfo1_m_bounds j info).2⟩
  · cases hmode : hasFlag j.contact.surface.mode dContactMu2 with
    | false =>
      rw [(getInfo1_isotropic_raw j info hmode).2.2.1]
      split_ifs <;> simp
    | true =>
      rw [(getInfo1_two_axis_raw j info hmode).2.2.1]
      split_ifs <;> simp
  · cases hmode : hasFlag j.contact.surface.mode dContactMu2 with
    | false =>
      rw [(getInfo1_isotropic_raw j info hmode).2.2.2]
      split_ifs <;> simp
    | true =>
      rw [(getInfo1_two_axis_raw j info hmode).2.2.2]
      split_ifs <;> simp

/-! ## Evaluation on the sample inputs -/

/-- Witness for C3: on the one-body sample contact the body-B buffers keep their fill
value `7` at offset `0`. -/
theorem bodyB_absent_untouched_witness :
    (sampleJoint 0 (dReal.num (1/2)) 0).body1 = none ∧
    (getInfo2 samplePlaneSpace (sampleJoint 0 (dReal.num (1/2)) 0) (sampleInfo2 7)).J2l 0 = 7 ∧
    (getInfo2 samplePlaneSpace (sampleJoint 0 (dReal.num (1/2)) 0) (sampleInfo2 7)).J2a 0 = 7 ∧
    (simpleGetInfo2 samplePlaneSpace (sampleJoint 0 (dReal.num (1/2)) 0) (sampleInfo2 7)).J2l 0
      = 7 ∧
    (simpleGetInfo2 samplePlaneSpace (sampleJoint 0 (dReal.num (1/2)) 0) (sampleInfo2 7)).J2a 0
      = 7 :=
  ⟨rfl, bodyB_absent_untouched samplePlaneSpace (sampleJoint 0 (dReal.num (1/2)) 0)
    (sampleInfo2 7) 0 rfl⟩

/-- Witness for C4: depth `0.01`, erp `0.2`, step frequency `60`, minimum depth `0`,
uncapped correcting velocity and no motion give `c[0] = 0.12`. -/
theorem getInfo2_normal_bias_witness :
    hasFlag (sampleJoint 0 (dReal.num (1/2)) 0).contact.surface.mode dContactBounce = false ∧
    (getInfo2 samplePlaneSpace (getInfo1 (sampleJoint 0 (dReal.num (1/2)) 0) ⟨0, 0⟩).1
        (sampleInfo2 0)).c 0 = dReal.num (12/100) := by
  refine ⟨by decide, ?_⟩
  obtain ⟨-, hw, -, -, hg, -, hmode, herp, -, -⟩ :=
    getInfo1_frame (sampleJoint 0 (dReal.num (1/2)) 0) ⟨0, 0⟩
  rw [(getInfo2_normal_bias samplePlaneSpace _ _ (by rw [hmode]; decide)).1, hw, hg, hmode,
    herp]
  have h1 : hasFlag (sampleJoint 0 (dReal.num (1/2)) 0).contact.surface.mode dContactSoftERP
      = false := by decide
  have h2 : hasFlag (sampleJoint 0 (dReal.num (1/2)) 0).contact.surface.mode dContactMotionN
      = false := by decide
  rw [h1, h2]
  simp only [sampleJoint, sampleInfo2, dInfinity, min_posInf, zero_eq, ofNat_eq, num_sub_num,
    max_num_num, num_mul_num, num_add_num]
  norm_num

/-- Witness for C5: in isotropic mode `mu = +infinity` gives `(m, nub) = (3, 2)`. -/
theorem getInfo1_isotropic_witness :
    hasFlag (sampleJoint 0 dInfinity 0).contact.surface.mode dContactMu2 = false ∧
    (getInfo1 (sampleJoint 0 dInfinity 0) ⟨0, 0⟩).2 = { m := 3, nub := 2 } :=
  ⟨by decide, (getInfo1_isotropic (sampleJoint 0 dInfinity 0) ⟨0, 0⟩ (by decide)).2.2.1 rfl⟩

/-- Witness for C6: in two-axis mode `mu = 0.5`, `mu2 = 0.25` give `m = 3`, `nub = 0`. -/
theorem getInfo1_two_axis_witness :
    hasFlag (sampleJoint dContactMu2 (dReal.num (1/2)) (dReal.num (1/4))).contact.surface.mode
      dContactMu2 = true ∧
    (getInfo1 (sampleJoint dContactMu2 (dReal.num (1/2)) (dReal.num (1/4))) ⟨0, 0⟩).2.m = 3 ∧
    (getInfo1 (sampleJoint dContactMu2 (dReal.num (1/2)) (dReal.num (1/4))) ⟨0, 0⟩).2.nub
      = 0 := by
  obtain ⟨-, -, h3, h4⟩ := getInfo1_two_axis
    (sampleJoint dContactMu2 (dReal.num (1/2)) (dReal.num (1/4))) ⟨0, 0⟩ (by decide)
  refine ⟨by decide, ?_, ?_⟩
  · rw [h3]
    norm_num [sampleJoint, lt_iff, lt, zero_eq]
  · rw [h4]
    simp [sampleJoint, dInfinity]

/-- Counterexample to C7 as stated: in two-axis mode with `mu = 0.5` and
`mu2 = +infinity` the returned row count is `3`, not `2`. -/
theorem getInfo1_two_axis_half_inf_counterexample :
    hasFlag (sampleJoint dContactMu2 (dReal.num (1/2)) dInfinity).contact.surface.mode
      dContactMu2 = true ∧
    (getInfo1 (sampleJoint dContactMu2 (dReal.num (1/2)) dInfinity) ⟨0, 0⟩).2.m = 3 ∧
    ¬ ((getInfo1 (sampleJoint dContactMu2 (dReal.num (1/2)) dInfinity) ⟨0, 0⟩).2.m = 2 ∧
       (getInfo1 (sampleJoint dContactMu2 (dReal.num (1/2)) dInfinity) ⟨0, 0⟩).2.nub = 1) := by
  have h : (getInfo1 (sampleJoint dContactMu2 (dReal.num (1/2)) dInfinity) ⟨0, 0⟩).2.m = 3 := by
    rw [(getInfo1_two_axis_counts _ _ (by decide)).1]
    norm_num [sampleJoint, lt_iff, lt, zero_eq, dInfinity]
  refine ⟨by decide, h, ?_⟩
  rw [h]
  simp

/-- Witness for the amended C7 on the sample contact. -/
theorem getInfo1_two_axis_half_inf_witness :
    hasFlag (sampleJoint dContactMu2 (dReal.num (1/2)) dInfinity).contact.surface.mode
      dContactMu2 = true ∧
    (sampleJoint dContactMu2 (dReal.num (1/2)) dInfinity).contact.surface.mu
      = dReal.num (1/2) ∧
    (sampleJoint dContactMu2 (dReal.num (1/2)) dInfinity).contact.surface.mu2 = dInfinity ∧
    (getInfo1 (sampleJoint dContactMu2 (dReal.num (1/2)) dInfinity) ⟨0, 0⟩).2.m = 3 ∧
    (getInfo1 (sampleJoint dContactMu2 (dReal.num (1/2)) dInfinity) ⟨0, 0⟩).2.nub = 1 :=
  ⟨by decide, rfl, rfl,
    getInfo1_two_axis_half_inf (sampleJoint dContactMu2 (dReal.num (1/2)) dInfinity) ⟨0, 0⟩
      (by decide) rfl rfl⟩

/-- Counterexample to C8 as stated: in two-axis mode with `mu = 0` and `mu2 = 0.5` the
returned row count is `2`, not `1`. -/
theorem getInfo1_mu_zero_counterexample :
    (sampleJoint dContactMu2 0 (dReal.num (1/2))).contact.surface.mu = 0 ∧
    (getInfo1 (sampleJoint dContactMu2 0 (dReal.num (1/2))) ⟨0, 0⟩).2.m = 2 ∧
    ¬ ((getInfo1 (sampleJoint dContactMu2 0 (dReal.num (1/2))) ⟨0, 0⟩).2.m = 1 ∧
       (getInfo1 (sampleJoint dContactMu2 0 (dReal.num (1/2))) ⟨0, 0⟩).2.nub = 0) := by
  have h : (getInfo1 (sampleJoint dContactMu2 0 (dReal.num (1/2))) ⟨0, 0⟩).2.m = 2 := by
    rw [(getInfo1_two_axis_counts _ _ (by decide)).1]
    norm_num [sampleJoint, lt_iff, lt, zero_eq]
  refine ⟨rfl, h, ?_⟩
  rw [h]
  simp

/-- Witness for the amended C8: `mu = 0` in isotropic mode gives `m = 1`, `nub = 0`. -/
theorem getInfo1_mu_zero_witness :
    (sampleJoint 0 0 (dReal.num (1/2))).contact.surface.mu = 0 ∧
    (getInfo1 (sampleJoint 0 0 (dReal.num (1/2))) ⟨0, 0⟩).2.m = 1 ∧
    (getInfo1 (sampleJoint 0 0 (dReal.num (1/2))) ⟨0, 0⟩).2.nub = 0 :=
  ⟨rfl, (getInfo1_mu_zero (sampleJoint 0 0 (dReal.num (1/2))) ⟨0, 0⟩ rfl).1
    (Or.inl (by decide))⟩

/-- Counterexample to C9 as stated: in isotropic mode a negative `mu2` is stored
unchanged, so the stored `mu2` is not `>= 0`. -/
theorem getInfo1_clamp_counterexample :
    isNumeric (sampleJoint 0 (dReal.num (1/2)) (dReal.num (-1))).contact.surface.mu = true ∧
    isNumeric (sampleJoint 0 (dReal.num (1/2)) (dReal.num (-1))).contact.surface.mu2 = true ∧
    (getInfo1 (sampleJoint 0 (dReal.num (1/2)) (dReal.num (-1))) ⟨0, 0⟩).1.contact.surface.mu2
      = dReal.num (-1) ∧
    ¬ (0 ≤ (getInfo1 (sampleJoint 0 (dReal.num (1/2)) (dReal.num (-1)))
        ⟨0, 0⟩).1.contact.surface.mu2) := by
  have h : (getInfo1 (sampleJoint 0 (dReal.num (1/2)) (dReal.num (-1)))
      ⟨0, 0⟩).1.contact.surface.mu2 = dReal.num (-1) :=
    (getInfo1_isotropic_raw _ _ (by decide)).2.1
  refine ⟨rfl, rfl, h, ?_⟩
  rw [h]
  norm_num [le_iff, le, lt, ceq, zero_eq]

/-- Witness for the amended C9: in two-axis mode `mu = -1` and `mu2 = -1` are both
stored as `0`. -/
theorem getInfo1_clamp_witness :
    isNumeric (sampleJoint dContactMu2 (dReal.num (-1)) (dReal.num (-1))).contact.surface.mu
      = true ∧
    isNumeric (sampleJoint dContactMu2 (dReal.num (-1)) (dReal.num (-1))).contact.surface.mu2
      = true ∧
    (getInfo1 (sampleJoint dContactMu2 (dReal.num (-1)) (dReal.num (-1)))
      ⟨0, 0⟩).1.contact.surface.mu = 0 ∧
    (getInfo1 (sampleJoint dContactMu2 (dReal.num (-1)) (dReal.num (-1)))
      ⟨0, 0⟩).1.contact.surface.mu2 = 0 := by
  obtain ⟨h1, -, h3, -⟩ := getInfo1_clamp
    (sampleJoint dContactMu2 (dReal.num (-1)) (dReal.num (-1))) ⟨0, 0⟩ rfl rfl
  refine ⟨rfl, rfl, ?_, ?_⟩
  · rw [h1]
    norm_num [sampleJoint, lt_iff, lt, zero_eq]
  · rw [(h3 (by decide)).1]
    norm_num [sampleJoint, lt_iff, lt, zero_eq]

/-! ## The bias of the normal row -/

theorem getInfo2_normalRhs_c0_capped (j : dxJointContact) (info : Info2) :
    (getInfo2_normalRhs j info).c 0 = getInfo2_cappedBias j info := by
  simp only [getInfo2_normalRhs, getInfo2_cappedBias, getInfo2_pushout, apply_ite Info2.c,
    Info2.setCfm_c, Info2.setC_c, ite_self, Buf.set, Function.update_same]
  split_ifs <;> simp

theorem getInfo2_cappedBias_eq_min (j : dxJointContact) (info : Info2) :
    getInfo2_cappedBias j info
      = dReal.min (getInfo2_pushout j info) j.world.contactp.max_vel := rfl

theorem getInfo2_pushout_eq (j : dxJointContact) (info : Info2) :
    getInfo2_pushout j info
      = info.fps *
          (if hasFlag j.contact.surface.mode dContactSoftERP then j.contact.surface.soft_erp
           else j.erp) *
          dReal.max (j.contact.geom.depth - j.world.contactp.min_depth) 0
        + getInfo2_motionN j := by
  simp only [getInfo2_pushout, dReal.max]

/-- The value of `c[0]` after the bounce block, when the block reads the Jacobian of the
normal row from the buffers. -/
theorem getInfo2_bounce_c0_of_rows (j : dxJointContact) (info : Info2)
    (h1l : load3 info.J1l 0 = getInfo2_normal j)
    (h1a : load3 info.J1a 0 = cross (getInfo2_c1 j) (getInfo2_normal j))
    (h2l : j.body1.isSome = true → load3 info.J2l 0 = (getInfo2_normal j).neg)
    (h2a : j.body1.isSome = true →
      load3 info.J2a 0 = (cross (getInfo2_c2 j) (getInfo2_normal j)).neg) :
    (getInfo2_bounce j info).c 0
      = if hasFlag j.contact.surface.mode dContactBounce then
          (if getInfo2_bounceFires j then dReal.max (info.c 0) (getInfo2_newc j) else info.c 0)
        else info.c 0 := by
  cases hb : j.body1 with
  | none =>
    simp only [getInfo2_bounce, apply_ite Info2.c, Info2.setC_c, Buf.set,
      Function.update_same, getInfo2_bounceFires, getInfo2_newc, getInfo2_outgoing,
      normalVelocity, dReal.max, decide_eq_true_eq, hb, h1l, h1a]
    split_ifs <;> rfl
  | some b1 =>
    have hs : j.body1.isSome = true := by rw [hb]; rfl
    simp only [getInfo2_bounce, apply_ite Info2.c, Info2.setC_c, Buf.set,
      Function.update_same, getInfo2_bounceFires, getInfo2_newc, getInfo2_outgoing,
      normalVelocity, dReal.max, decide_eq_true_eq, hb, h1l, h1a, h2l hs, h2a hs]
    split_ifs <;> rfl

theorem getInfo2_cappedBias_congr (j : dxJointContact) (info info1 : Info2)
    (h : info1.fps = info.fps) : getInfo2_cappedBias j info1 = getInfo2_cappedBias j info := by
  simp only [getInfo2_cappedBias, getInfo2_pushout, h]

/-- The value of `c[0]` after `getInfo2`: the friction blocks and the limits block do not
touch it. -/
theorem getInfo2_c0_eq_bounce (P : Vec3 → Vec3 × Vec3) (j : dxJointContact) (info : Info2) :
    (getInfo2 P j info).c 0
      = (getInfo2_bounce j (getInfo2_normalRhs j (getInfo2_normalJacobian j info))).c 0 := by
  simp only [getInfo2, getInfo2_friction2_c, getInfo2_friction1_c, getInfo2_normalLimits_c,
    Buf.set]
  split_ifs <;> simp [Function.update_apply]

/-- The value of `c[0]` after `getInfo2`, in terms of the capped penetration bias and the
bounce locals. -/
theorem getInfo2_c0 (P : Vec3 → Vec3 × Vec3) (j : dxJointContact) (info : Info2) :
    (getInfo2 P j info).c 0
      = if hasFlag j.contact.surface.mode dContactBounce then
          (if getInfo2_bounceFires j then
            dReal.max (getInfo2_cappedBias j info) (getInfo2_newc j)
           else getInfo2_cappedBias j info)
        else getInfo2_cappedBias j info := by
  rw [getInfo2_c0_eq_bounce, getInfo2_bounce_c0_of_rows, getInfo2_normalRhs_c0_capped,
    getInfo2_cappedBias_congr j info _ (getInfo2_normalJacobian_fps j info)]
  · rw [getInfo2_normalRhs_J1l, getInfo2_normalJacobian_J1l, load3_store3_same]
  · rw [getInfo2_normalRhs_J1a, getInfo2_normalJacobian_J1a, load3_store3_same]
  · intro hs
    rw [getInfo2_normalRhs_J2l, getInfo2_normalJacobian_J2l, if_pos hs, load3_store3_same]
  · intro hs
    rw [getInfo2_normalRhs_J2a, getInfo2_normalJacobian_J2a, if_pos hs, load3_store3_same]

/-! ## The bounds and friction-index buffers after each assembly block -/

@[simp]
theorem getInfo2_normalLimits_lo (info : Info2) :
    (getInfo2_normalLimits info).lo
      = info.lo.set 0 0 := by
  simp only [getInfo2_normalLimits, apply_ite Info2.lo, Info2.setJ1l_lo, Info2.setJ2l_lo, Info2.setCfm_lo, Info2.setC_lo, Info2.setLo_lo, Info2.setHi_lo, Info2.setFindex_lo, Info2.onJ1l_lo, Info2.onJ1a_lo, Info2.onJ2l_lo, Info2.onJ2a_lo, ite_self]

@[simp]
theorem getInfo2_normalLimits_hi (info : Info2) :
    (getInfo2_normalLimits info).hi
      = info.hi.set 0 dInfinity := by
  simp only [getInfo2_normalLimits, apply_ite Info2.hi, Info2.setJ1l_hi, Info2.setJ2l_hi, Info2.setCfm_hi, Info2.setC_hi, Info2.setLo_hi, Info2.setHi_hi, Info2.setFindex_hi, Info2.onJ1l_hi, Info2.onJ1a_hi, Info2.onJ2l_hi, Info2.onJ2a_hi, ite_self]

@[simp]
theorem getInfo2_friction1_lo (P : Vec3 → Vec3 × Vec3) (j : dxJointContact) (info : Info2) :
    (getInfo2_friction1 P j info).lo
      = if 2 ≤ j.the_m then info.lo.set 1 (-j.contact.surface.mu) else info.lo := by
  simp only [getInfo2_friction1, apply_ite Info2.lo, Info2.setJ1l_lo, Info2.setJ2l_lo, Info2.setCfm_lo, Info2.setC_lo, Info2.setLo_lo, Info2.setHi_lo, Info2.setFindex_lo, Info2.onJ1l_lo, Info2.onJ1a_lo, Info2.onJ2l_lo, Info2.onJ2a_lo, ite_self]

@[simp]
theorem getInfo2_friction1_hi (P : Vec3 → Vec3 × Vec3) (j : dxJointContact) (info : Info2) :
    (getInfo2_friction1 P j info).hi
      = if 2 ≤ j.the_m then info.hi.set 1 j.contact.surface.mu else info.hi := by
  simp only [getInfo2_friction1, apply_ite Info2.hi, Info2.setJ1l_hi, Info2.setJ2l_hi, Info2.setCfm_hi, Info2.setC_hi, Info2.setLo_hi, Info2.setHi_hi, Info2.setFindex_hi, Info2.onJ1l_hi, Info2.onJ1a_hi, Info2.onJ2l_hi, Info2.onJ2a_hi, ite_self]

@[simp]
theorem getInfo2_friction1_findex (P : Vec3 → Vec3 × Vec3) (j : dxJointContact) (info : Info2) :
    (getInfo2_friction1 P j info).findex
      = if 2 ≤ j.the_m then
          (if hasFlag j.contact.surface.mode dContactApprox1_1 then Function.update info.findex 1 0
           else info.findex)
        else info.findex := by
  simp only [getInfo2_friction1, apply_ite Info2.findex, Info2.setJ1l_findex, Info2.setJ2l_findex, Info2.setCfm_findex, Info2.setC_findex, Info2.setLo_findex, Info2.setHi_findex, Info2.setFindex_findex, Info2.onJ1l_findex, Info2.onJ1a_findex, Info2.onJ2l_findex, Info2.onJ2a_findex, ite_self]

@[simp]
theorem getInfo2_friction2_lo (P : Vec3 → Vec3 × Vec3) (j : dxJointContact) (info : Info2) :
    (getInfo2_friction2 P j info).lo
      = if 3 ≤ j.the_m then
          (if hasFlag j.contact.surface.mode dContactMu2 then info.lo.set 2 (-j.contact.surface.mu2)
           else info.lo.set 2 (-j.contact.surface.mu))
        else info.lo := by
  simp only [getInfo2_friction2, apply_ite Info2.lo, Info2.setJ1l_lo, Info2.setJ2l_lo, Info2.setCfm_lo, Info2.setC_lo, Info2.setLo_lo, Info2.setHi_lo, Info2.setFindex_lo, Info2.onJ1l_lo, Info2.onJ1a_lo, Info2.onJ2l_lo, Info2.onJ2a_lo, ite_self]

@[simp]
theorem getInfo2_friction2_hi (P : Vec3 → Vec3 × Vec3) (j : dxJointContact) (info : Info2) :
    (getInfo2_friction2 P j info).hi
      = if 3 ≤ j.the_m then
          (if hasFlag j.contact.surface.mode dContactMu2 then info.hi.set 2 j.contact.surface.mu2
           else info.hi.set 2 j.contact.surface.mu)
        else info.hi := by
  simp only [getInfo2_friction2, apply_ite Info2.hi, Info2.setJ1l_hi, Info2.setJ2l_hi, Info2.setCfm_hi, Info2.setC_hi, Info2.setLo_hi, Info2.setHi_hi, Info2.setFindex_hi, Info2.onJ1l_hi, Info2.onJ1a_hi, Info2.onJ2l_hi, Info2.onJ2a_hi, ite_self]

@[simp]
theorem getInfo2_friction2_findex (P : Vec3 → Vec3 × Vec3) (j : dxJointContact) (info : Info2) :
    (getInfo2_friction2 P j info).findex
      = if 3 ≤ j.the_m then
          (if hasFlag j.contact.surface.mode dContactApprox1_2 then Function.update info.findex 2 0
           else info.findex)
        else info.findex := by
  simp only [getInfo2_friction2, apply_ite Info2.findex, Info2.setJ1l_findex, Info2.setJ2l_findex, Info2.setCfm_findex, Info2.setC_findex, Info2.setLo_findex, Info2.setHi_findex, Info2.setFindex_findex, Info2.onJ1l_findex, Info2.onJ1a_findex, Info2.onJ2l_findex, Info2.onJ2a_findex, ite_self]

@[simp]
theorem simpleGetInfo2_friction1_lo (P : Vec3 → Vec3 × Vec3) (j : dxJointContact) (info : Info2) :
    (simpleGetInfo2_friction1 P j info).lo
      = if 2 ≤ j.the_m then info.lo.set 1 (-j.contact.surface.mu) else info.lo := by
  simp only [simpleGetInfo2_friction1, apply_ite Info2.lo, Info2.setJ1l_lo, Info2.setJ2l_lo, Info2.setCfm_lo, Info2.setC_lo, Info2.setLo_lo, Info2.setHi_lo, Info2.setFindex_lo, Info2.onJ1l_lo, Info2.onJ1a_lo, Info2.onJ2l_lo, Info2.onJ2a_lo, ite_self]

@[simp]
theorem simpleGetInfo2_friction1_hi (P : Vec3 → Vec3 × Vec3) (j : dxJointContact) (info : Info2) :
    (simpleGetInfo2_friction1 P j info).hi
      = if 2 ≤ j.the_m then info.hi.set 1 j.contact.surface.mu else info.hi := by
  simp only [simpleGetInfo2_friction1, apply_ite Info2.hi, Info2.setJ1l_hi, Info2.setJ2l_hi, Info2.setCfm_hi, Info2.setC_hi, Info2.setLo_hi, Info2.setHi_hi, Info2.setFindex_hi, Info2.onJ1l_hi, Info2.onJ1a_hi, Info2.onJ2l_hi, Info2.onJ2a_hi, ite_self]

@[simp]
theorem simpleGetInfo2_friction1_findex (P : Vec3 → Vec3 × Vec3) (j : dxJointContact) (info : Info2) :
    (simpleGetInfo2_friction1 P j info).findex
      = if 2 ≤ j.the_m then
          (if hasFlag j.contact.surface.mode dContactApprox1_1 then Function.update info.findex 1 0
           else info.findex)
        else info.findex := by
  simp only [simpleGetInfo2_friction1, apply_ite Info2.findex, Info2.setJ1l_findex, Info2.setJ2l_findex, Info2.setCfm_findex, Info2.setC_findex, Info2.setLo_findex, Info2.setHi_findex, Info2.setFindex_findex, Info2.onJ1l_findex, Info2.onJ1a_findex, Info2.onJ2l_findex, Info2.onJ2a_findex, ite_self]

@[simp]
theorem simpleGetInfo2_friction2_lo (P : Vec3 → Vec3 × Vec3) (j : dxJointContact) (info : Info2) :
    (simpleGetInfo2_friction2 P j info).lo
      = if 3 ≤ j.the_m then info.lo.set 2 (-j.contact.surface.mu) else info.lo := by
  simp only [simpleGetInfo2_friction2, apply_ite Info2.lo, Info2.setJ1l_lo, Info2.setJ2l_lo, Info2.setCfm_lo, Info2.setC_lo, Info2.setLo_lo, Info2.setHi_lo, Info2.setFindex_lo, Info2.onJ1l_lo, Info2.onJ1a_lo, Info2.onJ2l_lo, Info2.onJ2a_lo, ite_self]

@[simp]
theorem simpleGetInfo2_friction2_hi (P : Vec3 → Vec3 × Vec3) (j : dxJointContact) (info : Info2) :
    (simpleGetInfo2_friction2 P j info).hi
      = if 3 ≤ j.the_m then info.hi.set 2 j.contact.surface.mu else info.hi := by
  simp only [simpleGetInfo2_friction2, apply_ite Info2.hi, Info2.setJ1l_hi, Info2.setJ2l_hi, Info2.setCfm_hi, Info2.setC_hi, Info2.setLo_hi, Info2.setHi_hi, Info2.setFindex_hi, Info2.onJ1l_hi, Info2.onJ1a_hi, Info2.onJ2l_hi, Info2.onJ2a_hi, ite_self]

@[simp]
theorem simpleGetInfo2_friction2_findex (P : Vec3 → Vec3 × Vec3) (j : dxJointContact) (info : Info2) :
    (simpleGetInfo2_friction2 P j info).findex
      = if 3 ≤ j.the_m then
          (if hasFlag j.contact.surface.mode dContactApprox1_2 then Function.update info.findex 2 0
           else info.findex)
        else info.findex := by
  simp only [simpleGetInfo2_friction2, apply_ite Info2.findex, Info2.setJ1l_findex, Info2.setJ2l_findex, Info2.setCfm_findex, Info2.setC_findex, Info2.setLo_findex, Info2.setHi_findex, Info2.setFindex_findex, Info2.onJ1l_findex, Info2.onJ1a_findex, Info2.onJ2l_findex, Info2.onJ2a_findex, ite_self]

@[simp]
theorem simpleGetInfo2_normalRhs_lo (j : dxJointContact) (info : Info2) :
    (simpleGetInfo2_normalRhs j info).lo
      = info.lo.set 0 0 := by
  simp only [simpleGetInfo2_normalRhs, apply_ite Info2.lo, Info2.setJ1l_lo, Info2.setJ2l_lo, Info2.setCfm_lo, Info2.setC_lo, Info2.setLo_lo, Info2.setHi_lo, Info2.setFindex_lo, Info2.onJ1l_lo, Info2.onJ1a_lo, Info2.onJ2l_lo, Info2.onJ2a_lo, ite_self]

@[simp]
theorem simpleGetInfo2_normalRhs_hi (j : dxJointContact) (info : Info2) :
    (simpleGetInfo2_normalRhs j info).hi
      = info.hi.set 0 dInfinity := by
  simp only [simpleGetInfo2_normalRhs, apply_ite Info2.hi, Info2.setJ1l_hi, Info2.setJ2l_hi, Info2.setCfm_hi, Info2.setC_hi, Info2.setLo_hi, Info2.setHi_hi, Info2.setFindex_hi, Info2.onJ1l_hi, Info2.onJ1a_hi, Info2.onJ2l_hi, Info2.onJ2a_hi, ite_self]

@[simp]
theorem simpleGetInfo2_normalRhs_c (j : dxJointContact) (info : Info2) :
    (simpleGetInfo2_normalRhs j info).c
      = info.c.set 0
          (info.fps * info.erp *
            (if j.contact.geom.depth < 0 then 0 else j.contact.geom.depth)) := by
  simp only [simpleGetInfo2_normalRhs, apply_ite Info2.c, Info2.setJ1l_c, Info2.setJ2l_c, Info2.setCfm_c, Info2.setC_c, Info2.setLo_c, Info2.setHi_c, Info2.setFindex_c, Info2.onJ1l_c, Info2.onJ1a_c, Info2.onJ2l_c, Info2.onJ2a_c, ite_self]

/-! ## Bounds and friction index after the assembly routines -/

theorem getInfo2_lo (P : Vec3 → Vec3 × Vec3) (j : dxJointContact) (info : Info2) :
    (getInfo2 P j info).lo
      = if 3 ≤ j.the_m then
          (if hasFlag j.contact.surface.mode dContactMu2 then
            ((if 2 ≤ j.the_m then (info.lo.set 0 0).set 1 (-j.contact.surface.mu)
              else info.lo.set 0 0)).set 2 (-j.contact.surface.mu2)
           else
            ((if 2 ≤ j.the_m then (info.lo.set 0 0).set 1 (-j.contact.surface.mu)
              else info.lo.set 0 0)).set 2 (-j.contact.surface.mu))
        else
          (if 2 ≤ j.the_m then (info.lo.set 0 0).set 1 (-j.contact.surface.mu)
           else info.lo.set 0 0) := by
  simp only [getInfo2, getInfo2_friction2_lo, getInfo2_friction1_lo, getInfo2_normalLimits_lo,
    getInfo2_bounce_lo, getInfo2_normalRhs_lo, getInfo2_normalJacobian_lo]

theorem getInfo2_hi (P : Vec3 → Vec3 × Vec3) (j : dxJointContact) (info : Info2) :
    (getInfo2 P j info).hi
      = if 3 ≤ j.the_m then
          (if hasFlag j.contact.surface.mode dContactMu2 then
            ((if 2 ≤ j.the_m then (info.hi.set 0 dInfinity).set 1 j.contact.surface.mu
              else info.hi.set 0 dInfinity)).set 2 j.contact.surface.mu2
           else
            ((if 2 ≤ j.the_m then (info.hi.set 0 dInfinity).set 1 j.contact.surface.mu
              else info.hi.set 0 dInfinity)).set 2 j.contact.surface.mu)
        else
          (if 2 ≤ j.the_m then (info.hi.set 0 dInfinity).set 1 j.contact.surface.mu
           else info.hi.set 0 dInfinity) := by
  simp only [getInfo2, getInfo2_friction2_hi, getInfo2_friction1_hi, getInfo2_normalLimits_hi,
    getInfo2_bounce_hi, getInfo2_normalRhs_hi, getInfo2_normalJacobian_hi]

theorem simpleGetInfo2_lo (P : Vec3 → Vec3 × Vec3) (j : dxJointContact) (info : Info2) :
    (simpleGetInfo2 P j info).lo
      = if 3 ≤ j.the_m then
          ((if 2 ≤ j.the_m then (info.lo.set 0 0).set 1 (-j.contact.surface.mu)
            else info.lo.set 0 0)).set 2 (-j.contact.surface.mu)
        else
          (if 2 ≤ j.the_m then (info.lo.set 0 0).set 1 (-j.contact.surface.mu)
           else info.lo.set 0 0) := by
  simp only [simpleGetInfo2, simpleGetInfo2_friction2_lo, simpleGetInfo2_friction1_lo,
    simpleGetInfo2_normalRhs_lo, simpleGetInfo2_normalJacobian_lo]

theorem simpleGetInfo2_hi (P : Vec3 → Vec3 × Vec3) (j : dxJointContact) (info : Info2) :
    (simpleGetInfo2 P j info).hi
      = if 3 ≤ j.the_m then
          ((if 2 ≤ j.the_m then (info.hi.set 0 dInfinity).set 1 j.contact.surface.mu
            else info.hi.set 0 dInfinity)).set 2 j.contact.surface.mu
        else
          (if 2 ≤ j.the_m then (info.hi.set 0 dInfinity).set 1 j.contact.surface.mu
           else info.hi.set 0 dInfinity) := by
  simp only [simpleGetInfo2, simpleGetInfo2_friction2_hi, simpleGetInfo2_friction1_hi,
    simpleGetInfo2_normalRhs_hi, simpleGetInfo2_normalJacobian_hi]

theorem getInfo2_findex (P : Vec3 → Vec3 × Vec3) (j : dxJointContact) (info : Info2) :
    (getInfo2 P j info).findex
      = if 3 ≤ j.the_m then
          (if hasFlag j.contact.surface.mode dContactApprox1_2 then
            Function.update
              (if 2 ≤ j.the_m then
                (if hasFlag j.contact.surface.mode dContactApprox1_1 then
                  Function.update info.findex 1 0 else info.findex)
               else info.findex) 2 0
           else
            (if 2 ≤ j.the_m then
              (if hasFlag j.contact.surface.mode dContactApprox1_1 then
                Function.update info.findex 1 0 else info.findex)
             else info.findex))
        else
          (if 2 ≤ j.the_m then
            (if hasFlag j.contact.surface.mode dContactApprox1_1 then
              Function.update info.findex 1 0 else info.findex)
           else info.findex) := by
  simp only [getInfo2, getInfo2_friction2_findex, getInfo2_friction1_findex,
    getInfo2_normalLimits_findex, getInfo2_bounce_findex, getInfo2_normalRhs_findex,
    getInfo2_normalJacobian_findex]

theorem simpleGetInfo2_findex (P : Vec3 → Vec3 × Vec3) (j : dxJointContact) (info : Info2) :
    (simpleGetInfo2 P j info).findex
      = if 3 ≤ j.the_m then
          (if hasFlag j.contact.surface.mode dContactApprox1_2 then
            Function.update
              (if 2 ≤ j.the_m then
                (if hasFlag j.contact.surface.mode dContactApprox1_1 then
                  Function.update info.findex 1 0 else info.findex)
               else info.findex) 2 0
           else
            (if 2 ≤ j.the_m then
              (if hasFlag j.contact.surface.mode dContactApprox1_1 then
                Function.update info.findex 1 0 else info.findex)
             else info.findex))
        else
          (if 2 ≤ j.the_m then
            (if hasFlag j.contact.surface.mode dContactApprox1_1 then
              Function.update info.findex 1 0 else info.findex)
           else info.findex) := by
  simp only [simpleGetInfo2, simpleGetInfo2_friction2_findex, simpleGetInfo2_friction1_findex,
    simpleGetInfo2_normalRhs_findex, simpleGetInfo2_normalJacobian_findex]

/-- C11: both `getInfo2` and `simpleGetInfo2` set the bounds of the normal row to
`lo[0] = 0` and `hi[0] = +infinity`, for every contact, row count and output buffer. -/
theorem normal_row_bounds (P : Vec3 → Vec3 × Vec3) (j : dxJointContact) (info : Info2) :
    (getInfo2 P j info).lo 0 = 0 ∧ (getInfo2 P j info).hi 0 = dInfinity ∧
    (simpleGetInfo2 P j info).lo 0 = 0 ∧ (simpleGetInfo2 P j info).hi 0 = dInfinity := by
  rw [getInfo2_lo, getInfo2_hi, simpleGetInfo2_lo, simpleGetInfo2_hi]
  refine ⟨?_, ?_, ?_, ?_⟩ <;> split_ifs <;> simp [Buf.set, Function.update_apply]

/-- The friction bounds written by `getInfo2`, for any joint state. -/
theorem getInfo2_friction_bounds_raw (P : Vec3 → Vec3 × Vec3) (j : dxJointContact)
    (info : Info2) :
    (2 ≤ j.the_m →
      (getInfo2 P j info).lo 1 = -j.contact.surface.mu ∧
      (getInfo2 P j info).hi 1 = j.contact.surface.mu) ∧
    (3 ≤ j.the_m →
      (getInfo2 P j info).lo 2
        = (if hasFlag j.contact.surface.mode dContactMu2 then -j.contact.surface.mu2
           else -j.contact.surface.mu) ∧
      (getInfo2 P j info).hi 2
        = (if hasFlag j.contact.surface.mode dContactMu2 then j.contact.surface.mu2
           else j.contact.surface.mu)) := by
  rw [getInfo2_lo, getInfo2_hi]
  constructor
  · intro h2
    constructor <;> split_ifs <;> simp [Buf.set, Function.update_apply]
  · intro h3
    have h2 : 2 ≤ j.the_m := by omega
    constructor <;> split_ifs <;> simp [Buf.set, Function.update_apply]

/-- The friction bounds written by `simpleGetInfo2`, for any joint state. -/
theorem simpleGetInfo2_friction_bounds_raw (P : Vec3 → Vec3 × Vec3) (j : dxJointContact)
    (info : Info2) :
    (2 ≤ j.the_m →
      (simpleGetInfo2 P j info).lo 1 = -j.contact.surface.mu ∧
      (simpleGetInfo2 P j info).hi 1 = j.contact.surface.mu) ∧
    (3 ≤ j.the_m →
      (simpleGetInfo2 P j info).lo 2 = -j.contact.surface.mu ∧
      (simpleGetInfo2 P j info).hi 2 = j.contact.surface.mu) := by
  rw [simpleGetInfo2_lo, simpleGetInfo2_hi]
  constructor
  · intro h2
    constructor <;> split_ifs <;> simp [Buf.set, Function.update_apply]
  · intro h3
    have h2 : 2 ≤ j.the_m := by omega
    constructor <;> split_ifs <;> simp [Buf.set, Function.update_apply]

/-! ## Order facts on scalars -/

namespace dReal

theorem lt_imp_le (a b : dReal) (h : a < b) : a ≤ b := by
  simp only [lt_iff] at h
  simp [le_iff, le, h]

theorem le_refl_of_isNumeric (a : dReal) (h : isNumeric a = true) : a ≤ a := by
  cases a <;> simp_all [le_iff, le, lt, ceq, isNumeric]

theorem le_imp_not_lt (a b : dReal) (h : a ≤ b) : ¬ b < a := by
  cases a <;> cases b <;> simp_all [le_iff, lt_iff, le, lt, ceq]
  rcases h with h | h
  · exact h.le
  · exact h.le

/-- A numeric value clamped at zero from below is at least zero. -/
theorem zero_le_clamp (a : dReal) (h : isNumeric a = true) :
    (0 : dReal) ≤ (if a < 0 then 0 else a) := by
  by_cases h0 : a < 0
  · rw [if_pos h0]
    simp [le_iff, le, lt, ceq, zero_eq]
  · rw [if_neg h0]
    exact zero_le_of_not_lt a h h0

theorem le_max_left_of_isNumeric (a b : dReal) (h : isNumeric a = true) :
    a ≤ dReal.max a b := by
  unfold dReal.max
  split_ifs with hlt
  · exact lt_imp_le a b hlt
  · exact le_refl_of_isNumeric a h

/-- Capping is monotone in the capped value, whatever the cap. -/
theorem min_le_min_of_le (a b : ℚ) (cap : dReal) (h : a ≤ b) :
    dReal.min (num a) cap ≤ dReal.min (num b) cap := by
  cases cap with
  | num c =>
    rw [min_num_num, min_num_num, num_le_num]
    exact min_le_min_right c h
  | posInf =>
    rw [min_posInf, min_posInf, num_le_num]
    exact h
  | negInf => simp [dReal.min, lt_iff, lt, le_iff, le, ceq]
  | nan => simpa [dReal.min, lt_iff, lt, le_iff, le, ceq] using lt_or_eq_of_le h

end dReal

/-! ## Bounce -/

/-- C12 (as the code behaves): with bounce mode set, let `outgoing` be the relative
normal velocity `J1l·v1 + J1a·w1 (+ J2l·v2 + J2a·w2)` on the normal row less the target
normal velocity `motionN`. If the threshold `bounce_vel` is `>= 0` and `-outgoing`
exceeds it, `getInfo2` writes `c[0] = max (b, -bounce * outgoing + motionN)`, where `b`
is the capped penetration bias `min (k * depth + motionN, maxVelocity)`; otherwise
`c[0] = b`. -/
theorem getInfo2_bounce_bias (P : Vec3 → Vec3 × Vec3) (j : dxJointContact) (info : Info2)
    (hb : hasFlag j.contact.surface.mode dContactBounce = true) :
    (getInfo2 P j info).c 0
      = if 0 ≤ j.contact.surface.bounce_vel ∧
            j.contact.surface.bounce_vel < -(normalVelocity j - getInfo2_motionN j) then
          dReal.max (dReal.min (getInfo2_pushout j info) j.world.contactp.max_vel)
            (-j.contact.surface.bounce * (normalVelocity j - getInfo2_motionN j)
              + getInfo2_motionN j)
        else dReal.min (getInfo2_pushout j info) j.world.contactp.max_vel := by
  rw [getInfo2_c0, if_pos hb, getInfo2_cappedBias_eq_min]
  simp only [getInfo2_bounceFires, getInfo2_newc, getInfo2_outgoing, decide_eq_true_eq]

/-- Counterexample to C12 as stated. Sample A (threshold `0`, target normal velocity `1`,
body at rest): the raw relative velocity is `0`, so `-outgoing` does not exceed the
threshold, yet `c[0] = 2` is not the capped bias `1.12`. Sample B (threshold `-0.5`,
incoming velocity `1`): `-outgoing` exceeds the threshold, yet `c[0] = 0.12` is not
`max (b, -bounce * outgoing + motionN) = 1`. -/
theorem getInfo2_bounce_bias_counterexample :
    (hasFlag bounceSampleA.contact.surface.mode dContactBounce = true ∧
      ¬ (bounceSampleA.contact.surface.bounce_vel < -normalVelocity bounceSampleA) ∧
      (getInfo2 samplePlaneSpace bounceSampleA (sampleInfo2 0)).c 0 = 2 ∧
      dReal.min (getInfo2_pushout bounceSampleA (sampleInfo2 0))
        bounceSampleA.world.contactp.max_vel = dReal.num (28/25)) ∧
    (hasFlag bounceSampleB.contact.surface.mode dContactBounce = true ∧
      bounceSampleB.contact.surface.bounce_vel < -normalVelocity bounceSampleB ∧
      (getInfo2 samplePlaneSpace bounceSampleB (sampleInfo2 0)).c 0 = dReal.num (3/25) ∧
      dReal.max
        (dReal.min (getInfo2_pushout bounceSampleB (sampleInfo2 0))
          bounceSampleB.world.contactp.max_vel)
        (-bounceSampleB.contact.surface.bounce * normalVelocity bounceSampleB
          + getInfo2_motionN bounceSampleB) = 1) := by
  have h0 : hasFlag 0 dJOINT_REVERSE = false := by decide
  have h1 : hasFlag (dContactBounce + dContactMotionN) dContactBounce = true := by decide
  have h2 : hasFlag (dContactBounce + dContactMotionN) dContactMotionN = true := by decide
  have h3 : hasFlag (dContactBounce + dContactMotionN) dContactSoftERP = false := by decide
  have h4 : hasFlag dContactBounce dContactBounce = true := by decide
  have h5 : hasFlag dContactBounce dContactMotionN = false := by decide
  have h6 : hasFlag dContactBounce dContactSoftERP = false := by decide
  refine ⟨⟨h1, ?_, ?_, ?_⟩, ⟨h4, ?_, ?_, ?_⟩⟩
  all_goals
    simp only [getInfo2_c0, getInfo2_cappedBias, getInfo2_pushout, getInfo2_motionN,
      getInfo2_bounceFires, getInfo2_newc, getInfo2_outgoing, normalVelocity, getInfo2_normal,
      getInfo2_c1, cross, dCalcVectorDot3, bounceSampleA, bounceSampleB, biasJoint,
      sampleInfo2, zeroVec, h0, h1, h2, h3, h4, h5, h6]
    simp only [zero_eq, ofNat_eq, num_mul_num, num_add_num, num_sub_num, neg_num, if_true,
      if_false, Bool.false_eq_true]
    norm_num [lt_iff, lt, le_iff, le, ceq, dInfinity, dReal.max, dReal.min]

/-- Witness for the amended C12: on sample D (threshold `0.5`, incoming velocity `1`,
restitution `1`) the bounce fires and `c[0] = max (0.12, 1) = 1`. -/
theorem getInfo2_bounce_bias_witness :
    hasFlag bounceSampleD.contact.surface.mode dContactBounce = true ∧
    (getInfo2 samplePlaneSpace bounceSampleD (sampleInfo2 0)).c 0 = 1 := by
  have h0 : hasFlag 0 dJOINT_REVERSE = false := by decide
  have h4 : hasFlag dContactBounce dContactBounce = true := by decide
  have h5 : hasFlag dContactBounce dContactMotionN = false := by decide
  have h6 : hasFlag dContactBounce dContactSoftERP = false := by decide
  refine ⟨h4, ?_⟩
  rw [getInfo2_bounce_bias samplePlaneSpace bounceSampleD (sampleInfo2 0) h4]
  simp only [getInfo2_pushout, getInfo2_motionN, normalVelocity, getInfo2_normal,
    getInfo2_c1, cross, dCalcVectorDot3, bounceSampleD, biasJoint, sampleInfo2, zeroVec,
    h0, h4, h5, h6]
  simp only [zero_eq, ofNat_eq, num_mul_num, num_add_num, num_sub_num, neg_num, if_true,
    if_false, Bool.false_eq_true]
  norm_num [lt_iff, lt, le_iff, le, ceq, dInfinity, dReal.max, dReal.min]

/-- C13 (as the code behaves): with bounce mode set, the normal-row bias written by
`getInfo2` is at least the capped penetration bias `min (k * depth + motionN,
maxVelocity)` whenever that is a number; with an infinite cap it is at least
`k * depth + motionN`. -/
theorem getInfo2_bounce_lower_bound (P : Vec3 → Vec3 × Vec3) (j : dxJointContact)
    (info : Info2) (hb : hasFlag j.contact.surface.mode dContactBounce = true)
    (hnum : isNumeric (dReal.min (getInfo2_pushout j info) j.world.contactp.max_vel) = true) :
    dReal.min (getInfo2_pushout j info) j.world.contactp.max_vel ≤ (getInfo2 P j info).c 0 ∧
    (j.world.contactp.max_vel = dInfinity →
      getInfo2_pushout j info ≤ (getInfo2 P j info).c 0) := by
  have h : dReal.min (getInfo2_pushout j info) j.world.contactp.max_vel
      ≤ (getInfo2 P j info).c 0 := by
    rw [getInfo2_c0, if_pos hb, getInfo2_cappedBias_eq_min]
    split_ifs
    · exact le_max_left_of_isNumeric _ _ hnum
    · exact le_refl_of_isNumeric _ hnum
  refine ⟨h, ?_⟩
  intro hcap
  rw [hcap, dInfinity, min_posInf] at h
  exact h

/-- Counterexample to C13 as stated: on sample C (cap `0.05`, body at rest) the bounce
does not fire and `c[0] = 0.05`, below `k * depth + motionN = 0.12`. -/
theorem getInfo2_bounce_lower_bound_counterexample :
    hasFlag bounceSampleC.contact.surface.mode dContactBounce = true ∧
    getInfo2_pushout bounceSampleC (sampleInfo2 0) = dReal.num (3/25) ∧
    (getInfo2 samplePlaneSpace bounceSampleC (sampleInfo2 0)).c 0 = dReal.num (1/20) ∧
    ¬ (getInfo2_pushout bounceSampleC (sampleInfo2 0)
        ≤ (getInfo2 samplePlaneSpace bounceSampleC (sampleInfo2 0)).c 0) := by
  have h0 : hasFlag 0 dJOINT_REVERSE = false := by decide
  have h4 : hasFlag dContactBounce dContactBounce = true := by decide
  have h5 : hasFlag dContactBounce dContactMotionN = false := by decide
  have h6 : hasFlag dContactBounce dContactSoftERP = false := by decide
  refine ⟨h4, ?_, ?_, ?_⟩
  all_goals
    simp only [getInfo2_c0, getInfo2_cappedBias, getInfo2_pushout, getInfo2_motionN,
      getInfo2_bounceFires, getInfo2_newc, getInfo2_outgoing, normalVelocity, getInfo2_normal,
      getInfo2_c1, cross, dCalcVectorDot3, bounceSampleC, biasJoint,
      sampleInfo2, zeroVec, h0, h4, h5, h6]
    simp only [zero_eq, ofNat_eq, num_mul_num, num_add_num, num_sub_num, neg_num, if_true,
      if_false, Bool.false_eq_true]
    norm_num [lt_iff, lt, le_iff, le, ceq, dInfinity, dReal.max, dReal.min]

/-- Witness for the amended C13: on sample D the written bias `1` is at least the capped
penetration bias. -/
theorem getInfo2_bounce_lower_bound_witness :
    hasFlag bounceSampleD.contact.surface.mode dContactBounce = true ∧
    isNumeric (dReal.min (getInfo2_pushout bounceSampleD (sampleInfo2 0))
      bounceSampleD.world.contactp.max_vel) = true ∧
    dReal.min (getInfo2_pushout bounceSampleD (sampleInfo2 0))
        bounceSampleD.world.contactp.max_vel
      ≤ (getInfo2 samplePlaneSpace bounceSampleD (sampleInfo2 0)).c 0 := by
  have h4 : hasFlag bounceSampleD.contact.surface.mode dContactBounce = true := by decide
  have hn : isNumeric (dReal.min (getInfo2_pushout bounceSampleD (sampleInfo2 0))
      bounceSampleD.world.contactp.max_vel) = true := by
    have h5 : hasFlag dContactBounce dContactMotionN = false := by decide
    have h6 : hasFlag dContactBounce dContactSoftERP = false := by decide
    simp only [getInfo2_pushout, getInfo2_motionN, bounceSampleD, biasJoint, sampleInfo2,
      h5, h6]
    simp only [zero_eq, ofNat_eq, num_mul_num, num_add_num, num_sub_num, neg_num, if_true,
      if_false, Bool.false_eq_true]
    norm_num [lt_iff, lt, dInfinity, dReal.min, isNumeric]
  exact ⟨h4, hn,
    (getInfo2_bounce_lower_bound samplePlaneSpace bounceSampleD (sampleInfo2 0) h4 hn).1⟩

/-- The capped penetration bias does not depend on the bounce flag. -/
theorem getInfo2_cappedBias_setMode (j : dxJointContact) (info : Info2) (mode1 : Int)
    (h1 : hasFlag mode1 dContactSoftERP = hasFlag j.contact.surface.mode dContactSoftERP)
    (h2 : hasFlag mode1 dContactMotionN = hasFlag j.contact.surface.mode dContactMotionN) :
    getInfo2_cappedBias (setMode j mode1) info = getInfo2_cappedBias j info := by
  simp only [getInfo2_cappedBias, getInfo2_pushout, getInfo2_motionN, setMode, h1, h2]

/-- The value of `c[0]` after `simpleGetInfo2`. -/
theorem simpleGetInfo2_c0 (P : Vec3 → Vec3 × Vec3) (j : dxJointContact) (info : Info2) :
    (simpleGetInfo2 P j info).c 0
      = info.fps * info.erp * (if j.contact.geom.depth < 0 then 0 else j.contact.geom.depth) := by
  simp only [simpleGetInfo2, simpleGetInfo2_friction2_c, simpleGetInfo2_friction1_c,
    simpleGetInfo2_normalRhs_c, simpleGetInfo2_normalJacobian_c,
    simpleGetInfo2_normalJacobian_fps, simpleGetInfo2_normalJacobian_erp, Buf.set,
    Function.update_same]

/-- A depth that is `<= 0`, clamped at zero from below, is zero. -/
theorem clamp_eq_zero_of_le (a : dReal) (ha : a ≤ 0) : (if a < 0 then (0 : dReal) else a) = 0 := by
  cases a with
  | num q =>
    rw [zero_eq] at ha ⊢
    rw [num_le_num] at ha
    by_cases h : q < 0
    · simp [h]
    · have : q = 0 := le_antisymm ha (not_lt.mp h)
      simp [this]
  | posInf => simp [le_iff, le, lt, ceq, zero_eq] at ha
  | negInf => simp [lt_iff, lt, zero_eq]
  | nan => simp [le_iff, le, lt, ceq, zero_eq] at ha

/-- A depth `<= 0` less a minimum depth `>= 0`, clamped at zero from below, is zero. -/
theorem clamp_sub_eq_zero (a b : dReal) (ha : a ≤ 0) (hb : 0 ≤ b) :
    (if a - b < 0 then (0 : dReal) else a - b) = 0 := by
  apply clamp_eq_zero_of_le
  rw [zero_eq] at ha hb ⊢
  cases a <;> cases b <;>
    simp_all [le_iff, le, lt, ceq, HSub.hSub, Sub.sub, dReal.sub, dReal.add, dReal.neg]
  rcases ha with ha | ha <;> rcases hb with hb | hb
  · left; linarith
  · left; linarith
  · left; linarith
  · right; rw [ha, ← hb]; norm_num

/-- Counterexample to C16 as stated: with depth `0` and no mode flag, a velocity cap of
`-1` gives `c[0] = -1`, and a world minimum depth of `-1` gives `c[0] = 12`. -/
theorem bias_zero_without_penetration_counterexample :
    (negativeCapSample.contact.geom.depth ≤ 0 ∧
      hasFlag negativeCapSample.contact.surface.mode dContactBounce = false ∧
      hasFlag negativeCapSample.contact.surface.mode dContactMotionN = false ∧
      (getInfo2 samplePlaneSpace negativeCapSample (sampleInfo2 0)).c 0 = dReal.num (-1)) ∧
    (negativeMinDepthSample.contact.geom.depth ≤ 0 ∧
      hasFlag negativeMinDepthSample.contact.surface.mode dContactBounce = false ∧
      hasFlag negativeMinDepthSample.contact.surface.mode dContactMotionN = false ∧
      (getInfo2 samplePlaneSpace negativeMinDepthSample (sampleInfo2 0)).c 0
        = dReal.num 12) := by
  have h5 : hasFlag 0 dContactMotionN = false := by decide
  have h6 : hasFlag 0 dContactSoftERP = false := by decide
  have h7 : hasFlag 0 dContactBounce = false := by decide
  refine ⟨⟨?_, h7, h5, ?_⟩, ⟨?_, h7, h5, ?_⟩⟩
  all_goals
    simp only [getInfo2_c0, getInfo2_cappedBias, getInfo2_pushout, getInfo2_motionN,
      negativeCapSample, negativeMinDepthSample, biasJoint, sampleInfo2, h5, h6, h7]
    simp only [zero_eq, ofNat_eq, num_mul_num, num_add_num, num_sub_num, neg_num, if_true,
      if_false, Bool.false_eq_true]
    norm_num [lt_iff, lt, le_iff, le, ceq, dInfinity]

/-! ## Friction bounds and friction index -/

/-- C17: `getInfo2` friction bounds. Whenever row 1 is active (`the_m >= 2`) it gets
`lo[1] = -mu`, `hi[1] = +mu`; whenever row 2 is active (`the_m >= 3`) it gets
`lo[2] = -mu2`, `hi[2] = +mu2` if two-axis friction mode is set and `lo[2] = -mu`,
`hi[2] = +mu` otherwise. -/
theorem getInfo2_friction_bounds (P : Vec3 → Vec3 × Vec3) (j : dxJointContact)
    (info : Info2) :
    (2 ≤ j.the_m →
      (getInfo2 P j info).lo 1 = -j.contact.surface.mu ∧
      (getInfo2 P j info).hi 1 = j.contact.surface.mu) ∧
    (3 ≤ j.the_m → hasFlag j.contact.surface.mode dContactMu2 = true →
      (getInfo2 P j info).lo 2 = -j.contact.surface.mu2 ∧
      (getInfo2 P j info).hi 2 = j.contact.surface.mu2) ∧
    (3 ≤ j.the_m → hasFlag j.contact.surface.mode dContactMu2 = false →
      (getInfo2 P j info).lo 2 = -j.contact.surface.mu ∧
      (getInfo2 P j info).hi 2 = j.contact.surface.mu) := by
  obtain ⟨h1, h2⟩ := getInfo2_friction_bounds_raw P j info
  refine ⟨h1, ?_, ?_⟩
  · intro h3 hf
    have h := h2 h3
    rw [hf] at h
    simpa using h
  · intro h3 hf
    have h := h2 h3
    rw [hf] at h
    simpa using h

/-- Witness for C17: `mu = 0.5` in isotropic mode gives bounds `-0.5` and `+0.5` on rows 1
and 2 after `getInfo1`. -/
theorem getInfo2_friction_bounds_witness :
    3 ≤ (getInfo1 (sampleJoint 0 (dReal.num (1/2)) 0) ⟨0, 0⟩).1.the_m ∧
    hasFlag (getInfo1 (sampleJoint 0 (dReal.num (1/2)) 0) ⟨0, 0⟩).1.contact.surface.mode
      dContactMu2 = false ∧
    (getInfo2 samplePlaneSpace (getInfo1 (sampleJoint 0 (dReal.num (1/2)) 0) ⟨0, 0⟩).1
      (sampleInfo2 0)).lo 1 = dReal.num (-1/2) ∧
    (getInfo2 samplePlaneSpace (getInfo1 (sampleJoint 0 (dReal.num (1/2)) 0) ⟨0, 0⟩).1
      (sampleInfo2 0)).hi 1 = dReal.num (1/2) ∧
    (getInfo2 samplePlaneSpace (getInfo1 (sampleJoint 0 (dReal.num (1/2)) 0) ⟨0, 0⟩).1
      (sampleInfo2 0)).lo 2 = dReal.num (-1/2) ∧
    (getInfo2 samplePlaneSpace (getInfo1 (sampleJoint 0 (dReal.num (1/2)) 0) ⟨0, 0⟩).1
      (sampleInfo2 0)).hi 2 = dReal.num (1/2) := by
  obtain ⟨-, -, -, -, -, -, hmode, -, -, hm⟩ :=
    getInfo1_frame (sampleJoint 0 (dReal.num (1/2)) 0) ⟨0, 0⟩
  have hcount : (getInfo1 (sampleJoint 0 (dReal.num (1/2)) 0) ⟨0, 0⟩).2.m = 3 := by
    rw [(getInfo1_isotropic_counts _ _ (by decide)).1]
    norm_num [sampleJoint, lt_iff, lt, zero_eq]
  have h3 : 3 ≤ (getInfo1 (sampleJoint 0 (dReal.num (1/2)) 0) ⟨0, 0⟩).1.the_m := by
    rw [hm, hcount]
  have hf : hasFlag (getInfo1 (sampleJoint 0 (dReal.num (1/2)) 0)
      ⟨0, 0⟩).1.contact.surface.mode dContactMu2 = false := by
    rw [hmode]
    decide
  have hmu : (getInfo1 (sampleJoint 0 (dReal.num (1/2)) 0) ⟨0, 0⟩).1.contact.surface.mu
      = dReal.num (1/2) := by
    rw [(getInfo1_isotropic_raw _ _ (by decide)).1]
    norm_num [sampleJoint, lt_iff, lt, zero_eq]
  obtain ⟨b1, -, b3⟩ := getInfo2_friction_bounds samplePlaneSpace
    (getInfo1 (sampleJoint 0 (dReal.num (1/2)) 0) ⟨0, 0⟩).1 (sampleInfo2 0)
  have e1 := b1 (by omega)
  have e2 := b3 h3 hf
  rw [hmu] at e1 e2
  refine ⟨h3, hf, ?_, e1.2, ?_, e2.2⟩
  · rw [e1.1, neg_num]
    norm_num
  · rw [e2.1, neg_num]
    norm_num

/-- C18: for numeric `mu` and `mu2` and any mode, after `getInfo1` followed by `getInfo2`
or `simpleGetInfo2`, every active friction row `i` in `1..m-1` has a symmetric box:
`lo[i] = -hi[i]` with `hi[i] >= 0`. -/
theorem friction_box_symmetric (P : Vec3 → Vec3 × Vec3) (j : dxJointContact) (info1 : Info1)
    (info : Info2) (i : Int)
    (hmu : isNumeric j.contact.surface.mu = true)
    (hmu2 : isNumeric j.contact.surface.mu2 = true)
    (hi1 : 1 ≤ i) (him : i < (getInfo1 j info1).2.m) :
    ((getInfo2 P (getInfo1 j info1).1 info).lo i
        = -(getInfo2 P (getInfo1 j info1).1 info).hi i ∧
      0 ≤ (getInfo2 P (getInfo1 j info1).1 info).hi i) ∧
    ((simpleGetInfo2 P (getInfo1 j info1).1 info).lo i
        = -(simpleGetInfo2 P (getInfo1 j info1).1 info).hi i ∧
      0 ≤ (simpleGetInfo2 P (getInfo1 j info1).1 info).hi i) := by
  obtain ⟨-, -, -, -, -, -, hmode, -, -, hm⟩ := getInfo1_frame j info1
  obtain ⟨-, hm3⟩ := getInfo1_m_bounds j info1
  obtain ⟨g1, g2⟩ := getInfo2_friction_bounds_raw P (getInfo1 j info1).1 info
  obtain ⟨s1, s2⟩ := simpleGetInfo2_friction_bounds_raw P (getInfo1 j info1).1 info
  have hmu0 : (0 : dReal) ≤ (getInfo1 j info1).1.contact.surface.mu := by
    cases hf : hasFlag j.contact.surface.mode dContactMu2 with
    | false =>
      rw [(getInfo1_isotropic_raw j info1 hf).1]
      exact zero_le_clamp _ hmu
    | true =>
      rw [(getInfo1_two_axis_raw j info1 hf).1]
      exact zero_le_clamp _ hmu
  have hi : i = 1 ∨ i = 2 := by omega
  rcases hi with rfl | rfl
  · have h2 : 2 ≤ (getInfo1 j info1).1.the_m := by omega
    obtain ⟨a1, a2⟩ := g1 h2
    obtain ⟨c1, c2⟩ := s1 h2
    rw [a1, a2, c1, c2]
    exact ⟨⟨rfl, hmu0⟩, ⟨rfl, hmu0⟩⟩
  · have h3 : 3 ≤ (getInfo1 j info1).1.the_m := by omega
    obtain ⟨a1, a2⟩ := g2 h3
    obtain ⟨c1, c2⟩ := s2 h3
    rw [a1, a2, c1, c2, hmode]
    refine ⟨?_, ⟨rfl, hmu0⟩⟩
    cases hf : hasFlag j.contact.surface.mode dContactMu2 with
    | false =>
      simp only [Bool.false_eq_true, if_false]
      exact ⟨trivial, hmu0⟩
    | true =>
      simp only [if_true]
      refine ⟨trivial, ?_⟩
      rw [(getInfo1_two_axis_raw j info1 hf).2.1]
      exact zero_le_clamp _ hmu2

/-- Witness for C18: two-axis mode with `mu = 0.5`, `mu2 = 0.25`, row 2. -/
theorem friction_box_symmetric_witness :
    isNumeric (sampleJoint dContactMu2 (dReal.num (1/2))
      (dReal.num (1/4))).contact.surface.mu = true ∧
    isNumeric (sampleJoint dContactMu2 (dReal.num (1/2))
      (dReal.num (1/4))).contact.surface.mu2 = true ∧
    (1 : Int) ≤ 2 ∧
    (2 : Int) < (getInfo1 (sampleJoint dContactMu2 (dReal.num (1/2)) (dReal.num (1/4)))
      ⟨0, 0⟩).2.m ∧
    (getInfo2 samplePlaneSpace
        (getInfo1 (sampleJoint dContactMu2 (dReal.num (1/2)) (dReal.num (1/4))) ⟨0, 0⟩).1
        (sampleInfo2 0)).lo 2
      = -(getInfo2 samplePlaneSpace
        (getInfo1 (sampleJoint dContactMu2 (dReal.num (1/2)) (dReal.num (1/4))) ⟨0, 0⟩).1
        (sampleInfo2 0)).hi 2 ∧
    0 ≤ (getInfo2 samplePlaneSpace
        (getInfo1 (sampleJoint dContactMu2 (dReal.num (1/2)) (dReal.num (1/4))) ⟨0, 0⟩).1
        (sampleInfo2 0)).hi 2 := by
  have hm : (2 : Int) < (getInfo1 (sampleJoint dContactMu2 (dReal.num (1/2)) (dReal.num (1/4)))
      ⟨0, 0⟩).2.m := by
    rw [(getInfo1_two_axis_counts _ _ (by decide)).1]
    norm_num [sampleJoint, lt_iff, lt, zero_eq]
  exact ⟨rfl, rfl, by decide, hm,
    (friction_box_symmetric samplePlaneSpace
      (sampleJoint dContactMu2 (dReal.num (1/2)) (dReal.num (1/4))) ⟨0, 0⟩ (sampleInfo2 0) 2
      rfl rfl (by decide) hm).1⟩

/-- C20: friction-index coupling in `getInfo2` and `simpleGetInfo2`. For each active
friction row `i` in `{1,2}`, `findex[i]` is `0` if the coupling flag of axis `i` is set and
keeps its prior value otherwise; every other entry of `findex`, in particular `findex[0]`,
keeps its prior value. -/
theorem findex_coupling (P : Vec3 → Vec3 × Vec3) (j : dxJointContact) (info : Info2) :
    ((2 ≤ j.the_m →
        (getInfo2 P j info).findex 1
          = (if hasFlag j.contact.surface.mode dContactApprox1_1 then 0 else info.findex 1)) ∧
      (3 ≤ j.the_m →
        (getInfo2 P j info).findex 2
          = (if hasFlag j.contact.surface.mode dContactApprox1_2 then 0 else info.findex 2)) ∧
      (getInfo2 P j info).findex 0 = info.findex 0 ∧
      (∀ k : Int, k ≠ 1 → k ≠ 2 → (getInfo2 P j info).findex k = info.findex k)) ∧
    ((2 ≤ j.the_m →
        (simpleGetInfo2 P j info).findex 1
          = (if hasFlag j.contact.surface.mode dContactApprox1_1 then 0 else info.findex 1)) ∧
      (3 ≤ j.the_m →
        (simpleGetInfo2 P j info).findex 2
          = (if hasFlag j.contact.surface.mode dContactApprox1_2 then 0 else info.findex 2)) ∧
      (simpleGetInfo2 P j info).findex 0 = info.findex 0 ∧
      (∀ k : Int, k ≠ 1 → k ≠ 2 → (simpleGetInfo2 P j info).findex k = info.findex k)) := by
  rw [getInfo2_findex, simpleGetInfo2_findex]
  have key : ∀ k : Int,
      (if 3 ≤ j.the_m then
          (if hasFlag j.contact.surface.mode dContactApprox1_2 then
            Function.update
              (if 2 ≤ j.the_m then
                (if hasFlag j.contact.surface.mode dContactApprox1_1 then
                  Function.update info.findex 1 0 else info.findex)
               else info.findex) 2 0
           else
            (if 2 ≤ j.the_m then
              (if hasFlag j.contact.surface.mode dContactApprox1_1 then
                Function.update info.findex 1 0 else info.findex)
             else info.findex))
        else
          (if 2 ≤ j.the_m then
            (if hasFlag j.contact.surface.mode dContactApprox1_1 then
              Function.update info.findex 1 0 else info.findex)
           else info.findex)) k
        = if k = 2 ∧ 3 ≤ j.the_m ∧ hasFlag j.contact.surface.mode dContactApprox1_2 = true then 0
          else if k = 1 ∧ 2 ≤ j.the_m ∧ hasFlag j.contact.surface.mode dContactApprox1_1 = true
            then 0
          else info.findex k := by
    intro k
    split_ifs <;> simp_all [Function.update_apply]
  simp only [key]
  refine ⟨⟨?_, ?_, ?_, ?_⟩, ⟨?_, ?_, ?_, ?_⟩⟩
  all_goals first
    | (intro h; split_ifs <;> simp_all)
    | simp

/-- Witness for C20: with only the coupling flag of axis 1 set and three active rows,
`findex[1]` becomes `0` while `findex[2]` and `findex[0]` keep their prior value `-1`. -/
theorem findex_coupling_witness :
    3 ≤ (biasJoint dContactApprox1_1 0 0 dInfinity zeroVec 0 0 0).the_m ∧
    (getInfo2 samplePlaneSpace (biasJoint dContactApprox1_1 0 0 dInfinity zeroVec 0 0 0)
      (sampleInfo2 0)).findex 1 = 0 ∧
    (getInfo2 samplePlaneSpace (biasJoint dContactApprox1_1 0 0 dInfinity zeroVec 0 0 0)
      (sampleInfo2 0)).findex 2 = -1 ∧
    (getInfo2 samplePlaneSpace (biasJoint dContactApprox1_1 0 0 dInfinity zeroVec 0 0 0)
      (sampleInfo2 0)).findex 0 = -1 := by
  obtain ⟨⟨h1, h2, h0, -⟩, -⟩ := findex_coupling samplePlaneSpace
    (biasJoint dContactApprox1_1 0 0 dInfinity zeroVec 0 0 0) (sampleInfo2 0)
  have h3 : 3 ≤ (biasJoint dContactApprox1_1 0 0 dInfinity zeroVec 0 0 0).the_m := by decide
  have f1 : hasFlag (biasJoint dContactApprox1_1 0 0 dInfinity zeroVec 0 0 0).contact.surface.mode
      dContactApprox1_1 = true := by decide
  have f2 : hasFlag (biasJoint dContactApprox1_1 0 0 dInfinity zeroVec 0 0 0).contact.surface.mode
      dContactApprox1_2 = false := by decide
  refine ⟨h3, ?_, ?_, ?_⟩
  · rw [h1 (by omega), f1]
    rfl
  · rw [h2 h3, f2]
    rfl
  · rw [h0]
    rfl

/-- In two-axis mode with `mu > 0` and `mu2 > 0` the secondary tangent has its row: after
`getInfo1`, `m = 3`, and for a stride of at least three row 2 written by `getInfo2` has
`t2` as linear Jacobian of body A and the bounds `-mu2`, `+mu2`. -/
theorem two_axis_secondary_row (P : Vec3 → Vec3 × Vec3) (j : dxJointContact) (info1 : Info1)
    (info : Info2) (hmode : hasFlag j.contact.surface.mode dContactMu2 = true)
    (hmu : 0 < j.contact.surface.mu) (hmu2 : 0 < j.contact.surface.mu2)
    (hs : 3 ≤ info.rowskip) :
    (getInfo1 j info1).2.m = 3 ∧
    load3 (getInfo2 P (getInfo1 j info1).1 info).J1l (2 * info.rowskip)
      = (getInfo2_t P (getInfo1 j info1).1).2 ∧
    (getInfo2 P (getInfo1 j info1).1 info).lo 2 = -j.contact.surface.mu2 ∧
    (getInfo2 P (getInfo1 j info1).1 info).hi 2 = j.contact.surface.mu2 := by
  obtain ⟨-, -, -, -, -, -, hmode1, -, -, hm⟩ := getInfo1_frame j info1
  have hcount : (getInfo1 j info1).2.m = 3 := by
    rw [(getInfo1_two_axis_counts j info1 hmode).1, if_pos hmu, if_pos hmu2]
    rfl
  have h3 : 3 ≤ (getInfo1 j info1).1.the_m := by rw [hm, hcount]
  have hstore : (getInfo1 j info1).1.contact.surface.mu2 = j.contact.surface.mu2 := by
    rw [(getInfo1_two_axis_raw j info1 hmode).2.1, if_neg (le_imp_not_lt _ _ (lt_imp_le _ _ hmu2))]
  obtain ⟨-, b2⟩ := getInfo2_friction_bounds_raw P (getInfo1 j info1).1 info
  obtain ⟨e1, e2⟩ := b2 h3
  rw [hmode1, hmode] at e1 e2
  simp only [if_true] at e1 e2
  refine ⟨hcount, ?_, by rw [e1, hstore], by rw [e2, hstore]⟩
  rw [getInfo2_J1l_rows, hm, hcount]
  have h := load3_rows info.J1l info.rowskip 3 2 (getInfo2_normal (getInfo1 j info1).1)
    (getInfo2_t P (getInfo1 j info1).1).1 (getInfo2_t P (getInfo1 j info1).1).2 hs
    (by decide) (by decide) (by decide)
  rw [h]
  simp [axisDir]

/-- C19 at its failing input: in two-axis mode with `mu = 0` and `mu2 = 0.5`, `getInfo1`
returns `m = 2`, and `getInfo2` fills the two rows with the normal and the primary
tangent `t1`, row 1 with bounds `-mu = +mu = 0`; no active row has the secondary tangent
`t2` as linear Jacobian of body A with bounds `-mu2`, `+mu2`. -/
theorem two_axis_mu_zero_rows :
    hasFlag (sampleJoint dContactMu2 0 (dReal.num (1/2))).contact.surface.mode dContactMu2
      = true ∧
    (0 : dReal) ≤ (sampleJoint dContactMu2 0 (dReal.num (1/2))).contact.surface.mu ∧
    0 < (sampleJoint dContactMu2 0 (dReal.num (1/2))).contact.surface.mu2 ∧
    (getInfo1 (sampleJoint dContactMu2 0 (dReal.num (1/2))) ⟨0, 0⟩).2.m = 2 ∧
    (getInfo2_t samplePlaneSpace
      (getInfo1 (sampleJoint dContactMu2 0 (dReal.num (1/2))) ⟨0, 0⟩).1).2
      = { x := 1, y := 0, z := 0 } ∧
    load3 (getInfo2 samplePlaneSpace
      (getInfo1 (sampleJoint dContactMu2 0 (dReal.num (1/2))) ⟨0, 0⟩).1
      (sampleInfo2 0)).J1l 0 = { x := 0, y := 1, z := 0 } ∧
    load3 (getInfo2 samplePlaneSpace
      (getInfo1 (sampleJoint dContactMu2 0 (dReal.num (1/2))) ⟨0, 0⟩).1
      (sampleInfo2 0)).J1l 8 = { x := 0, y := 0, z := 1 } ∧
    (getInfo2 samplePlaneSpace
      (getInfo1 (sampleJoint dContactMu2 0 (dReal.num (1/2))) ⟨0, 0⟩).1
      (sampleInfo2 0)).lo 1 = 0 ∧
    (getInfo2 samplePlaneSpace
      (getInfo1 (sampleJoint dContactMu2 0 (dReal.num (1/2))) ⟨0, 0⟩).1
      (sampleInfo2 0)).hi 1 = 0 ∧
    ∀ i : Int, 0 ≤ i →
      i < (getInfo1 (sampleJoint dContactMu2 0 (dReal.num (1/2))) ⟨0, 0⟩).2.m →
      ¬ (load3 (getInfo2 samplePlaneSpace
            (getInfo1 (sampleJoint dContactMu2 0 (dReal.num (1/2))) ⟨0, 0⟩).1
            (sampleInfo2 0)).J1l (i * 8)
          = (getInfo2_t samplePlaneSpace
            (getInfo1 (sampleJoint dContactMu2 0 (dReal.num (1/2))) ⟨0, 0⟩).1).2) := by
  obtain ⟨hfl, -, -, -, hgeom, -, hmode, -, -, hm⟩ :=
    getInfo1_frame (sampleJoint dContactMu2 0 (dReal.num (1/2))) ⟨0, 0⟩
  have hcount : (getInfo1 (sampleJoint dContactMu2 0 (dReal.num (1/2))) ⟨0, 0⟩).2.m = 2 := by
    rw [(getInfo1_two_axis_counts _ _ (by decide)).1]
    norm_num [sampleJoint, lt_iff, lt, zero_eq]
  have hmu : (getInfo1 (sampleJoint dContactMu2 0 (dReal.num (1/2))) ⟨0, 0⟩).1.contact.surface.mu
      = 0 := by
    rw [(getInfo1_two_axis_raw _ _ (by decide)).1]
    norm_num [sampleJoint, lt_iff, lt, zero_eq]
  have hn : getInfo2_normal (getInfo1 (sampleJoint dContactMu2 0 (dReal.num (1/2))) ⟨0, 0⟩).1
      = { x := 0, y := 1, z := 0 } := by
    rw [getInfo2_normal_of_not_reverse _ (by rw [hfl]; decide), hgeom]
    rfl
  have ht : getInfo2_t samplePlaneSpace
      (getInfo1 (sampleJoint dContactMu2 0 (dReal.num (1/2))) ⟨0, 0⟩).1
      = ({ x := 0, y := 0, z := 1 }, { x := 1, y := 0, z := 0 }) := by
    have hf : hasFlag (sampleJoint dContactMu2 0 (dReal.num (1/2))).contact.surface.mode
        dContactFDir1 = false := by decide
    simp only [getInfo2_t, hmode, hf, samplePlaneSpace, Bool.false_eq_true, if_false]
  have hrow : ∀ i : Int, 0 ≤ i → i < 2 →
      load3 (getInfo2 samplePlaneSpace
        (getInfo1 (sampleJoint dContactMu2 0 (dReal.num (1/2))) ⟨0, 0⟩).1
        (sampleInfo2 0)).J1l (i * 8)
      = axisDir { x := 0, y := 1, z := 0 } { x := 0, y := 0, z := 1 } { x := 1, y := 0, z := 0 }
          i := by
    intro i hi0 hi2
    rw [getInfo2_J1l_rows, hn, ht, hm, hcount]
    exact load3_rows _ 8 2 i _ _ _ (by decide) hi0 hi2 (by decide)
  obtain ⟨b1, -⟩ := getInfo2_friction_bounds_raw samplePlaneSpace
    (getInfo1 (sampleJoint dContactMu2 0 (dReal.num (1/2))) ⟨0, 0⟩).1 (sampleInfo2 0)
  obtain ⟨e1, e2⟩ := b1 (by rw [hm, hcount])
  have hne1 : ¬ ((0 : dReal) = 1) := by
    rw [zero_eq, ofNat_eq]
    norm_num
  have hne2 : ¬ ((1 : dReal) = 0) := fun h => hne1 h.symm
  refine ⟨by decide, ?_, ?_, hcount, ?_, ?_, ?_, ?_, ?_, ?_⟩
  · show (0 : dReal) ≤ 0
    simp [zero_eq]
  · show (0 : dReal) < num (1/2)
    rw [zero_eq, num_lt_num]
    norm_num
  · rw [ht]
  · have h := hrow 0 (by decide) (by decide)
    simpa [axisDir] using h
  · have h := hrow 1 (by decide) (by decide)
    simpa [axisDir] using h
  · rw [e1, hmu, zero_eq, neg_num]
    norm_num
  · rw [e2, hmu]
  · intro i hi0 hi2
    rw [hcount] at hi2
    rw [hrow i hi0 hi2, ht]
    have hi : i = 0 ∨ i = 1 := by omega
    rcases hi with rfl | rfl <;> simp [axisDir, hne1, hne2]

/-! ## The capped bias is a number on finite inputs -/

/-- For finite step frequency, erp, depth, world minimum depth and target normal velocity
the capped penetration bias is a number, whatever the cap. -/
theorem getInfo2_cappedBias_isNumeric (j : dxJointContact) (info : Info2) (f e d d0 v : ℚ)
    (hf : info.fps = num f)
    (he : (if hasFlag j.contact.surface.mode dContactSoftERP then j.contact.surface.soft_erp
            else j.erp) = num e)
    (hd : j.contact.geom.depth = num d)
    (hd0 : j.world.contactp.min_depth = num d0) (hv : getInfo2_motionN j = num v) :
    isNumeric (getInfo2_cappedBias j info) = true := by
  have hp : getInfo2_pushout j info = num (f * e * Max.max (d - d0) 0 + v) := by
    rw [getInfo2_pushout_eq, hf, he, hd, hd0, hv]
    simp only [zero_eq, num_sub_num, max_num_num, num_mul_num, num_add_num]
  rw [getInfo2_cappedBias, hp]
  cases j.world.contactp.max_vel with
  | num c =>
    simp only [lt_iff, lt]
    split_ifs <;> rfl
  | _ => simp [lt_iff, lt, isNumeric]

/-! ## The constraint-force-mixing buffer -/

@[simp]
theorem getInfo2_normalRhs_cfm (j : dxJointContact) (info : Info2) :
    (getInfo2_normalRhs j info).cfm
      = if hasFlag j.contact.surface.mode dContactSoftCFM then
          info.cfm.set 0 j.contact.surface.soft_cfm
        else info.cfm.set 0 j.cfm := by
  simp only [getInfo2_normalRhs, apply_ite Info2.cfm, Info2.setCfm_cfm, Info2.setC_cfm,
    ite_self]

@[simp]
theorem getInfo2_friction1_cfm (P : Vec3 → Vec3 × Vec3) (j : dxJointContact) (info : Info2) :
    (getInfo2_friction1 P j info).cfm
      = if 2 ≤ j.the_m then
          (if hasFlag j.contact.surface.mode dContactSlip1 then
            info.cfm.set 1 j.contact.surface.slip1
           else info.cfm.set 1 j.cfm)
        else info.cfm := by
  simp only [getInfo2_friction1, apply_ite Info2.cfm, Info2.setJ1l_cfm, Info2.setJ2l_cfm,
    Info2.setCfm_cfm, Info2.setC_cfm, Info2.setLo_cfm, Info2.setHi_cfm, Info2.setFindex_cfm,
    Info2.onJ1l_cfm, Info2.onJ1a_cfm, Info2.onJ2l_cfm, Info2.onJ2a_cfm, ite_self]

@[simp]
theorem getInfo2_friction2_cfm (P : Vec3 → Vec3 × Vec3) (j : dxJointContact) (info : Info2) :
    (getInfo2_friction2 P j info).cfm
      = if 3 ≤ j.the_m then
          (if hasFlag j.contact.surface.mode dContactSlip2 then
            info.cfm.set 2 j.contact.surface.slip2
           else info.cfm.set 2 j.cfm)
        else info.cfm := by
  simp only [getInfo2_friction2, apply_ite Info2.cfm, Info2.setJ1l_cfm, Info2.setJ2l_cfm,
    Info2.setCfm_cfm, Info2.setC_cfm, Info2.setLo_cfm, Info2.setHi_cfm, Info2.setFindex_cfm,
    Info2.onJ1l_cfm, Info2.onJ1a_cfm, Info2.onJ2l_cfm, Info2.onJ2a_cfm, ite_self]

/-- The cfm stored for row `i` by `getInfo2`: the surface value when its flag is set, the
cfm of the joint otherwise. -/
theorem getInfo2_cfm (P : Vec3 → Vec3 × Vec3) (j : dxJointContact) (info : Info2) :
    (getInfo2 P j info).cfm
      = if 3 ≤ j.the_m then
          ((if 2 ≤ j.the_m then
              (info.cfm.set 0 (if hasFlag j.contact.surface.mode dContactSoftCFM then
                j.contact.surface.soft_cfm else j.cfm)).set 1
                (if hasFlag j.contact.surface.mode dContactSlip1 then j.contact.surface.slip1
                 else j.cfm)
            else
              info.cfm.set 0 (if hasFlag j.contact.surface.mode dContactSoftCFM then
                j.contact.surface.soft_cfm else j.cfm))).set 2
            (if hasFlag j.contact.surface.mode dContactSlip2 then j.contact.surface.slip2
             else j.cfm)
        else
          (if 2 ≤ j.the_m then
            (info.cfm.set 0 (if hasFlag j.contact.surface.mode dContactSoftCFM then
              j.contact.surface.soft_cfm else j.cfm)).set 1
              (if hasFlag j.contact.surface.mode dContactSlip1 then j.contact.surface.slip1
               else j.cfm)
           else
            info.cfm.set 0 (if hasFlag j.contact.surface.mode dContactSoftCFM then
              j.contact.surface.soft_cfm else j.cfm)) := by
  simp only [getInfo2, getInfo2_friction2_cfm, getInfo2_friction1_cfm, getInfo2_normalLimits_cfm,
    getInfo2_bounce_cfm, getInfo2_normalRhs_cfm, getInfo2_normalJacobian_cfm,
    apply_ite (fun b : Buf => b.set 1 _), apply_ite (fun b : Buf => b.set 2 _),
    apply_ite (fun v : dReal => Buf.set _ _ v)]
  split_ifs <;> rfl

/-- The cfm of the active rows after `getInfo2`. -/
theorem getInfo2_cfm_rows_raw (P : Vec3 → Vec3 × Vec3) (j : dxJointContact) (info : Info2) :
    (getInfo2 P j info).cfm 0
      = (if hasFlag j.contact.surface.mode dContactSoftCFM then j.contact.surface.soft_cfm
         else j.cfm) ∧
    (2 ≤ j.the_m →
      (getInfo2 P j info).cfm 1
        = (if hasFlag j.contact.surface.mode dContactSlip1 then j.contact.surface.slip1
           else j.cfm)) ∧
    (3 ≤ j.the_m →
      (getInfo2 P j info).cfm 2
        = (if hasFlag j.contact.surface.mode dContactSlip2 then j.contact.surface.slip2
           else j.cfm)) := by
  rw [getInfo2_cfm]
  refine ⟨?_, ?_, ?_⟩
  · by_cases h3 : 3 ≤ j.the_m <;> by_cases h2 : 2 ≤ j.the_m <;>
      simp [h3, h2, Buf.set, Function.update_apply]
  · intro h2
    by_cases h3 : 3 ≤ j.the_m <;> simp [h3, h2, Buf.set, Function.update_apply]
  · intro h3
    simp [h3, Buf.set, Function.update_apply]

/-- Entries of the cfm buffer beyond the active rows are left as they were by `getInfo2`. -/
theorem getInfo2_cfm_inactive (P : Vec3 → Vec3 × Vec3) (j : dxJointContact) (info : Info2)
    (i : Int) (hi : i < 0 ∨ Max.max 1 j.the_m ≤ i ∨ 3 ≤ i) :
    (getInfo2 P j info).cfm i = info.cfm i := by
  rw [getInfo2_cfm]
  have h0 : i ≠ 0 := by omega
  by_cases h3 : 3 ≤ j.the_m <;> by_cases h2 : 2 ≤ j.the_m
  · have h1 : i ≠ 1 := by omega
    have h2i : i ≠ 2 := by omega
    simp [h3, h2, Buf.set, Function.update_apply, h0, h1, h2i]
  · omega
  · have h1 : i ≠ 1 := by omega
    simp [h3, h2, Buf.set, Function.update_apply, h0, h1]
  · simp [h3, h2, Buf.set, Function.update_apply, h0]

/-- The cfm buffer is left as it was by `simpleGetInfo2`. -/
theorem simpleGetInfo2_cfm (P : Vec3 → Vec3 × Vec3) (j : dxJointContact) (info : Info2) :
    (simpleGetInfo2 P j info).cfm = info.cfm := by
  simp only [simpleGetInfo2, simpleGetInfo2_friction2_cfm, simpleGetInfo2_friction1_cfm,
    simpleGetInfo2_normalRhs_cfm, simpleGetInfo2_normalJacobian_cfm]

/-- C21: `getInfo2` sets the cfm of every active row from the surface or from the joint,
whatever the buffer held before: `cfm[0]` is `soft_cfm` if the soft-CFM flag is set and the
cfm of the joint otherwise; `cfm[1]` (when `the_m >= 2`) is `slip1` if the slip flag of
axis 1 is set and the cfm of the joint otherwise; `cfm[2]` (when `the_m >= 3`) is `slip2`
if the slip flag of axis 2 is set and the cfm of the joint otherwise. -/
theorem getInfo2_cfm_source (P : Vec3 → Vec3 × Vec3) (j : dxJointContact) (info : Info2) :
    (getInfo2 P j info).cfm 0
      = (if hasFlag j.contact.surface.mode dContactSoftCFM then j.contact.surface.soft_cfm
         else j.cfm) ∧
    (2 ≤ j.the_m →
      (getInfo2 P j info).cfm 1
        = (if hasFlag j.contact.surface.mode dContactSlip1 then j.contact.surface.slip1
           else j.cfm)) ∧
    (3 ≤ j.the_m →
      (getInfo2 P j info).cfm 2
        = (if hasFlag j.contact.surface.mode dContactSlip2 then j.contact.surface.slip2
           else j.cfm)) :=
  getInfo2_cfm_rows_raw P j info

theorem getInfo2_cfm_source_witness :
    3 ≤ (threeRowSample (dReal.num (1/2)) 0).the_m ∧
    (sampleInfo2 7).cfm 0 = 7 ∧ (sampleInfo2 7).cfm 1 = 7 ∧ (sampleInfo2 7).cfm 2 = 7 ∧
    (getInfo2 samplePlaneSpace (threeRowSample (dReal.num (1/2)) 0) (sampleInfo2 7)).cfm 0 = 0 ∧
    (getInfo2 samplePlaneSpace (threeRowSample (dReal.num (1/2)) 0) (sampleInfo2 7)).cfm 1 = 0 ∧
    (getInfo2 samplePlaneSpace (threeRowSample (dReal.num (1/2)) 0) (sampleInfo2 7)).cfm 2
      = 0 := by
  have h3 : (3 : Int) ≤ (threeRowSample (dReal.num (1/2)) 0).the_m := by decide
  obtain ⟨e0, e1, e2⟩ := getInfo2_cfm_source samplePlaneSpace
    (threeRowSample (dReal.num (1/2)) 0) (sampleInfo2 7)
  have f0 : hasFlag (threeRowSample (dReal.num (1/2)) 0).contact.surface.mode dContactSoftCFM
      = false := by decide
  have f1 : hasFlag (threeRowSample (dReal.num (1/2)) 0).contact.surface.mode dContactSlip1
      = false := by decide
  have f2 : hasFlag (threeRowSample (dReal.num (1/2)) 0).contact.surface.mode dContactSlip2
      = false := by decide
  have e1 := e1 (by omega)
  have e2 := e2 h3
  rw [f0] at e0
  rw [f1] at e1
  rw [f2] at e2
  exact ⟨h3, rfl, rfl, rfl, e0, e1, e2⟩

/-! ## The bias of the friction rows -/

theorem getInfo2_normalRhs_c_of_ne (j : dxJointContact) (info : Info2) (i : Int)
    (hi : i ≠ 0) : (getInfo2_normalRhs j info).c i = info.c i := by
  simp only [getInfo2_normalRhs, apply_ite Info2.c, Info2.setCfm_c, Info2.setC_c, ite_self,
    Buf.set]
  split_ifs <;> simp [Function.update_apply, hi]

theorem getInfo2_bounce_c_of_ne (j : dxJointContact) (info : Info2) (i : Int)
    (hi : i ≠ 0) : (getInfo2_bounce j info).c i = info.c i := by
  simp only [getInfo2_bounce, apply_ite Info2.c, Info2.setC_c, Buf.set]
  split_ifs <;> simp [Function.update_apply, hi]

/-- The bias of the friction rows after `getInfo2`: the target velocity of the axis when
its motion flag is set, the prior content of the cell otherwise. -/
theorem getInfo2_c_friction_raw (P : Vec3 → Vec3 × Vec3) (j : dxJointContact) (info : Info2) :
    (2 ≤ j.the_m →
      (getInfo2 P j info).c 1
        = (if hasFlag j.contact.surface.mode dContactMotion1 then j.contact.surface.motion1
           else info.c 1)) ∧
    (3 ≤ j.the_m →
      (getInfo2 P j info).c 2
        = (if hasFlag j.contact.surface.mode dContactMotion2 then j.contact.surface.motion2
           else info.c 2)) := by
  have hb : ∀ i : Int, i ≠ 0 →
      (getInfo2_bounce j (getInfo2_normalRhs j (getInfo2_normalJacobian j info))).c i
        = info.c i := by
    intro i hi
    rw [getInfo2_bounce_c_of_ne _ _ _ hi,
      getInfo2_normalRhs_c_of_ne _ _ _ hi, getInfo2_normalJacobian_c]
  constructor
  · intro h2
    simp only [getInfo2, getInfo2_friction2_c, getInfo2_friction1_c, getInfo2_normalLimits_c, h2, if_true, Buf.set]
    split_ifs <;> simp [Function.update_apply, hb]
  · intro h3
    have h2 : 2 ≤ j.the_m := by omega
    simp only [getInfo2, getInfo2_friction2_c, getInfo2_friction1_c, getInfo2_normalLimits_c, h2, h3, if_true, Buf.set]
    split_ifs <;> simp [Function.update_apply, hb]

/-- Entries of the bias buffer other than the three rows are left as they were by
`getInfo2`, and so are the friction entries of rows that are not active. -/
theorem getInfo2_c_inactive (P : Vec3 → Vec3 × Vec3) (j : dxJointContact) (info : Info2)
    (i : Int) (hi : i < 0 ∨ Max.max 1 j.the_m ≤ i ∨ 3 ≤ i) :
    (getInfo2 P j info).c i = info.c i := by
  have h0 : i ≠ 0 := by omega
  have hb : (getInfo2_bounce j (getInfo2_normalRhs j (getInfo2_normalJacobian j info))).c i
      = info.c i := by
    rw [getInfo2_bounce_c_of_ne _ _ _ h0,
      getInfo2_normalRhs_c_of_ne _ _ _ h0, getInfo2_normalJacobian_c]
  simp only [getInfo2, getInfo2_friction2_c, getInfo2_friction1_c, getInfo2_normalLimits_c, Buf.set]
  by_cases h3 : 3 ≤ j.the_m <;> by_cases h2 : 2 ≤ j.the_m
  · have h1 : i ≠ 1 := by omega
    have h2i : i ≠ 2 := by omega
    simp only [h3, h2, if_true]
    split_ifs <;> simp [Function.update_apply, h1, h2i, hb]
  · omega
  · have h1 : i ≠ 1 := by omega
    simp only [h3, h2, if_true, if_false]
    split_ifs <;> simp [Function.update_apply, h1, hb]
  · simp only [h3, h2, if_false]
    exact hb

/-- C22 (amended): for every active friction row `i` in `{1,2}` after `getInfo2`, the bias
`c[i]` is the configured target motion velocity of axis `i` when the motion flag of that
axis is set; when the flag is not set the routine does not write `c[i]`, which keeps the
content it had before the call (so it is `0` exactly when the caller had zeroed it). -/
theorem friction_bias (P : Vec3 → Vec3 × Vec3) (j : dxJointContact) (info : Info2) :
    (2 ≤ j.the_m →
      (hasFlag j.contact.surface.mode dContactMotion1 = true →
        (getInfo2 P j info).c 1 = j.contact.surface.motion1) ∧
      (hasFlag j.contact.surface.mode dContactMotion1 = false →
        (getInfo2 P j info).c 1 = info.c 1)) ∧
    (3 ≤ j.the_m →
      (hasFlag j.contact.surface.mode dContactMotion2 = true →
        (getInfo2 P j info).c 2 = j.contact.surface.motion2) ∧
      (hasFlag j.contact.surface.mode dContactMotion2 = false →
        (getInfo2 P j info).c 2 = info.c 2)) := by
  obtain ⟨e1, e2⟩ := getInfo2_c_friction_raw P j info
  refine ⟨fun h2 => ⟨fun hf => ?_, fun hf => ?_⟩, fun h3 => ⟨fun hf => ?_, fun hf => ?_⟩⟩
  · rw [e1 h2, if_pos hf]
  · rw [e1 h2, hf]; rfl
  · rw [e2 h3, if_pos hf]
  · rw [e2 h3, hf]; rfl

theorem friction_bias_witness :
    3 ≤ (threeRowSample (dReal.num (1/2)) 0).the_m ∧
    hasFlag (threeRowSample (dReal.num (1/2)) 0).contact.surface.mode dContactMotion1 = false ∧
    hasFlag (threeRowSample (dReal.num (1/2)) 0).contact.surface.mode dContactMotion2 = false ∧
    (getInfo2 samplePlaneSpace (threeRowSample (dReal.num (1/2)) 0) (sampleInfo2 0)).c 1 = 0 ∧
    (getInfo2 samplePlaneSpace (threeRowSample (dReal.num (1/2)) 0) (sampleInfo2 0)).c 2
      = 0 := by
  have h3 : (3 : Int) ≤ (threeRowSample (dReal.num (1/2)) 0).the_m := by decide
  obtain ⟨e1, e2⟩ := friction_bias samplePlaneSpace (threeRowSample (dReal.num (1/2)) 0)
    (sampleInfo2 0)
  exact ⟨h3, by decide, by decide, (e1 (by omega)).2 (by decide), (e2 h3).2 (by decide)⟩

theorem friction_bias_counterexample :
    3 ≤ (threeRowSample (dReal.num (1/2)) 0).the_m ∧
    hasFlag (threeRowSample (dReal.num (1/2)) 0).contact.surface.mode dContactMotion1 = false ∧
    hasFlag (threeRowSample (dReal.num (1/2)) 0).contact.surface.mode dContactMotion2 = false ∧
    (getInfo2 samplePlaneSpace (threeRowSample (dReal.num (1/2)) 0) (sampleInfo2 7)).c 1 = 7 ∧
    (getInfo2 samplePlaneSpace (threeRowSample (dReal.num (1/2)) 0) (sampleInfo2 7)).c 2 = 7 ∧
    ¬ ((7 : dReal) = 0) := by
  have h3 : (3 : Int) ≤ (threeRowSample (dReal.num (1/2)) 0).the_m := by decide
  obtain ⟨e1, e2⟩ := getInfo2_c_friction_raw samplePlaneSpace
    (threeRowSample (dReal.num (1/2)) 0) (sampleInfo2 7)
  have f1 : hasFlag (threeRowSample (dReal.num (1/2)) 0).contact.surface.mode dContactMotion1
      = false := by decide
  have f2 : hasFlag (threeRowSample (dReal.num (1/2)) 0).contact.surface.mode dContactMotion2
      = false := by decide
  have e1 := e1 (by omega)
  have e2 := e2 h3
  rw [f1] at e1
  rw [f2] at e2
  refine ⟨h3, f1, f2, e1, e2, ?_⟩
  rw [zero_eq, ofNat_eq]
  norm_num

/-! ## The reduced variant -/

/-- C23 at its failing input: the sample contact has erp `0.2`, which is what the parameter
accessor returns, and the solver passes erp `0.5`. At step frequency `60` and depth `0.01`
the erp of the contact gives `c[0] = 60 * 0.2 * 0.01 = 0.12`, which is what `getInfo2`
writes; `simpleGetInfo2` writes `60 * 0.5 * 0.01 = 0.3`, computed from the solver value. -/
theorem simpleGetInfo2_bias_solver_erp :
    (∀ dParamERP dParamCFM : Int,
      dJointGetContactParam dParamERP dParamCFM (threeRowSample (dReal.num (1/2)) 0) dParamERP
        = dReal.num (1/5)) ∧
    (sampleInfo2SolverErp 0).erp = dReal.num (1/2) ∧
    (sampleInfo2SolverErp 0).fps
        * (threeRowSample (dReal.num (1/2)) 0).erp
        * dReal.max (threeRowSample (dReal.num (1/2)) 0).contact.geom.depth 0
      = dReal.num (3/25) ∧
    (getInfo2 samplePlaneSpace (threeRowSample (dReal.num (1/2)) 0)
      (sampleInfo2SolverErp 0)).c 0 = dReal.num (3/25) ∧
    (simpleGetInfo2 samplePlaneSpace (threeRowSample (dReal.num (1/2)) 0)
      (sampleInfo2SolverErp 0)).c 0 = dReal.num (3/10) := by
  have h5 : hasFlag 0 dContactMotionN = false := by decide
  have h6 : hasFlag 0 dContactSoftERP = false := by decide
  have h7 : hasFlag 0 dContactBounce = false := by decide
  refine ⟨?_, rfl, ?_, ?_, ?_⟩
  · intro e c
    simp [dJointGetContactParam, threeRowSample, sampleJoint]
  all_goals
    simp only [getInfo2_c0, simpleGetInfo2_c0, getInfo2_cappedBias, getInfo2_pushout,
      getInfo2_motionN, threeRowSample, sampleJoint, sampleInfo2SolverErp, sampleInfo2,
      h5, h6, h7]
    simp only [zero_eq, ofNat_eq, num_mul_num, num_add_num, num_sub_num, neg_num, if_true,
      if_false, Bool.false_eq_true]
    norm_num [lt_iff, lt, le_iff, le, ceq, dInfinity, dReal.max, dReal.min]

/-- C24 (amended): for every contact, `simpleGetInfo2` gives the primary friction row (when
`the_m >= 2`) the bounds `lo[1] = -mu`, `hi[1] = +mu` and the secondary friction row (when
`the_m >= 3`) the same bounds `lo[2] = -mu`, `hi[2] = +mu`: the coefficient `mu2` is not
used by this routine. -/
theorem simpleGetInfo2_friction_bounds (P : Vec3 → Vec3 × Vec3) (j : dxJointContact)
    (info : Info2) :
    (2 ≤ j.the_m →
      (simpleGetInfo2 P j info).lo 1 = -j.contact.surface.mu ∧
      (simpleGetInfo2 P j info).hi 1 = j.contact.surface.mu) ∧
    (3 ≤ j.the_m →
      (simpleGetInfo2 P j info).lo 2 = -j.contact.surface.mu ∧
      (simpleGetInfo2 P j info).hi 2 = j.contact.surface.mu) :=
  simpleGetInfo2_friction_bounds_raw P j info

theorem simpleGetInfo2_friction_bounds_witness :
    3 ≤ (threeRowSample (dReal.num (1/2)) (dReal.num (1/4))).the_m ∧
    (simpleGetInfo2 samplePlaneSpace (threeRowSample (dReal.num (1/2)) (dReal.num (1/4)))
      (sampleInfo2 0)).lo 1 = dReal.num (-1/2) ∧
    (simpleGetInfo2 samplePlaneSpace (threeRowSample (dReal.num (1/2)) (dReal.num (1/4)))
      (sampleInfo2 0)).hi 1 = dReal.num (1/2) ∧
    (simpleGetInfo2 samplePlaneSpace (threeRowSample (dReal.num (1/2)) (dReal.num (1/4)))
      (sampleInfo2 0)).lo 2 = dReal.num (-1/2) ∧
    (simpleGetInfo2 samplePlaneSpace (threeRowSample (dReal.num (1/2)) (dReal.num (1/4)))
      (sampleInfo2 0)).hi 2 = dReal.num (1/2) := by
  have h3 : (3 : Int) ≤ (threeRowSample (dReal.num (1/2)) (dReal.num (1/4))).the_m := by
    decide
  obtain ⟨e1, e2⟩ := simpleGetInfo2_friction_bounds samplePlaneSpace
    (threeRowSample (dReal.num (1/2)) (dReal.num (1/4))) (sampleInfo2 0)
  have hneg : -(threeRowSample (dReal.num (1/2)) (dReal.num (1/4))).contact.surface.mu
      = dReal.num (-1/2) := by
    show -dReal.num (1/2) = dReal.num (-1/2)
    rw [neg_num]
    norm_num
  have e1 := e1 (by omega)
  have e2 := e2 h3
  rw [hneg] at e1 e2
  exact ⟨h3, e1.1, e1.2, e2.1, e2.2⟩

theorem simpleGetInfo2_friction_bounds_counterexample :
    3 ≤ (threeRowSample (dReal.num (1/2)) (dReal.num (1/4))).the_m ∧
    (threeRowSample (dReal.num (1/2)) (dReal.num (1/4))).contact.surface.mu2
      = dReal.num (1/4) ∧
    (simpleGetInfo2 samplePlaneSpace (threeRowSample (dReal.num (1/2)) (dReal.num (1/4)))
      (sampleInfo2 0)).lo 2 = dReal.num (-1/2) ∧
    (simpleGetInfo2 samplePlaneSpace (threeRowSample (dReal.num (1/2)) (dReal.num (1/4)))
      (sampleInfo2 0)).hi 2 = dReal.num (1/2) ∧
    ¬ ((simpleGetInfo2 samplePlaneSpace (threeRowSample (dReal.num (1/2)) (dReal.num (1/4)))
      (sampleInfo2 0)).lo 2
        = -(threeRowSample (dReal.num (1/2)) (dReal.num (1/4))).contact.surface.mu2) ∧
    ¬ ((simpleGetInfo2 samplePlaneSpace (threeRowSample (dReal.num (1/2)) (dReal.num (1/4)))
      (sampleInfo2 0)).hi 2
        = (threeRowSample (dReal.num (1/2)) (dReal.num (1/4))).contact.surface.mu2) := by
  have h3 : (3 : Int) ≤ (threeRowSample (dReal.num (1/2)) (dReal.num (1/4))).the_m := by
    decide
  obtain ⟨-, e2⟩ := simpleGetInfo2_friction_bounds_raw samplePlaneSpace
    (threeRowSample (dReal.num (1/2)) (dReal.num (1/4))) (sampleInfo2 0)
  have hneg : -(threeRowSample (dReal.num (1/2)) (dReal.num (1/4))).contact.surface.mu
      = dReal.num (-1/2) := by
    show -dReal.num (1/2) = dReal.num (-1/2)
    rw [neg_num]
    norm_num
  have hmu : (threeRowSample (dReal.num (1/2)) (dReal.num (1/4))).contact.surface.mu
      = dReal.num (1/2) := rfl
  have hmu2 : (threeRowSample (dReal.num (1/2)) (dReal.num (1/4))).contact.surface.mu2
      = dReal.num (1/4) := rfl
  have e2 := e2 h3
  rw [hneg, hmu] at e2
  refine ⟨h3, rfl, e2.1, e2.2, ?_, ?_⟩
  · rw [e2.1, hmu2, neg_num]
    norm_num
  · rw [e2.2, hmu2]
    norm_num

/-! ## The two assembly routines compared -/

theorem dReal.sub_zero_eq (a : dReal) : a - 0 = a := by
  cases a <;> simp [zero_eq] <;> rfl

theorem dReal.add_zero_eq (a : dReal) : a + 0 = a := by
  cases a <;> simp [zero_eq] <;> rfl

theorem Info2.eq_of_fields (a b : Info2) (h1 : a.fps = b.fps) (h2 : a.erp = b.erp)
    (h3 : a.J1l = b.J1l) (h4 : a.J1a = b.J1a) (h5 : a.J2l = b.J2l) (h6 : a.J2a = b.J2a)
    (h7 : a.rowskip = b.rowskip) (h8 : a.cfm = b.cfm) (h9 : a.c = b.c) (h10 : a.lo = b.lo)
    (h11 : a.hi = b.hi) (h12 : a.findex = b.findex) : a = b := by
  cases a
  cases b
  simp_all

theorem simpleGetInfo2_J1l_rows (P : Vec3 → Vec3 × Vec3) (j : dxJointContact) (info : Info2) :
    (simpleGetInfo2 P j info).J1l
      = rows info.J1l info.rowskip j.the_m (simpleGetInfo2_normal j)
          (P (simpleGetInfo2_normal j)).1 (P (simpleGetInfo2_normal j)).2 := by
  simp [simpleGetInfo2, rows]

theorem simpleGetInfo2_J1a_rows (P : Vec3 → Vec3 × Vec3) (j : dxJointContact) (info : Info2) :
    (simpleGetInfo2 P j info).J1a
      = rows info.J1a info.rowskip j.the_m
          (cross (simpleGetInfo2_c1 j) (simpleGetInfo2_normal j))
          (cross (simpleGetInfo2_c1 j) (P (simpleGetInfo2_normal j)).1)
          (cross (simpleGetInfo2_c1 j) (P (simpleGetInfo2_normal j)).2) := by
  simp [simpleGetInfo2, rows]

theorem simpleGetInfo2_J2l_rows (P : Vec3 → Vec3 × Vec3) (j : dxJointContact) (info : Info2)
    (hb : j.body1.isSome = true) :
    (simpleGetInfo2 P j info).J2l
      = rows info.J2l info.rowskip j.the_m (Vec3.neg (simpleGetInfo2_normal j))
          (Vec3.neg (P (simpleGetInfo2_normal j)).1)
          (Vec3.neg (P (simpleGetInfo2_normal j)).2) := by
  simp [simpleGetInfo2, rows, hb]

theorem simpleGetInfo2_J2a_rows (P : Vec3 → Vec3 × Vec3) (j : dxJointContact) (info : Info2)
    (hb : j.body1.isSome = true) :
    (simpleGetInfo2 P j info).J2a
      = rows info.J2a info.rowskip j.the_m
          (Vec3.neg (cross (simpleGetInfo2_c2 j) (simpleGetInfo2_normal j)))
          (Vec3.neg (cross (simpleGetInfo2_c2 j) (P (simpleGetInfo2_normal j)).1))
          (Vec3.neg (cross (simpleGetInfo2_c2 j) (P (simpleGetInfo2_normal j)).2)) := by
  simp [simpleGetInfo2, rows, hb]

theorem simpleGetInfo2_c1_eq_getInfo2_c1 (j : dxJointContact) :
    simpleGetInfo2_c1 j = getInfo2_c1 j := rfl

theorem simpleGetInfo2_c2_eq_getInfo2_c2 (j : dxJointContact) :
    simpleGetInfo2_c2 j = getInfo2_c2 j := by
  unfold simpleGetInfo2_c2 getInfo2_c2
  cases j.body1 <;> rfl

/-- The bias buffer after `simpleGetInfo2`: only `c[0]` is written. -/
theorem simpleGetInfo2_c (P : Vec3 → Vec3 × Vec3) (j : dxJointContact) (info : Info2) :
    (simpleGetInfo2 P j info).c
      = info.c.set 0
          (info.fps * info.erp *
            (if j.contact.geom.depth < 0 then 0 else j.contact.geom.depth)) := by
  simp only [simpleGetInfo2, simpleGetInfo2_friction2_c, simpleGetInfo2_friction1_c,
    simpleGetInfo2_normalRhs_c, simpleGetInfo2_normalJacobian_c,
    simpleGetInfo2_normalJacobian_fps, simpleGetInfo2_normalJacobian_erp]

/-- On the inputs of the reduced variant the two routines write the same Jacobian blocks. -/
theorem getInfo2_jacobians_eq_simple (P : Vec3 → Vec3 × Vec3) (j : dxJointContact)
    (info : Info2) (hrev : hasFlag j.flags dJOINT_REVERSE = false)
    (hfd : hasFlag j.contact.surface.mode dContactFDir1 = false) :
    (getInfo2 P j info).J1l = (simpleGetInfo2 P j info).J1l ∧
    (getInfo2 P j info).J1a = (simpleGetInfo2 P j info).J1a ∧
    (getInfo2 P j info).J2l = (simpleGetInfo2 P j info).J2l ∧
    (getInfo2 P j info).J2a = (simpleGetInfo2 P j info).J2a := by
  have hn : getInfo2_normal j = simpleGetInfo2_normal j :=
    getInfo2_normal_of_not_reverse j hrev
  have ht : getInfo2_t P j = P (simpleGetInfo2_normal j) := by
    simp only [getInfo2_t, hfd, hn, Bool.false_eq_true, if_false]
  refine ⟨?_, ?_, ?_, ?_⟩
  · rw [getInfo2_J1l_rows, simpleGetInfo2_J1l_rows, hn, ht]
  · rw [getInfo2_J1a_rows, simpleGetInfo2_J1a_rows, hn, ht, simpleGetInfo2_c1_eq_getInfo2_c1]
  · cases hb : j.body1 with
    | none => rw [(getInfo2_J2_none P j info hb).1, (simpleGetInfo2_J2_none P j info hb).1]
    | some b1 =>
      have hs : j.body1.isSome = true := by rw [hb]; rfl
      rw [getInfo2_J2l_rows P j info hs, simpleGetInfo2_J2l_rows P j info hs, hn, ht]
  · cases hb : j.body1 with
    | none => rw [(getInfo2_J2_none P j info hb).2, (simpleGetInfo2_J2_none P j info hb).2]
    | some b1 =>
      have hs : j.body1.isSome = true := by rw [hb]; rfl
      rw [getInfo2_J2a_rows P j info hs, simpleGetInfo2_J2a_rows P j info hs, hn, ht,
        simpleGetInfo2_c2_eq_getInfo2_c2]

/-- On the inputs of the reduced variant the normal-row bias of `getInfo2` is
`fps * erp * max (depth, 0)` with the erp of the joint. -/
theorem getInfo2_c0_preValidated (P : Vec3 → Vec3 × Vec3) (j : dxJointContact) (info : Info2)
    (h : preValidated j) :
    (getInfo2 P j info).c 0
      = info.fps * j.erp * (if j.contact.geom.depth < 0 then 0 else j.contact.geom.depth) := by
  obtain ⟨hmin, hmax, -, -, -, hbo, hse, -, -, -, hmn, -, -⟩ := h
  rw [getInfo2_c0_no_bounce P j info hbo, getInfo2_normalRhs_c0, getInfo2_normalJacobian_fps,
    hmax, hmin]
  simp only [getInfo2_motionN, hmn, hse, Bool.false_eq_true, if_false, dReal.sub_zero_eq,
    dReal.add_zero_eq, dInfinity, min_posInf, dReal.max]

/-- What `getInfo2` and `simpleGetInfo2` have in common on the inputs of the reduced
variant: started from the same buffers they return the same step data, Jacobian blocks,
bounds and friction index, and the same bias for the friction rows. They differ in two
places only: `getInfo2` computes `c[0]` from the erp of the joint and stores the cfm of the
joint in `cfm[0]`, `cfm[1]` (when `the_m >= 2`) and `cfm[2]` (when `the_m >= 3`), while
`simpleGetInfo2` computes `c[0]` from the erp passed by the solver and leaves the cfm
buffer as it was. When those values coincide the two results are equal. -/
theorem getInfo2_eq_simpleGetInfo2 (P : Vec3 → Vec3 × Vec3) (j : dxJointContact)
    (info : Info2) (h : preValidated j) (herp : info.erp = j.erp)
    (hcfm0 : info.cfm 0 = j.cfm) (hcfm1 : 2 ≤ j.the_m → info.cfm 1 = j.cfm)
    (hcfm2 : 3 ≤ j.the_m → info.cfm 2 = j.cfm) :
    getInfo2 P j info = simpleGetInfo2 P j info := by
  have hc0 := getInfo2_c0_preValidated P j info h
  obtain ⟨-, -, hrev, hmu2, hfd, -, -, hsc, hm1, hm2, -, hs1, hs2⟩ := h
  obtain ⟨e1, e2, e3, e4⟩ := getInfo2_jacobians_eq_simple P j info hrev hfd
  apply Info2.eq_of_fields _ _ _ _ e1 e2 e3 e4
  · simp [getInfo2, simpleGetInfo2]
  · funext i
    rw [simpleGetInfo2_cfm]
    obtain ⟨c0, c1, c2⟩ := getInfo2_cfm_rows_raw P j info
    rw [hsc] at c0
    rw [hs1] at c1
    rw [hs2] at c2
    by_cases i0 : i = 0
    · subst i0
      rw [c0, hcfm0]
      rfl
    by_cases i1 : i = 1
    · subst i1
      by_cases m2 : 2 ≤ j.the_m
      · rw [c1 m2, hcfm1 m2]
        rfl
      · exact getInfo2_cfm_inactive P j info 1 (by omega)
    by_cases i2 : i = 2
    · subst i2
      by_cases m3 : 3 ≤ j.the_m
      · rw [c2 m3, hcfm2 m3]
        rfl
      · exact getInfo2_cfm_inactive P j info 2 (by omega)
    exact getInfo2_cfm_inactive P j info i (by omega)
  · funext i
    rw [simpleGetInfo2_c]
    obtain ⟨c1, c2⟩ := getInfo2_c_friction_raw P j info
    rw [hm1] at c1
    rw [hm2] at c2
    by_cases i0 : i = 0
    · subst i0
      rw [hc0, herp]
      simp [Buf.set]
    have hset : Buf.set info.c 0
        (info.fps * info.erp *
          (if j.contact.geom.depth < 0 then 0 else j.contact.geom.depth)) i = info.c i := by
      simp [Buf.set, Function.update_apply, i0]
    rw [hset]
    by_cases i1 : i = 1
    · subst i1
      by_cases m2 : 2 ≤ j.the_m
      · rw [c1 m2]
        rfl
      · exact getInfo2_c_inactive P j info 1 (by omega)
    by_cases i2 : i = 2
    · subst i2
      by_cases m3 : 3 ≤ j.the_m
      · rw [c2 m3]
        rfl
      · exact getInfo2_c_inactive P j info 2 (by omega)
    exact getInfo2_c_inactive P j info i (by omega)
  · rw [getInfo2_lo, simpleGetInfo2_lo]
    simp [hmu2]
  · rw [getInfo2_hi, simpleGetInfo2_hi]
    simp [hmu2]
  · rw [getInfo2_findex, simpleGetInfo2_findex]
  · simp [getInfo2, simpleGetInfo2]
  · simp [getInfo2, simpleGetInfo2]

/-- C25 at its failing input: the three-row sample contact is an input of the reduced variant
(minimum depth `0`, uncapped, reverse flag unset, no mode flag); its erp is `0.2` and its
cfm is `0`. The solver passes erp `0.5` and buffers filled with `7`. `getInfo2` writes
`c[0] = 60 * 0.2 * 0.01 = 0.12` and `cfm[0] = cfm[1] = cfm[2] = 0`; `simpleGetInfo2` writes
`c[0] = 60 * 0.5 * 0.01 = 0.3` and leaves `cfm[0] = cfm[1] = cfm[2] = 7`. -/
theorem variants_differ_in_erp_and_cfm :
    preValidated (threeRowSample (dReal.num (1/2)) 0) ∧
    (threeRowSample (dReal.num (1/2)) 0).the_m = 3 ∧
    (getInfo2 samplePlaneSpace (threeRowSample (dReal.num (1/2)) 0)
      (sampleInfo2SolverErp 7)).c 0 = dReal.num (3/25) ∧
    (simpleGetInfo2 samplePlaneSpace (threeRowSample (dReal.num (1/2)) 0)
      (sampleInfo2SolverErp 7)).c 0 = dReal.num (3/10) ∧
    (∀ i : Int, 0 ≤ i → i < 3 →
      (getInfo2 samplePlaneSpace (threeRowSample (dReal.num (1/2)) 0)
        (sampleInfo2SolverErp 7)).cfm i = 0 ∧
      (simpleGetInfo2 samplePlaneSpace (threeRowSample (dReal.num (1/2)) 0)
        (sampleInfo2SolverErp 7)).cfm i = 7) := by
  have hp : preValidated (threeRowSample (dReal.num (1/2)) 0) :=
    ⟨rfl, rfl, by decide, by decide, by decide, by decide, by decide, by decide, by decide,
      by decide, by decide, by decide, by decide⟩
  refine ⟨hp, rfl, ?_, ?_, ?_⟩
  · rw [getInfo2_c0_preValidated _ _ _ hp]
    simp only [threeRowSample, sampleJoint, sampleInfo2SolverErp, sampleInfo2]
    simp only [zero_eq, ofNat_eq, num_mul_num, num_lt_num]
    norm_num
  · rw [simpleGetInfo2_c0]
    simp only [threeRowSample, sampleJoint, sampleInfo2SolverErp, sampleInfo2]
    simp only [zero_eq, ofNat_eq, num_mul_num, num_lt_num]
    norm_num
  · intro i hi0 hi3
    obtain ⟨c0, c1, c2⟩ := getInfo2_cfm_rows_raw samplePlaneSpace
      (threeRowSample (dReal.num (1/2)) 0) (sampleInfo2SolverErp 7)
    have f0 : hasFlag (threeRowSample (dReal.num (1/2)) 0).contact.surface.mode
        dContactSoftCFM = false := by decide
    have f1 : hasFlag (threeRowSample (dReal.num (1/2)) 0).contact.surface.mode dContactSlip1
        = false := by decide
    have f2 : hasFlag (threeRowSample (dReal.num (1/2)) 0).contact.surface.mode dContactSlip2
        = false := by decide
    have c1 := c1 (by decide)
    have c2 := c2 (by decide)
    rw [f0] at c0
    rw [f1] at c1
    rw [f2] at c2
    rw [simpleGetInfo2_cfm]
    have hi : i = 0 ∨ i = 1 ∨ i = 2 := by omega
    rcases hi with rfl | rfl | rfl
    · exact ⟨c0, rfl⟩
    · exact ⟨c1, rfl⟩
    · exact ⟨c2, rfl⟩

/-! ## Tangent frames -/

theorem dReal.one_eq : (1 : dReal) = num 1 := by
  show num ((1 : Nat) : ℚ) = num 1
  simp

/-- A unit vector `t` orthogonal to a unit vector `n` forms, with `n x t`, a right-handed
orthonormal frame around `n`. Lengths are stated through the squared length. -/
theorem frame_of_unit_orthogonal (n1 n2 n3 t1 t2 t3 : ℚ)
    (hn : n1 * n1 + n2 * n2 + n3 * n3 = 1) (ht : t1 * t1 + t2 * t2 + t3 * t3 = 1)
    (hnt : n1 * t1 + n2 * t2 + n3 * t3 = 0) :
    dCalcVectorDot3 (Vec3.ofRat t1 t2 t3) (Vec3.ofRat t1 t2 t3) = 1 ∧
    dCalcVectorDot3 (cross (Vec3.ofRat n1 n2 n3) (Vec3.ofRat t1 t2 t3))
      (cross (Vec3.ofRat n1 n2 n3) (Vec3.ofRat t1 t2 t3)) = 1 ∧
    dCalcVectorDot3 (Vec3.ofRat t1 t2 t3) (Vec3.ofRat n1 n2 n3) = 0 ∧
    dCalcVectorDot3 (cross (Vec3.ofRat n1 n2 n3) (Vec3.ofRat t1 t2 t3))
      (Vec3.ofRat n1 n2 n3) = 0 ∧
    dCalcVectorDot3 (Vec3.ofRat t1 t2 t3)
      (cross (Vec3.ofRat n1 n2 n3) (Vec3.ofRat t1 t2 t3)) = 0 ∧
    cross (Vec3.ofRat t1 t2 t3) (cross (Vec3.ofRat n1 n2 n3) (Vec3.ofRat t1 t2 t3))
      = Vec3.ofRat n1 n2 n3 := by
  simp only [Vec3.ofRat, cross, dCalcVectorDot3, num_mul_num, num_add_num, num_sub_num,
    dReal.one_eq, zero_eq, Vec3.mk.injEq, num.injEq]
  refine ⟨?_, ?_, ?_, ?_, ?_, ?_, ?_, ?_⟩
  · linear_combination ht
  · linear_combination (t1 * t1 + t2 * t2 + t3 * t3) * hn + ht
      - (n1 * t1 + n2 * t2 + n3 * t3) * hnt
  · linear_combination hnt
  · ring
  · ring
  · linear_combination n1 * ht - t1 * hnt
  · linear_combination n2 * ht - t2 * hnt
  · linear_combination n3 * ht - t3 * hnt

/-- The tangents of `getInfo2` when the caller supplies the friction direction: the
direction itself and its cross product with the normal used by the routine. -/
theorem getInfo2_t_fdir1 (P : Vec3 → Vec3 × Vec3) (j : dxJointContact)
    (hfd : hasFlag j.contact.surface.mode dContactFDir1 = true) :
    getInfo2_t P j = (j.contact.fdir1, cross (getInfo2_normal j) j.contact.fdir1) := by
  simp only [getInfo2_t, hfd, if_true]

/-- The linear friction rows of body A in a three-row layout. -/
theorem getInfo2_J1l_friction_rows (P : Vec3 → Vec3 × Vec3) (j : dxJointContact)
    (info : Info2) (hm : j.the_m = 3) (hs : 3 ≤ info.rowskip) :
    load3 (getInfo2 P j info).J1l info.rowskip = (getInfo2_t P j).1 ∧
    load3 (getInfo2 P j info).J1l (2 * info.rowskip) = (getInfo2_t P j).2 := by
  rw [getInfo2_J1l_rows, hm]
  have h1 := load3_rows info.J1l info.rowskip 3 1 (getInfo2_normal j) (getInfo2_t P j).1
    (getInfo2_t P j).2 hs (by decide) (by decide) (by decide)
  have h2 := load3_rows info.J1l info.rowskip 3 2 (getInfo2_normal j) (getInfo2_t P j).1
    (getInfo2_t P j).2 hs (by decide) (by decide) (by decide)
  rw [one_mul] at h1
  exact ⟨by simpa [axisDir] using h1, by simpa [axisDir] using h2⟩

/-- Reading the two friction rows of a three-row layout with stride at least three. -/
theorem load3_rows_friction (b : Buf) (s m : Int) (d0 d1 d2 : Vec3) (hs : 3 ≤ s) :
    (2 ≤ m → load3 (rows b s m d0 d1 d2) s = d1) ∧
    (3 ≤ m → load3 (rows b s m d0 d1 d2) (2 * s) = d2) := by
  constructor
  · intro h2
    by_cases h3 : 3 ≤ m
    · simp only [rows, h2, h3, if_true]
      rw [load3_store3_far _ _ _ _ (by omega), load3_store3_same]
    · simp only [rows, h2, h3, if_true, if_false]
      rw [load3_store3_same]
  · intro h3
    simp only [rows, h3, if_true]
    rw [load3_store3_same]

/-- C29: the two accessors behave as two independent cells. For distinct identifiers
`dParamERP` and `dParamCFM` (they label two cases of one switch), every contact joint and
every value `v`: after `dJointSetContactParam (j, p, v)` the call
`dJointGetContactParam (j, p)` returns `v`, and the value returned for the other parameter
is the one returned before the set, for `p = dParamERP` and for `p = dParamCFM`. -/
theorem contact_param_cells (dParamERP dParamCFM : Int) (j : dxJointContact) (v : dReal)
    (hne : dParamERP ≠ dParamCFM) :
    dJointGetContactParam dParamERP dParamCFM
        (dJointSetContactParam dParamERP dParamCFM j dParamERP v) dParamERP = v ∧
    dJointGetContactParam dParamERP dParamCFM
        (dJointSetContactParam dParamERP dParamCFM j dParamERP v) dParamCFM
      = dJointGetContactParam dParamERP dParamCFM j dParamCFM ∧
    dJointGetContactParam dParamERP dParamCFM
        (dJointSetContactParam dParamERP dParamCFM j dParamCFM v) dParamCFM = v ∧
    dJointGetContactParam dParamERP dParamCFM
        (dJointSetContactParam dParamERP dParamCFM j dParamCFM v) dParamERP
      = dJointGetContactParam dParamERP dParamCFM j dParamERP := by
  have hne2 : dParamCFM ≠ dParamERP := fun h => hne h.symm
  simp [dJointGetContactParam, dJointSetContactParam, hne, hne2]

theorem contact_param_cells_witness :
    dJointGetContactParam 11 6
        (dJointSetContactParam 11 6 (sampleJoint 0 (dReal.num (1/2)) 0) 11 (dReal.num (4/5)))
        11 = dReal.num (4/5) ∧
    dJointGetContactParam 11 6
        (dJointSetContactParam 11 6 (sampleJoint 0 (dReal.num (1/2)) 0) 11 (dReal.num (4/5)))
        6 = 0 ∧
    dJointGetContactParam 11 6
        (dJointSetContactParam 11 6 (sampleJoint 0 (dReal.num (1/2)) 0) 6 (dReal.num (4/5)))
        6 = dReal.num (4/5) ∧
    dJointGetContactParam 11 6
        (dJointSetContactParam 11 6 (sampleJoint 0 (dReal.num (1/2)) 0) 6 (dReal.num (4/5)))
        11 = dReal.num (1/5) :=
  contact_param_cells 11 6 (sampleJoint 0 (dReal.num (1/2)) 0) (dReal.num (4/5)) (by decide)

/-- C30: a freshly constructed contact joint takes its erp and cfm from the world
defaults: for every world `w`, the new joint has `erp = w.global_erp` and
`cfm = w.global_cfm`, and `dJointGetContactParam` returns those values for `dParamERP` and
`dParamCFM` (distinct identifiers). -/
theorem fresh_joint_defaults (dParamERP dParamCFM : Int) (w : dxWorld) (base : dxJointContact)
    (hne : dParamERP ≠ dParamCFM) :
    (dxJointContact.ctor w base).erp = w.global_erp ∧
    (dxJointContact.ctor w base).cfm = w.global_cfm ∧
    dJointGetContactParam dParamERP dParamCFM (dxJointContact.ctor w base) dParamERP
      = w.global_erp ∧
    dJointGetContactParam dParamERP dParamCFM (dxJointContact.ctor w base) dParamCFM
      = w.global_cfm := by
  have hne2 : dParamCFM ≠ dParamERP := fun h => hne h.symm
  simp [dJointGetContactParam, dxJointContact.ctor, hne2]

theorem fresh_joint_defaults_witness :
    (dxJointContact.ctor
      { global_erp := dReal.num (3/10), global_cfm := dReal.num (1/1000),
        contactp := { max_vel := dInfinity, min_depth := 0 } }
      (sampleJoint 0 (dReal.num (1/2)) 0)).erp = dReal.num (3/10) ∧
    (dxJointContact.ctor
      { global_erp := dReal.num (3/10), global_cfm := dReal.num (1/1000),
        contactp := { max_vel := dInfinity, min_depth := 0 } }
      (sampleJoint 0 (dReal.num (1/2)) 0)).cfm = dReal.num (1/1000) ∧
    dJointGetContactParam 11 6
      (dxJointContact.ctor
        { global_erp := dReal.num (3/10), global_cfm := dReal.num (1/1000),
          contactp := { max_vel := dInfinity, min_depth := 0 } }
        (sampleJoint 0 (dReal.num (1/2)) 0)) 11 = dReal.num (3/10) ∧
    dJointGetContactParam 11 6
      (dxJointContact.ctor
        { global_erp := dReal.num (3/10), global_cfm := dReal.num (1/1000),
          contactp := { max_vel := dInfinity, min_depth := 0 } }
        (sampleJoint 0 (dReal.num (1/2)) 0)) 6 = dReal.num (1/1000) :=
  fresh_joint_defaults 11 6
    { global_erp := dReal.num (3/10), global_cfm := dReal.num (1/1000),
      contactp := { max_vel := dInfinity, min_depth := 0 } }
    (sampleJoint 0 (dReal.num (1/2)) 0) (by decide)

/-! ## Unknown parameters -/

/-- C35: for every contact joint and every parameter id other than `dParamERP` and
`dParamCFM`, `dJointGetContactParam` returns `0` and `dJointSetContactParam` returns the
joint unchanged (its erp, its cfm and every other field). -/
theorem unknown_param_ignored (dParamERP dParamCFM : Int) (j : dxJointContact)
    (parameter : Int) (value : dReal)
    (hE : parameter ≠ dParamERP) (hC : parameter ≠ dParamCFM) :
    dJointGetContactParam dParamERP dParamCFM j parameter = 0 ∧
    dJointSetContactParam dParamERP dParamCFM j parameter value = j := by
  simp [dJointGetContactParam, dJointSetContactParam, hE, hC]

theorem unknown_param_ignored_witness :
    dJointGetContactParam 11 6 (sampleJoint 0 (dReal.num (1/2)) 0) 5 = 0 ∧
    dJointSetContactParam 11 6 (sampleJoint 0 (dReal.num (1/2)) 0) 5 (dReal.num (4/5))
      = sampleJoint 0 (dReal.num (1/2)) 0 :=
  unknown_param_ignored 11 6 (sampleJoint 0 (dReal.num (1/2)) 0) 5 (dReal.num (4/5))
    (by decide) (by decide)

/-! ## Invariants of the row-count policy -/

theorem dReal.pos_of_eq_inf (a : dReal) (h : a = dInfinity) : 0 < a := by
  subst h
  simp [lt_iff, lt, zero_eq, dInfinity]

/-- C36: for every contact (every mode word, `mu` and `mu2`), the counts returned by
`getInfo1` satisfy `nub <= m - 1`: the normal row is never counted as unbounded. -/
theorem getInfo1_nub_le (j : dxJointContact) (info : Info1) :
    (getInfo1 j info).2.nub ≤ (getInfo1 j info).2.m - 1 := by
  have i1 := dReal.pos_of_eq_inf j.contact.surface.mu
  have i2 := dReal.pos_of_eq_inf j.contact.surface.mu2
  cases hmode : hasFlag j.contact.surface.mode dContactMu2 with
  | false =>
    obtain ⟨hm, hn⟩ := getInfo1_isotropic_counts j info hmode
    rw [hm, hn]
    split_ifs with a b <;> first | decide | exact absurd (i1 a) b
  | true =>
    obtain ⟨hm, hn⟩ := getInfo1_two_axis_counts j info hmode
    rw [hm, hn]
    split_ifs with a b c d <;> first | decide | (exfalso; tauto)

/-- A coefficient that went through the clamp of `getInfo1` is not below zero. -/
theorem dReal.clamp_not_neg (a : dReal) : ¬ ((if a < 0 then (0 : dReal) else a) < 0) := by
  by_cases h : a < 0
  · rw [if_pos h]
    simp [lt_iff, lt, zero_eq]
  · rw [if_neg h]
    exact h

/-- A call of `getInfo1` on a joint whose coefficients need no clamping only caches the
row count. -/
theorem getInfo1_of_clamped (j : dxJointContact) (info : Info1)
    (h1 : ¬ j.contact.surface.mu < 0)
    (h2 : hasFlag j.contact.surface.mode dContactMu2 = true → ¬ j.contact.surface.mu2 < 0) :
    (getInfo1 j info).1 = { j with the_m := (getInfo1 j info).2.m } := by
  obtain ⟨flags, world, b0, b1, ⟨⟨mode, mu, mu2, x1, x2, x3, x4, x5, x6, x7, x8, x9⟩, geom, fdir⟩,
    the_m, erp, cfm⟩ := j
  simp only at h1 h2
  cases hmode : hasFlag mode dContactMu2 with
  | false => simp [getInfo1, hmode, h1]
  | true =>
    have h2 := h2 hmode
    simp [getInfo1, hmode, h1, h2]

/-- C37: `getInfo1` is idempotent: for every contact and every pair of `Info1` records, a
second call right after the first returns the same `(m, nub)` and leaves the joint (its
`mu`, `mu2`, mode word, `the_m` and every other field) exactly as the first call left
it. -/
theorem getInfo1_idempotent (j : dxJointContact) (info info2 : Info1) :
    (getInfo1 (getInfo1 j info).1 info2).2 = (getInfo1 j info).2 ∧
    (getInfo1 (getInfo1 j info).1 info2).1 = (getInfo1 j info).1 := by
  obtain ⟨-, -, -, -, -, -, hmode, -, -, hthe⟩ := getInfo1_frame j info
  have hext : ∀ a b : Info1, a.m = b.m → a.nub = b.nub → a = b := by
    intro a b h1 h2
    cases a
    cases b
    simp_all
  have hmu : (getInfo1 j info).1.contact.surface.mu
      = (if j.contact.surface.mu < 0 then 0 else j.contact.surface.mu) := by
    cases hm : hasFlag j.contact.surface.mode dContactMu2 with
    | false => exact (getInfo1_isotropic_raw j info hm).1
    | true => exact (getInfo1_two_axis_raw j info hm).1
  have h1 : ¬ (getInfo1 j info).1.contact.surface.mu < 0 := by
    rw [hmu]
    exact dReal.clamp_not_neg _
  have h2 : hasFlag (getInfo1 j info).1.contact.surface.mode dContactMu2 = true →
      ¬ (getInfo1 j info).1.contact.surface.mu2 < 0 := by
    intro hm
    rw [hmode] at hm
    rw [(getInfo1_two_axis_raw j info hm).2.1]
    exact dReal.clamp_not_neg _
  have hcounts : (getInfo1 (getInfo1 j info).1 info2).2 = (getInfo1 j info).2 := by
    cases hm : hasFlag j.contact.surface.mode dContactMu2 with
    | false =>
      have hm1 : hasFlag (getInfo1 j info).1.contact.surface.mode dContactMu2 = false := by
        rw [hmode]; exact hm
      obtain ⟨a1, a2⟩ := getInfo1_isotropic_counts (getInfo1 j info).1 info2 hm1
      obtain ⟨b1, b2⟩ := getInfo1_isotropic_counts j info hm
      apply hext
      · rw [a1, b1, hmu]
        simp only [pos_clamp_iff]
      · rw [a2, b2, hmu]
        simp only [clamp_eq_inf_iff]
    | true =>
      have hm1 : hasFlag (getInfo1 j info).1.contact.surface.mode dContactMu2 = true := by
        rw [hmode]; exact hm
      obtain ⟨a1, a2⟩ := getInfo1_two_axis_counts (getInfo1 j info).1 info2 hm1
      obtain ⟨b1, b2⟩ := getInfo1_two_axis_counts j info hm
      have hmu2 := (getInfo1_two_axis_raw j info hm).2.1
      apply hext
      · rw [a1, b1, hmu, hmu2]
        simp only [pos_clamp_iff]
      · rw [a2, b2, hmu, hmu2]
        simp only [clamp_eq_inf_iff]
  refine ⟨hcounts, ?_⟩
  rw [getInfo1_of_clamped _ info2 h1 h2, hcounts, ← hthe]

/-! ## Bounce and the velocity cap -/

namespace dReal

/-- A value that is not `NaN` and not above `b` is below everything above `b`. -/
theorem lt_of_not_lt_of_lt (a b c : dReal) (ha : isNumeric a = true) (hab : ¬ b < a)
    (hbc : b < c) : a < c := by
  cases a <;> cases b <;> cases c <;> simp_all [lt_iff, lt, isNumeric]
  linarith

end dReal

/-- The capped penetration bias is below every value above the cap. -/
theorem getInfo2_cappedBias_lt (j : dxJointContact) (info : Info2) (c : dReal)
    (hnum : isNumeric (getInfo2_pushout j info) = true)
    (hc : j.world.contactp.max_vel < c) : getInfo2_cappedBias j info < c := by
  unfold getInfo2_cappedBias
  by_cases h : j.world.contactp.max_vel < getInfo2_pushout j info
  · rw [if_pos h]
    exact hc
  · rw [if_neg h]
    exact dReal.lt_of_not_lt_of_lt _ _ _ hnum h hc

/-- C34: with bounce mode set, the bias of the normal row differs from the one written
with only the bounce flag cleared only if `bounce_vel >= 0` and `-outgoing > bounce_vel`,
where `outgoing = (J1l·v1 + J1a·w1 + J2l·v2 + J2a·w2) - motionN` on the normal row, and it
is then `-bounce * outgoing + motionN`; hence for every negative `bounce_vel` the written
`c[0]` equals the `c[0]` written with the bounce flag cleared. -/
theorem bounce_gating (P : Vec3 → Vec3 × Vec3) (j : dxJointContact) (info : Info2)
    (mode1 : Int)
    (hb : hasFlag j.contact.surface.mode dContactBounce = true)
    (hclr : onlyBounceCleared j.contact.surface.mode mode1) :
    ((getInfo2 P j info).c 0 ≠ (getInfo2 P (setMode j mode1) info).c 0 →
      (0 ≤ j.contact.surface.bounce_vel ∧
        j.contact.surface.bounce_vel < -(normalVelocity j - getInfo2_motionN j)) ∧
      (getInfo2 P j info).c 0
        = -j.contact.surface.bounce * (normalVelocity j - getInfo2_motionN j)
            + getInfo2_motionN j) ∧
    (j.contact.surface.bounce_vel < 0 →
      (getInfo2 P j info).c 0 = (getInfo2 P (setMode j mode1) info).c 0) := by
  obtain ⟨hoff, -, -, hsoft, -, -, -, hmot, -, -, -, -⟩ := hclr
  have hoff1 : hasFlag (setMode j mode1).contact.surface.mode dContactBounce = false := hoff
  have e : (getInfo2 P (setMode j mode1) info).c 0 = getInfo2_cappedBias j info := by
    rw [getInfo2_c0, hoff1]
    simp only [Bool.false_eq_true, if_false]
    exact getInfo2_cappedBias_setMode j info mode1 hsoft hmot
  have hc0 := getInfo2_c0 P j info
  rw [if_pos hb] at hc0
  simp only [getInfo2_bounceFires, getInfo2_newc, getInfo2_outgoing, decide_eq_true_eq] at hc0
  rw [e, hc0]
  constructor
  · intro hne
    by_cases hfire : 0 ≤ j.contact.surface.bounce_vel ∧
        j.contact.surface.bounce_vel < -(normalVelocity j - getInfo2_motionN j)
    · refine ⟨hfire, ?_⟩
      rw [if_pos hfire] at hne ⊢
      unfold dReal.max at hne ⊢
      split_ifs at hne ⊢ with hlt
      · rfl
      · exact absurd rfl hne
    · rw [if_neg hfire] at hne
      exact absurd rfl hne
  · intro hneg
    have hnot : ¬ (0 ≤ j.contact.surface.bounce_vel ∧
        j.contact.surface.bounce_vel < -(normalVelocity j - getInfo2_motionN j)) := by
      intro h
      exact dReal.le_imp_not_lt _ _ h.1 hneg
    rw [if_neg hnot]

theorem bounce_gating_witness :
    hasFlag bounceSampleB.contact.surface.mode dContactBounce = true ∧
    onlyBounceCleared bounceSampleB.contact.surface.mode 0 ∧
    bounceSampleB.contact.surface.bounce_vel < 0 ∧
    (getInfo2 samplePlaneSpace bounceSampleB (sampleInfo2 0)).c 0
      = (getInfo2 samplePlaneSpace (setMode bounceSampleB 0) (sampleInfo2 0)).c 0 := by
  have h4 : hasFlag bounceSampleB.contact.surface.mode dContactBounce = true := by decide
  have hc : onlyBounceCleared bounceSampleB.contact.surface.mode 0 := by
    unfold onlyBounceCleared
    decide
  have hneg : bounceSampleB.contact.surface.bounce_vel < 0 := by
    show dReal.num (-1/2) < 0
    rw [zero_eq, num_lt_num]
    norm_num
  exact ⟨h4, hc, hneg,
    (bounce_gating samplePlaneSpace bounceSampleB (sampleInfo2 0) 0 h4 hc).2 hneg⟩

/-! ## Reading the rows back -/

/-- Reading row `i` in `{0,1,2}` of a three-row layout with stride at least three. -/
theorem load3_rows_active (b : Buf) (s m i : Int) (d0 d1 d2 : Vec3)
    (hs : 3 ≤ s) (hi0 : 0 ≤ i) (hi2 : i ≤ 2) (him : i < m) :
    load3 (rows b s m d0 d1 d2) (i * s) = axisDir d0 d1 d2 i := by
  have hi : i = 0 ∨ i = 1 ∨ i = 2 := by omega
  obtain ⟨f1, f2⟩ := load3_rows_friction b s m d0 d1 d2 hs
  rcases hi with rfl | rfl | rfl
  · simp only [zero_mul, axisDir, if_true]
    unfold rows
    by_cases h2 : 2 ≤ m <;> by_cases h3 : 3 ≤ m
    · simp only [h2, h3, if_true]
      rw [load3_store3_far _ _ _ _ (by omega), load3_store3_far _ _ _ _ (by omega),
        load3_store3_same]
    · simp only [h2, h3, if_true, if_false]
      rw [load3_store3_far _ _ _ _ (by omega), load3_store3_same]
    · omega
    · simp only [h2, h3, if_false]
      rw [load3_store3_same]
  · rw [one_mul, f1 (by omega)]
    simp [axisDir]
  · rw [f2 (by omega)]
    simp [axisDir]

/-- The four Jacobian rows of an active row `i` in `{0,1,2}` after `getInfo2`, for a
stride of at least three: the direction `d_i` of the row (normal, `t1`, `t2`), its moment
about body A, and their negated counterparts for body B. -/
theorem getInfo2_rows_read (P : Vec3 → Vec3 × Vec3) (j : dxJointContact) (info : Info2)
    (i : Int) (hs : 3 ≤ info.rowskip) (hi0 : 0 ≤ i) (hi2 : i ≤ 2) (him : i < j.the_m) :
    load3 (getInfo2 P j info).J1l (i * info.rowskip)
      = axisDir (getInfo2_normal j) (getInfo2_t P j).1 (getInfo2_t P j).2 i ∧
    load3 (getInfo2 P j info).J1a (i * info.rowskip)
      = cross (getInfo2_c1 j)
          (axisDir (getInfo2_normal j) (getInfo2_t P j).1 (getInfo2_t P j).2 i) ∧
    (j.body1.isSome = true →
      load3 (getInfo2 P j info).J2l (i * info.rowskip)
        = Vec3.neg (axisDir (getInfo2_normal j) (getInfo2_t P j).1 (getInfo2_t P j).2 i) ∧
      load3 (getInfo2 P j info).J2a (i * info.rowskip)
        = Vec3.neg (cross (getInfo2_c2 j)
            (axisDir (getInfo2_normal j) (getInfo2_t P j).1 (getInfo2_t P j).2 i))) := by
  refine ⟨?_, ?_, fun hsome => ⟨?_, ?_⟩⟩
  · rw [getInfo2_J1l_rows, load3_rows_active _ _ _ _ _ _ _ hs hi0 hi2 him]
  · rw [getInfo2_J1a_rows, load3_rows_active _ _ _ _ _ _ _ hs hi0 hi2 him]
    unfold axisDir
    split_ifs <;> rfl
  · rw [getInfo2_J2l_rows _ _ _ hsome, load3_rows_active _ _ _ _ _ _ _ hs hi0 hi2 him]
    unfold axisDir
    split_ifs <;> rfl
  · rw [getInfo2_J2a_rows _ _ _ hsome, load3_rows_active _ _ _ _ _ _ _ hs hi0 hi2 him]
    unfold axisDir
    split_ifs <;> rfl

/-! ## Finite vectors -/

theorem dReal.eq_num_of_isFinite (a : dReal) (h : dReal.isFinite a = true) :
    ∃ q : ℚ, a = num q := by
  cases a with
  | num q => exact ⟨q, rfl⟩
  | posInf => exact absurd h (by simp [dReal.isFinite])
  | negInf => exact absurd h (by simp [dReal.isFinite])
  | nan => exact absurd h (by simp [dReal.isFinite])

theorem Vec3.eq_ofRat_of_isFinite (v : Vec3) (h : Vec3.isFinite v = true) :
    ∃ a b c : ℚ, v = Vec3.ofRat a b c := by
  obtain ⟨x, y, z⟩ := v
  simp only [Vec3.isFinite, Bool.and_eq_true] at h
  obtain ⟨a, ha⟩ := dReal.eq_num_of_isFinite x h.1.1
  obtain ⟨b, hb⟩ := dReal.eq_num_of_isFinite y h.1.2
  obtain ⟨c, hc⟩ := dReal.eq_num_of_isFinite z h.2
  exact ⟨a, b, c, by rw [ha, hb, hc]; rfl⟩

/-! ## Polarity -/

/-- The normal used by `getInfo2` with the reverse flag set is the one it uses with the
flag unset and the geometry normal negated. -/
theorem getInfo2_normal_reversed (j : dxJointContact) (flags0 : Int)
    (hrev : hasFlag j.flags dJOINT_REVERSE = true)
    (h0 : hasFlag flags0 dJOINT_REVERSE = false) :
    getInfo2_normal (setNormal (setFlags j flags0) j.contact.geom.normal.neg)
      = getInfo2_normal j := by
  simp [getInfo2_normal, setNormal, setFlags, hrev, h0, Vec3.neg]

/-- `getInfo2` reads the flag word and the geometry normal only through its local
`normal`. -/
theorem getInfo2_congr_normal (P : Vec3 → Vec3 × Vec3) (j : dxJointContact) (info : Info2)
    (flags0 : Int) (normal0 : Vec3)
    (hn : getInfo2_normal (setNormal (setFlags j flags0) normal0) = getInfo2_normal j) :
    getInfo2 P (setNormal (setFlags j flags0) normal0) info = getInfo2 P j info := by
  have ht : getInfo2_t P (setNormal (setFlags j flags0) normal0) = getInfo2_t P j := by
    unfold getInfo2_t
    rw [hn]
    rfl
  have b1 : ∀ i : Info2, getInfo2_normalJacobian (setNormal (setFlags j flags0) normal0) i
      = getInfo2_normalJacobian j i := by
    intro i
    unfold getInfo2_normalJacobian
    rw [hn]
    rfl
  have b2 : ∀ i : Info2, getInfo2_normalRhs (setNormal (setFlags j flags0) normal0) i
      = getInfo2_normalRhs j i := fun _ => rfl
  have b3 : ∀ i : Info2, getInfo2_bounce (setNormal (setFlags j flags0) normal0) i
      = getInfo2_bounce j i := fun _ => rfl
  have b4 : ∀ i : Info2, getInfo2_friction1 P (setNormal (setFlags j flags0) normal0) i
      = getInfo2_friction1 P j i := by
    intro i
    unfold getInfo2_friction1
    rw [ht]
    rfl
  have b5 : ∀ i : Info2, getInfo2_friction2 P (setNormal (setFlags j flags0) normal0) i
      = getInfo2_friction2 P j i := by
    intro i
    unfold getInfo2_friction2
    rw [ht]
    rfl
  unfold getInfo2
  simp only [b1, b2, b3, b4, b5]

/-- C40: for every contact, `getInfo2` with the reverse flag set and geometry normal `n`
returns exactly what it returns with the reverse flag unset (any flag word `flags0`
without that flag) and geometry normal `-n`, all other inputs equal; and the result of
`simpleGetInfo2` does not depend on the flag word at all. -/
theorem polarity (P : Vec3 → Vec3 × Vec3) (j : dxJointContact) (info : Info2)
    (flags0 : Int) (hrev : hasFlag j.flags dJOINT_REVERSE = true)
    (h0 : hasFlag flags0 dJOINT_REVERSE = false) :
    getInfo2 P j info
      = getInfo2 P (setNormal (setFlags j flags0) j.contact.geom.normal.neg) info ∧
    (∀ flags1 : Int, simpleGetInfo2 P (setFlags j flags1) info = simpleGetInfo2 P j info) :=
  ⟨(getInfo2_congr_normal P j info flags0 _
      (getInfo2_normal_reversed j flags0 hrev h0)).symm, fun _ => rfl⟩

theorem polarity_witness :
    hasFlag reversedSample.flags dJOINT_REVERSE = true ∧
    getInfo2_normal reversedSample = Vec3.ofRat 0 (-1) 0 ∧
    getInfo2 samplePlaneSpace reversedSample (sampleInfo2 0)
      = getInfo2 samplePlaneSpace
          (setNormal (setFlags reversedSample 0) reversedSample.contact.geom.normal.neg)
          (sampleInfo2 0) ∧
    simpleGetInfo2 samplePlaneSpace (setFlags reversedSample 0) (sampleInfo2 0)
      = simpleGetInfo2 samplePlaneSpace reversedSample (sampleInfo2 0) := by
  have hrev : hasFlag reversedSample.flags dJOINT_REVERSE = true := by decide
  obtain ⟨a1, a2⟩ := polarity samplePlaneSpace reversedSample (sampleInfo2 0) 0 hrev
    (by decide)
  refine ⟨hrev, ?_, a1, a2 0⟩
  simp only [getInfo2_normal, hrev, if_true]
  simp only [reversedSample, setFlags, threeRowSample, sampleJoint, Vec3.ofRat, zero_eq,
    dReal.one_eq, neg_num, Vec3.mk.injEq, num.injEq]
  norm_num

/-! ## Entries outside the rows -/

/-- Entries of a strided buffer outside the three-component blocks of the stored rows are
left as they were. -/
theorem rows_other (b : Buf) (s m k : Int) (d0 d1 d2 : Vec3)
    (h0 : k ≠ 0 ∧ k ≠ 1 ∧ k ≠ 2)
    (h1 : 2 ≤ m → k ≠ s ∧ k ≠ s + 1 ∧ k ≠ s + 2)
    (h2 : 3 ≤ m → k ≠ 2 * s ∧ k ≠ 2 * s + 1 ∧ k ≠ 2 * s + 2) :
    rows b s m d0 d1 d2 k = b k := by
  have e0 : store3 b 0 d0 k = b k :=
    store3_other b 0 k d0 h0.1 (by simpa using h0.2.1) (by simpa using h0.2.2)
  unfold rows
  by_cases m2 : 2 ≤ m <;> by_cases m3 : 3 ≤ m
  · obtain ⟨a1, a2, a3⟩ := h1 m2
    obtain ⟨c1, c2, c3⟩ := h2 m3
    simp only [m2, m3, if_true]
    rw [store3_other _ _ _ _ c1 c2 c3, store3_other _ _ _ _ a1 a2 a3, e0]
  · obtain ⟨a1, a2, a3⟩ := h1 m2
    simp only [m2, m3, if_true, if_false]
    rw [store3_other _ _ _ _ a1 a2 a3, e0]
  · omega
  · simp only [m2, m3, if_false]
    exact e0

/-- An index that is no `row * s + component` of an active row misses the stored blocks. -/
theorem off_rows_cases (s m k : Int) (hm : 1 ≤ m)
    (hk : ∀ row comp : Int, 0 ≤ row → row < m → 0 ≤ comp → comp ≤ 2 →
      k ≠ row * s + comp) :
    (k ≠ 0 ∧ k ≠ 1 ∧ k ≠ 2) ∧ (2 ≤ m → k ≠ s ∧ k ≠ s + 1 ∧ k ≠ s + 2) ∧
    (3 ≤ m → k ≠ 2 * s ∧ k ≠ 2 * s + 1 ∧ k ≠ 2 * s + 2) := by
  refine ⟨⟨?_, ?_, ?_⟩, fun m2 => ⟨?_, ?_, ?_⟩, fun m3 => ⟨?_, ?_, ?_⟩⟩
  · simpa using hk 0 0 (by omega) (by omega) (by omega) (by omega)
  · simpa using hk 0 1 (by omega) (by omega) (by omega) (by omega)
  · simpa using hk 0 2 (by omega) (by omega) (by omega) (by omega)
  · simpa using hk 1 0 (by omega) (by omega) (by omega) (by omega)
  · simpa using hk 1 1 (by omega) (by omega) (by omega) (by omega)
  · simpa using hk 1 2 (by omega) (by omega) (by omega) (by omega)
  · simpa using hk 2 0 (by omega) (by omega) (by omega) (by omega)
  · simpa using hk 2 1 (by omega) (by omega) (by omega) (by omega)
  · simpa using hk 2 2 (by omega) (by omega) (by omega) (by omega)

/-- The Jacobian buffers after `getInfo2` and `simpleGetInfo2` outside the blocks of the
active rows, for a cached row count of at least one and any stride. -/
theorem jacobians_off_rows (P : Vec3 → Vec3 × Vec3) (j : dxJointContact) (info : Info2)
    (k : Int) (hm : 1 ≤ j.the_m)
    (hk : ∀ row comp : Int, 0 ≤ row → row < j.the_m → 0 ≤ comp → comp ≤ 2 →
      k ≠ row * info.rowskip + comp) :
    ((getInfo2 P j info).J1l k = info.J1l k ∧ (getInfo2 P j info).J1a k = info.J1a k ∧
      (getInfo2 P j info).J2l k = info.J2l k ∧ (getInfo2 P j info).J2a k = info.J2a k) ∧
    ((simpleGetInfo2 P j info).J1l k = info.J1l k ∧
      (simpleGetInfo2 P j info).J1a k = info.J1a k ∧
      (simpleGetInfo2 P j info).J2l k = info.J2l k ∧
      (simpleGetInfo2 P j info).J2a k = info.J2a k) := by
  obtain ⟨h0, h1, h2⟩ := off_rows_cases info.rowskip j.the_m k hm hk
  refine ⟨⟨?_, ?_, ?_, ?_⟩, ⟨?_, ?_, ?_, ?_⟩⟩
  · rw [getInfo2_J1l_rows, rows_other _ _ _ _ _ _ _ h0 h1 h2]
  · rw [getInfo2_J1a_rows, rows_other _ _ _ _ _ _ _ h0 h1 h2]
  · cases hb : j.body1 with
    | none => rw [(getInfo2_J2_none P j info hb).1]
    | some b1 =>
      rw [getInfo2_J2l_rows P j info (by rw [hb]; rfl), rows_other _ _ _ _ _ _ _ h0 h1 h2]
  · cases hb : j.body1 with
    | none => rw [(getInfo2_J2_none P j info hb).2]
    | some b1 =>
      rw [getInfo2_J2a_rows P j info (by rw [hb]; rfl), rows_other _ _ _ _ _ _ _ h0 h1 h2]
  · rw [simpleGetInfo2_J1l_rows, rows_other _ _ _ _ _ _ _ h0 h1 h2]
  · rw [simpleGetInfo2_J1a_rows, rows_other _ _ _ _ _ _ _ h0 h1 h2]
  · cases hb : j.body1 with
    | none => rw [(simpleGetInfo2_J2_none P j info hb).1]
    | some b1 =>
      rw [simpleGetInfo2_J2l_rows P j info (by rw [hb]; rfl),
        rows_other _ _ _ _ _ _ _ h0 h1 h2]
  · cases hb : j.body1 with
    | none => rw [(simpleGetInfo2_J2_none P j info hb).2]
    | some b1 =>
      rw [simpleGetInfo2_J2a_rows P j info (by rw [hb]; rfl),
        rows_other _ _ _ _ _ _ _ h0 h1 h2]

/-- The four Jacobian rows of an active row `i` in `{0,1,2}` after `simpleGetInfo2`, for a
stride of at least three. -/
theorem simpleGetInfo2_rows_read (P : Vec3 → Vec3 × Vec3) (j : dxJointContact) (info : Info2)
    (i : Int) (hs : 3 ≤ info.rowskip) (hi0 : 0 ≤ i) (hi2 : i ≤ 2) (him : i < j.the_m) :
    load3 (simpleGetInfo2 P j info).J1l (i * info.rowskip)
      = axisDir (simpleGetInfo2_normal j) (P (simpleGetInfo2_normal j)).1
          (P (simpleGetInfo2_normal j)).2 i ∧
    load3 (simpleGetInfo2 P j info).J1a (i * info.rowskip)
      = cross (simpleGetInfo2_c1 j)
          (axisDir (simpleGetInfo2_normal j) (P (simpleGetInfo2_normal j)).1
            (P (simpleGetInfo2_normal j)).2 i) ∧
    (j.body1.isSome = true →
      load3 (simpleGetInfo2 P j info).J2l (i * info.rowskip)
        = Vec3.neg (axisDir (simpleGetInfo2_normal j) (P (simpleGetInfo2_normal j)).1
            (P (simpleGetInfo2_normal j)).2 i) ∧
      load3 (simpleGetInfo2 P j info).J2a (i * info.rowskip)
        = Vec3.neg (cross (simpleGetInfo2_c2 j)
            (axisDir (simpleGetInfo2_normal j) (P (simpleGetInfo2_normal j)).1
              (P (simpleGetInfo2_normal j)).2 i))) := by
  refine ⟨?_, ?_, fun hsome => ⟨?_, ?_⟩⟩
  · rw [simpleGetInfo2_J1l_rows, load3_rows_active _ _ _ _ _ _ _ hs hi0 hi2 him]
  · rw [simpleGetInfo2_J1a_rows, load3_rows_active _ _ _ _ _ _ _ hs hi0 hi2 him]
    unfold axisDir
    split_ifs <;> rfl
  · rw [simpleGetInfo2_J2l_rows _ _ _ hsome, load3_rows_active _ _ _ _ _ _ _ hs hi0 hi2 him]
    unfold axisDir
    split_ifs <;> rfl
  · rw [simpleGetInfo2_J2a_rows _ _ _ hsome, load3_rows_active _ _ _ _ _ _ _ hs hi0 hi2 him]
    unfold axisDir
    split_ifs <;> rfl

/-! ## Rows of the scalar buffers -/

/-- Entries of the bounds and of the friction index beyond the active rows are left as
they were by `getInfo2`. -/
theorem getInfo2_bounds_inactive (P : Vec3 → Vec3 × Vec3) (j : dxJointContact) (info : Info2)
    (i : Int) (hi : i < 0 ∨ Max.max 1 j.the_m ≤ i ∨ 3 ≤ i) :
    (getInfo2 P j info).lo i = info.lo i ∧ (getInfo2 P j info).hi i = info.hi i ∧
    (getInfo2 P j info).findex i = info.findex i := by
  rw [getInfo2_lo, getInfo2_hi, getInfo2_findex]
  have h0 : i ≠ 0 := by omega
  by_cases h3 : 3 ≤ j.the_m <;> by_cases h2 : 2 ≤ j.the_m
  · have h1 : i ≠ 1 := by omega
    have h2i : i ≠ 2 := by omega
    refine ⟨?_, ?_, ?_⟩ <;> simp only [h3, h2, if_true] <;> (try split_ifs) <;>
      simp [Buf.set, Function.update_apply, h0, h1, h2i]
  · omega
  · have h1 : i ≠ 1 := by omega
    refine ⟨?_, ?_, ?_⟩ <;> simp only [h3, h2, if_true, if_false] <;> (try split_ifs) <;>
      simp [Buf.set, Function.update_apply, h0, h1]
  · refine ⟨?_, ?_, ?_⟩ <;> simp [h3, h2, Buf.set, Function.update_apply, h0]

/-- Entries of the bounds and of the friction index beyond the active rows are left as
they were by `simpleGetInfo2`. -/
theorem simpleGetInfo2_bounds_inactive (P : Vec3 → Vec3 × Vec3) (j : dxJointContact)
    (info : Info2) (i : Int) (hi : i < 0 ∨ Max.max 1 j.the_m ≤ i ∨ 3 ≤ i) :
    (simpleGetInfo2 P j info).lo i = info.lo i ∧ (simpleGetInfo2 P j info).hi i = info.hi i ∧
    (simpleGetInfo2 P j info).findex i = info.findex i := by
  rw [simpleGetInfo2_lo, simpleGetInfo2_hi, simpleGetInfo2_findex]
  have h0 : i ≠ 0 := by omega
  by_cases h3 : 3 ≤ j.the_m <;> by_cases h2 : 2 ≤ j.the_m
  · have h1 : i ≠ 1 := by omega
    have h2i : i ≠ 2 := by omega
    refine ⟨?_, ?_, ?_⟩ <;> simp only [h3, h2, if_true] <;> (try split_ifs) <;>
      simp [Buf.set, Function.update_apply, h0, h1, h2i]
  · omega
  · have h1 : i ≠ 1 := by omega
    refine ⟨?_, ?_, ?_⟩ <;> simp only [h3, h2, if_true, if_false] <;> (try split_ifs) <;>
      simp [Buf.set, Function.update_apply, h0, h1]
  · refine ⟨?_, ?_, ?_⟩ <;> simp [h3, h2, Buf.set, Function.update_apply, h0]

/-- Row `i` of the scalar buffers beyond the active rows is left as it was by both
routines. -/
theorem scalar_rows_inactive (P : Vec3 → Vec3 × Vec3) (j : dxJointContact) (info : Info2)
    (i : Int) (hi : i < 0 ∨ Max.max 1 j.the_m ≤ i ∨ 3 ≤ i) :
    sameScalarRow (getInfo2 P j info) info i ∧
    sameScalarRow (simpleGetInfo2 P j info) info i := by
  obtain ⟨a1, a2, a3⟩ := getInfo2_bounds_inactive P j info i hi
  obtain ⟨b1, b2, b3⟩ := simpleGetInfo2_bounds_inactive P j info i hi
  have h0 : i ≠ 0 := by omega
  refine ⟨⟨getInfo2_c_inactive P j info i hi, a1, a2, getInfo2_cfm_inactive P j info i hi, a3⟩,
    ⟨?_, b1, b2, ?_, b3⟩⟩
  · rw [simpleGetInfo2_c]
    simp [Buf.set, Function.update_apply, h0]
  · rw [simpleGetInfo2_cfm]

/-- The bounds of an active row in `{0,1,2}` do not depend on the buffers passed in. -/
theorem bounds_written (P : Vec3 → Vec3 × Vec3) (j : dxJointContact) (info info0 : Info2)
    (i : Int) (hi0 : 0 ≤ i) (hi2 : i ≤ 2) (him : i < j.the_m) :
    (getInfo2 P j info).lo i = (getInfo2 P j info0).lo i ∧
    (getInfo2 P j info).hi i = (getInfo2 P j info0).hi i ∧
    (simpleGetInfo2 P j info).lo i = (simpleGetInfo2 P j info0).lo i ∧
    (simpleGetInfo2 P j info).hi i = (simpleGetInfo2 P j info0).hi i := by
  simp only [getInfo2_lo, getInfo2_hi, simpleGetInfo2_lo, simpleGetInfo2_hi]
  have hi : i = 0 ∨ i = 1 ∨ i = 2 := by omega
  rcases hi with rfl | rfl | rfl
  · refine ⟨?_, ?_, ?_, ?_⟩ <;> (try split_ifs) <;> simp [Buf.set, Function.update_apply]
  · have h2 : 2 ≤ j.the_m := by omega
    refine ⟨?_, ?_, ?_, ?_⟩ <;> simp only [h2, if_true] <;> (try split_ifs) <;>
      simp [Buf.set, Function.update_apply]
  · have h2 : 2 ≤ j.the_m := by omega
    have h3 : 3 ≤ j.the_m := by omega
    refine ⟨?_, ?_, ?_, ?_⟩ <;> simp only [h2, h3, if_true] <;> (try split_ifs) <;>
      simp [Buf.set, Function.update_apply]

/-- C32: after `getInfo1` has cached the row count `m`, `getInfo2` and `simpleGetInfo2`
leave `c[i]`, `lo[i]`, `hi[i]`, `cfm[i]` and `findex[i]` unchanged for every `i >= m`,
while for every row `0 <= i < m` the bounds `lo[i]` and `hi[i]` are written (their values
after the call do not depend on the buffers passed in). In particular, with `mu = 0` in
isotropic mode `m = 1` and only row 0 is populated: the scalar rows `i >= 1` and the
Jacobian entries other than `0`, `1`, `2` are unchanged. -/
theorem rows_populated (P : Vec3 → Vec3 × Vec3) (j : dxJointContact) (info1 : Info1)
    (info : Info2) :
    (∀ i : Int, (getInfo1 j info1).2.m ≤ i →
      sameScalarRow (getInfo2 P (getInfo1 j info1).1 info) info i ∧
      sameScalarRow (simpleGetInfo2 P (getInfo1 j info1).1 info) info i) ∧
    (∀ i : Int, 0 ≤ i → i < (getInfo1 j info1).2.m → ∀ info0 : Info2,
      (getInfo2 P (getInfo1 j info1).1 info).lo i
        = (getInfo2 P (getInfo1 j info1).1 info0).lo i ∧
      (getInfo2 P (getInfo1 j info1).1 info).hi i
        = (getInfo2 P (getInfo1 j info1).1 info0).hi i ∧
      (simpleGetInfo2 P (getInfo1 j info1).1 info).lo i
        = (simpleGetInfo2 P (getInfo1 j info1).1 info0).lo i ∧
      (simpleGetInfo2 P (getInfo1 j info1).1 info).hi i
        = (simpleGetInfo2 P (getInfo1 j info1).1 info0).hi i) ∧
    (hasFlag j.contact.surface.mode dContactMu2 = false → j.contact.surface.mu = 0 →
      (getInfo1 j info1).2.m = 1 ∧
      (∀ i : Int, 1 ≤ i →
        sameScalarRow (getInfo2 P (getInfo1 j info1).1 info) info i ∧
        sameScalarRow (simpleGetInfo2 P (getInfo1 j info1).1 info) info i) ∧
      (∀ k : Int, k ≠ 0 → k ≠ 1 → k ≠ 2 →
        ((getInfo2 P (getInfo1 j info1).1 info).J1l k = info.J1l k ∧
          (getInfo2 P (getInfo1 j info1).1 info).J1a k = info.J1a k ∧
          (getInfo2 P (getInfo1 j info1).1 info).J2l k = info.J2l k ∧
          (getInfo2 P (getInfo1 j info1).1 info).J2a k = info.J2a k) ∧
        ((simpleGetInfo2 P (getInfo1 j info1).1 info).J1l k = info.J1l k ∧
          (simpleGetInfo2 P (getInfo1 j info1).1 info).J1a k = info.J1a k ∧
          (simpleGetInfo2 P (getInfo1 j info1).1 info).J2l k = info.J2l k ∧
          (simpleGetInfo2 P (getInfo1 j info1).1 info).J2a k = info.J2a k))) := by
  have hthe := (getInfo1_frame j info1).2.2.2.2.2.2.2.2.2
  obtain ⟨hm1, hm3⟩ := getInfo1_m_bounds j info1
  have hin : ∀ i : Int, (getInfo1 j info1).2.m ≤ i →
      sameScalarRow (getInfo2 P (getInfo1 j info1).1 info) info i ∧
      sameScalarRow (simpleGetInfo2 P (getInfo1 j info1).1 info) info i := by
    intro i hi
    exact scalar_rows_inactive P (getInfo1 j info1).1 info i (by rw [hthe]; omega)
  refine ⟨hin, ?_, ?_⟩
  · intro i hi0 him info0
    exact bounds_written P (getInfo1 j info1).1 info info0 i hi0 (by omega)
      (by rw [hthe]; exact him)
  · intro hmode hmu
    have hcount : (getInfo1 j info1).2.m = 1 := by
      rw [(getInfo1_isotropic_counts j info1 hmode).1, hmu]
      simp [lt_iff, lt, zero_eq]
    refine ⟨hcount, fun i hi => hin i (by rw [hcount]; exact hi), ?_⟩
    intro k k0 k1 k2
    apply jacobians_off_rows P (getInfo1 j info1).1 info k (by rw [hthe]; exact hm1)
    intro row comp h0 h1 h2 h3
    rw [hthe, hcount] at h1
    have hr : row = 0 := by omega
    subst hr
    omega

theorem rows_populated_witness :
    hasFlag (sampleJoint 0 0 0).contact.surface.mode dContactMu2 = false ∧
    (sampleJoint 0 0 0).contact.surface.mu = 0 ∧
    (getInfo1 (sampleJoint 0 0 0) ⟨0, 0⟩).2.m = 1 ∧
    (getInfo2 samplePlaneSpace (getInfo1 (sampleJoint 0 0 0) ⟨0, 0⟩).1 (sampleInfo2 7)).lo 1
      = 7 ∧
    (getInfo2 samplePlaneSpace (getInfo1 (sampleJoint 0 0 0) ⟨0, 0⟩).1 (sampleInfo2 7)).cfm 1
      = 7 ∧
    (simpleGetInfo2 samplePlaneSpace (getInfo1 (sampleJoint 0 0 0) ⟨0, 0⟩).1
      (sampleInfo2 7)).hi 2 = 7 ∧
    (getInfo2 samplePlaneSpace (getInfo1 (sampleJoint 0 0 0) ⟨0, 0⟩).1 (sampleInfo2 7)).J1l 8
      = 7 ∧
    (getInfo2 samplePlaneSpace (getInfo1 (sampleJoint 0 0 0) ⟨0, 0⟩).1 (sampleInfo2 7)).lo 0
      = (getInfo2 samplePlaneSpace (getInfo1 (sampleJoint 0 0 0) ⟨0, 0⟩).1
          (sampleInfo2 0)).lo 0 := by
  have hmode : hasFlag (sampleJoint 0 0 0).contact.surface.mode dContactMu2 = false := by
    decide
  obtain ⟨-, a2, a3⟩ := rows_populated samplePlaneSpace (sampleJoint 0 0 0) ⟨0, 0⟩
    (sampleInfo2 7)
  obtain ⟨hcount, b2, b3⟩ := a3 hmode rfl
  obtain ⟨⟨-, c2, -, c4, -⟩, -⟩ := b2 1 (by decide)
  obtain ⟨-, ⟨-, -, d3, -, -⟩⟩ := b2 2 (by decide)
  have e := (b3 8 (by decide) (by decide) (by decide)).1.1
  have f := (a2 0 (by decide) (by rw [hcount]; decide) (sampleInfo2 0)).1
  exact ⟨hmode, rfl, hcount, c2, c4, d3, e, f⟩

/-! ## Row offsets as 32-bit integers -/

/-- Inside the `int` range the 32-bit value of an expression is its mathematical value. -/
theorem int32_of_range (x : Int) (h1 : -2147483648 ≤ x) (h2 : x < 2147483648) :
    int32 x = x := by
  unfold int32
  omega

/-- At the stride `2^30` the product `2 * s` wraps to `-2^31`. -/
theorem int32_wrap : int32 (2 * 1073741824) = -2147483648 := by
  decide

theorem getInfo2_friction2_at_two_mul (P : Vec3 → Vec3 × Vec3) (j : dxJointContact)
    (info : Info2) :
    getInfo2_friction2_at (2 * info.rowskip) P j info = getInfo2_friction2 P j info := rfl

theorem simpleGetInfo2_friction2_at_two_mul (P : Vec3 → Vec3 × Vec3) (j : dxJointContact)
    (info : Info2) :
    simpleGetInfo2_friction2_at (2 * info.rowskip) P j info
      = simpleGetInfo2_friction2 P j info := rfl

/-- While `2 * s` fits an `int`, `getInfo2` with 32-bit offsets is `getInfo2` with
mathematical offsets. -/
theorem getInfo2_int32_eq (P : Vec3 → Vec3 × Vec3) (j : dxJointContact) (info : Info2)
    (h1 : -2147483648 ≤ 2 * info.rowskip) (h2 : 2 * info.rowskip < 2147483648) :
    getInfo2_int32 P j info = getInfo2 P j info := by
  unfold getInfo2_int32 getInfo2
  simp only [int32_of_range _ h1 h2]
  rw [← getInfo2_friction2_at_two_mul]
  simp only [getInfo2_friction1_rowskip, getInfo2_normalLimits_rowskip, getInfo2_bounce_rowskip,
    getInfo2_normalRhs_rowskip, getInfo2_normalJacobian_rowskip]

/-- While `2 * s` fits an `int`, `simpleGetInfo2` with 32-bit offsets is `simpleGetInfo2`
with mathematical offsets. -/
theorem simpleGetInfo2_int32_eq (P : Vec3 → Vec3 × Vec3) (j : dxJointContact) (info : Info2)
    (h1 : -2147483648 ≤ 2 * info.rowskip) (h2 : 2 * info.rowskip < 2147483648) :
    simpleGetInfo2_int32 P j info = simpleGetInfo2 P j info := by
  unfold simpleGetInfo2_int32 simpleGetInfo2
  simp only [int32_of_range _ h1 h2]
  rw [← simpleGetInfo2_friction2_at_two_mul]
  simp only [simpleGetInfo2_friction1_rowskip, simpleGetInfo2_normalRhs_rowskip,
    simpleGetInfo2_normalJacobian_rowskip]

theorem getInfo2_friction2_at_J1l (s2 : Int) (P : Vec3 → Vec3 × Vec3) (j : dxJointContact)
    (info : Info2) :
    (getInfo2_friction2_at s2 P j info).J1l
      = (if 3 ≤ j.the_m then store3 info.J1l s2 (getInfo2_t P j).2 else info.J1l) := by
  simp only [getInfo2_friction2_at, apply_ite Info2.J1l, Info2.setJ1l_J1l, Info2.setJ2l_J1l, Info2.setCfm_J1l, Info2.setC_J1l, Info2.setLo_J1l, Info2.setHi_J1l, Info2.setFindex_J1l, Info2.onJ1l_J1l, Info2.onJ1a_J1l, Info2.onJ2l_J1l, Info2.onJ2a_J1l, ite_self,
    dCalcVectorCross3, dCopyVector3, dCopyNegatedVector3, dNegateVector3_store3, store3_store3]
  try simp only [store3, add_zero, zero_add, Vec3.neg]

theorem getInfo2_friction2_at_J2l (s2 : Int) (P : Vec3 → Vec3 × Vec3) (j : dxJointContact)
    (info : Info2) :
    (getInfo2_friction2_at s2 P j info).J2l
      = (if 3 ≤ j.the_m then
          (if j.body1.isSome then store3 info.J2l s2 (Vec3.neg (getInfo2_t P j).2)
           else info.J2l)
         else info.J2l) := by
  simp only [getInfo2_friction2_at, apply_ite Info2.J2l, Info2.setJ1l_J2l, Info2.setJ2l_J2l, Info2.setCfm_J2l, Info2.setC_J2l, Info2.setLo_J2l, Info2.setHi_J2l, Info2.setFindex_J2l, Info2.onJ1l_J2l, Info2.onJ1a_J2l, Info2.onJ2l_J2l, Info2.onJ2a_J2l, ite_self,
    dCalcVectorCross3, dCopyVector3, dCopyNegatedVector3, dNegateVector3_store3, store3_store3]
  try simp only [store3, add_zero, zero_add, Vec3.neg]

/-- The linear buffer of body A after `getInfo2` with 32-bit offsets: rows 0 and 1 at
offsets `0` and `s`, row 2 at the 32-bit value of `2 * s`. -/
theorem getInfo2_int32_J1l (P : Vec3 → Vec3 × Vec3) (j : dxJointContact) (info : Info2) :
    (getInfo2_int32 P j info).J1l
      = (if 3 ≤ j.the_m then
          store3 (rows info.J1l info.rowskip 2 (getInfo2_normal j) (getInfo2_t P j).1
            (getInfo2_t P j).2) (int32 (2 * info.rowskip)) (getInfo2_t P j).2
         else rows info.J1l info.rowskip j.the_m (getInfo2_normal j) (getInfo2_t P j).1
            (getInfo2_t P j).2) := by
  by_cases h3 : 3 ≤ j.the_m
  · have h2 : 2 ≤ j.the_m := by omega
    simp [getInfo2_int32, getInfo2_friction2_at_J1l, rows, h3, h2]
  · simp [getInfo2_int32, getInfo2_friction2_at_J1l, rows, h3]

/-- The linear buffer of body B after `getInfo2` with 32-bit offsets, body B present. -/
theorem getInfo2_int32_J2l (P : Vec3 → Vec3 × Vec3) (j : dxJointContact) (info : Info2)
    (hb : j.body1.isSome = true) :
    (getInfo2_int32 P j info).J2l
      = (if 3 ≤ j.the_m then
          store3 (rows info.J2l info.rowskip 2 (Vec3.neg (getInfo2_normal j))
            (Vec3.neg (getInfo2_t P j).1) (Vec3.neg (getInfo2_t P j).2))
            (int32 (2 * info.rowskip)) (Vec3.neg (getInfo2_t P j).2)
         else rows info.J2l info.rowskip j.the_m (Vec3.neg (getInfo2_normal j))
            (Vec3.neg (getInfo2_t P j).1) (Vec3.neg (getInfo2_t P j).2)) := by
  by_cases h3 : 3 ≤ j.the_m
  · have h2 : 2 ≤ j.the_m := by omega
    simp [getInfo2_int32, getInfo2_friction2_at_J2l, rows, h3, h2, hb]
  · simp [getInfo2_int32, getInfo2_friction2_at_J2l, rows, h3, hb]

theorem simpleGetInfo2_friction2_at_J1l (s2 : Int) (P : Vec3 → Vec3 × Vec3)
    (j : dxJointContact) (info : Info2) :
    (simpleGetInfo2_friction2_at s2 P j info).J1l
      = (if 3 ≤ j.the_m then store3 info.J1l s2 (P (simpleGetInfo2_normal j)).2
         else info.J1l) := by
  simp only [simpleGetInfo2_friction2_at, apply_ite Info2.J1l, Info2.setJ1l_J1l, Info2.setJ2l_J1l, Info2.setCfm_J1l, Info2.setC_J1l, Info2.setLo_J1l, Info2.setHi_J1l, Info2.setFindex_J1l, Info2.onJ1l_J1l, Info2.onJ1a_J1l, Info2.onJ2l_J1l, Info2.onJ2a_J1l, ite_self,
    dCalcVectorCross3, dCopyVector3, dCopyNegatedVector3, dNegateVector3_store3, store3_store3]
  try simp only [store3, add_zero, zero_add, Vec3.neg]

/-- The linear buffer of body A after `simpleGetInfo2` with 32-bit offsets. -/
theorem simpleGetInfo2_int32_J1l (P : Vec3 → Vec3 × Vec3) (j : dxJointContact)
    (info : Info2) :
    (simpleGetInfo2_int32 P j info).J1l
      = (if 3 ≤ j.the_m then
          store3 (rows info.J1l info.rowskip 2 (simpleGetInfo2_normal j)
            (P (simpleGetInfo2_normal j)).1 (P (simpleGetInfo2_normal j)).2)
            (int32 (2 * info.rowskip)) (P (simpleGetInfo2_normal j)).2
         else rows info.J1l info.rowskip j.the_m (simpleGetInfo2_normal j)
            (P (simpleGetInfo2_normal j)).1 (P (simpleGetInfo2_normal j)).2) := by
  by_cases h3 : 3 ≤ j.the_m
  · have h2 : 2 ≤ j.the_m := by omega
    simp [simpleGetInfo2_int32, simpleGetInfo2_friction2_at_J1l, rows, h3, h2]
  · simp [simpleGetInfo2_int32, simpleGetInfo2_friction2_at_J1l, rows, h3]

/-! ## Jacobian rows with 32-bit offsets -/

/-- C1 (as the code behaves): with the reverse flag unset, a stride `s` with `3 <= s` and
`2 * s + 2 < 2^31` (every offset the routine computes fits an `int`) and an active row
`i < m` (the count returned by `getInfo1`), `getInfo2` writes the linear row of body A
`J1l[i*s .. i*s+2] = d_i` and its angular row `J1a[i*s .. i*s+2] = c1 x d_i`, where
`c1 = contact position - body A position`, `d_0` is the contact normal and `d_1`, `d_2`
are the tangents `t1`, `t2`. -/
theorem getInfo2_bodyA_rows (P : Vec3 → Vec3 × Vec3) (j : dxJointContact) (info1 : Info1)
    (info : Info2) (i : Int)
    (hrev : hasFlag j.flags dJOINT_REVERSE = false) (hs : 3 ≤ info.rowskip)
    (hmax : 2 * info.rowskip + 2 < 2147483648)
    (hi0 : 0 ≤ i) (him : i < (getInfo1 j info1).2.m) :
    load3 (getInfo2_int32 P (getInfo1 j info1).1 info).J1l (i * info.rowskip)
      = axisDir j.contact.geom.normal (getInfo2_t P (getInfo1 j info1).1).1
          (getInfo2_t P (getInfo1 j info1).1).2 i ∧
    load3 (getInfo2_int32 P (getInfo1 j info1).1 info).J1a (i * info.rowskip)
      = cross (j.contact.geom.pos.sub j.body0.pos)
          (axisDir j.contact.geom.normal (getInfo2_t P (getInfo1 j info1).1).1
            (getInfo2_t P (getInfo1 j info1).1).2 i) := by
  obtain ⟨hfl, -, hb0, -, hgeom, -, -, -, -, hm⟩ := getInfo1_frame j info1
  obtain ⟨-, hm3⟩ := getInfo1_m_bounds j info1
  have hn : getInfo2_normal (getInfo1 j info1).1 = j.contact.geom.normal := by
    rw [getInfo2_normal_of_not_reverse _ (by rw [hfl]; exact hrev), hgeom]
  have hc1 : getInfo2_c1 (getInfo1 j info1).1 = j.contact.geom.pos.sub j.body0.pos := by
    rw [getInfo2_c1_eq, hgeom, hb0]
  obtain ⟨r1, r2, -⟩ := getInfo2_rows_read P (getInfo1 j info1).1 info i hs hi0 (by omega)
    (by rw [hm]; exact him)
  rw [getInfo2_int32_eq P _ info (by omega) (by omega), r1, r2, hn, hc1]
  exact ⟨rfl, rfl⟩

/-- Witness for the amended C1: the second row of the rigid-pair sample (body A at
`(1,0,0)`, contact at the origin, stride 8, buffers filled with `7`) holds the first
tangent `(0,0,1)` and its moment `(0,1,0)` about body A. -/
theorem getInfo2_bodyA_rows_witness :
    hasFlag rigidPairSample.flags dJOINT_REVERSE = false ∧
    3 ≤ (sampleInfo2 7).rowskip ∧ 2 * (sampleInfo2 7).rowskip + 2 < 2147483648 ∧
    (0 : Int) ≤ 1 ∧ (1 : Int) < (getInfo1 rigidPairSample ⟨0, 0⟩).2.m ∧
    load3 (getInfo2_int32 samplePlaneSpace (getInfo1 rigidPairSample ⟨0, 0⟩).1
        (sampleInfo2 7)).J1l (1 * (sampleInfo2 7).rowskip) = { x := 0, y := 0, z := 1 } ∧
    load3 (getInfo2_int32 samplePlaneSpace (getInfo1 rigidPairSample ⟨0, 0⟩).1
        (sampleInfo2 7)).J1a (1 * (sampleInfo2 7).rowskip) = { x := 0, y := 1, z := 0 } := by
  have hm : (1 : Int) < (getInfo1 rigidPairSample ⟨0, 0⟩).2.m := by
    rw [(getInfo1_isotropic_counts _ _ (by decide)).1]
    norm_num [rigidPairSample, threeRowSample, sampleJoint, lt_iff, lt, zero_eq]
  refine ⟨by decide, by decide, by decide, by decide, hm, ?_⟩
  have h := getInfo2_bodyA_rows samplePlaneSpace rigidPairSample ⟨0, 0⟩ (sampleInfo2 7) 1
    (by decide) (by decide) (by decide) (by decide) hm
  have hf : hasFlag rigidPairSample.contact.surface.mode dContactFDir1 = false := by decide
  simp only [axisDir, getInfo2_t, samplePlaneSpace, (getInfo1_frame _ _).2.2.2.2.2.2.1, hf,
    Bool.false_eq_true, if_false, one_ne_zero, if_true] at h
  refine ⟨h.1, ?_⟩
  rw [h.2]
  simp only [rigidPairSample, threeRowSample, sampleJoint, zeroVec, Vec3.ofRat, Vec3.sub, cross,
    zero_eq, dReal.one_eq, num_mul_num, num_sub_num, Vec3.mk.injEq, num.injEq]
  norm_num

/-- Counterexample to C1 as stated: at the stride `s = 2^30` (reverse flag unset, three
active rows) the product `2 * s` does not fit an `int`; row 2 lands at offset `-2^31`,
and the cells `J1l[2*s .. 2*s+2]` keep the fill value `7` instead of the tangent
`t2 = (1,0,0)`. -/
theorem getInfo2_bodyA_rows_counterexample :
    hasFlag (sampleJoint 0 (dReal.num (1/2)) 0).flags dJOINT_REVERSE = false ∧
    3 ≤ (hugeStrideInfo2 7).rowskip ∧
    (2 : Int) < (getInfo1 (sampleJoint 0 (dReal.num (1/2)) 0) ⟨0, 0⟩).2.m ∧
    axisDir (sampleJoint 0 (dReal.num (1/2)) 0).contact.geom.normal
      (getInfo2_t samplePlaneSpace (getInfo1 (sampleJoint 0 (dReal.num (1/2)) 0) ⟨0, 0⟩).1).1
      (getInfo2_t samplePlaneSpace (getInfo1 (sampleJoint 0 (dReal.num (1/2)) 0) ⟨0, 0⟩).1).2 2
      = { x := 1, y := 0, z := 0 } ∧
    load3 (getInfo2_int32 samplePlaneSpace (getInfo1 (sampleJoint 0 (dReal.num (1/2)) 0) ⟨0, 0⟩).1
        (hugeStrideInfo2 7)).J1l (2 * (hugeStrideInfo2 7).rowskip) = { x := 7, y := 7, z := 7 } ∧
    load3 (getInfo2_int32 samplePlaneSpace (getInfo1 (sampleJoint 0 (dReal.num (1/2)) 0) ⟨0, 0⟩).1
        (hugeStrideInfo2 7)).J1l (-2147483648) = { x := 1, y := 0, z := 0 } := by
  have hm : (getInfo1 (sampleJoint 0 (dReal.num (1/2)) 0) ⟨0, 0⟩).2.m = 3 := by
    rw [(getInfo1_isotropic_counts _ _ (by decide)).1]
    norm_num [sampleJoint, lt_iff, lt, zero_eq]
  obtain ⟨-, -, -, -, -, -, hmode, -, -, hthe⟩ :=
    getInfo1_frame (sampleJoint 0 (dReal.num (1/2)) 0) ⟨0, 0⟩
  have hf : hasFlag (sampleJoint 0 (dReal.num (1/2)) 0).contact.surface.mode dContactFDir1
      = false := by decide
  have hrow : (hugeStrideInfo2 7).rowskip = 1073741824 := rfl
  have hb : (hugeStrideInfo2 7).J1l = fun _ => 7 := rfl
  refine ⟨by decide, by decide, by rw [hm]; decide, ?_, ?_, ?_⟩
  · simp only [axisDir, getInfo2_t, samplePlaneSpace, hmode, hf, Bool.false_eq_true, if_false]
    norm_num
  · rw [getInfo2_int32_J1l, hthe, hm, hrow, int32_wrap, hb]
    simp only [rows, le_refl, if_true]
    norm_num
    rw [load3_store3_far _ _ _ _ (by norm_num), load3_store3_far _ _ _ _ (by norm_num),
      load3_store3_far _ _ _ _ (by norm_num)]
    rfl
  · rw [getInfo2_int32_J1l, hthe, hm, hrow, int32_wrap]
    simp only [le_refl, if_true, load3_store3_same, getInfo2_t, samplePlaneSpace, hmode, hf,
      Bool.false_eq_true, if_false]

/-- C2 (as the code behaves): with body B present, the reverse flag unset, a stride `s`
with `3 <= s` and `2 * s + 2 < 2^31` (every offset the routine computes fits an `int`)
and an active row `i < m`, `getInfo2` writes the linear row of body B
`J2l[i*s .. i*s+2] = -d_i` and its angular row `J2a[i*s .. i*s+2] = -(c2 x d_i)`, where
`c2 = contact position - body B position` and `d_i` is the axis direction used for row
`i` of body A. -/
theorem getInfo2_bodyB_rows (P : Vec3 → Vec3 × Vec3) (j : dxJointContact) (info1 : Info1)
    (info : Info2) (i : Int) (b1 : dxBody) (hb : j.body1 = some b1)
    (hrev : hasFlag j.flags dJOINT_REVERSE = false) (hs : 3 ≤ info.rowskip)
    (hmax : 2 * info.rowskip + 2 < 2147483648)
    (hi0 : 0 ≤ i) (him : i < (getInfo1 j info1).2.m) :
    load3 (getInfo2_int32 P (getInfo1 j info1).1 info).J2l (i * info.rowskip)
      = Vec3.neg (axisDir j.contact.geom.normal (getInfo2_t P (getInfo1 j info1).1).1
          (getInfo2_t P (getInfo1 j info1).1).2 i) ∧
    load3 (getInfo2_int32 P (getInfo1 j info1).1 info).J2a (i * info.rowskip)
      = Vec3.neg (cross (j.contact.geom.pos.sub b1.pos)
          (axisDir j.contact.geom.normal (getInfo2_t P (getInfo1 j info1).1).1
            (getInfo2_t P (getInfo1 j info1).1).2 i)) := by
  obtain ⟨hfl, -, -, hb1, hgeom, -, -, -, -, hm⟩ := getInfo1_frame j info1
  obtain ⟨-, hm3⟩ := getInfo1_m_bounds j info1
  have hn : getInfo2_normal (getInfo1 j info1).1 = j.contact.geom.normal := by
    rw [getInfo2_normal_of_not_reverse _ (by rw [hfl]; exact hrev), hgeom]
  have hc2 : getInfo2_c2 (getInfo1 j info1).1 = j.contact.geom.pos.sub b1.pos := by
    rw [getInfo2_c2_eq _ b1 (by rw [hb1]; exact hb), hgeom]
  have hsome : (getInfo1 j info1).1.body1.isSome = true := by
    rw [hb1, hb]; rfl
  obtain ⟨-, -, r⟩ := getInfo2_rows_read P (getInfo1 j info1).1 info i hs hi0 (by omega)
    (by rw [hm]; exact him)
  obtain ⟨r3, r4⟩ := r hsome
  rw [getInfo2_int32_eq P _ info (by omega) (by omega), r3, r4, hn, hc2]
  exact ⟨rfl, rfl⟩

/-- Witness for the amended C2: the second row of the sample contact with a second body at
`(0,-1,0)` (stride 8, buffers filled with `7`) holds the negated first tangent and the
negated moment `-(1,0,0)` about that body. -/
theorem getInfo2_bodyB_rows_witness :
    (sampleJointTwoBodies 0 (dReal.num (1/2)) 0).body1
      = some { pos := { x := 0, y := -1, z := 0 }, lvel := zeroVec, avel := zeroVec } ∧
    hasFlag (sampleJointTwoBodies 0 (dReal.num (1/2)) 0).flags dJOINT_REVERSE = false ∧
    3 ≤ (sampleInfo2 7).rowskip ∧ 2 * (sampleInfo2 7).rowskip + 2 < 2147483648 ∧
    (0 : Int) ≤ 1 ∧
    (1 : Int) < (getInfo1 (sampleJointTwoBodies 0 (dReal.num (1/2)) 0) ⟨0, 0⟩).2.m ∧
    load3 (getInfo2_int32 samplePlaneSpace
        (getInfo1 (sampleJointTwoBodies 0 (dReal.num (1/2)) 0) ⟨0, 0⟩).1
        (sampleInfo2 7)).J2l (1 * (sampleInfo2 7).rowskip)
      = Vec3.neg { x := 0, y := 0, z := 1 } ∧
    load3 (getInfo2_int32 samplePlaneSpace
        (getInfo1 (sampleJointTwoBodies 0 (dReal.num (1/2)) 0) ⟨0, 0⟩).1
        (sampleInfo2 7)).J2a (1 * (sampleInfo2 7).rowskip)
      = Vec3.neg { x := 1, y := 0, z := 0 } := by
  have hm : (1 : Int) < (getInfo1 (sampleJointTwoBodies 0 (dReal.num (1/2)) 0) ⟨0, 0⟩).2.m := by
    rw [(getInfo1_isotropic_counts _ _ (by decide)).1]
    norm_num [sampleJointTwoBodies, sampleJoint, lt_iff, lt, zero_eq]
  refine ⟨rfl, by decide, by decide, by decide, by decide, hm, ?_⟩
  have h := getInfo2_bodyB_rows samplePlaneSpace (sampleJointTwoBodies 0 (dReal.num (1/2)) 0)
    ⟨0, 0⟩ (sampleInfo2 7) 1 _ rfl (by decide) (by decide) (by decide) (by decide) hm
  have hf : hasFlag (sampleJointTwoBodies 0 (dReal.num (1/2)) 0).contact.surface.mode
      dContactFDir1 = false := by decide
  simp only [axisDir, getInfo2_t, samplePlaneSpace, (getInfo1_frame _ _).2.2.2.2.2.2.1, hf,
    Bool.false_eq_true, if_false, one_ne_zero, if_true] at h
  refine ⟨h.1, ?_⟩
  rw [h.2]
  simp only [sampleJointTwoBodies, sampleJoint, zeroVec, Vec3.sub, Vec3.neg, cross,
    zero_eq, dReal.one_eq, num_mul_num, num_sub_num, neg_num, Vec3.mk.injEq, num.injEq]
  norm_num

/-- Counterexample to C2 as stated: at the stride `s = 2^30` (body B present, reverse flag
unset, three active rows) row 2 of body B lands at offset `-2^31`, and the cells
`J2l[2*s .. 2*s+2]` keep the fill value `7` instead of `-t2 = -(1,0,0)`. -/
theorem getInfo2_bodyB_rows_counterexample :
    (sampleJointTwoBodies 0 (dReal.num (1/2)) 0).body1.isSome = true ∧
    hasFlag (sampleJointTwoBodies 0 (dReal.num (1/2)) 0).flags dJOINT_REVERSE = false ∧
    3 ≤ (hugeStrideInfo2 7).rowskip ∧
    (2 : Int) < (getInfo1 (sampleJointTwoBodies 0 (dReal.num (1/2)) 0) ⟨0, 0⟩).2.m ∧
    Vec3.neg (axisDir (sampleJointTwoBodies 0 (dReal.num (1/2)) 0).contact.geom.normal
      (getInfo2_t samplePlaneSpace
        (getInfo1 (sampleJointTwoBodies 0 (dReal.num (1/2)) 0) ⟨0, 0⟩).1).1
      (getInfo2_t samplePlaneSpace
        (getInfo1 (sampleJointTwoBodies 0 (dReal.num (1/2)) 0) ⟨0, 0⟩).1).2 2)
      = Vec3.neg { x := 1, y := 0, z := 0 } ∧
    load3 (getInfo2_int32 samplePlaneSpace
        (getInfo1 (sampleJointTwoBodies 0 (dReal.num (1/2)) 0) ⟨0, 0⟩).1
        (hugeStrideInfo2 7)).J2l (2 * (hugeStrideInfo2 7).rowskip)
      = { x := 7, y := 7, z := 7 } ∧
    load3 (getInfo2_int32 samplePlaneSpace
        (getInfo1 (sampleJointTwoBodies 0 (dReal.num (1/2)) 0) ⟨0, 0⟩).1
        (hugeStrideInfo2 7)).J2l (-2147483648) = Vec3.neg { x := 1, y := 0, z := 0 } := by
  have hm : (getInfo1 (sampleJointTwoBodies 0 (dReal.num (1/2)) 0) ⟨0, 0⟩).2.m = 3 := by
    rw [(getInfo1_isotropic_counts _ _ (by decide)).1]
    norm_num [sampleJointTwoBodies, sampleJoint, lt_iff, lt, zero_eq]
  obtain ⟨-, -, -, hb1, -, -, hmode, -, -, hthe⟩ :=
    getInfo1_frame (sampleJointTwoBodies 0 (dReal.num (1/2)) 0) ⟨0, 0⟩
  have hf : hasFlag (sampleJointTwoBodies 0 (dReal.num (1/2)) 0).contact.surface.mode
      dContactFDir1 = false := by decide
  have hsome : (getInfo1 (sampleJointTwoBodies 0 (dReal.num (1/2)) 0) ⟨0, 0⟩).1.body1.isSome
      = true := by
    rw [hb1]; rfl
  have hrow : (hugeStrideInfo2 7).rowskip = 1073741824 := rfl
  have hb : (hugeStrideInfo2 7).J2l = fun _ => 7 := rfl
  refine ⟨rfl, by decide, by decide, by rw [hm]; decide, ?_, ?_, ?_⟩
  · simp only [axisDir, getInfo2_t, samplePlaneSpace, hmode, hf, Bool.false_eq_true, if_false]
    norm_num
  · rw [getInfo2_int32_J2l _ _ _ hsome, hthe, hm, hrow, int32_wrap, hb]
    simp only [rows, le_refl, if_true]
    norm_num
    rw [load3_store3_far _ _ _ _ (by norm_num), load3_store3_far _ _ _ _ (by norm_num),
      load3_store3_far _ _ _ _ (by norm_num)]
    rfl
  · rw [getInfo2_int32_J2l _ _ _ hsome, hthe, hm, hrow, int32_wrap]
    simp only [le_refl, if_true, load3_store3_same, getInfo2_t, samplePlaneSpace, hmode, hf,
      Bool.false_eq_true, if_false]

/-! ## Stride discipline with 32-bit offsets -/

/-- C31 (as the code behaves): after `getInfo1` has cached the row count `m`, for every
stride `s` with `-2^31 <= 2 * s` and `2 * s + 2 < 2^31` (every offset the routines
compute fits an `int`), `getInfo2` and `simpleGetInfo2` leave every entry of `J1l`, `J1a`,
`J2l`, `J2a` unchanged whose flat index is not `row * s + component` with `0 <= row < m`
and `component` in `{0,1,2}`; and for `s >= 3` every active row `i` still holds at the
end of the call the three components written for it: the direction `d_i` in `J1l`,
`c1 x d_i` in `J1a` and, when body B exists, `-d_i` in `J2l` and `-(c2 x d_i)` in `J2a`. -/
theorem stride_discipline (P : Vec3 → Vec3 × Vec3) (j : dxJointContact) (info1 : Info1)
    (info : Info2) (hlo : -2147483648 ≤ 2 * info.rowskip)
    (hhi : 2 * info.rowskip + 2 < 2147483648) :
    (∀ k : Int,
      (∀ row comp : Int, 0 ≤ row → row < (getInfo1 j info1).2.m → 0 ≤ comp → comp ≤ 2 →
        k ≠ row * info.rowskip + comp) →
      ((getInfo2_int32 P (getInfo1 j info1).1 info).J1l k = info.J1l k ∧
        (getInfo2_int32 P (getInfo1 j info1).1 info).J1a k = info.J1a k ∧
        (getInfo2_int32 P (getInfo1 j info1).1 info).J2l k = info.J2l k ∧
        (getInfo2_int32 P (getInfo1 j info1).1 info).J2a k = info.J2a k) ∧
      ((simpleGetInfo2_int32 P (getInfo1 j info1).1 info).J1l k = info.J1l k ∧
        (simpleGetInfo2_int32 P (getInfo1 j info1).1 info).J1a k = info.J1a k ∧
        (simpleGetInfo2_int32 P (getInfo1 j info1).1 info).J2l k = info.J2l k ∧
        (simpleGetInfo2_int32 P (getInfo1 j info1).1 info).J2a k = info.J2a k)) ∧
    (3 ≤ info.rowskip → ∀ i : Int, 0 ≤ i → i < (getInfo1 j info1).2.m →
      (load3 (getInfo2_int32 P (getInfo1 j info1).1 info).J1l (i * info.rowskip)
          = axisDir (getInfo2_normal (getInfo1 j info1).1)
              (getInfo2_t P (getInfo1 j info1).1).1 (getInfo2_t P (getInfo1 j info1).1).2 i ∧
        load3 (getInfo2_int32 P (getInfo1 j info1).1 info).J1a (i * info.rowskip)
          = cross (getInfo2_c1 (getInfo1 j info1).1)
              (axisDir (getInfo2_normal (getInfo1 j info1).1)
                (getInfo2_t P (getInfo1 j info1).1).1
                (getInfo2_t P (getInfo1 j info1).1).2 i) ∧
        ((getInfo1 j info1).1.body1.isSome = true →
          load3 (getInfo2_int32 P (getInfo1 j info1).1 info).J2l (i * info.rowskip)
            = Vec3.neg (axisDir (getInfo2_normal (getInfo1 j info1).1)
                (getInfo2_t P (getInfo1 j info1).1).1
                (getInfo2_t P (getInfo1 j info1).1).2 i) ∧
          load3 (getInfo2_int32 P (getInfo1 j info1).1 info).J2a (i * info.rowskip)
            = Vec3.neg (cross (getInfo2_c2 (getInfo1 j info1).1)
                (axisDir (getInfo2_normal (getInfo1 j info1).1)
                  (getInfo2_t P (getInfo1 j info1).1).1
                  (getInfo2_t P (getInfo1 j info1).1).2 i)))) ∧
      (load3 (simpleGetInfo2_int32 P (getInfo1 j info1).1 info).J1l (i * info.rowskip)
          = axisDir (simpleGetInfo2_normal (getInfo1 j info1).1)
              (P (simpleGetInfo2_normal (getInfo1 j info1).1)).1
              (P (simpleGetInfo2_normal (getInfo1 j info1).1)).2 i ∧
        load3 (simpleGetInfo2_int32 P (getInfo1 j info1).1 info).J1a (i * info.rowskip)
          = cross (simpleGetInfo2_c1 (getInfo1 j info1).1)
              (axisDir (simpleGetInfo2_normal (getInfo1 j info1).1)
                (P (simpleGetInfo2_normal (getInfo1 j info1).1)).1
                (P (simpleGetInfo2_normal (getInfo1 j info1).1)).2 i) ∧
        ((getInfo1 j info1).1.body1.isSome = true →
          load3 (simpleGetInfo2_int32 P (getInfo1 j info1).1 info).J2l (i * info.rowskip)
            = Vec3.neg (axisDir (simpleGetInfo2_normal (getInfo1 j info1).1)
                (P (simpleGetInfo2_normal (getInfo1 j info1).1)).1
                (P (simpleGetInfo2_normal (getInfo1 j info1).1)).2 i) ∧
          load3 (simpleGetInfo2_int32 P (getInfo1 j info1).1 info).J2a (i * info.rowskip)
            = Vec3.neg (cross (simpleGetInfo2_c2 (getInfo1 j info1).1)
                (axisDir (simpleGetInfo2_normal (getInfo1 j info1).1)
                  (P (simpleGetInfo2_normal (getInfo1 j info1).1)).1
                  (P (simpleGetInfo2_normal (getInfo1 j info1).1)).2 i))))) := by
  have hthe := (getInfo1_frame j info1).2.2.2.2.2.2.2.2.2
  obtain ⟨hm1, hm3⟩ := getInfo1_m_bounds j info1
  rw [getInfo2_int32_eq P _ info hlo (by omega), simpleGetInfo2_int32_eq P _ info hlo (by omega)]
  constructor
  · intro k hk
    exact jacobians_off_rows P (getInfo1 j info1).1 info k (by rw [hthe]; exact hm1)
      (by rw [hthe]; exact hk)
  · intro hs i hi0 him
    exact ⟨getInfo2_rows_read P (getInfo1 j info1).1 info i hs hi0 (by omega)
        (by rw [hthe]; exact him),
      simpleGetInfo2_rows_read P (getInfo1 j info1).1 info i hs hi0 (by omega)
        (by rw [hthe]; exact him)⟩

/-- Witness for the amended C31: on the sample contact (three rows, stride 8, buffers
filled with `7`) the cells `J1l[3]` and `J1a[11]` keep the fill value, and row 1 of `J1l`
still holds the first tangent at the end of the call. -/
theorem stride_discipline_witness :
    -2147483648 ≤ 2 * (sampleInfo2 7).rowskip ∧ 2 * (sampleInfo2 7).rowskip + 2 < 2147483648 ∧
    (getInfo1 (sampleJoint 0 (dReal.num (1/2)) 0) ⟨0, 0⟩).2.m = 3 ∧
    (getInfo2_int32 samplePlaneSpace (getInfo1 (sampleJoint 0 (dReal.num (1/2)) 0) ⟨0, 0⟩).1
      (sampleInfo2 7)).J1l 3 = 7 ∧
    (simpleGetInfo2_int32 samplePlaneSpace (getInfo1 (sampleJoint 0 (dReal.num (1/2)) 0) ⟨0, 0⟩).1
      (sampleInfo2 7)).J1a 11 = 7 ∧
    load3 (getInfo2_int32 samplePlaneSpace (getInfo1 (sampleJoint 0 (dReal.num (1/2)) 0) ⟨0, 0⟩).1
      (sampleInfo2 7)).J1l (1 * 8) = { x := 0, y := 0, z := 1 } := by
  have hcount : (getInfo1 (sampleJoint 0 (dReal.num (1/2)) 0) ⟨0, 0⟩).2.m = 3 := by
    rw [(getInfo1_isotropic_counts _ _ (by decide)).1]
    norm_num [sampleJoint, lt_iff, lt, zero_eq]
  obtain ⟨-, -, -, -, -, -, hmode, -, -, -⟩ :=
    getInfo1_frame (sampleJoint 0 (dReal.num (1/2)) 0) ⟨0, 0⟩
  obtain ⟨a1, a2⟩ := stride_discipline samplePlaneSpace (sampleJoint 0 (dReal.num (1/2)) 0)
    ⟨0, 0⟩ (sampleInfo2 7) (by decide) (by decide)
  have k3 := a1 3 (by
    intro row comp h0 h1 h2 h3
    rw [hcount] at h1
    show (3 : Int) ≠ row * 8 + comp
    omega)
  have k11 := a1 11 (by
    intro row comp h0 h1 h2 h3
    rw [hcount] at h1
    show (11 : Int) ≠ row * 8 + comp
    omega)
  have r1 := (a2 (by decide) 1 (by decide) (by rw [hcount]; decide)).1.1
  have hf : hasFlag (sampleJoint 0 (dReal.num (1/2)) 0).contact.surface.mode dContactFDir1
      = false := by decide
  simp only [getInfo2_t, hmode, hf, samplePlaneSpace, Bool.false_eq_true, if_false,
    axisDir] at r1
  exact ⟨by decide, by decide, hcount, k3.1.1, k11.2.2.1, by simpa using r1⟩

/-- Counterexample to C31 as stated: at the stride `s = 2^30` (three active rows, buffers
filled with `7`) the product `2 * s` wraps to `-2^31`; both routines overwrite the cell
`J1l[-2^31]`, whose index is no `row * s + component` of an active row, with the first
component `1` of `t2`. -/
theorem stride_discipline_counterexample :
    (getInfo1 (sampleJoint 0 (dReal.num (1/2)) 0) ⟨0, 0⟩).2.m = 3 ∧
    (∀ row comp : Int, 0 ≤ row → row < 3 → 0 ≤ comp → comp ≤ 2 →
      (-2147483648 : Int) ≠ row * (hugeStrideInfo2 7).rowskip + comp) ∧
    (hugeStrideInfo2 7).J1l (-2147483648) = 7 ∧
    (getInfo2_int32 samplePlaneSpace (getInfo1 (sampleJoint 0 (dReal.num (1/2)) 0) ⟨0, 0⟩).1
      (hugeStrideInfo2 7)).J1l (-2147483648) = 1 ∧
    (simpleGetInfo2_int32 samplePlaneSpace
      (getInfo1 (sampleJoint 0 (dReal.num (1/2)) 0) ⟨0, 0⟩).1
      (hugeStrideInfo2 7)).J1l (-2147483648) = 1 := by
  have hm : (getInfo1 (sampleJoint 0 (dReal.num (1/2)) 0) ⟨0, 0⟩).2.m = 3 := by
    rw [(getInfo1_isotropic_counts _ _ (by decide)).1]
    norm_num [sampleJoint, lt_iff, lt, zero_eq]
  obtain ⟨-, -, -, -, -, -, hmode, -, -, hthe⟩ :=
    getInfo1_frame (sampleJoint 0 (dReal.num (1/2)) 0) ⟨0, 0⟩
  have hf : hasFlag (sampleJoint 0 (dReal.num (1/2)) 0).contact.surface.mode dContactFDir1
      = false := by decide
  have hrow : (hugeStrideInfo2 7).rowskip = 1073741824 := rfl
  refine ⟨hm, ?_, rfl, ?_, ?_⟩
  · intro row comp h0 h1 h2 h3
    rw [hrow]
    omega
  · have h := congrArg Vec3.x (show load3 (getInfo2_int32 samplePlaneSpace
        (getInfo1 (sampleJoint 0 (dReal.num (1/2)) 0) ⟨0, 0⟩).1
        (hugeStrideInfo2 7)).J1l (-2147483648) = { x := 1, y := 0, z := 0 } by
      rw [getInfo2_int32_J1l, hthe, hm, hrow, int32_wrap]
      simp only [le_refl, if_true, load3_store3_same, getInfo2_t, samplePlaneSpace, hmode, hf,
        Bool.false_eq_true, if_false])
    exact h
  · have h := congrArg Vec3.x (show load3 (simpleGetInfo2_int32 samplePlaneSpace
        (getInfo1 (sampleJoint 0 (dReal.num (1/2)) 0) ⟨0, 0⟩).1
        (hugeStrideInfo2 7)).J1l (-2147483648) = { x := 1, y := 0, z := 0 } by
      rw [simpleGetInfo2_int32_J1l, hthe, hm, hrow, int32_wrap]
      simp only [le_refl, if_true, load3_store3_same, samplePlaneSpace])
    exact h

/-! ## Order facts on scalars, infinities included -/

namespace dReal

theorem isNumeric_of_add (a b : dReal) (h : isNumeric (a + b) = true) :
    isNumeric a = true ∧ isNumeric b = true := by
  cases a <;> cases b <;> simp_all [isNumeric, HAdd.hAdd, Add.add, dReal.add]

theorem isNumeric_of_sub (a b : dReal) (h : isNumeric (a - b) = true) :
    isNumeric a = true ∧ isNumeric b = true := by
  cases a <;> cases b <;>
    simp_all [isNumeric, HSub.hSub, Sub.sub, dReal.sub, dReal.add, dReal.neg]

theorem isNumeric_of_mul (a b : dReal) (h : isNumeric (a * b) = true) :
    isNumeric a = true ∧ isNumeric b = true := by
  cases a <;> cases b <;> simp_all [isNumeric, HMul.hMul, Mul.mul, dReal.mul]

theorem isNumeric_of_max_zero (a : dReal) (h : isNumeric (dReal.max a 0) = true) :
    isNumeric a = true := by
  cases a <;> simp_all [isNumeric, dReal.max, lt_iff, lt, zero_eq]

/-- A capped value is `NaN` as soon as the value is: the comparison with the cap fails. -/
theorem isNumeric_of_cap (cap p : dReal) (h : isNumeric (if cap < p then cap else p) = true) :
    isNumeric p = true := by
  cases p <;> cases cap <;> simp_all [isNumeric, lt_iff, lt]

theorem isNumeric_of_le (a b : dReal) (h : a ≤ b) : isNumeric a = true ∧ isNumeric b = true := by
  cases a <;> cases b <;> simp_all [isNumeric, le_iff, le, lt, ceq]

/-- Subtracting the same value keeps the order, when both differences are numbers. -/
theorem sub_le_sub_of_lt (a b c : dReal) (h : a < b) (ha : isNumeric (a - c) = true)
    (hb : isNumeric (b - c) = true) : a - c ≤ b - c := by
  cases a <;> cases b <;> cases c <;>
    simp_all [isNumeric, le_iff, lt_iff, le, lt, ceq, HSub.hSub, Sub.sub, dReal.sub, dReal.add,
      dReal.neg]

/-- Clamping at zero from below keeps the order. -/
theorem max_zero_le_max_zero (a b : dReal) (h : a ≤ b) : dReal.max a 0 ≤ dReal.max b 0 := by
  cases a with
  | num x =>
    cases b with
    | num y =>
      rw [zero_eq, max_num_num, max_num_num, num_le_num]
      rw [num_le_num] at h
      exact max_le_max h le_rfl
    | posInf => simp [dReal.max, lt_iff, lt, le_iff, le, ceq, zero_eq]; split_ifs <;> simp [lt]
    | negInf => simp [le_iff, le, lt, ceq] at h
    | nan => simp [le_iff, le, lt, ceq] at h
  | posInf => cases b <;> simp_all [dReal.max, lt_iff, lt, le_iff, le, ceq, zero_eq]
  | negInf =>
    cases b with
    | num y =>
      simp only [dReal.max, lt_iff, lt, zero_eq, if_true]
      split_ifs with hy
      · simp [le_iff, le, lt, ceq]
      · rw [num_le_num]
        simpa using hy
    | posInf => simp [dReal.max, lt_iff, lt, le_iff, le, ceq, zero_eq]
    | negInf => simp [dReal.max, lt_iff, lt, le_iff, le, ceq, zero_eq]
    | nan => simp [le_iff, le, lt, ceq] at h
  | nan => cases b <;> simp [le_iff, le, lt, ceq] at h

/-- A number clamped at zero from below is at least zero. -/
theorem zero_le_max_zero (a : dReal) (h : isNumeric a = true) : (0 : dReal) ≤ dReal.max a 0 := by
  cases a with
  | num x =>
    rw [zero_eq, max_num_num, num_le_num]
    exact le_max_right x 0
  | posInf => simp [dReal.max, lt_iff, lt, le_iff, le, ceq, zero_eq]
  | negInf => simp [dReal.max, lt_iff, lt, le_iff, le, ceq, zero_eq]
  | nan => simp [isNumeric] at h

theorem num_mul_posInf (a : ℚ) : num a * posInf = scaleInf a := rfl

theorem posInf_mul_num (b : ℚ) : posInf * num b = scaleInf b := rfl

theorem posInf_mul_posInf : posInf * posInf = posInf := rfl

/-- A value that is at least zero is a non-negative finite value or `+infinity`. -/
theorem nonneg_cases (a : dReal) (h : 0 ≤ a) : (∃ q : ℚ, a = num q ∧ 0 ≤ q) ∨ a = posInf := by
  rw [zero_eq] at h
  cases a with
  | num q => exact Or.inl ⟨q, rfl, (num_le_num 0 q).mp h⟩
  | posInf => exact Or.inr rfl
  | negInf => simp [le_iff, le, lt, ceq] at h
  | nan => simp [le_iff, le, lt, ceq] at h

/-- A value that is above zero is a positive finite value or `+infinity`. -/
theorem pos_cases (a : dReal) (h : 0 < a) : (∃ q : ℚ, a = num q ∧ 0 < q) ∨ a = posInf := by
  rw [zero_eq] at h
  cases a with
  | num q => exact Or.inl ⟨q, rfl, (num_lt_num 0 q).mp h⟩
  | posInf => exact Or.inr rfl
  | negInf => simp [lt_iff, lt] at h
  | nan => simp [lt_iff, lt] at h

/-- The product `q * inf` of a non-negative `q`, when it is a number, is `+infinity`, and
`q` is positive. -/
theorem scaleInf_of_isNumeric (q : ℚ) (h0 : 0 ≤ q) (h : isNumeric (scaleInf q) = true) :
    0 < q ∧ scaleInf q = posInf := by
  unfold scaleInf at h ⊢
  by_cases hq : 0 < q
  · simp [hq]
  · have : q = 0 := le_antisymm (not_lt.mp hq) h0
    subst this
    simp [isNumeric] at h

theorem num_le_posInf (q : ℚ) : num q ≤ posInf := by
  simp [le_iff, le, lt]

theorem posInf_le_posInf : posInf ≤ posInf := by
  simp [le_iff, le, lt, ceq]

/-- The product of a positive and a non-negative value is non-negative when it is a
number. -/
theorem mul_nonneg_of_pos (f e : dReal) (hf : 0 < f) (he : 0 ≤ e)
    (h : isNumeric (f * e) = true) : (0 : dReal) ≤ f * e := by
  rcases pos_cases f hf with ⟨x, rfl, hx⟩ | rfl <;>
    rcases nonneg_cases e he with ⟨y, rfl, hy⟩ | rfl
  · rw [num_mul_num, zero_eq, num_le_num]
    exact mul_nonneg hx.le hy
  · rw [num_mul_posInf] at h ⊢
    rw [(scaleInf_of_isNumeric x hx.le h).2, zero_eq]
    exact num_le_posInf 0
  · rw [posInf_mul_num] at h ⊢
    rw [(scaleInf_of_isNumeric y hy h).2, zero_eq]
    exact num_le_posInf 0
  · rw [posInf_mul_posInf, zero_eq]
    exact num_le_posInf 0

/-- Multiplying by a non-negative factor keeps the order of non-negative values, when
both products are numbers. -/
theorem mul_le_mul_of_nonneg (k a b : dReal) (hk : 0 ≤ k) (ha : 0 ≤ a) (hab : a ≤ b)
    (h1 : isNumeric (k * a) = true) (h2 : isNumeric (k * b) = true) : k * a ≤ k * b := by
  have hb : (0 : dReal) ≤ b := by
    rcases nonneg_cases a ha with ⟨x, rfl, hx⟩ | rfl
    · cases b with
      | num y =>
        rw [zero_eq, num_le_num]
        exact le_trans hx ((num_le_num x y).mp hab)
      | posInf => rw [zero_eq]; exact num_le_posInf 0
      | negInf => simp [le_iff, le, lt, ceq] at hab
      | nan => simp [le_iff, le, lt, ceq] at hab
    · cases b with
      | posInf => rw [zero_eq]; exact num_le_posInf 0
      | num y => simp [le_iff, le, lt, ceq] at hab
      | negInf => simp [le_iff, le, lt, ceq] at hab
      | nan => simp [le_iff, le, lt, ceq] at hab
  rcases nonneg_cases k hk with ⟨q, rfl, hq⟩ | rfl <;>
    rcases nonneg_cases a ha with ⟨x, rfl, hx⟩ | rfl <;>
    rcases nonneg_cases b hb with ⟨y, rfl, hy⟩ | rfl
  · rw [num_mul_num, num_mul_num, num_le_num]
    exact mul_le_mul_of_nonneg_left ((num_le_num x y).mp hab) hq
  · rw [num_mul_posInf] at h2 ⊢
    rw [(scaleInf_of_isNumeric q hq h2).2, num_mul_num]
    exact num_le_posInf _
  · simp [le_iff, le, lt, ceq] at hab
  · rw [num_mul_posInf] at h2 ⊢
    rw [(scaleInf_of_isNumeric q hq h2).2]
    exact posInf_le_posInf
  · rw [posInf_mul_num] at h1 h2
    rw [posInf_mul_num, posInf_mul_num, (scaleInf_of_isNumeric x hx h1).2,
      (scaleInf_of_isNumeric y hy h2).2]
    exact posInf_le_posInf
  · rw [posInf_mul_num] at h1 ⊢
    rw [(scaleInf_of_isNumeric x hx h1).2, posInf_mul_posInf]
    exact posInf_le_posInf
  · simp [le_iff, le, lt, ceq] at hab
  · rw [posInf_mul_posInf]
    exact posInf_le_posInf

/-- Adding the same value keeps the order, when both sums are numbers. -/
theorem add_le_add_of_le (a b m : dReal) (h : a ≤ b) (ha : isNumeric (a + m) = true)
    (hb : isNumeric (b + m) = true) : a + m ≤ b + m := by
  cases a <;> cases b <;> cases m <;>
    simp_all [isNumeric, le_iff, le, lt, ceq, HAdd.hAdd, Add.add, dReal.add]
  rename_i x y z
  show x + z < y + z ∨ x + z = y + z
  rcases h with h | h
  · left; linarith
  · right; rw [h]

/-- Capping is monotone in the capped value, whatever the cap, infinities included. -/
theorem cap_le_cap_of_le (a b cap : dReal) (h : a ≤ b) :
    (if cap < a then cap else a) ≤ (if cap < b then cap else b) := by
  cases a with
  | num x =>
    cases b with
    | num y => exact min_le_min_of_le x y cap ((num_le_num x y).mp h)
    | posInf =>
      cases cap with
      | num c =>
        simp only [lt_iff, lt, if_true, decide_eq_true_eq]
        split_ifs with hc
        · exact (num_le_num c c).mpr le_rfl
        · exact (num_le_num x c).mpr (not_lt.mp hc)
      | posInf => simp [lt_iff, lt, le_iff, le, ceq]
      | negInf => simp [lt_iff, lt, le_iff, le, ceq]
      | nan => simp [lt_iff, lt, le_iff, le, ceq]
    | negInf => simp [le_iff, le, lt, ceq] at h
    | nan => simp [le_iff, le, lt, ceq] at h
  | posInf =>
    cases b with
    | posInf => cases cap <;> simp [lt_iff, lt, le_iff, le, ceq]
    | num y => simp [le_iff, le, lt, ceq] at h
    | negInf => simp [le_iff, le, lt, ceq] at h
    | nan => simp [le_iff, le, lt, ceq] at h
  | negInf =>
    cases b with
    | num y =>
      cases cap with
      | num c =>
        simp only [lt_iff, lt, if_false, decide_eq_true_eq, Bool.false_eq_true]
        split_ifs <;> simp [le_iff, le, lt, ceq]
      | posInf => simp [lt_iff, lt, le_iff, le, ceq]
      | negInf => simp [lt_iff, lt, le_iff, le, ceq]
      | nan => simp [lt_iff, lt, le_iff, le, ceq]
    | posInf => cases cap <;> simp [lt_iff, lt, le_iff, le, ceq]
    | negInf => cases cap <;> simp [lt_iff, lt, le_iff, le, ceq]
    | nan => simp [le_iff, le, lt, ceq] at h
  | nan => cases b <;> simp [le_iff, le, lt, ceq] at h

end dReal

/-! ## The penetration bias as a function of the depth, infinities included -/

/-- The capped value `min (fps * erp * max (d - min_depth, 0) + motionN, cap)` is
non-decreasing in `d` for a step frequency above zero and an erp of at least zero, as
long as both values are numbers. -/
theorem dReal.capped_bias_mono (f e c m cap a b : dReal) (hf : 0 < f) (he : 0 ≤ e)
    (hab : a < b)
    (h1 : isNumeric (if cap < f * e * dReal.max (a - c) 0 + m then cap
      else f * e * dReal.max (a - c) 0 + m) = true)
    (h2 : isNumeric (if cap < f * e * dReal.max (b - c) 0 + m then cap
      else f * e * dReal.max (b - c) 0 + m) = true) :
    (if cap < f * e * dReal.max (a - c) 0 + m then cap else f * e * dReal.max (a - c) 0 + m)
      ≤ (if cap < f * e * dReal.max (b - c) 0 + m then cap
          else f * e * dReal.max (b - c) 0 + m) := by
  have p1 := isNumeric_of_cap _ _ h1
  have p2 := isNumeric_of_cap _ _ h2
  have q1 := (isNumeric_of_add _ _ p1).1
  have q2 := (isNumeric_of_add _ _ p2).1
  have k1 := (isNumeric_of_mul _ _ q1).1
  have a1 := isNumeric_of_max_zero _ (isNumeric_of_mul _ _ q1).2
  have a2 := isNumeric_of_max_zero _ (isNumeric_of_mul _ _ q2).2
  apply cap_le_cap_of_le
  apply add_le_add_of_le _ _ _ _ p1 p2
  apply mul_le_mul_of_nonneg _ _ _ (mul_nonneg_of_pos f e hf he k1) (zero_le_max_zero _ a1) _ q1 q2
  exact max_zero_le_max_zero _ _ (sub_le_sub_of_lt a b c hab a1 a2)

/-- The value `fps * erp * max (d, 0)` is non-decreasing in `d` for a step frequency above
zero and an erp of at least zero, as long as both values are numbers. -/
theorem dReal.plain_bias_mono (f e a b : dReal) (hf : 0 < f) (he : 0 ≤ e) (hab : a < b)
    (h1 : isNumeric (f * e * (if a < 0 then 0 else a)) = true)
    (h2 : isNumeric (f * e * (if b < 0 then 0 else b)) = true) :
    f * e * (if a < 0 then 0 else a) ≤ f * e * (if b < 0 then 0 else b) := by
  have k1 := (isNumeric_of_mul _ _ h1).1
  have a1 := isNumeric_of_max_zero a (isNumeric_of_mul _ _ h1).2
  apply mul_le_mul_of_nonneg _ _ _ (mul_nonneg_of_pos f e hf he k1) (zero_le_max_zero a a1) _ h1 h2
  exact max_zero_le_max_zero _ _ (lt_imp_le a b hab)

theorem getInfo2_pushout_setDepth (j : dxJointContact) (info : Info2) (d : dReal) :
    getInfo2_pushout (setDepth j d) info
      = info.fps *
          (if hasFlag j.contact.surface.mode dContactSoftERP then j.contact.surface.soft_erp
           else j.erp) *
          dReal.max (d - j.world.contactp.min_depth) 0
        + getInfo2_motionN j := by
  rw [getInfo2_pushout_eq]
  rfl

/-- The product `k * 0`, when it is a number, is zero: it is `NaN` for an infinite `k`. -/
theorem dReal.mul_zero_of_isNumeric (k : dReal) (h : isNumeric (k * 0) = true) :
    k * 0 = 0 := by
  rw [zero_eq] at h ⊢
  cases k with
  | num q => simp
  | posInf => simp [posInf_mul_num, scaleInf, isNumeric] at h
  | negInf =>
    have e : negInf * num 0 = scaleInf (-0) := rfl
    rw [e] at h
    simp [scaleInf, isNumeric] at h
  | nan =>
    have e : (nan : dReal) * num 0 = nan := rfl
    rw [e] at h
    simp [isNumeric] at h

/-- C16 (as the code behaves): for a contact with penetration depth `<= 0` and the
normal-motion and bounce modes off, the `c[0]` written by `getInfo2` is `0` provided the
world minimum depth is `>= 0`, the velocity cap is `>= 0` (possibly `+infinity`) and the
value written is a number; the `c[0]` written by `simpleGetInfo2` is `0` provided the
value written is a number. (The value is `NaN` exactly when the product `fps * erp`, as
computed, is infinite or `NaN`.) -/
theorem bias_zero_without_penetration (P : Vec3 → Vec3 × Vec3) (j : dxJointContact)
    (info : Info2) (hd : j.contact.geom.depth ≤ 0) :
    (hasFlag j.contact.surface.mode dContactBounce = false →
      hasFlag j.contact.surface.mode dContactMotionN = false →
      0 ≤ j.world.contactp.min_depth → 0 ≤ j.world.contactp.max_vel →
      isNumeric ((getInfo2 P j info).c 0) = true →
      (getInfo2 P j info).c 0 = 0) ∧
    (isNumeric ((simpleGetInfo2 P j info).c 0) = true → (simpleGetInfo2 P j info).c 0 = 0) := by
  constructor
  · intro hb hm hmin hcap hnum
    have hc : (getInfo2 P j info).c 0 = getInfo2_cappedBias j info := by
      rw [getInfo2_c0, hb]
      simp only [Bool.false_eq_true, if_false]
    rw [hc] at hnum ⊢
    have hp0 : getInfo2_pushout j info
        = info.fps *
            (if hasFlag j.contact.surface.mode dContactSoftERP then j.contact.surface.soft_erp
             else j.erp) * 0 + 0 := by
      rw [getInfo2_pushout_eq, dReal.max, clamp_sub_eq_zero _ _ hd hmin, getInfo2_motionN, hm]
      simp
    have hpn : isNumeric (getInfo2_pushout j info) = true := isNumeric_of_cap _ _ hnum
    have hp : getInfo2_pushout j info = 0 := by
      rw [hp0] at hpn ⊢
      rw [dReal.mul_zero_of_isNumeric _ (isNumeric_of_add _ _ hpn).1]
      simp [zero_eq]
    rw [getInfo2_cappedBias, hp, if_neg (le_imp_not_lt _ _ hcap)]
  · intro hnum
    rw [simpleGetInfo2_c0, clamp_eq_zero_of_le _ hd] at hnum ⊢
    exact dReal.mul_zero_of_isNumeric _ hnum

/-- Witness for the amended C16: the sample contact with depth `-1` (step frequency `60`,
erp `0.2`, minimum depth `0`, uncapped) gets the number `c[0] = 0` from both routines. -/
theorem bias_zero_without_penetration_witness :
    (setDepth (sampleJoint 0 (dReal.num (1/2)) 0) (num (-1))).contact.geom.depth ≤ 0 ∧
    isNumeric ((getInfo2 samplePlaneSpace
      (setDepth (sampleJoint 0 (dReal.num (1/2)) 0) (num (-1))) (sampleInfo2 7)).c 0) = true ∧
    isNumeric ((simpleGetInfo2 samplePlaneSpace
      (setDepth (sampleJoint 0 (dReal.num (1/2)) 0) (num (-1))) (sampleInfo2 7)).c 0) = true ∧
    (getInfo2 samplePlaneSpace (setDepth (sampleJoint 0 (dReal.num (1/2)) 0) (num (-1)))
      (sampleInfo2 7)).c 0 = 0 ∧
    (simpleGetInfo2 samplePlaneSpace (setDepth (sampleJoint 0 (dReal.num (1/2)) 0) (num (-1)))
      (sampleInfo2 7)).c 0 = 0 := by
  have h5 : hasFlag 0 dContactMotionN = false := by decide
  have h6 : hasFlag 0 dContactSoftERP = false := by decide
  have h7 : hasFlag 0 dContactBounce = false := by decide
  have hd : (setDepth (sampleJoint 0 (dReal.num (1/2)) 0) (num (-1))).contact.geom.depth ≤ 0 := by
    show num (-1) ≤ 0
    rw [zero_eq, num_le_num]
    norm_num
  have g : isNumeric ((getInfo2 samplePlaneSpace
      (setDepth (sampleJoint 0 (dReal.num (1/2)) 0) (num (-1))) (sampleInfo2 7)).c 0) = true := by
    simp only [getInfo2_c0, getInfo2_cappedBias, getInfo2_pushout, getInfo2_motionN,
      setDepth, sampleJoint, sampleInfo2, h5, h6, h7]
    simp only [zero_eq, ofNat_eq, num_mul_num, num_add_num, num_sub_num, neg_num, if_true,
      if_false, Bool.false_eq_true]
    norm_num [lt_iff, lt, le_iff, le, ceq, dInfinity, isNumeric]
  have s : isNumeric ((simpleGetInfo2 samplePlaneSpace
      (setDepth (sampleJoint 0 (dReal.num (1/2)) 0) (num (-1))) (sampleInfo2 7)).c 0) = true := by
    simp only [simpleGetInfo2_c0, setDepth, sampleJoint, sampleInfo2]
    simp only [zero_eq, ofNat_eq, num_mul_num, num_lt_num]
    norm_num [isNumeric]
  obtain ⟨h1, h2⟩ := bias_zero_without_penetration samplePlaneSpace
    (setDepth (sampleJoint 0 (dReal.num (1/2)) 0) (num (-1))) (sampleInfo2 7) hd
  refine ⟨hd, g, s, h1 (by decide) (by decide) ?_ ?_ g, h2 s⟩
  · show (0 : dReal) ≤ 0
    simp [zero_eq]
  · show (0 : dReal) ≤ dInfinity
    simp [zero_eq, dInfinity, le_iff, le, lt]

/-! ## Arithmetic with the special values -/

theorem dReal.posInf_sub_num (a : ℚ) : posInf - num a = posInf := rfl

theorem dReal.nan_mul (a : dReal) : nan * a = nan := by
  cases a <;> rfl

theorem dReal.add_nan (a : dReal) : a + nan = nan := by
  cases a <;> rfl

theorem dReal.nan_add (a : dReal) : nan + a = nan := by
  cases a <;> rfl

theorem dReal.sub_nan (a : dReal) : a - nan = nan := by
  cases a <;> rfl

theorem dReal.scaleInf_zero : scaleInf 0 = nan := by
  simp [scaleInf]

theorem dReal.scaleInf_one : scaleInf 1 = posInf := by
  simp [scaleInf]

/-! ## The angular rows as moments of the linear rows -/

theorem dReal.isFinite_of_add (a b : dReal) (h : dReal.isFinite (a + b) = true) :
    dReal.isFinite a = true ∧ dReal.isFinite b = true := by
  cases a <;> cases b <;> simp_all [dReal.isFinite, HAdd.hAdd, Add.add, dReal.add]

theorem dReal.isFinite_of_mul (a b : dReal) (h : dReal.isFinite (a * b) = true) :
    dReal.isFinite a = true ∧ dReal.isFinite b = true := by
  cases a <;> cases b <;>
    simp_all [dReal.isFinite, HMul.hMul, Mul.mul, dReal.mul, scaleInf] <;>
    split_ifs at h

/-- The dot product of a vector with itself negated is the negated dot product, and the
dot product of a finite vector with the zero vector is zero: for a common translation `v`
of the two bodies and finite angular rows `X`, `Y`, the four dot products of a row cancel,
in either grouping. -/
theorem translation_zero (d v X Y : Vec3) (hX : Vec3.isFinite X = true)
    (hY : Vec3.isFinite Y = true) (hd : dReal.isFinite (dCalcVectorDot3 d v) = true) :
    dCalcVectorDot3 d v + dCalcVectorDot3 X zeroVec + dCalcVectorDot3 (Vec3.neg d) v
        + dCalcVectorDot3 Y zeroVec = 0 ∧
    (dCalcVectorDot3 d v + dCalcVectorDot3 X zeroVec)
        + (dCalcVectorDot3 (Vec3.neg d) v + dCalcVectorDot3 Y zeroVec) = 0 := by
  obtain ⟨x1, x2, x3, rfl⟩ := Vec3.eq_ofRat_of_isFinite X hX
  obtain ⟨y1, y2, y3, rfl⟩ := Vec3.eq_ofRat_of_isFinite Y hY
  obtain ⟨d1, d2, d3⟩ := d
  obtain ⟨v1, v2, v3⟩ := v
  simp only [dCalcVectorDot3] at hd
  obtain ⟨h12, h3⟩ := dReal.isFinite_of_add _ _ hd
  obtain ⟨h1, h2⟩ := dReal.isFinite_of_add _ _ h12
  obtain ⟨a1, rfl⟩ := dReal.eq_num_of_isFinite _ (dReal.isFinite_of_mul _ _ h1).1
  obtain ⟨b1, rfl⟩ := dReal.eq_num_of_isFinite _ (dReal.isFinite_of_mul _ _ h1).2
  obtain ⟨a2, rfl⟩ := dReal.eq_num_of_isFinite _ (dReal.isFinite_of_mul _ _ h2).1
  obtain ⟨b2, rfl⟩ := dReal.eq_num_of_isFinite _ (dReal.isFinite_of_mul _ _ h2).2
  obtain ⟨a3, rfl⟩ := dReal.eq_num_of_isFinite _ (dReal.isFinite_of_mul _ _ h3).1
  obtain ⟨b3, rfl⟩ := dReal.eq_num_of_isFinite _ (dReal.isFinite_of_mul _ _ h3).2
  simp only [Vec3.ofRat, dCalcVectorDot3, Vec3.neg, zeroVec, zero_eq, num_mul_num, num_add_num,
    neg_num, num.injEq]
  constructor <;> ring

/-- The starting axis of the plane-space construction is a basis axis, and the square of
the component of the normal along it is at most the square of each component. -/
theorem dPlaneSpace_axis_cases {K : Type} [LinearOrderedField K] (n : ExactVec3 K) :
    (dPlaneSpace_axis n).dot (dPlaneSpace_axis n) = 1 ∧
    ((dPlaneSpace_axis n).dot n) ^ 2 ≤ n.x ^ 2 ∧
    ((dPlaneSpace_axis n).dot n) ^ 2 ≤ n.y ^ 2 ∧
    ((dPlaneSpace_axis n).dot n) ^ 2 ≤ n.z ^ 2 := by
  unfold dPlaneSpace_axis
  split_ifs with h1 h2
  · simp only [ExactVec3.dot, mul_one, mul_zero, add_zero, one_mul, zero_mul]
    exact ⟨trivial, le_rfl, sq_le_sq.mpr h1.1, sq_le_sq.mpr h1.2⟩
  · have h3 : |n.y| ≤ |n.x| := by
      by_contra hc
      exact h1 ⟨le_of_lt (not_le.mp hc), le_trans (le_of_lt (not_le.mp hc)) h2⟩
    simp only [ExactVec3.dot, mul_one, mul_zero, add_zero, one_mul, zero_mul, zero_add]
    exact ⟨trivial, sq_le_sq.mpr h3, le_rfl, sq_le_sq.mpr h2⟩
  · have h2 : |n.z| ≤ |n.y| := le_of_lt (not_le.mp h2)
    have h3 : |n.z| ≤ |n.x| := by
      by_contra hc
      exact h1 ⟨le_trans (le_of_lt (not_le.mp hc)) h2, le_of_lt (not_le.mp hc)⟩
    simp only [ExactVec3.dot, mul_one, mul_zero, add_zero, one_mul, zero_mul, zero_add]
    exact ⟨trivial, sq_le_sq.mpr h3, sq_le_sq.mpr h2, le_rfl⟩

/-- The residual of the Gram-Schmidt step for a unit normal is orthogonal to the normal,
and its squared length is `1 - d * d >= 2/3`, where `d` is the component of the normal
along the starting axis. -/
theorem dPlaneSpace_residual_unit {K : Type} [LinearOrderedField K] (n : ExactVec3 K)
    (hn : n.dot n = 1) :
    n.dot (dPlaneSpace_residual n) = 0 ∧
    2 / 3 ≤ (dPlaneSpace_residual n).dot (dPlaneSpace_residual n) := by
  obtain ⟨hee, b1, b2, b3⟩ := dPlaneSpace_axis_cases n
  simp only [dPlaneSpace_residual, ExactVec3.dot] at hee b1 b2 b3 hn ⊢
  set e := dPlaneSpace_axis n
  constructor
  · linear_combination (-(e.x * n.x + e.y * n.y + e.z * n.z)) * hn
  · have hq : (e.x - (e.x * n.x + e.y * n.y + e.z * n.z) * n.x)
          * (e.x - (e.x * n.x + e.y * n.y + e.z * n.z) * n.x)
        + (e.y - (e.x * n.x + e.y * n.y + e.z * n.z) * n.y)
          * (e.y - (e.x * n.x + e.y * n.y + e.z * n.z) * n.y)
        + (e.z - (e.x * n.x + e.y * n.y + e.z * n.z) * n.z)
          * (e.z - (e.x * n.x + e.y * n.y + e.z * n.z) * n.z)
        = 1 - (e.x * n.x + e.y * n.y + e.z * n.z) ^ 2 := by
      linear_combination hee + (e.x * n.x + e.y * n.y + e.z * n.z) ^ 2 * hn
    rw [hq]
    nlinarith [b1, b2, b3, hn]

/-- A unit vector `t` orthogonal to a unit vector `n` forms, with `n x t`, a right-handed
orthonormal frame around `n`, over any ordered field. -/
theorem exact_frame_of_unit_orthogonal {K : Type} [LinearOrderedField K] (n t : ExactVec3 K)
    (hn : n.dot n = 1) (ht : t.dot t = 1) (hnt : n.dot t = 0) :
    (n.cross t).dot (n.cross t) = 1 ∧ t.dot n = 0 ∧ (n.cross t).dot n = 0 ∧
    t.dot (n.cross t) = 0 ∧ t.cross (n.cross t) = n := by
  obtain ⟨n1, n2, n3⟩ := n
  obtain ⟨t1, t2, t3⟩ := t
  simp only [ExactVec3.dot, ExactVec3.cross, ExactVec3.mk.injEq] at hn ht hnt ⊢
  refine ⟨?_, ?_, ?_, ?_, ?_, ?_, ?_⟩
  · linear_combination (t1 * t1 + t2 * t2 + t3 * t3) * hn + ht
      - (n1 * t1 + n2 * t2 + n3 * t3) * hnt
  · linear_combination hnt
  · ring
  · ring
  · linear_combination n1 * ht - t1 * hnt
  · linear_combination n2 * ht - t2 * hnt
  · linear_combination n3 * ht - t3 * hnt

/-- C27: for every normal `n` of unit length over the real numbers, the plane-space
construction, normalising with the reciprocal square root `1 / sqrt`, returns `t1`, `t2`
of unit length, orthogonal to `n` and to each other, with `t1 x t2 = n`. Unit length is
stated through the squared length (`|v| = 1` exactly when `v · v = 1`). -/
theorem dPlaneSpace_frame (n : ExactVec3 ℝ) (hn : n.dot n = 1) :
    (dPlaneSpace (fun x => (Real.sqrt x)⁻¹) n).1.dot (dPlaneSpace (fun x => (Real.sqrt x)⁻¹) n).1
      = 1 ∧
    (dPlaneSpace (fun x => (Real.sqrt x)⁻¹) n).2.dot (dPlaneSpace (fun x => (Real.sqrt x)⁻¹) n).2
      = 1 ∧
    (dPlaneSpace (fun x => (Real.sqrt x)⁻¹) n).1.dot n = 0 ∧
    (dPlaneSpace (fun x => (Real.sqrt x)⁻¹) n).2.dot n = 0 ∧
    (dPlaneSpace (fun x => (Real.sqrt x)⁻¹) n).1.dot (dPlaneSpace (fun x => (Real.sqrt x)⁻¹) n).2
      = 0 ∧
    (dPlaneSpace (fun x => (Real.sqrt x)⁻¹) n).1.cross
      (dPlaneSpace (fun x => (Real.sqrt x)⁻¹) n).2 = n := by
  obtain ⟨hnu, hq⟩ := dPlaneSpace_residual_unit n hn
  have hpos : 0 < (dPlaneSpace_residual n).dot (dPlaneSpace_residual n) := by linarith
  have hr : (Real.sqrt ((dPlaneSpace_residual n).dot (dPlaneSpace_residual n)))⁻¹
      * (Real.sqrt ((dPlaneSpace_residual n).dot (dPlaneSpace_residual n)))⁻¹
      * ((dPlaneSpace_residual n).dot (dPlaneSpace_residual n)) = 1 := by
    have hne : Real.sqrt ((dPlaneSpace_residual n).dot (dPlaneSpace_residual n)) ≠ 0 :=
      ne_of_gt (Real.sqrt_pos.mpr hpos)
    field_simp
  simp only [dPlaneSpace]
  generalize (Real.sqrt ((dPlaneSpace_residual n).dot (dPlaneSpace_residual n)))⁻¹ = r at hr ⊢
  generalize dPlaneSpace_residual n = u at hnu hr ⊢
  have ht : (ExactVec3.mk (r * u.x) (r * u.y) (r * u.z)).dot
      (ExactVec3.mk (r * u.x) (r * u.y) (r * u.z)) = 1 := by
    simp only [ExactVec3.dot] at hr ⊢
    linear_combination hr
  have hnt : n.dot (ExactVec3.mk (r * u.x) (r * u.y) (r * u.z)) = 0 := by
    simp only [ExactVec3.dot] at hnu ⊢
    linear_combination r * hnu
  obtain ⟨a1, a2, a3, a4, a5⟩ := exact_frame_of_unit_orthogonal n _ hn ht hnt
  exact ⟨ht, a1, a2, a3, a4, a5⟩

/-- Witness for C27: the unit normal `(1/3, 2/3, 2/3)`, whose residual has the squared
length `8/9` with an irrational square root. -/
theorem dPlaneSpace_frame_witness :
    (ExactVec3.mk (1/3 : ℝ) (2/3) (2/3)).dot (ExactVec3.mk (1/3 : ℝ) (2/3) (2/3)) = 1 ∧
    (dPlaneSpace_residual (ExactVec3.mk (1/3 : ℝ) (2/3) (2/3))).dot
      (dPlaneSpace_residual (ExactVec3.mk (1/3 : ℝ) (2/3) (2/3))) = 8 / 9 ∧
    (dPlaneSpace (fun x => (Real.sqrt x)⁻¹) (ExactVec3.mk (1/3 : ℝ) (2/3) (2/3))).1.cross
      (dPlaneSpace (fun x => (Real.sqrt x)⁻¹) (ExactVec3.mk (1/3 : ℝ) (2/3) (2/3))).2
      = ExactVec3.mk (1/3 : ℝ) (2/3) (2/3) := by
  have hn : (ExactVec3.mk (1/3 : ℝ) (2/3) (2/3)).dot (ExactVec3.mk (1/3 : ℝ) (2/3) (2/3))
      = 1 := by
    simp only [ExactVec3.dot]
    norm_num
  have hax : dPlaneSpace_axis (ExactVec3.mk (1/3 : ℝ) (2/3) (2/3)) = ExactVec3.mk 1 0 0 := by
    unfold dPlaneSpace_axis
    rw [if_pos]
    constructor <;> norm_num [abs_of_pos]
  refine ⟨hn, ?_, (dPlaneSpace_frame _ hn).2.2.2.2.2⟩
  simp only [dPlaneSpace_residual, hax, ExactVec3.dot]
  norm_num

end ContactJoint
